import Mathlib

/-!
# BetterPushback: the pushback session of `bp.c`

A shallow embedding of the parts of `src/bp.c` that drive a pushback session:
the force controller `push_at_speed`, the coupling `turn_nosewheel`, the
planner loop `bp_run_push`, the phase handlers and the tick function `bp_run`.

Conventions of the embedding.

* C `double` and `float` values are rationals; rounding is not represented,
  and the values that the host hands over in datarefs are finite. A NaN or an
  infinity is represented where the control flow of `bp.c` depends on it:
  `bp.last_hdg`, whose NaN is the `none` of an `Option`, and the mean main-gear
  position `bp.acf.main_z`, which `read_gear_info` divides by `n_gear - 1`, with
  the wheelbase `bp.veh.wheelbase` and the offset `bp.veh.fixed_z_off` that
  `bp_state_init` derives from it. Each of these three fields has a companion
  field `_nf` of type `Option nonfinite_t`: `none` when the double is finite
  (the rational field is its value), otherwise its class (NaN, +inf, -inf; the
  rational field then carries no information). The functions that read the
  three fields later in a session are modelled on the rational value.
  Every other division is Lean's, which yields `0` for a zero divisor.
* The globals of `bp.c` and `xplane.c` and the host datarefs `drs` are fields
  of one record `State`; a C function that mutates them is a function
  `State → State`.
* `bp_ls.tug` is an `Option tug_t`; `none` is the NULL pointer. A function that
  dereferences the pointer reads an all-zero tug when it is NULL (the C code
  has undefined behaviour there and a running session never does it).
* Array datarefs are total functions of the index: the gear arrays of the host
  have ten entries and `bp.acf.nw_i` is one of their indices, so the reads that
  the source wraps in `VERIFY3S(..., ==, 1)` always succeed.
* Functions of libm, libacfutils, `tug.c`, `driving.c` and `msg.c` are not part
  of `bp.c`; they are the fields of the record `Ext`, over which every
  definition is parametrised.
* Calls that only drive sound, lights, windows and animation of the tug model
  (`tug_set_TE_snd`, `tug_set_cradle_beeper_on`, `msg_play`, `XPLMSpeakString`,
  `logMsg`, `disco_intf_hide`, ...) have no counterpart in the state.
* `State.calls` is a ghost log: `push_at_speed`, `turn_nosewheel`, `drive_segs`
  and `bp_complete` append an entry when they are entered.
* `State.divs` is a second ghost log: every function that divides by the tick
  delta `bp.d_t` (`push_at_speed`, `turn_nosewheel`, and `tug_pos_update`
  through `tug_speed`) appends the value of `bp.d_t` that it divides by.
-/

namespace BetterPushback

/-! ## Constants of `bp.c` -/

def MIN_XPLANE_VERSION : Int := 11550
def MAX_FWD_SPEED : ℚ := 4
def MAX_SPEED_MED_FRICTION : ℚ := 2
def MAX_SPEED_POOR_FRICTION : ℚ := 111 / 100
def MAX_REV_SPEED : ℚ := 111 / 100
def NORMAL_ACCEL : ℚ := 25 / 100
def NORMAL_DECEL : ℚ := 17 / 100
def BRAKE_PEDAL_THRESH : ℚ := 3 / 100
def FORCE_PER_TON : ℚ := 5000
def SEG_TURN_MULT : ℚ := 9 / 10
def SPEED_COMPLETE_THRESH : ℚ := 8 / 100
def MIN_STEER_ANGLE : ℚ := 35
def MAX_FWD_ANG_VEL : ℚ := 6
def MAX_REV_ANG_VEL : ℚ := 4
def MAX_CENTR_ACCEL : ℚ := 1 / 10
def PB_CRADLE_DELAY : ℚ := 10
def PB_CONN_LIFT_DELAY : ℚ := 13
def PB_CONN_LIFT_DURATION : ℚ := 9
def PB_START_DELAY : ℚ := 5
def STATE_TRANS_DELAY : ℚ := 2
def CLEAR_SIGNAL_DELAY : ℚ := 15
def TUG_DRIVE_AWAY_DIST : ℚ := 80
def MAX_DRIVING_AWAY_DELAY : ℚ := 30
def MIN_STEP_TIME : ℚ := 1 / 1000
def TOW_COMPLETE_TUG_STEER_THRESH : ℚ := 5
def TOW_COMPLETE_ACF_STEER_THRESH : ℚ := 5 / 2
def NEARING_END_THRESHOLD : ℚ := 1

def RWY_FRICTION_GOOD : Int := 0
def RWY_FRICTION_MED : Int := 1
def RWY_FRICTION_POOR : Int := 2

/-- The macro `BREAKAWAY_THRESH`: `bp_xp_ver >= 11000 ? 0.09 : 0.35`. -/
def BREAKAWAY_THRESH (bp_xp_ver : Int) : ℚ :=
  if bp_xp_ver ≥ 11000 then 9 / 100 else 35 / 100

/-! ## Helper macros of libacfutils -/

/-- The macro `MIN(x, y)`: `((x) < (y) ? (x) : (y))`. -/
def MIN (x y : ℚ) : ℚ := if x < y then x else y

/-- The macro `MAX(x, y)`: `((x) > (y) ? (x) : (y))`. -/
def MAX (x y : ℚ) : ℚ := if x > y then x else y

/-- The macro `ABS(x)`: `((x) > 0 ? (x) : -(x))`. -/
def ABS (x : ℚ) : ℚ := if x > 0 then x else -x

/-- The macro `AVG(x, y)`. -/
def AVG (x y : ℚ) : ℚ := (x + y) / 2

/-- Standard gravity, `EARTH_GRAVITY` of libacfutils, in m/s^2. -/
def EARTH_GRAVITY : ℚ := 980665 / 100000

/-- The macro `MASS2GFORCE(mass)`: the weight of a mass in Newtons. -/
def MASS2GFORCE (mass : ℚ) : ℚ := mass * EARTH_GRAVITY

/-! ## Data model -/

/-- Two-dimensional vector, `vect2_t`. -/
structure vect2_t where
  x : ℚ := 0
  y : ℚ := 0
deriving DecidableEq, Repr, Inhabited

def ZERO_VECT2 : vect2_t := { x := 0, y := 0 }

def vect2_add (a b : vect2_t) : vect2_t := { x := a.x + b.x, y := a.y + b.y }

def vect2_sub (a b : vect2_t) : vect2_t := { x := a.x - b.x, y := a.y - b.y }

def vect2_scmul (a : vect2_t) (k : ℚ) : vect2_t := { x := a.x * k, y := a.y * k }

def vect2_neg (a : vect2_t) : vect2_t := { x := -a.x, y := -a.y }

def vect2_dotprod (a b : vect2_t) : ℚ := a.x * b.x + a.y * b.y

/-- Modelled from the spec: the pose `vehicle_pos_t` of driving.h, which is not
under src/: position, heading in degrees, signed speed. -/
structure vehicle_pos_t where
  pos : vect2_t := {}
  hdg : ℚ := 0
  spd : ℚ := 0
deriving DecidableEq, Repr, Inhabited

/-- The class of a C `double` that is not a finite number: the result of
`0.0 / 0` is NaN, that of a non-zero number divided by zero an infinity. -/
inductive nonfinite_t where
  | NAN
  | POS_INF
  | NEG_INF
deriving DecidableEq, Repr, Inhabited

/-- Modelled from the spec: the vehicle kinematic profile `vehicle_t` of
driving.h, which is not under src/, with the field names that bp.c uses. The
fields `wheelbase_nf` and `fixed_z_off_nf` are not fields of the C structure:
they hold the class of the doubles `wheelbase` and `fixed_z_off` (`none` for a
finite value). -/
structure vehicle_t where
  wheelbase : ℚ := 0
  wheelbase_nf : Option nonfinite_t := none
  fixed_z_off : ℚ := 0
  fixed_z_off_nf : Option nonfinite_t := none
  max_steer : ℚ := 0
  max_fwd_spd : ℚ := 0
  max_rev_spd : ℚ := 0
  max_fwd_ang_vel : ℚ := 0
  max_rev_ang_vel : ℚ := 0
  max_centr_accel : ℚ := 0
  max_accel : ℚ := 0
  max_decel : ℚ := 0
  use_rear_pos : Bool := false
deriving DecidableEq, Repr, Inhabited

inductive seg_type_t where
  | SEG_TYPE_STRAIGHT
  | SEG_TYPE_TURN
deriving DecidableEq, Repr, Inhabited

/-- Modelled from the spec: the path segment `seg_t` of driving.h, which is not
under src/; bp.c reads its type, end position, end heading and backward flag. -/
structure seg_t where
  type : seg_type_t := seg_type_t.SEG_TYPE_STRAIGHT
  start_pos : vect2_t := {}
  start_hdg : ℚ := 0
  end_pos : vect2_t := {}
  end_hdg : ℚ := 0
  backward : Bool := false
  len : ℚ := 0
  r : ℚ := 0
  right : Bool := false
deriving DecidableEq, Repr, Inhabited

inductive lift_t where
  | LIFT_GRAB
  | LIFT_WINCH
deriving DecidableEq, Repr, Inhabited

inductive lift_wall_loc_t where
  | LIFT_WALL_FRONT
  | LIFT_WALL_CENTER
  | LIFT_WALL_BACK
deriving DecidableEq, Repr, Inhabited

/-- Modelled from the spec: the tug profile `tug_info_t` of tug.h, which is not
under src/, with the fields that bp.c reads. -/
structure tug_info_t where
  tug_name : String := ""
  mass : ℚ := 0
  max_fwd_speed : ℚ := 0
  max_TE : ℚ := 0
  lift_type : lift_t := lift_t.LIFT_GRAB
  lift_wall_loc : lift_wall_loc_t := lift_wall_loc_t.LIFT_WALL_FRONT
  lift_wall_z : ℚ := 0
  lift_height : ℚ := 0
  apch_dist : ℚ := 0
  plat_z : ℚ := 0
  plat_h : ℚ := 0
  drive_debug : Bool := false
  quick_debug : Bool := false
deriving DecidableEq, Repr, Inhabited

/-- Modelled from the spec: the tug runtime state `tug_t` of tug.h, which is
not under src/, with the fields that bp.c reads. -/
structure tug_t where
  info : tug_info_t := {}
  veh : vehicle_t := {}
  veh_slow : vehicle_t := {}
  pos : vehicle_pos_t := {}
  cur_steer : ℚ := 0
  segs : List seg_t := []
deriving DecidableEq, Repr, Inhabited

/-- Model flags parsed from the aircraft file, `bp.acf.model_flags`. -/
structure model_flags_t where
  is_airliner : Bool := false
  is_experimental : Bool := false
  is_general_aviation : Bool := false
  is_glider : Bool := false
  is_helicopter : Bool := false
  is_military : Bool := false
  is_sci_fi : Bool := false
  is_seaplane : Bool := false
  is_ultralight : Bool := false
  is_vtol : Bool := false
  fly_like_a_helo : Bool := false
deriving DecidableEq, Repr, Inhabited

/-- Gear geometry of the towed aircraft, `bp.acf`. The field `main_z_nf` is not
a field of the C structure: it holds the class of the double `main_z` (`none`
for a finite value). -/
structure acf_t where
  n_gear : Nat := 0
  gear_is : List Nat := []
  nw_i : Nat := 0
  nw_z : ℚ := 0
  nw_len : ℚ := 0
  tirrad : ℚ := 0
  nw_type : Int := 0
  main_z : ℚ := 0
  main_z_nf : Option nonfinite_t := none
  model_flags : model_flags_t := {}
deriving DecidableEq, Repr, Inhabited

/-- Winching progress markers, `bp.winching`. -/
structure winching_t where
  start_acf_pos : vect2_t := {}
  complete : Bool := false
  pbrk_rele_called : Bool := false
deriving DecidableEq, Repr, Inhabited

/-! ### Phases

The enumeration `pushback_step_t` is declared in `bp.h`, which is not under
src/. Its values follow the order of the phase list of the specification;
`bp_start` enters the session with `bp.step = 1`, the tug-dispatch phase. -/

/-- Modelled from the spec: phase OFF, number 0 of the enumeration of bp.h. -/
def PB_STEP_OFF : Nat := 0

/-- Modelled from the spec: phase TUG_DISPATCHED, number 1 of the enumeration of bp.h. -/
def PB_STEP_TUG_LOAD : Nat := 1

/-- Modelled from the spec: phase APPROACH_START, number 2 of the enumeration of bp.h. -/
def PB_STEP_START : Nat := 2

/-- Modelled from the spec: phase DRIVING_UP_CLOSE, number 3 of the enumeration of bp.h. -/
def PB_STEP_DRIVING_UP_CLOSE : Nat := 3

/-- Modelled from the spec: phase WAITING_FOR_DOORS, number 4 of the enumeration of bp.h. -/
def PB_STEP_WAITING_FOR_DOORS : Nat := 4

/-- Modelled from the spec: phase OPENING_CRADLE, number 5 of the enumeration of bp.h. -/
def PB_STEP_OPENING_CRADLE : Nat := 5

/-- Modelled from the spec: phase WAITING_FOR_PARK_BRAKE, number 6 of the enumeration of bp.h. -/
def PB_STEP_WAITING_FOR_PBRAKE : Nat := 6

/-- Modelled from the spec: phase DRIVING_UP_CONNECT, number 7 of the enumeration of bp.h. -/
def PB_STEP_DRIVING_UP_CONNECT : Nat := 7

/-- Modelled from the spec: phase GRABBING, number 8 of the enumeration of bp.h. -/
def PB_STEP_GRABBING : Nat := 8

/-- Modelled from the spec: phase LIFTING, number 9 of the enumeration of bp.h. -/
def PB_STEP_LIFTING : Nat := 9

/-- Modelled from the spec: phase CONNECTED, number 10 of the enumeration of bp.h. -/
def PB_STEP_CONNECTED : Nat := 10

/-- Modelled from the spec: phase STARTING, number 11 of the enumeration of bp.h. -/
def PB_STEP_STARTING : Nat := 11

/-- Modelled from the spec: phase PUSHING, number 12 of the enumeration of bp.h. -/
def PB_STEP_PUSHING : Nat := 12

/-- Modelled from the spec: phase STOPPING, number 13 of the enumeration of bp.h. -/
def PB_STEP_STOPPING : Nat := 13

/-- Modelled from the spec: phase STOPPED, number 14 of the enumeration of bp.h. -/
def PB_STEP_STOPPED : Nat := 14

/-- Modelled from the spec: phase LOWERING, number 15 of the enumeration of bp.h. -/
def PB_STEP_LOWERING : Nat := 15

/-- Modelled from the spec: phase UNGRABBING, number 16 of the enumeration of bp.h. -/
def PB_STEP_UNGRABBING : Nat := 16

/-- Modelled from the spec: phase WAITING_FOR_DISCONNECT_OK, number 17 of the enumeration of bp.h. -/
def PB_STEP_WAITING4OK2DISCO : Nat := 17

/-- Modelled from the spec: phase MOVING_AWAY, number 18 of the enumeration of bp.h. -/
def PB_STEP_MOVING_AWAY : Nat := 18

/-- Modelled from the spec: phase CLOSING_CRADLE, number 19 of the enumeration of bp.h. -/
def PB_STEP_CLOSING_CRADLE : Nat := 19

/-- Modelled from the spec: phase STARTING_TO_CLEAR, number 20 of the enumeration of bp.h. -/
def PB_STEP_STARTING2CLEAR : Nat := 20

/-- Modelled from the spec: phase MOVING_TO_CLEAR, number 21 of the enumeration of bp.h. -/
def PB_STEP_MOVING2CLEAR : Nat := 21

/-- Modelled from the spec: phase CLEAR_SIGNAL, number 22 of the enumeration of bp.h. -/
def PB_STEP_CLEAR_SIGNAL : Nat := 22

/-- Modelled from the spec: phase DRIVING_AWAY, number 23 of the enumeration of bp.h. -/
def PB_STEP_DRIVING_AWAY : Nat := 23


/-- Modelled from the spec: the session context `bp_state_t` of bp.h, which is
not under src/, with the fields that bp.c uses. The default value of the
structure is the result of `memset(&bp, 0, sizeof (bp))`. -/
structure bp_state_t where
  step : Nat := 0
  step_start_t : ℚ := 0
  cur_pos : vehicle_pos_t := {}
  last_pos : vehicle_pos_t := {}
  d_pos : vehicle_pos_t := {}
  cur_t : ℚ := 0
  last_t : ℚ := 0
  d_t : ℚ := 0
  last_force : ℚ := 0
  tug_weight_force : ℚ := 0
  reverse_t : ℚ := 0
  last_voice_t : ℚ := 0
  last_mis_hdg : ℚ := 0
  last_steer : ℚ := 0
  last_hdg : Option ℚ := some 0
  last_seg_is_back : Bool := false
  light_warn : Bool := false
  reconnect : Bool := false
  ok2disco : Bool := false
  start_pos : vect2_t := {}
  start_hdg : ℚ := 0
  winching : winching_t := {}
  nosewheel_rot_spd : ℚ := 0
  segs : List seg_t := []
  veh : vehicle_t := {}
  acf : acf_t := {}
deriving DecidableEq, Repr, Inhabited

/-- Modelled from the spec: the manual-push control block `push_manual_t` of
bp.h, which is not under src/, with the fields that bp.c and xplane.c use. -/
structure push_manual_t where
  active : Bool := false
  requested : Bool := false
  pause : Bool := false
  forward_direction : Bool := false
  with_yoke : Bool := false
  angle : ℚ := 0
deriving DecidableEq, Repr, Inhabited

/-- The host datarefs `drs` that the session reads and writes, together with
the other per-tick observations of the host (door sensors, planner camera,
aircraft file, configuration). -/
structure drs_t where
  lbrake : ℚ := 0
  rbrake : ℚ := 0
  pbrake : ℚ := 0
  pbrake_rat : ℚ := 0
  pbrake_is_custom : Bool := false
  rot_force_M : ℚ := 0
  rot_force_N : ℚ := 0
  axial_force : ℚ := 0
  local_x : ℚ := 0
  local_z : ℚ := 0
  local_vx : ℚ := 0
  local_vz : ℚ := 0
  roll : ℚ := 0
  pitch : ℚ := 0
  hdg : ℚ := 0
  quaternion : ℚ × ℚ × ℚ × ℚ := (0, 0, 0, 0)
  sim_time : ℚ := 0
  acf_mass : ℚ := 0
  mtow : ℚ := 0
  tire_z : Nat → ℚ := fun _ => 0
  leg_len : Nat → ℚ := fun _ => 0
  tirrad : Nat → ℚ := fun _ => 0
  tire_rot_spd : Nat → ℚ := fun _ => 0
  nw_steerdeg1 : ℚ := 0
  nw_steerdeg2 : ℚ := 0
  tire_steer_cmd : Nat → ℚ := fun _ => 0
  override_steer : Int := 0
  nw_steer_on : Int := 0
  gear_types : Nat → Int := fun _ => 0
  gear_steers : Nat → Int := fun _ => 0
  gear_on_ground : Nat → Int := fun _ => 0
  gear_deploy : Nat → Int := fun _ => 0
  num_engns : Int := 0
  rwy_friction : Int := 0
  landing_lights_on : Int := 0
  taxi_light_on : Int := 0
  joystick : Nat → ℚ := fun _ => 0
  zibo_chocks : Option Int := none
  zibo_chocks_writable : Bool := false
  doors_closed : Bool := true
  cam_is_running : Bool := false
  acf_file : Option model_flags_t := some {}
  eng_running : Bool := false
  eng_ok2start : Bool := true
  tug_starts_next_plane : Bool := false
  icao : String := ""
  acf_livery_path : String := ""
  acf_compatible : Bool := true
  onground_any : Int := 0
  local_vy : ℚ := 0
  cam_can_start : Bool := true

instance : Inhabited drs_t := ⟨{}⟩

/-- Entries of the ghost call log. -/
inductive call_t where
  | push_at_speed (targ_speed : ℚ)
  | turn_nosewheel (req_steer : ℚ)
  | drive_segs
  | bp_complete
deriving DecidableEq, Repr, Inhabited

/-- The whole mutable world of the session: `bp`, `bp_ls.tug`, the globals of
`bp.c` and `xplane.c`, the datarefs, the ghost call log and the ghost log of
the tick deltas used as divisors. -/
structure State where
  bp : bp_state_t := {}
  tug : Option tug_t := none
  drs : drs_t := {}
  bp_xp_ver : Int := 12000
  bp_started : Bool := false
  bp_connected : Bool := false
  slave_mode : Bool := false
  op_complete : Bool := false
  plan_complete : Bool := false
  pb_set_remote : Bool := false
  pb_set_override : Bool := false
  late_plan_requested : Bool := false
  tug_pending_mode : Bool := false
  tug_auto_start : Bool := false
  tug_starts_next_plane : Bool := false
  cfg_ignore_park_break : Bool := false
  cfg_disco_when_done : Bool := false
  bp_tug_name : String := ""
  disco_win : Bool := false
  push_manual : push_manual_t := {}
  calls : List call_t := []
  divs : List ℚ := []

instance : Inhabited State := ⟨{}⟩

/-- Identifiers of the voice messages whose duration `bp.c` asks for. -/
inductive msg_type_t where
  | MSG_RDY2CONN
  | MSG_CONNECTED
  | MSG_OP_COMPLETE
  | MSG_DONE_RIGHT
  | MSG_DONE_LEFT
deriving DecidableEq, Repr, Inhabited

/-- Result of one call of `drive_segs` on the head segment. -/
structure drive_out_t where
  complete : Bool := false
  last_mis_hdg : ℚ := 0
  steer : ℚ := 0
  speed : ℚ := 0
  decel : Bool := false
deriving DecidableEq, Repr, Inhabited

/-- The functions that `bp.c` calls and that live outside it: libm,
libacfutils geometry, `tug.c`, `driving.c`, `msg.c`. -/
structure Ext where
  M_PI : ℚ
  sin : ℚ → ℚ
  cos : ℚ → ℚ
  tan : ℚ → ℚ
  asin : ℚ → ℚ
  rel_hdg : ℚ → ℚ → ℚ
  normalize_hdg : ℚ → ℚ
  hdg2dir : ℚ → vect2_t
  dir2hdg : vect2_t → ℚ
  vect2_set_abs : vect2_t → ℚ → vect2_t
  vect2_dist : vect2_t → vect2_t → ℚ
  vect2_rot : vect2_t → ℚ → vect2_t
  vect2_norm : vect2_t → Bool → vect2_t
  fx_lin : ℚ → ℚ → ℚ → ℚ → ℚ → ℚ
  MIN_SPEED_XP10 : ℚ
  ang_vel_speed_limit : vehicle_t → ℚ → ℚ → ℚ
  drive_seg : vehicle_pos_t → vehicle_t → seg_t → List seg_t → ℚ → ℚ → drive_out_t
  msg_dur : msg_type_t → ℚ
  tug_set_steering : tug_t → ℚ → ℚ → tug_t
  tug_set_pos : tug_t → vect2_t → ℚ → ℚ → tug_t
  tug_run : tug_t → ℚ → Bool → tug_t
  tug_is_stopped : tug_t → Bool
  tug_drive2point : tug_t → vect2_t → ℚ → Bool × tug_t
  tug_lift_wall_off : tug_t → ℚ
  tug_plat_h : tug_t → ℚ
  tug_alloc_auto : ℚ → ℚ → ℚ → Int → String → String → Option tug_t
  tug_alloc_man : String → ℚ → String → String → Option tug_t

/-- The macro `DEG2RAD`. -/
def DEG2RAD (M : Ext) (d : ℚ) : ℚ := d / 180 * M.M_PI

/-- The macro `RAD2DEG`. -/
def RAD2DEG (M : Ext) (r : ℚ) : ℚ := r / M.M_PI * 180

/-- The tug that `bp_ls.tug` points to. -/
def bp_ls_tug (s : State) : tug_t := s.tug.getD {}

/-- Array write `dr_setvf(dr, &v, i, 1)`. -/
def dr_setvf1 (a : Nat → ℚ) (i : Nat) (v : ℚ) : Nat → ℚ :=
  fun j => if j = i then v else a j

/-! ## Brakes, sensors and geometry -/

/-- The function `pbrake_is_set`. -/
def pbrake_is_set (s : State) : Bool :=
  if s.slave_mode && s.pb_set_override then s.pb_set_remote
  else if s.drs.pbrake_is_custom then decide (s.drs.pbrake ≠ 0)
  else decide (s.drs.pbrake ≠ 0) || decide (s.drs.pbrake_rat ≠ 0)

/-- The function `brakes_set`: both brake ratios become 0.9 or 0. -/
def brakes_set (flag : Bool) (s : State) : State :=
  let val : ℚ := if flag then 9 / 10 else 0
  { s with drs := { s.drs with lbrake := val, rbrake := val } }

/-- The pilot holds a brake: the test that opens `bp_run_push` and
`bp_run_push_manual`. -/
def brakes_applied (s : State) : Bool :=
  decide (s.drs.lbrake ≥ BRAKE_PEDAL_THRESH) ||
    decide (s.drs.rbrake ≥ BRAKE_PEDAL_THRESH) || pbrake_is_set s

/-- The function `bp_gather`: reads pose and time from the host. -/
def bp_gather (M : Ext) (s : State) : State :=
  let pos : vect2_t := { x := s.drs.local_x, y := -s.drs.local_z }
  let hdg := M.normalize_hdg s.drs.hdg
  let spd := vect2_dotprod (M.hdg2dir hdg)
    { x := s.drs.local_vx, y := -s.drs.local_vz }
  { s with bp := { s.bp with
      cur_pos := { pos := pos, hdg := hdg, spd := spd },
      cur_t := s.drs.sim_time } }

/-- The function `reorient_aircraft`: writes the orientation quaternion. -/
def reorient_aircraft (M : Ext) (d_roll d_pitch d_hdg : ℚ) (s : State) : State :=
  let phi := s.drs.roll + d_roll
  let phi_mod := DEG2RAD M phi / 2
  let sin_phi_mod := M.sin phi_mod
  let cos_phi_mod := M.cos phi_mod
  let theta := s.drs.pitch + d_pitch
  let theta_mod := DEG2RAD M theta / 2
  let sin_theta_mod := M.sin theta_mod
  let cos_theta_mod := M.cos theta_mod
  let psi := s.drs.hdg + d_hdg
  let psi_mod := DEG2RAD M psi / 2
  let sin_psi_mod := M.sin psi_mod
  let cos_psi_mod := M.cos psi_mod
  let q0 := cos_psi_mod * cos_theta_mod * cos_phi_mod +
    sin_psi_mod * sin_theta_mod * sin_phi_mod
  let q1 := cos_psi_mod * cos_theta_mod * sin_phi_mod -
    sin_psi_mod * sin_theta_mod * cos_phi_mod
  let q2 := cos_psi_mod * sin_theta_mod * cos_phi_mod +
    sin_psi_mod * cos_theta_mod * sin_phi_mod
  let q3 := -cos_psi_mod * sin_theta_mod * sin_phi_mod +
    sin_psi_mod * cos_theta_mod * cos_phi_mod
  { s with drs := { s.drs with quaternion := (q0, q1, q2, q3) } }

/-- The function `tug_rear2acf_nw`: distance from the tug's fixed axle to the
aircraft's nosewheel. -/
def tug_rear2acf_nw (s : State) : ℚ :=
  let tug := bp_ls_tug s
  let nlg_tug_z_off :=
    match tug.info.lift_wall_loc with
    | lift_wall_loc_t.LIFT_WALL_FRONT => tug.info.lift_wall_z - s.bp.acf.tirrad
    | lift_wall_loc_t.LIFT_WALL_CENTER => tug.info.lift_wall_z
    | lift_wall_loc_t.LIFT_WALL_BACK => tug.info.lift_wall_z + s.bp.acf.tirrad
  nlg_tug_z_off - tug.veh.fixed_z_off

/-! ## Tug and body coupling -/

/-- The request of `turn_nosewheel` after its two limiting assignments
`req_steer = MIN(req_steer, max_steer); req_steer = MAX(req_steer, -max_steer)`. -/
def turn_nosewheel_req (req_steer : ℚ) (s : State) : ℚ :=
  MAX (MIN req_steer s.bp.veh.max_steer) (-s.bp.veh.max_steer)

/-- The local `rel_tug_turn_rate` of `turn_nosewheel`. -/
def turn_nosewheel_rate (M : Ext) (s : State) : ℚ :=
  let tug := bp_ls_tug s
  let tug_turn_r : ℚ :=
    if ABS tug.cur_steer > 1 / 100 then
      (1 / M.tan (DEG2RAD M tug.cur_steer)) * tug.veh.wheelbase
    else 10000000000
  let tug_turn_rate := (tug.pos.spd / (2 * M.M_PI * tug_turn_r)) * 360
  tug_turn_rate - s.bp.d_pos.hdg / s.bp.d_t

/-- The value of the local `cur_nw_steer` of `turn_nosewheel` when it is
written to `tire_steer_cmd`. -/
def turn_nosewheel_cmd (M : Ext) (s : State) : ℚ :=
  let tug := bp_ls_tug s
  let cur_nw_steer := M.rel_hdg s.bp.cur_pos.hdg tug.pos.hdg
  let cur_nw_steer := cur_nw_steer + turn_nosewheel_rate M s * s.bp.d_t
  let cur_nw_steer := MIN cur_nw_steer 85
  MAX cur_nw_steer (-85)

/-- The function `turn_nosewheel`. -/
def turn_nosewheel (M : Ext) (req_steer : ℚ) (s : State) : State :=
  let tug := bp_ls_tug s
  let dir_mult : ℚ := if tug.pos.spd ≥ 0 then 1 else -1
  let req := turn_nosewheel_req req_steer s
  let rel_tug_turn_rate := turn_nosewheel_rate M s
  let cur_nw_steer := turn_nosewheel_cmd M s
  let d_steer := req - cur_nw_steer
  let tug1 : tug_t :=
    if ABS tug.pos.spd > 1 / 100 then
      let tug_steer := dir_mult * 3 * d_steer
      let tug_steer := MIN (MAX tug_steer (-tug.veh.max_steer)) tug.veh.max_steer
      let speed := M.ang_vel_speed_limit tug.veh tug_steer tug.pos.spd
      let tug_steer :=
        if speed < tug.pos.spd then tug_steer * (speed / tug.pos.spd) else tug_steer
      M.tug_set_steering tug tug_steer s.bp.d_t
    else tug
  let s1 : State := { s with
    tug := s.tug.map (fun _ => tug1),
    drs := { s.drs with
      tire_steer_cmd := dr_setvf1 s.drs.tire_steer_cmd s.bp.acf.nw_i cur_nw_steer },
    calls := s.calls ++ [call_t.turn_nosewheel req_steer],
    divs := s.divs ++ [s.bp.d_t] }
  let nlg_tug_rear_off := tug_rear2acf_nw s1
  let turn_inc := rel_tug_turn_rate * s.bp.d_t
  let off_v : vect2_t := {
    x := M.sin (DEG2RAD M turn_inc) * (nlg_tug_rear_off / tug1.veh.wheelbase),
    y := (M.cos (DEG2RAD M turn_inc) - 1) * (nlg_tug_rear_off / tug1.veh.wheelbase) }
  let off_v := M.vect2_rot off_v cur_nw_steer
  let d_hdg := RAD2DEG M (M.asin (off_v.x / s.bp.veh.wheelbase))
  reorient_aircraft M 0 0 (10 * d_hdg) s1

/-- The function `tug_speed`: the speed of the nosewheel along the commanded
steering direction. `dr_getf` on the array dataref reads its first entry. -/
def tug_speed (M : Ext) (s : State) : ℚ :=
  let v : vect2_t := {
    x := DEG2RAD M (s.bp.d_pos.hdg / s.bp.d_t) * s.bp.veh.wheelbase,
    y := s.bp.cur_pos.spd }
  let u := M.hdg2dir (s.drs.tire_steer_cmd 0)
  vect2_dotprod u v

/-! ## Force controller -/

/-- The target speed of `push_at_speed` after the friction switch. -/
def push_at_speed_targ (targ_speed : ℚ) (s : State) : ℚ :=
  if s.drs.rwy_friction = RWY_FRICTION_MED then
    MIN (MAX targ_speed (-MAX_SPEED_MED_FRICTION)) MAX_SPEED_MED_FRICTION
  else if s.drs.rwy_friction = RWY_FRICTION_POOR then
    MIN (MAX targ_speed (-MAX_SPEED_POOR_FRICTION)) MAX_SPEED_POOR_FRICTION
  else targ_speed

/-- The local `force_lim` of `push_at_speed`. -/
def push_at_speed_lim (s : State) : ℚ :=
  FORCE_PER_TON * (s.drs.acf_mass / 1000)

/-- The local `force_incr` of `push_at_speed`. -/
def push_at_speed_incr (s : State) : ℚ :=
  push_at_speed_lim s * s.bp.d_t

/-- The local `force` of `push_at_speed` after the speed-up / slow-down block,
at the point where it is resolved into `Fx` and `Fz`. -/
def push_at_speed_force (M : Ext) (targ_speed max_accel : ℚ) (decelerating : Bool)
    (s : State) : ℚ :=
  let steer := s.drs.tire_steer_cmd s.bp.acf.nw_i
  let targ_speed := push_at_speed_targ targ_speed s
  let force_incr := push_at_speed_incr s
  let cur_spd := if s.bp_xp_ver ≥ 11000 then tug_speed M s else s.bp.cur_pos.spd
  let accel_now :=
    if s.bp_xp_ver ≥ 11000 then
      (s.bp.d_pos.spd / M.cos (DEG2RAD M |steer|)) / s.bp.d_t
    else s.bp.d_pos.spd / s.bp.d_t
  let force := s.bp.last_force
  let d_v := targ_speed - cur_spd
  let max_accel :=
    if ABS cur_spd < BREAKAWAY_THRESH s.bp_xp_ver then max_accel * 100 else max_accel
  if d_v > 0 then
    let max_accel :=
      if d_v < max_accel ∧ decelerating = false ∧
          ABS s.bp.cur_pos.spd ≥ BREAKAWAY_THRESH s.bp_xp_ver then d_v
      else max_accel
    if accel_now > max_accel then force - force_incr
    else if accel_now < max_accel then force + force_incr
    else force
  else if d_v < 0 then
    let max_accel := max_accel * -1
    let max_accel :=
      if d_v > max_accel ∧ decelerating = false ∧
          ABS s.bp.cur_pos.spd ≥ BREAKAWAY_THRESH s.bp_xp_ver then d_v
      else max_accel
    if accel_now < max_accel then force + force_incr
    else if accel_now > max_accel then force - force_incr
    else force
  else force

/-- The local `Fx` of `push_at_speed`: the lateral component of the force. -/
def push_at_speed_Fx (M : Ext) (targ_speed max_accel : ℚ) (decelerating : Bool)
    (s : State) : ℚ :=
  push_at_speed_force M targ_speed max_accel decelerating s *
    M.sin (DEG2RAD M (s.drs.tire_steer_cmd s.bp.acf.nw_i))

/-- The local `Fz` of `push_at_speed`: the axial component of the force. -/
def push_at_speed_Fz (M : Ext) (targ_speed max_accel : ℚ) (decelerating : Bool)
    (s : State) : ℚ :=
  push_at_speed_force M targ_speed max_accel decelerating s *
    M.cos (DEG2RAD M (s.drs.tire_steer_cmd s.bp.acf.nw_i))

/-- The function `push_at_speed`. The sound control that `allow_snd_ctl`
enables has no counterpart in the state. -/
def push_at_speed (M : Ext) (targ_speed max_accel : ℚ) (allow_snd_ctl decelerating : Bool)
    (s : State) : State :=
  let _snd := allow_snd_ctl
  let force_lim := push_at_speed_lim s
  let force_incr := push_at_speed_incr s
  let force := push_at_speed_force M targ_speed max_accel decelerating s
  let Fx := push_at_speed_Fx M targ_speed max_accel decelerating s
  let Fz := push_at_speed_Fz M targ_speed max_accel decelerating s
  let axial_force := s.drs.axial_force - Fz
  let rot_force_N := s.drs.rot_force_N + Fx * (-s.bp.acf.nw_z)
  let nose_down_moment := s.drs.rot_force_M + Fz * s.bp.acf.nw_len
  let on_gnd := s.drs.gear_on_ground s.bp.acf.nw_i
  let airborne : Bool := decide (s.bp_xp_ver ≥ 11000) && decide (on_gnd ≠ 1)
  let G := MASS2GFORCE (bp_ls_tug s).info.mass
  let tug_weight_force :=
    if s.bp_xp_ver ≥ 11000 then
      if on_gnd ≠ 1 then MIN (s.bp.tug_weight_force + G * s.bp.d_t) G else 0
    else s.bp.tug_weight_force
  let nose_down_moment :=
    if airborne then nose_down_moment + tug_weight_force * s.bp.acf.nw_z
    else nose_down_moment
  let force :=
    if airborne then
      if force < 0 then force + 2 * force_incr else force - 2 * force_incr
    else force
  let force := MIN force_lim force
  let force := MAX (-force_lim) force
  { s with
    drs := { s.drs with
      axial_force := axial_force,
      rot_force_N := rot_force_N,
      rot_force_M := nose_down_moment },
    bp := { s.bp with tug_weight_force := tug_weight_force, last_force := force },
    calls := s.calls ++ [call_t.push_at_speed targ_speed],
    divs := s.divs ++ [s.bp.d_t] }

/-! ## Session start-up state -/

/-- The function `max_steer_angle`. -/
def max_steer_angle (s : State) : ℚ :=
  if s.drs.rwy_friction = RWY_FRICTION_MED then 50
  else if s.drs.rwy_friction = RWY_FRICTION_POOR then 35
  else if s.bp_xp_ver < 11000 then 50 else 75

/-- The first loop of `read_gear_info`: the indices of the wheeled gears that
are deployed and on the ground. -/
def read_gear_info_eligible (s : State) : List Nat :=
  (List.range 10).filter (fun i =>
    decide (s.drs.gear_types i ≥ 2) &&
    decide ((if s.bp_xp_ver ≥ 11000 then s.drs.gear_on_ground i else -1) ≠ 0) &&
    decide (s.drs.gear_deploy i ≠ 0))

/-- The second loop of `read_gear_info`: the most forward steerable gear, from
the start value `nw_i = -1`, `nw_z = 1e10`. -/
def read_gear_info_steer (s : State) : List Nat → Int × ℚ → Int × ℚ
  | [], acc => acc
  | g :: gs, acc =>
    read_gear_info_steer s gs
      (if s.drs.gear_steers g = 1 ∧ s.drs.tire_z g < acc.2 then ((g : Int), s.drs.tire_z g)
       else acc)

/-- The C division `x / d` of a `double` by an `int`, by the rules of IEEE 754:
the value (0 when the result is not finite) and the class of the result. The
dividend is `x` when `nf` is `none`, and of class `nf` otherwise. A finite
dividend over the divisor 0 gives NaN when it is zero and an infinity of its
sign otherwise. -/
def double_div_int (x : ℚ) (nf : Option nonfinite_t) (d : Int) : ℚ × Option nonfinite_t :=
  match nf with
  | some nonfinite_t.NAN => (0, some nonfinite_t.NAN)
  | some nonfinite_t.POS_INF =>
    (0, some (if d < 0 then nonfinite_t.NEG_INF else nonfinite_t.POS_INF))
  | some nonfinite_t.NEG_INF =>
    (0, some (if d < 0 then nonfinite_t.POS_INF else nonfinite_t.NEG_INF))
  | none =>
    if d = 0 then
      (0, some (if x = 0 then nonfinite_t.NAN
        else if 0 < x then nonfinite_t.POS_INF else nonfinite_t.NEG_INF))
    else (x / (d : ℚ), none)

/-- The class of `-x` for a `double` of class `nf`. -/
def double_neg_nf (nf : Option nonfinite_t) : Option nonfinite_t :=
  match nf with
  | some nonfinite_t.POS_INF => some nonfinite_t.NEG_INF
  | some nonfinite_t.NEG_INF => some nonfinite_t.POS_INF
  | nf => nf

/-- The C comparison `x <= 0` of a `double`: false for NaN and for +inf, true
for -inf. -/
def double_le_zero (x : ℚ) (nf : Option nonfinite_t) : Bool :=
  match nf with
  | none => decide (x ≤ 0)
  | some nonfinite_t.NEG_INF => true
  | some _ => false

/-- The function `read_gear_info`; it returns `B_TRUE` on every path. The sum
of the main-gear positions keeps the class of `bp.acf.main_z` (the positions
read from the host are finite); the division by `n_gear - 1` is
`double_div_int`. -/
def read_gear_info (s : State) : Bool × State :=
  let gear_is := s.bp.acf.gear_is ++ read_gear_info_eligible s
  let n_gear := gear_is.length
  let nw := read_gear_info_steer s gear_is (-1, 10000000000)
  let nw : Int × ℚ :=
    if nw.1 = -1 then ((gear_is.headD 0 : Nat), s.drs.tire_z (gear_is.headD 0)) else nw
  let nw_i := nw.1.toNat
  let main_z := s.bp.acf.main_z +
    ((gear_is.filter (fun g => decide (g ≠ nw_i))).map s.drs.tire_z).sum
  let main_z := double_div_int main_z s.bp.acf.main_z_nf ((n_gear : Int) - 1)
  (true, { s with bp := { s.bp with acf := { s.bp.acf with
    n_gear := n_gear, gear_is := gear_is, nw_i := nw_i, nw_z := nw.2,
    nw_len := s.drs.leg_len nw_i, tirrad := s.drs.tirrad nw_i,
    nw_type := s.drs.gear_types nw_i, main_z := main_z.1, main_z_nf := main_z.2 } } })

/-- The function `bp_state_init`. Reading the aircraft file is the host
observation `drs.acf_file`. The wheelbase `main_z - nw_z` and the offset
`-main_z` have the class of `main_z`, `nw_z` being finite; the test
`bp.veh.wheelbase <= 0` is `double_le_zero`, which a NaN wheelbase passes. -/
def bp_state_init (s : State) : Bool × State :=
  let s : State := { s with bp := {} }
  if s.bp_xp_ver < MIN_XPLANE_VERSION then (false, s)
  else
    match s.drs.acf_file with
    | none => (false, s)
    | some flags =>
      let s : State := { s with bp := { s.bp with acf := { s.bp.acf with model_flags := flags } } }
      if flags.is_helicopter || flags.fly_like_a_helo then (false, s)
      else
        let r := read_gear_info s
        if r.1 = false then (false, r.2)
        else
          let s := r.2
          let wheelbase := s.bp.acf.main_z - s.bp.acf.nw_z
          let s : State := { s with bp := { s.bp with veh := { s.bp.veh with
            wheelbase := wheelbase, wheelbase_nf := s.bp.acf.main_z_nf,
            fixed_z_off := -s.bp.acf.main_z,
            fixed_z_off_nf := double_neg_nf s.bp.acf.main_z_nf } } }
          if double_le_zero wheelbase s.bp.acf.main_z_nf then (false, s)
          else
            let max_steer := MIN (MAX s.drs.nw_steerdeg1 s.drs.nw_steerdeg2) (max_steer_angle s)
            let max_steer :=
              if max_steer < MIN_STEER_ANGLE then (max_steer_angle s + MIN_STEER_ANGLE) / 2
              else max_steer
            (true, { s with bp := { s.bp with
              veh := { s.bp.veh with
                max_steer := max_steer,
                max_fwd_spd := MAX_FWD_SPEED,
                max_rev_spd := MAX_REV_SPEED,
                max_fwd_ang_vel := MAX_FWD_ANG_VEL,
                max_rev_ang_vel := MAX_REV_ANG_VEL,
                max_centr_accel := MAX_CENTR_ACCEL,
                max_accel := NORMAL_ACCEL,
                max_decel := NORMAL_DECEL,
                use_rear_pos := true },
              step := PB_STEP_OFF,
              step_start_t := 0 } })

/-- The function `bp_delete_all_segs`. -/
def bp_delete_all_segs (s : State) : State :=
  { s with bp := { s.bp with segs := [] } }

/-- The function `manual_bp_stop`. -/
def manual_bp_stop (s : State) : State :=
  { s with push_manual := { s.push_manual with active := false, requested := false } }

/-- The function `bp_stop`: the operator's stop request. -/
def bp_stop (s : State) : Bool × State :=
  if s.bp_started = false then (false, s)
  else
    let last_seg_is_back :=
      match s.bp.segs.getLast? with
      | some seg => seg.backward
      | none => s.bp.last_seg_is_back
    let s : State := { s with bp := { s.bp with
      last_hdg := none, last_seg_is_back := last_seg_is_back } }
    let s := bp_delete_all_segs s
    (true, { s with late_plan_requested := false, tug_pending_mode := false })

/-- The function `bp_complete`: tears the session down. -/
def bp_complete (s : State) : State :=
  let s := bp_delete_all_segs s
  let s : State := { s with calls := s.calls ++ [call_t.bp_complete] }
  if s.bp_started = false then s
  else
    let s : State := { s with
      bp_started := false, bp_connected := false,
      late_plan_requested := false, plan_complete := false,
      tug := none, disco_win := false }
    let s : State :=
      if s.slave_mode = false then
        let s : State := { s with drs := { s.drs with override_steer := 0 } }
        let s := brakes_set false s
        { s with drs := { s.drs with
            leg_len := dr_setvf1 s.drs.leg_len s.bp.acf.nw_i s.bp.acf.nw_len } }
      else s
    let s : State := { s with bp_tug_name := "" }
    (bp_state_init s).2

/-! ## Pushing along the planned path -/

/-- The statement pair `bp.step++; bp.step_start_t = bp.cur_t;` that ends every
phase. -/
def step_next (s : State) : State :=
  { s with bp := { s.bp with step := s.bp.step + 1, step_start_t := s.bp.cur_t } }

/-- The assignment `bp.step_start_t = bp.cur_t` that re-arms the dwell timer. -/
def step_rearm (s : State) : State :=
  { s with bp := { s.bp with step_start_t := s.bp.cur_t } }

/-- The assignment `bp.last_voice_t = bp.cur_t`. -/
def voice_now (s : State) : State :=
  { s with bp := { s.bp with last_voice_t := s.bp.cur_t } }

/-- Replaces the tug that `bp_ls.tug` points to. -/
def tug_upd (f : tug_t → tug_t) (s : State) : State :=
  { s with tug := s.tug.map f }

/-- The function `nearing_end`. -/
def nearing_end (M : Ext) (s : State) : Bool :=
  match s.bp.segs with
  | [seg] =>
    if seg.type ≠ seg_type_t.SEG_TYPE_STRAIGHT then false
    else
      let end_dir := M.hdg2dir seg.end_hdg
      let end_dir := if seg.backward then vect2_neg end_dir else end_dir
      let end2acf := vect2_sub s.bp.cur_pos.pos seg.end_pos
      let long_displ := vect2_dotprod end_dir end2acf
      decide (long_displ > -NEARING_END_THRESHOLD)
  | _ => false

/-- The function `corr_acf_pos`: the pose handed to `drive_segs`, measured
through the tug's fixed axle. -/
def corr_acf_pos (M : Ext) (s : State) : vehicle_pos_t :=
  let dir := M.hdg2dir s.bp.cur_pos.hdg
  let main_pos := vect2_add s.bp.cur_pos.pos (vect2_scmul dir (-s.bp.acf.main_z))
  let nw_pos := vect2_add s.bp.cur_pos.pos (vect2_scmul dir (-s.bp.acf.nw_z))
  let tug_rear2acf_nw_l := tug_rear2acf_nw s
  let steer := s.drs.tire_steer_cmd s.bp.acf.nw_i
  let tug_rear_pos := vect2_add nw_pos (vect2_scmul
    (M.hdg2dir (M.normalize_hdg (s.bp.cur_pos.hdg + steer + 180))) tug_rear2acf_nw_l)
  let corr_dir := vect2_sub tug_rear_pos main_pos
  let corr_pos := vect2_add main_pos (M.vect2_set_abs corr_dir s.bp.acf.main_z)
  let corr_hdg := M.dir2hdg corr_dir
  { pos := corr_pos, hdg := corr_hdg, spd := s.bp.cur_pos.spd }

/-- The block that `bp_run_push` and `bp_run_push_manual` run when a brake is
held: forces and stored force state are zeroed. -/
def push_brake_stop (s : State) : State :=
  { s with
    drs := { s.drs with axial_force := 0, rot_force_N := 0 },
    bp := { s.bp with last_force := 0 } }

/-- The test `bp.reverse_t != 0.0` together with `bp.cur_t - bp.reverse_t <
2 * STATE_TRANS_DELAY`: a reversal pause is running. -/
def reversal_wait (s : State) : Bool :=
  decide (s.bp.reverse_t ≠ 0) && decide (s.bp.cur_t - s.bp.reverse_t < 2 * STATE_TRANS_DELAY)

/-- The assignment `bp.reverse_t = 0.0` that ends a reversal pause. -/
def reverse_clear (s : State) : State :=
  { s with bp := { s.bp with reverse_t := 0 } }

/-- The assignment `bp.reverse_t = bp.cur_t` that starts a reversal pause. -/
def reverse_mark (s : State) : State :=
  { s with bp := { s.bp with reverse_t := s.bp.cur_t } }

/-- The outputs of `drive_segs` on the head segment `seg` of the queue
`seg :: rest`. -/
def drive_segs_out (M : Ext) (seg : seg_t) (rest : List seg_t) (s : State) : drive_out_t :=
  M.drive_seg (corr_acf_pos M s) s.bp.veh seg rest s.bp.last_mis_hdg s.bp.d_t

/-- Modelled from the spec: `drive_segs` of driving.c, which is not under src/,
called on the queue `seg :: rest`. It works on the head segment; when the
segment is complete it pops it from the queue and returns false, otherwise it
leaves the queue as it is, returns true and yields steer, speed and the
decelerating flag. The decision and the output values are those of
`Ext.drive_seg`. -/
def drive_segs (M : Ext) (seg : seg_t) (rest : List seg_t) (s : State) : Bool × State :=
  let out := drive_segs_out M seg rest s
  (!out.complete,
    { s with
      bp := { s.bp with
        last_mis_hdg := out.last_mis_hdg,
        segs := if out.complete then rest else seg :: rest },
      calls := s.calls ++ [call_t.drive_segs] })

/-- The body of `if (drive_segs(...))` in `bp_run_push`: steer, then hand the
speed, corrected for the nosewheel deflection, to the force controller. -/
def bp_run_push_drive (M : Ext) (out : drive_out_t) (s : State) : State :=
  let s := if nearing_end M s = false then turn_nosewheel M out.steer s
    else turn_nosewheel M 0 s
  let nw_defl := M.rel_hdg s.bp.cur_pos.hdg (bp_ls_tug s).pos.hdg
  let speed := out.speed / MAX (M.cos (DEG2RAD M nw_defl)) (1 / 10)
  push_at_speed M speed s.bp.veh.max_accel true out.decel s

/-- The update of the local `last_backward` after a segment was popped:
`if (seg != NULL && seg->backward != last_backward) last_backward =
seg->backward`, with `seg` the new head of the queue. -/
def next_backward (rest : List seg_t) (last_backward : Bool) : Bool :=
  match rest with
  | [] => last_backward
  | next :: _ => if next.backward ≠ last_backward then next.backward else last_backward

/-- The reversal test after a segment was popped: `if (seg != NULL &&
seg->backward != last_backward) bp.reverse_t = bp.cur_t`, with `seg` the new
head of the queue. -/
def reversal_check (rest : List seg_t) (last_backward : Bool) (s : State) : State :=
  match rest with
  | [] => s
  | next :: _ => if next.backward ≠ last_backward then reverse_mark s else s

/-- The `while (seg != NULL)` loop of `bp_run_push`. The list argument is the
queue `bp.segs` and the flag is the local `last_backward`; the result carries
the value of `seg != NULL` at the exit of the loop. -/
def bp_run_push_loop (M : Ext) : List seg_t → Bool → State → State × Bool
  | [], _, s => (s, false)
  | seg :: rest, last_backward, s =>
    if brakes_applied s then (push_brake_stop s, true)
    else if reversal_wait s then (push_at_speed M 0 s.bp.veh.max_accel true false s, true)
    else if (drive_segs M seg rest (reverse_clear s)).1 then
      (bp_run_push_drive M (drive_segs_out M seg rest (reverse_clear s))
        (drive_segs M seg rest (reverse_clear s)).2, true)
    else
      bp_run_push_loop M rest (next_backward rest last_backward)
        (reversal_check rest last_backward (drive_segs M seg rest (reverse_clear s)).2)

/-- The function `bp_run_push_manual`. -/
def bp_run_push_manual (M : Ext) (s : State) : State × Bool :=
  if brakes_applied s then (push_brake_stop s, s.push_manual.active)
  else if reversal_wait s then
    (push_at_speed M 0 s.bp.veh.max_accel true false s, s.push_manual.active)
  else
    let s := reverse_clear s
    let angle : ℚ :=
      if s.push_manual.with_yoke then s.drs.joystick 2 else s.push_manual.angle / 100
    let angle := angle * s.bp.veh.max_steer
    let speed : ℚ :=
      if s.push_manual.with_yoke then
        let speed_ := -s.drs.joystick 1
        let speed_ := if speed_ < 0 then 0 else speed_
        s.bp.veh.max_fwd_spd * speed_
      else s.bp.veh.max_fwd_spd
    let speed := if s.push_manual.forward_direction = false then -speed else speed
    let speed := if speed < -s.bp.veh.max_rev_spd then -s.bp.veh.max_rev_spd else speed
    let speed :=
      if speed > s.bp.veh.max_rev_spd then
        if |angle| > MIN_STEER_ANGLE then s.bp.veh.max_rev_spd else speed
      else speed
    let s := turn_nosewheel M angle s
    let speed := speed *
      (if s.push_manual.pause then 0 else MAX (M.cos (DEG2RAD M |angle|)) (1 / 10))
    (push_at_speed M speed s.bp.veh.max_accel true false s, s.push_manual.active)

/-- The steer request that `bp_run_push_manual` computes: the yoke roll axis,
or the keyboard angle over 100, times `bp.veh.max_steer`. -/
def bp_run_push_manual_angle (s : State) : ℚ :=
  (if s.push_manual.with_yoke then s.drs.joystick 2 else s.push_manual.angle / 100) *
    s.bp.veh.max_steer

/-- The target speed that `bp_run_push_manual` computes for `push_at_speed`. -/
def bp_run_push_manual_speed (M : Ext) (s : State) : ℚ :=
  let angle := bp_run_push_manual_angle s
  let speed : ℚ :=
    if s.push_manual.with_yoke then
      let speed_ := -s.drs.joystick 1
      let speed_ := if speed_ < 0 then 0 else speed_
      s.bp.veh.max_fwd_spd * speed_
    else s.bp.veh.max_fwd_spd
  let speed := if s.push_manual.forward_direction = false then -speed else speed
  let speed := if speed < -s.bp.veh.max_rev_spd then -s.bp.veh.max_rev_spd else speed
  let speed :=
    if speed > s.bp.veh.max_rev_spd then
      if |angle| > MIN_STEER_ANGLE then s.bp.veh.max_rev_spd else speed
    else speed
  speed * (if s.push_manual.pause then 0 else MAX (M.cos (DEG2RAD M |angle|)) (1 / 10))

/-- The function `bp_run_push`. -/
def bp_run_push (M : Ext) (s : State) : State × Bool :=
  if s.push_manual.active then bp_run_push_manual M s
  else
    let last_backward :=
      match s.bp.segs with
      | seg :: _ => seg.backward
      | [] => false
    bp_run_push_loop M s.bp.segs last_backward s

/-- The function `late_plan_end_cond`. -/
def late_plan_end_cond (s : State) : Bool :=
  (!s.slave_mode && !s.bp.segs.isEmpty && !s.drs.cam_is_running) ||
    (s.slave_mode && s.plan_complete)

/-! ## Phase handlers -/

/-- The text after the last occurrence of `c`, as `strrchr` followed by
skipping the character found; `none` when `c` does not occur. -/
def strrchr_tail (c : Char) : List Char → Option (List Char)
  | [] => none
  | x :: xs =>
    match strrchr_tail c xs with
    | some t => some t
    | none => if x = c then some xs else none

/-- The string tests of the slave branch of `pb_step_tug_load`: the name is
not empty, holds no directory separator and ends in `.tug`. -/
def tug_name_acceptable (tug_name : List Char) : Bool :=
  !tug_name.isEmpty &&
  !(tug_name.contains '/' || tug_name.contains (Char.ofNat 92)) &&
  (match strrchr_tail '.' tug_name with
   | none => false
   | some ext => decide (ext = ['t', 'u', 'g']))

/-- The function `acf_is_airliner`. -/
def acf_is_airliner (s : State) : Bool :=
  let f := s.bp.acf.model_flags
  decide (s.drs.mtow ≥ 7000) && !f.is_experimental && !f.is_general_aviation &&
    !f.is_glider && !f.is_helicopter && !f.is_military && !f.is_sci_fi &&
    !f.is_ultralight && !f.is_vtol && !f.fly_like_a_helo

/-- The NUL byte that terminates a C string. -/
def NUL : Char := Char.ofNat 0

/-- The C string held by a character buffer: the bytes before the first NUL. -/
def cstr (buf : List Char) : List Char :=
  buf.takeWhile (fun c => c ≠ NUL)

/-- Index of the last occurrence of `c`, as `strrchr` finds it. -/
def strrchr_idx (c : Char) : List Char → Option Nat
  | [] => none
  | x :: xs =>
    match strrchr_idx c xs with
    | some i => some (i + 1)
    | none => if x = c then some 0 else none

/-- The call `memmove(airline, p, cnt)` with `p = airline + off`. -/
def memmove_front (buf : List Char) (off cnt : Nat) : List Char :=
  (buf.drop off).take cnt ++ buf.drop cnt

/-- One `strrchr` block of `read_acf_airline` for the separator `c`, on the
buffer and the local `n`; `none` is a `memmove` with a negative byte count. -/
def read_acf_airline_strip (c : Char) (st : List Char × Int) : Option (List Char × Int) :=
  match strrchr_idx c (cstr st.1) with
  | none => some st
  | some i =>
    let p : Int := (i : Int) + 1
    let l : Int := st.2 - p
    if l + 1 < 0 then none
    else some (memmove_front st.1 (i + 1) (l + 1).toNat, st.2 - l)

/-- The function `read_acf_airline` on the livery path of the host; the
buffer has 1024 bytes and the result is the C string it holds at the end. -/
def read_acf_airline (livery_path : List Char) : Option (List Char) :=
  let str := livery_path.take 1023
  let buf := str ++ List.replicate (1024 - str.length) NUL
  let n : Int := str.length
  let st : List Char × Int :=
    if n > 0 then (buf.set (str.length - 1) NUL, n - 1) else (buf, n)
  match read_acf_airline_strip '/' st with
  | none => none
  | some st1 =>
    match read_acf_airline_strip (Char.ofNat 92) st1 with
    | none => none
    | some st2 => some (cstr st2.1)

/-- The `airline` argument that `pb_step_tug_load` builds: the livery name of
an airliner, the empty string otherwise. -/
def tug_load_airline (s : State) : String :=
  if acf_is_airliner s then
    String.mk ((read_acf_airline s.drs.acf_livery_path.toList).getD [])
  else ""

/-- The placement of a freshly loaded tug at the end of `pb_step_tug_load`,
followed by the step increment. -/
def pb_step_tug_load_place (M : Ext) (s : State) : State :=
  let tug := bp_ls_tug s
  let s :=
    if tug.info.drive_debug = false then
      let dir := M.hdg2dir s.bp.cur_pos.hdg
      if s.drs.tug_starts_next_plane then
        let p_start := vect2_add s.bp.cur_pos.pos
          (vect2_scmul dir (-s.bp.acf.nw_z + 2 * tug.veh.wheelbase))
        tug_upd (fun t => M.tug_set_pos t p_start (M.normalize_hdg s.bp.cur_pos.hdg) 0) s
      else
        let p_start := vect2_add s.bp.cur_pos.pos
          (vect2_scmul dir (-s.bp.acf.nw_z + 6 * tug.veh.wheelbase))
        let p_start := vect2_add p_start
          (vect2_scmul (M.vect2_norm dir true) (10 * tug.veh.wheelbase))
        tug_upd (fun t => M.tug_set_pos t p_start
          (M.normalize_hdg (s.bp.cur_pos.hdg - 90)) tug.veh.max_fwd_spd) s
    else
      tug_upd (fun t => M.tug_set_pos t s.bp.cur_pos.pos s.bp.cur_pos.hdg 0) s
  step_next s

/-- The function `pb_step_tug_load`. -/
def pb_step_tug_load (M : Ext) (s : State) : Bool × State :=
  if s.slave_mode = false then
    match M.tug_alloc_auto s.drs.mtow (s.drs.leg_len 0) s.bp.acf.tirrad
        s.bp.acf.nw_type s.drs.icao (tug_load_airline s) with
    | none => (false, bp_complete s)
    | some tug =>
      let s : State := { s with tug := some tug, bp_tug_name := tug.info.tug_name }
      (true, pb_step_tug_load_place M s)
  else
    let tug_name := s.bp_tug_name.toList.take 63
    if tug_name_acceptable tug_name = false then (true, s)
    else
      match M.tug_alloc_man (String.mk tug_name) s.bp.acf.tirrad s.drs.icao
          (tug_load_airline s) with
      | none => (false, bp_complete s)
      | some tug =>
        let s : State := { s with tug := some tug }
        (true, pb_step_tug_load_place M s)

/-- The function `pb_step_start`; `none` is a failed `VERIFY`. -/
def pb_step_start (M : Ext) (s : State) : Option State :=
  let tug := bp_ls_tug s
  let r : Option State :=
    if tug.info.drive_debug = false then
      let dir := M.hdg2dir s.bp.cur_pos.hdg
      let p_end := vect2_add s.bp.cur_pos.pos
        (vect2_scmul dir (-s.bp.acf.nw_z + tug.info.apch_dist))
      if s.drs.tug_starts_next_plane then
        let left_off := vect2_add s.bp.cur_pos.pos
          (vect2_scmul dir (-s.bp.acf.nw_z + 2 * tug.veh.wheelbase))
        let t1 := M.tug_set_pos tug left_off (M.normalize_hdg s.bp.cur_pos.hdg)
          (1 / 10 * tug.veh.max_fwd_spd)
        let r1 := M.tug_drive2point t1 p_end s.bp.cur_pos.hdg
        if r1.1 then some (tug_upd (fun _ => r1.2) s) else none
      else
        let left_off := vect2_add s.bp.cur_pos.pos
          (vect2_scmul dir (-s.bp.acf.nw_z + 6 * tug.veh.wheelbase))
        let left_off := vect2_add left_off
          (vect2_scmul (M.vect2_norm dir false) (2 * tug.veh.wheelbase))
        let r1 := M.tug_drive2point tug left_off (M.normalize_hdg (s.bp.cur_pos.hdg - 90))
        if r1.1 then
          let r2 := M.tug_drive2point r1.2 p_end s.bp.cur_pos.hdg
          if r2.1 then some (tug_upd (fun _ => r2.2) s) else none
        else none
    else
      some (tug_upd (fun t => { t with segs := t.segs ++ s.bp.segs }) s)
  r.map (fun s => voice_now (step_next s))

/-- The function `pb_step_driving_up_close`. -/
def pb_step_driving_up_close (M : Ext) (s : State) : State :=
  if M.tug_is_stopped (bp_ls_tug s) = false then step_rearm s
  else if s.bp.cur_t - s.bp.step_start_t ≥ STATE_TRANS_DELAY then step_next s
  else s

/-- The function `pb_step_waiting_for_doors`. -/
def pb_step_waiting_for_doors (s : State) : State :=
  step_next s

/-- The body of `case PB_STEP_OPENING_CRADLE` of `bp_run`. -/
def pb_step_opening_cradle (s : State) : State :=
  if s.drs.doors_closed then
    let d_t := s.bp.cur_t - s.bp.step_start_t
    if d_t ≥ PB_CRADLE_DELAY + STATE_TRANS_DELAY then
      let s := if s.bp.reconnect = false then voice_now s else s
      step_next s
    else s
  else s

/-- The workaround of `pb_step_waiting_for_pbrake` for the chocks of the Zibo
737: when the dataref exists, is not 0 and is writable, it is set to 0. -/
def zibo_chocks_remove (s : State) : State :=
  match s.drs.zibo_chocks with
  | some v =>
    if v ≠ 0 ∧ s.drs.zibo_chocks_writable = true then
      { s with drs := { s.drs with zibo_chocks := some 0 } }
    else s
  | none => s

/-- The function `pb_step_waiting_for_pbrake`; `none` is a failed `VERIFY`. -/
def pb_step_waiting_for_pbrake (M : Ext) (s : State) : Option State :=
  if pbrake_is_set s = false ∨
      s.bp.cur_t - s.bp.last_voice_t < M.msg_dur msg_type_t.MSG_RDY2CONN then
    some (step_rearm s)
  else if s.bp.cur_t - s.bp.step_start_t < STATE_TRANS_DELAY then some s
  else
    let s := zibo_chocks_remove s
    let tug := bp_ls_tug s
    let dir := M.hdg2dir tug.pos.hdg
    let p_end :=
      if tug.info.lift_type = lift_t.LIFT_GRAB then
        vect2_add tug.pos.pos (vect2_scmul dir
          (-(tug.info.apch_dist + tug.info.lift_wall_z - M.tug_lift_wall_off tug)))
      else
        vect2_add tug.pos.pos (vect2_scmul dir (-(tug.info.apch_dist + tug.info.plat_z)))
    let r := M.tug_drive2point tug p_end s.bp.cur_pos.hdg
    if r.1 then some (step_next (tug_upd (fun _ => r.2) s)) else none

/-- The function `pb_step_driving_up_connect`. -/
def pb_step_driving_up_connect (M : Ext) (s : State) : State :=
  let s := if s.slave_mode = false ∧ s.cfg_ignore_park_break = false then brakes_set true s
    else s
  if M.tug_is_stopped (bp_ls_tug s) = false then step_rearm s
  else if s.bp.cur_t - s.bp.step_start_t ≥ STATE_TRANS_DELAY then
    step_next { s with bp := { s.bp with
      winching := { s.bp.winching with start_acf_pos := s.bp.cur_pos.pos } } }
  else s

/-- The function `pb_step_connect_grab`. -/
def pb_step_connect_grab (s : State) : State :=
  let d_t := s.bp.cur_t - s.bp.step_start_t
  let cradle_closed_fract := d_t / PB_CONN_LIFT_DELAY
  let cradle_closed_fract := MAX (MIN cradle_closed_fract 1) 0
  let s := if s.slave_mode = false ∧ s.cfg_ignore_park_break = false then brakes_set true s
    else s
  if cradle_closed_fract ≥ 1 then step_next s else s

/-- The function `pb_step_connect_winch`. -/
def pb_step_connect_winch (M : Ext) (s : State) : State :=
  let d_t := s.bp.cur_t - s.bp.step_start_t
  let ti := (bp_ls_tug s).info
  if s.bp.winching.complete = false ∧ d_t < STATE_TRANS_DELAY then s
  else if s.bp.winching.complete = false ∧ d_t < 2 * STATE_TRANS_DELAY then s
  else if s.bp.winching.complete = false ∧ pbrake_is_set s = true then
    if s.bp.winching.pbrk_rele_called = false then
      { (voice_now s) with bp := { (voice_now s).bp with
          winching := { s.bp.winching with pbrk_rele_called := true } } }
    else s
  else
    let s := if s.slave_mode = false then brakes_set false s else s
    let winch_total := ti.lift_wall_z - ti.plat_z - M.tug_lift_wall_off (bp_ls_tug s)
    let winched_dist := M.vect2_dist s.bp.winching.start_acf_pos s.bp.cur_pos.pos
    let s : State :=
      if winched_dist < winch_total ∧ s.bp.winching.complete = false then
        let x := winched_dist / (ti.lift_wall_z - ti.plat_z)
        let s :=
          if s.slave_mode = false then
            let lift := ti.plat_h * x + s.bp.acf.nw_len
            let s := push_at_speed M (5 / 100) (5 / 100) false false s
            { s with drs := { s.drs with
                leg_len := dr_setvf1 s.drs.leg_len s.bp.acf.nw_i lift } }
          else s
        { s with bp := { s.bp with
            nosewheel_rot_spd := s.drs.tire_rot_spd s.bp.acf.nw_i } }
      else
        { s with bp := { s.bp with
            winching := { s.bp.winching with complete := true },
            nosewheel_rot_spd := 0 } }
    if s.bp.winching.complete then step_next s else s

/-- The function `pb_step_grab`. -/
def pb_step_grab (M : Ext) (s : State) : State :=
  let s : State :=
    if s.slave_mode = false then
      { s with drs := { s.drs with
          tire_steer_cmd := dr_setvf1 s.drs.tire_steer_cmd s.bp.acf.nw_i 0 } }
    else s
  if (bp_ls_tug s).info.lift_type = lift_t.LIFT_GRAB then pb_step_connect_grab s
  else pb_step_connect_winch M s

/-- The function `pb_step_lift`. -/
def pb_step_lift (M : Ext) (s : State) : State :=
  let d_t := s.bp.cur_t - s.bp.step_start_t
  let lift_fract := d_t / PB_CONN_LIFT_DURATION
  let lift_fract := MAX (MIN lift_fract 1) 0
  let lift := (bp_ls_tug s).info.lift_height * lift_fract + s.bp.acf.nw_len +
    M.tug_plat_h (bp_ls_tug s)
  let s : State :=
    if s.slave_mode = false ∧ s.cfg_ignore_park_break = false then
      let s := brakes_set true s
      { s with drs := { s.drs with leg_len := dr_setvf1 s.drs.leg_len s.bp.acf.nw_i lift } }
    else s
  if d_t ≥ PB_CONN_LIFT_DURATION + STATE_TRANS_DELAY then
    let s : State := { s with bp_connected := true }
    if s.late_plan_requested ∧ late_plan_end_cond s = false then s
    else
      let s : State :=
        if s.late_plan_requested then
          let s : State := { s with late_plan_requested := false }
          if s.slave_mode = false then { s with plan_complete := true } else s
        else s
      let s := if (bp_ls_tug s).info.lift_type ≠ lift_t.LIFT_WINCH then voice_now s else s
      step_next s
  else s

/-- The function `pb_step_connected`. -/
def pb_step_connected (M : Ext) (s : State) : State :=
  if pbrake_is_set s = true ∨
      s.bp.cur_t - s.bp.last_voice_t < M.msg_dur msg_type_t.MSG_CONNECTED then
    step_rearm s
  else if s.bp.cur_t - s.bp.step_start_t ≥ STATE_TRANS_DELAY then
    voice_now (step_next s)
  else s

/-- The body of `case PB_STEP_STARTING` of `bp_run`. -/
def pb_step_starting (M : Ext) (s : State) : State :=
  let s : State :=
    if s.slave_mode = false then
      brakes_set false { s with drs := { s.drs with override_steer := 1 } }
    else s
  if s.bp.cur_t - s.bp.step_start_t ≥ PB_START_DELAY then step_next s
  else if s.slave_mode = false then
    let s : State :=
      if s.push_manual.active = false then
        let seg := s.bp.segs.getLast?.getD {}
        { s with bp := { s.bp with
            last_seg_is_back := seg.backward,
            last_hdg := if seg.type = seg_type_t.SEG_TYPE_TURN then some seg.end_hdg
              else none } }
      else
        { s with push_manual := { s.push_manual with angle := 0, pause := false } }
    push_at_speed M 0 s.bp.veh.max_accel false false (turn_nosewheel M 0 s)
  else s

/-- The function `pb_step_pushing`. -/
def pb_step_pushing (M : Ext) (s : State) : State :=
  if s.drs.landing_lights_on ≠ 0 ∨ s.drs.taxi_light_on ≠ 0 then
    let s := if s.slave_mode = false then push_at_speed M 0 s.bp.veh.max_accel true true s
      else s
    { s with bp := { s.bp with light_warn := true } }
  else
    let s : State := { s with bp := { s.bp with light_warn := false } }
    if s.slave_mode = false then
      let s : State := { s with drs := { s.drs with override_steer := 1 } }
      let r := bp_run_push M s
      if r.2 = false then manual_bp_stop { (step_next r.1) with op_complete := true }
      else r.1
    else s

/-- The block `if (!slave_mode) { ... }` of `pb_step_stopping`: it steers and
pushes, and yields the state together with the local `done`. -/
def pb_step_stopping_steer (M : Ext) (s : State) : State × Bool :=
  if s.slave_mode = false then
    let steer := s.drs.tire_steer_cmd s.bp.acf.nw_i
    let corr_pos := corr_acf_pos M s
    let creep := if s.bp.last_seg_is_back then -M.MIN_SPEED_XP10 else M.MIN_SPEED_XP10
    let hdg_off : Bool :=
      match s.bp.last_hdg with
      | some last_hdg => decide (|M.rel_hdg corr_pos.hdg last_hdg| > 1)
      | none => false
    if hdg_off then
      let rhdg := M.rel_hdg corr_pos.hdg (s.bp.last_hdg.getD 0)
      let amp := M.fx_lin (s.bp.veh.wheelbase / (bp_ls_tug s).veh.wheelbase) 1 3 5 10
      let nsteer := (if s.bp.last_seg_is_back then -1 else 1) * rhdg * MAX (MIN amp 10) 2
      (push_at_speed M creep s.bp.veh.max_accel false false (turn_nosewheel M nsteer s), false)
    else if ABS (bp_ls_tug s).cur_steer > TOW_COMPLETE_TUG_STEER_THRESH ∨
        ABS steer > TOW_COMPLETE_ACF_STEER_THRESH then
      (push_at_speed M creep s.bp.veh.max_accel false false (turn_nosewheel M 0 s), false)
    else
      (push_at_speed M 0 s.bp.veh.max_accel false true (turn_nosewheel M 0 s), true)
  else (s, true)

/-- The function `pb_step_stopping`. -/
def pb_step_stopping (M : Ext) (s : State) : State :=
  let r := pb_step_stopping_steer M s
  if ABS r.1.bp.cur_pos.spd ≥ SPEED_COMPLETE_THRESH ∨ r.2 = false then step_rearm r.1
  else
    let s1 := if r.1.slave_mode = false ∧ r.1.cfg_ignore_park_break = false then
      brakes_set true r.1 else r.1
    if s1.bp.cur_t - s1.bp.step_start_t ≥ STATE_TRANS_DELAY then voice_now (step_next s1)
    else s1

/-- The function `pb_step_stopped`. -/
def pb_step_stopped (M : Ext) (s : State) : State :=
  let s : State :=
    if s.slave_mode = false then
      let s := push_at_speed M 0 s.bp.veh.max_accel false false (turn_nosewheel M 0 s)
      if s.cfg_ignore_park_break = false then brakes_set true s else s
    else s
  if pbrake_is_set s = false ∧ s.cfg_ignore_park_break = false then step_rearm s
  else if s.bp.cur_t - s.bp.step_start_t ≥ STATE_TRANS_DELAY ∧
      s.bp.cur_t - s.bp.last_voice_t ≥
        M.msg_dur msg_type_t.MSG_OP_COMPLETE + STATE_TRANS_DELAY then
    voice_now (step_next s)
  else s

/-- The function `pb_step_lowering`. -/
def pb_step_lowering (M : Ext) (s : State) : State :=
  let d_t := s.bp.cur_t - s.bp.step_start_t
  let lift_fract := 1 - ((d_t - STATE_TRANS_DELAY) / PB_CONN_LIFT_DURATION)
  let s : State :=
    if s.slave_mode = false then
      let s := turn_nosewheel M 0 s
      if s.cfg_ignore_park_break = false then brakes_set true s else s
    else s
  if s.bp.cur_t - s.bp.last_voice_t < M.msg_dur msg_type_t.MSG_OP_COMPLETE then step_rearm s
  else if d_t ≤ STATE_TRANS_DELAY then s
  else
    let lift_fract := MAX (MIN lift_fract 1) 0
    let lift := (bp_ls_tug s).info.lift_height * lift_fract + s.bp.acf.nw_len +
      M.tug_plat_h (bp_ls_tug s)
    let s : State :=
      if s.slave_mode = false then
        { s with drs := { s.drs with leg_len := dr_setvf1 s.drs.leg_len s.bp.acf.nw_i lift } }
      else s
    if lift_fract = 0 then step_next s else s

/-- The function `pb_step_ungrabbing_grab`. -/
def pb_step_ungrabbing_grab (s : State) : Bool :=
  decide (s.bp.cur_t - s.bp.step_start_t ≥ PB_CRADLE_DELAY + STATE_TRANS_DELAY)

/-- The function `pb_step_ungrabbing_winch`. -/
def pb_step_ungrabbing_winch (s : State) : Bool :=
  let d_t := s.bp.cur_t - s.bp.step_start_t
  if d_t < STATE_TRANS_DELAY then false
  else if d_t < 2 * STATE_TRANS_DELAY then false
  else true

/-- The function `pb_step_ungrabbing`. -/
def pb_step_ungrabbing (s : State) : State :=
  let complete :=
    if (bp_ls_tug s).info.lift_type = lift_t.LIFT_GRAB then pb_step_ungrabbing_grab s
    else pb_step_ungrabbing_winch s
  if complete then
    let s := if s.slave_mode = false then brakes_set false s else s
    step_next { s with bp := { s.bp with reconnect := false, ok2disco := false } }
  else s

/-- The function `disco_handler`: the operator's disconnect command. -/
def disco_handler (s : State) : Int × State :=
  if s.bp.step ≠ PB_STEP_WAITING4OK2DISCO then (0, s)
  else (1, { s with bp := { s.bp with ok2disco := true } })

/-- The function `pb_step_waiting4ok2disco`. -/
def pb_step_waiting4ok2disco (M : Ext) (s : State) : State :=
  if s.bp.ok2disco = false then
    if s.disco_win = false ∧ s.slave_mode = false ∧ s.cfg_disco_when_done = true then
      (disco_handler s).2
    else
      let s : State :=
        if s.disco_win = false ∧ s.slave_mode = false then { s with disco_win := true }
        else s
      step_rearm s
  else
    let s : State := { s with disco_win := false }
    if s.bp.cur_t - s.bp.step_start_t ≥ STATE_TRANS_DELAY then
      let tug := bp_ls_tug s
      let dir := M.hdg2dir s.bp.cur_pos.hdg
      let p := vect2_add s.bp.cur_pos.pos
        (vect2_scmul dir (-s.bp.acf.nw_z + tug.info.apch_dist))
      step_next (tug_upd (fun t => (M.tug_drive2point t p s.bp.cur_pos.hdg).2) s)
    else s

/-- The body of `case PB_STEP_MOVING_AWAY` of `bp_run`. -/
def pb_step_moving_away (M : Ext) (s : State) : State :=
  let tug := bp_ls_tug s
  let s : State :=
    if tug.info.lift_type = lift_t.LIFT_WINCH ∧ s.slave_mode = false then
      let ti := tug.info
      let dist := M.vect2_dist s.bp.cur_pos.pos tug.pos.pos
      let plat_len := ti.lift_wall_z - ti.plat_z
      let dist := dist - (-s.bp.acf.nw_z)
      let dist := dist - (-ti.lift_wall_z)
      let x := 1 - (dist / plat_len)
      let x := MIN (MAX x 0) 1
      let lift := ti.plat_h * x + s.bp.acf.nw_len
      let tirrad := s.drs.tirrad s.bp.acf.nw_i
      { s with
        drs := { s.drs with leg_len := dr_setvf1 s.drs.leg_len s.bp.acf.nw_i lift },
        bp := { s.bp with nosewheel_rot_spd :=
          if dist / plat_len < 1 then -tug.veh_slow.max_fwd_spd / MAX tirrad (1 / 1000)
          else 0 } }
    else s
  if M.tug_is_stopped (bp_ls_tug s) then
    let s := step_next s
    { s with bp := { s.bp with nosewheel_rot_spd := 0 } }
  else s

/-- The function `pb_step_closing_cradle`. -/
def pb_step_closing_cradle (s : State) : State :=
  let d_t := s.bp.cur_t - s.bp.step_start_t
  if d_t ≥ PB_CRADLE_DELAY + STATE_TRANS_DELAY then voice_now (step_next s) else s

/-- The function `tug_clear_is_right`. -/
def tug_clear_is_right (M : Ext) (s : State) : Bool :=
  if s.bp.start_pos = s.bp.cur_pos.pos then true
  else decide (M.rel_hdg s.bp.cur_pos.hdg
    (M.dir2hdg (vect2_sub s.bp.start_pos s.bp.cur_pos.pos)) ≥ 0)

/-- The function `pb_step_starting2clear`; `none` is a failed `VERIFY`. -/
def pb_step_starting2clear (M : Ext) (s : State) : Option State :=
  if s.bp.cur_t - s.bp.step_start_t <
      MAX (M.msg_dur msg_type_t.MSG_DONE_RIGHT) (M.msg_dur msg_type_t.MSG_DONE_LEFT) +
        STATE_TRANS_DELAY then some s
  else
    let tug := bp_ls_tug s
    let right := tug_clear_is_right M s
    let square_side := MAX (4 * tug.veh.wheelbase) (3 / 2 * s.bp.veh.wheelbase)
    let dir := M.hdg2dir s.bp.cur_pos.hdg
    let norm_dir := M.vect2_norm dir right
    let turn_p := vect2_add tug.pos.pos (vect2_scmul dir (3 * tug.veh.wheelbase))
    let turn_p := vect2_add turn_p (vect2_scmul norm_dir (square_side / 2))
    let turn_hdg := M.normalize_hdg (s.bp.cur_pos.hdg + (if right then 90 else -90))
    let abeam_p := vect2_add turn_p (vect2_scmul (vect2_neg dir) (2 * tug.veh.wheelbase))
    let abeam_p := vect2_add abeam_p (vect2_scmul norm_dir (4 * tug.veh.wheelbase))
    let back_hdg := M.normalize_hdg (turn_hdg + (if right then 45 else -45))
    let r1 := M.tug_drive2point tug turn_p turn_hdg
    if r1.1 then
      let r2 := M.tug_drive2point r1.2 abeam_p back_hdg
      if r2.1 then some (step_next (tug_upd (fun _ => r2.2) s)) else none
    else none

/-- The function `drive_away_fallback`; `none` is a failed `VERIFY`. -/
def drive_away_fallback (M : Ext) (tug : tug_t) : Option tug_t :=
  let end_p := vect2_add tug.pos.pos
    (vect2_scmul (M.hdg2dir tug.pos.hdg) TUG_DRIVE_AWAY_DIST)
  let t1 := M.tug_set_pos tug tug.pos.pos tug.pos.hdg 0
  let r := M.tug_drive2point t1 end_p t1.pos.hdg
  if r.1 then some r.2 else none

/-- The function `pb_step_clear_signal`; `none` is a failed `VERIFY`. -/
def pb_step_clear_signal (M : Ext) (s : State) : Option State :=
  if s.bp.cur_t - s.bp.step_start_t < CLEAR_SIGNAL_DELAY then some s
  else
    let tug := bp_ls_tug s
    let acf2start := vect2_sub s.bp.start_pos s.bp.cur_pos.pos
    let acfdir := M.hdg2dir s.bp.cur_pos.hdg
    let acf2start_lat_displ := |vect2_dotprod (M.vect2_norm acfdir true) acf2start|
    let acf2start_long_displ := vect2_dotprod acfdir acf2start
    let tug1 : Option tug_t :=
      if acf2start_lat_displ < 3 / 2 * s.bp.veh.wheelbase ∧
          acf2start_long_displ > -4 * s.bp.veh.wheelbase then
        drive_away_fallback M tug
      else
        let rhdg := |M.rel_hdg tug.pos.hdg
          (M.dir2hdg (vect2_sub s.bp.start_pos tug.pos.pos))|
        let r0 := M.tug_drive2point tug s.bp.start_pos s.bp.start_hdg
        if rhdg ≥ 90 ∨ r0.1 = false then
          let tug := if rhdg ≥ 90 then tug else r0.2
          let right := decide (M.rel_hdg tug.pos.hdg
            (M.dir2hdg (vect2_sub s.bp.start_pos tug.pos.pos)) ≥ 0)
          let dir := M.hdg2dir tug.pos.hdg
          let turn_p := vect2_add tug.pos.pos (vect2_scmul dir (2 * tug.veh.wheelbase))
          let turn_p := vect2_add turn_p
            (vect2_scmul (M.vect2_norm dir right) (2 * tug.veh.wheelbase))
          let r1 := M.tug_drive2point tug turn_p
            (M.normalize_hdg (tug.pos.hdg + (if right then 90 else -90)))
          if r1.1 = false then drive_away_fallback M r1.2
          else
            let r2 := M.tug_drive2point r1.2 s.bp.start_pos s.bp.start_hdg
            if r2.1 = false then drive_away_fallback M r2.2 else some r2.2
        else some r0.2
    tug1.map (fun t => step_next (tug_upd (fun _ => t) s))

/-! ## The tick function -/

/-- The function `tug_pos_update`. Its call of `tug_speed` divides by
`bp.d_t`, which the ghost log `divs` records. -/
def tug_pos_update (M : Ext) (my_pos : vect2_t) (my_hdg : ℚ) (pos_only : Bool)
    (s : State) : State :=
  let tug := bp_ls_tug s
  let steer := s.drs.tire_steer_cmd s.bp.acf.nw_i
  let tug_spd := tug_speed M s
  let radius := M.tan (DEG2RAD M (90 - tug.cur_steer)) * tug.veh.wheelbase
  let tug_hdg : ℚ :=
    if pos_only then tug.pos.hdg
    else if s.slave_mode then M.normalize_hdg (my_hdg + steer)
    else if |radius| < 1000 then
      let d_hdg := RAD2DEG M (tug_spd / radius) * s.bp.d_t
      let tug_hdg := M.normalize_hdg (tug.pos.hdg + d_hdg)
      let r_hdg := M.rel_hdg my_hdg tug_hdg
      if r_hdg > s.bp.veh.max_steer then M.normalize_hdg (my_hdg + s.bp.veh.max_steer)
      else if r_hdg < -s.bp.veh.max_steer then M.normalize_hdg (my_hdg - s.bp.veh.max_steer)
      else tug_hdg
    else tug.pos.hdg
  let dir := M.hdg2dir my_hdg
  let s1 : State := { s with divs := s.divs ++ [s.bp.d_t] }
  if s.bp.step = PB_STEP_GRABBING ∧ tug.info.lift_type = lift_t.LIFT_WINCH then
    tug_upd (fun t => M.tug_set_pos t
      (vect2_add s.bp.winching.start_acf_pos
        (vect2_scmul dir ((-s.bp.acf.nw_z) + (-tug.info.plat_z)))) my_hdg 0) s1
  else
    let off_v := vect2_scmul (M.hdg2dir tug_hdg)
      ((-tug.info.lift_wall_z) + M.tug_lift_wall_off tug)
    let tug_pos := vect2_add (vect2_add my_pos (vect2_scmul dir (-s.bp.acf.nw_z))) off_v
    tug_upd (fun t => M.tug_set_pos t tug_pos tug_hdg tug_spd) s1

/-- The test `list_head(&bp_ls.tug->segs) == NULL && bp.step >= PB_STEP_GRABBING
&& bp.step <= PB_STEP_UNGRABBING` of `draw_tugs` and `bp_run`. -/
def tug_is_attached (s : State) : Bool :=
  (bp_ls_tug s).segs.isEmpty && decide (s.bp.step ≥ PB_STEP_GRABBING) &&
    decide (s.bp.step ≤ PB_STEP_UNGRABBING)

/-- The function `draw_tugs`. -/
def draw_tugs (M : Ext) (s : State) : State :=
  match s.tug with
  | none => s
  | some _ =>
    if tug_is_attached s then
      tug_pos_update M { x := s.drs.local_x, y := -s.drs.local_z } s.drs.hdg true s
    else s

/-- The deltas that `bp_run` computes once the tick is long enough. -/
def bp_run_delta (M : Ext) (s : State) : State :=
  { s with bp := { s.bp with
      d_pos := {
        pos := vect2_sub s.bp.cur_pos.pos s.bp.last_pos.pos,
        hdg := M.rel_hdg s.bp.last_pos.hdg s.bp.cur_pos.hdg,
        spd := s.bp.cur_pos.spd - s.bp.last_pos.spd },
      d_t := s.bp.cur_t - s.bp.last_t } }

/-- The tug update of `bp_run`: `tug_run`, then `tug_pos_update` while the
tug holds the nose gear. -/
def bp_run_tug (M : Ext) (s : State) : State :=
  match s.tug with
  | none => s
  | some _ =>
    let s := tug_upd (fun t => M.tug_run t s.bp.d_t
      (decide (s.bp.step = PB_STEP_DRIVING_UP_CONNECT) ||
        decide (s.bp.step = PB_STEP_MOVING_AWAY))) s
    if tug_is_attached s then tug_pos_update M s.bp.cur_pos.pos s.bp.cur_pos.hdg false s
    else s

/-- The steering-authority test of `bp_run`: in master mode, past
`PB_STEP_START`, the host reports nosewheel steering not enabled. -/
def nw_steer_lost (s : State) : Bool :=
  !s.slave_mode && decide (s.bp.step > PB_STEP_START) && decide (s.drs.nw_steer_on ≠ 1)

/-- The writes to `nw_steer_on` and `override_steer` that `bp_run` does in
master mode. -/
def bp_run_steer_override (s : State) : State :=
  if s.slave_mode = false then
    { s with drs := { s.drs with
        nw_steer_on := 1,
        override_steer :=
          if s.bp.step ≥ PB_STEP_DRIVING_UP_CONNECT ∧ s.bp.step ≤ PB_STEP_MOVING_AWAY
          then 1 else 0 } }
  else s

/-- The default value of `bp_connected` that `bp_run` writes. -/
def bp_run_connected (s : State) : State :=
  { s with bp_connected :=
      decide (s.bp.step ≥ PB_STEP_CONNECTED) && decide (s.bp.step ≤ PB_STEP_MOVING_AWAY) }

/-- The stop signal of `bp_run`: no late plan is pending and either the master
has an empty queue with manual push inactive, or the slave sees `op_complete`. -/
def stop_signal (s : State) : Bool :=
  !s.late_plan_requested &&
    ((!s.slave_mode && (s.bp.segs.isEmpty && !s.push_manual.active)) ||
      (s.slave_mode && s.op_complete))

/-- The phase that the stop block of `bp_run` assigns once the tug holds the
gear (`bp.step >= PB_STEP_GRABBING`). -/
def bp_run_stop_step (s : State) : Nat :=
  if s.bp.step < PB_STEP_STOPPING then
    if ABS s.bp.cur_pos.spd < SPEED_COMPLETE_THRESH ∧ pbrake_is_set s = true then
      PB_STEP_STOPPED
    else PB_STEP_STOPPING
  else s.bp.step

/-- The stop block of `bp_run`: `none` when the session is torn down (the
caller runs `bp_complete` and returns 0), otherwise the state with the phase
fast-forwarded. -/
def bp_run_stop (s : State) : Option State :=
  if stop_signal s then
    if s.bp.step < PB_STEP_GRABBING then none
    else some { s with bp := { s.bp with step := bp_run_stop_step s } }
  else some s

/-- The quick-debug block of `bp_run`: `none` when the session is torn down
from `PB_STEP_UNGRABBING`; the state it carries is the one handed to
`bp_complete`. -/
def bp_run_quick_debug (M : Ext) (s : State) : State × Bool :=
  if s.slave_mode = false ∧ s.tug.isSome = true ∧ (bp_ls_tug s).info.quick_debug = true then
    if s.bp.step < PB_STEP_CONNECTED then
      let lift := (bp_ls_tug s).info.lift_height + s.bp.acf.nw_len
      let s : State := { s with
        bp := { s.bp with step := PB_STEP_CONNECTED },
        drs := { s.drs with leg_len := dr_setvf1 s.drs.leg_len s.bp.acf.nw_i lift } }
      (tug_upd (fun t => M.tug_set_pos t ZERO_VECT2 s.bp.cur_pos.hdg 0) s, true)
    else if s.bp.step = PB_STEP_UNGRABBING then
      ({ s with drs := { s.drs with
          leg_len := dr_setvf1 s.drs.leg_len s.bp.acf.nw_i s.bp.acf.nw_len } }, false)
    else (s, true)
  else (s, true)

/-- The `switch (bp.step)` of `bp_run`. The outer `none` is a failed `VERIFY`;
the flag is false when the case returns 0 from `bp_run`. -/
def bp_run_switch (M : Ext) (s : State) : Option (State × Bool) :=
  if s.bp.step = PB_STEP_OFF then none
  else if s.bp.step = PB_STEP_TUG_LOAD then
    let r := pb_step_tug_load M s
    if r.1 = false then some (r.2, false)
    else some ({ r.2 with
      tug_pending_mode := r.2.tug_auto_start && r.2.tug_starts_next_plane }, true)
  else if s.bp.step = PB_STEP_START then
    if !s.tug_pending_mode || !s.tug_auto_start || !s.tug_starts_next_plane then
      (pb_step_start M s).map (fun s => (s, true))
    else some (s, true)
  else if s.bp.step = PB_STEP_DRIVING_UP_CLOSE then some (pb_step_driving_up_close M s, true)
  else if s.bp.step = PB_STEP_WAITING_FOR_DOORS then some (pb_step_waiting_for_doors s, true)
  else if s.bp.step = PB_STEP_OPENING_CRADLE then some (pb_step_opening_cradle s, true)
  else if s.bp.step = PB_STEP_WAITING_FOR_PBRAKE then
    (pb_step_waiting_for_pbrake M s).map (fun s => (s, true))
  else if s.bp.step = PB_STEP_DRIVING_UP_CONNECT then
    some (pb_step_driving_up_connect M s, true)
  else if s.bp.step = PB_STEP_GRABBING then some (pb_step_grab M s, true)
  else if s.bp.step = PB_STEP_LIFTING then some (pb_step_lift M s, true)
  else if s.bp.step = PB_STEP_CONNECTED then some (pb_step_connected M s, true)
  else if s.bp.step = PB_STEP_STARTING then some (pb_step_starting M s, true)
  else if s.bp.step = PB_STEP_PUSHING then some (pb_step_pushing M s, true)
  else if s.bp.step = PB_STEP_STOPPING then some (pb_step_stopping M s, true)
  else if s.bp.step = PB_STEP_STOPPED then some (pb_step_stopped M s, true)
  else if s.bp.step = PB_STEP_LOWERING then some (pb_step_lowering M s, true)
  else if s.bp.step = PB_STEP_UNGRABBING then some (pb_step_ungrabbing s, true)
  else if s.bp.step = PB_STEP_WAITING4OK2DISCO then some (pb_step_waiting4ok2disco M s, true)
  else if s.bp.step = PB_STEP_MOVING_AWAY then some (pb_step_moving_away M s, true)
  else if s.bp.step = PB_STEP_CLOSING_CRADLE then some (pb_step_closing_cradle s, true)
  else if s.bp.step = PB_STEP_STARTING2CLEAR then
    (pb_step_starting2clear M s).map (fun s => (s, true))
  else if s.bp.step = PB_STEP_MOVING2CLEAR then
    some (if M.tug_is_stopped (bp_ls_tug s) then step_next s else s, true)
  else if s.bp.step = PB_STEP_CLEAR_SIGNAL then
    (pb_step_clear_signal M s).map (fun s => (s, true))
  else if s.bp.step = PB_STEP_DRIVING_AWAY then
    if M.tug_is_stopped (bp_ls_tug s) = true ∨
        s.bp.cur_t - s.bp.step_start_t > MAX_DRIVING_AWAY_DELAY then
      some (bp_complete s, false)
    else some (s, true)
  else some (s, true)

/-- The end of `bp_run`: the pose, time and steer of this tick become the
last ones. -/
def bp_run_finish (s : State) : State :=
  { s with bp := { s.bp with
      last_pos := s.bp.cur_pos,
      last_t := s.bp.cur_t,
      last_steer := s.drs.tire_steer_cmd s.bp.acf.nw_i } }

/-- The state of `bp_run` when it reaches the stop block: pose gathered, tug
moved, deltas computed, steering override and `bp_connected` written. -/
def bp_run_prelude (M : Ext) (s : State) : State :=
  bp_run_connected (bp_run_steer_override (bp_run_tug M (bp_run_delta M
    (draw_tugs M (bp_gather M s)))))

/-- The part of `bp_run` from the quick-debug block to the end. -/
def bp_run_phase (M : Ext) (s : State) : Option (Int × State) :=
  let q := bp_run_quick_debug M s
  if q.2 = false then some (0, bp_complete q.1)
  else
    let s : State :=
      if q.1.bp.step ≠ PB_STEP_WAITING4OK2DISCO then { q.1 with disco_win := false }
      else q.1
    match bp_run_switch M s with
    | none => none
    | some (s, true) => some (-1, bp_run_finish s)
    | some (s, false) => some (0, s)

/-- The function `bp_run`, the per-tick callback. The result is the value
returned to the host (-1: call again next frame, 0: stop calling) and the new
state; `none` is a failed `VERIFY`. -/
def bp_run (M : Ext) (s : State) : Option (Int × State) :=
  let s := draw_tugs M (bp_gather M s)
  if s.bp.cur_t - s.bp.last_t < MIN_STEP_TIME then some (-1, s)
  else
    let s := bp_run_tug M (bp_run_delta M s)
    if nw_steer_lost s then some (0, bp_complete s)
    else
      let s := bp_run_connected (bp_run_steer_override s)
      match bp_run_stop s with
      | none => some (0, bp_complete s)
      | some s => bp_run_phase M s

/-- The function `bp_reconnect_notify` of `xplane.c`: on the master it
requests a late plan and starts the planner camera under `VERIFY`; whether
`bp_cam_start` succeeds is the host observation `drs.cam_can_start`, and `none`
is the failed `VERIFY`. -/
def bp_reconnect_notify (s : State) : Option State :=
  if s.slave_mode then some s
  else if s.drs.cam_can_start = false then none
  else some { s with late_plan_requested := true }

/-- The function `recon_handler`: the operator's reconnect command; `none` is
the failed `VERIFY` of `bp_reconnect_notify`. -/
def recon_handler (s : State) : Option (Int × State) :=
  if s.bp.step ≠ PB_STEP_WAITING4OK2DISCO then some (0, s)
  else
    let s : State := { s with
      op_complete := false,
      bp := { s.bp with
        reconnect := true, step := PB_STEP_GRABBING, step_start_t := s.bp.cur_t } }
    (bp_reconnect_notify s).map (fun s => (1, s))

/-! ## The session between ticks -/

/-- The function `acf_on_gnd_stopped`: on the ground, slower than 1 m/s (the
test `vect3_abs(v) >= 1` on the squares), gear extended. -/
def acf_on_gnd_stopped (s : State) : Bool :=
  if s.drs.onground_any ≠ 1 then false
  else if s.drs.local_vx * s.drs.local_vx + s.drs.local_vy * s.drs.local_vy +
      s.drs.local_vz * s.drs.local_vz ≥ 1 then false
  else if s.drs.gear_deploy 0 ≠ 1 then false
  else true

/-- The function `bp_can_start`. The compatibility list of `acf_is_compatible`
and the engine tests `eng_ok2start` and `eng_is_running` are observations of
the host. -/
def bp_can_start (s : State) : Bool :=
  if s.drs.acf_compatible = false then false
  else if acf_on_gnd_stopped s = false then false
  else if s.drs.eng_ok2start = false ∧ s.drs.eng_running = true then false
  else if s.push_manual.active = false then
    if s.bp.segs.isEmpty = true ∧ s.late_plan_requested = false ∧ s.slave_mode = false then
      false
    else true
  else true

/-- The message that `acf_on_gnd_stopped` stores in `*reason` when it returns
false; `none` when it returns true. -/
def acf_on_gnd_stopped_reason (s : State) : Option String :=
  if s.drs.onground_any ≠ 1 then some "Pushback failure: aircraft not on ground."
  else if s.drs.local_vx * s.drs.local_vx + s.drs.local_vy * s.drs.local_vy +
      s.drs.local_vz * s.drs.local_vz ≥ 1 then
    some "Pushback failure: aircraft not stationary."
  else if s.drs.gear_deploy 0 ≠ 1 then some "Pushback failure: gear not extended."
  else none

/-- The message that `bp_can_start` stores in `*reason` when it returns false,
as `bp_start` calls it (with a non-NULL `reason`); `none` when it returns
true. -/
def bp_can_start_reason (s : State) : Option String :=
  if s.drs.acf_compatible = false then
    some "Pushback failure: aircraft is not compatible with BetterPushback."
  else if acf_on_gnd_stopped s = false then acf_on_gnd_stopped_reason s
  else if s.drs.eng_ok2start = false ∧ s.drs.eng_running = true then
    some ("Pushback failure: cannot push this aircraft with engines running. " ++
      "Shutdown engines first.")
  else if s.push_manual.active = false then
    if s.bp.segs.isEmpty = true ∧ s.late_plan_requested = false ∧ s.slave_mode = false then
      some ("Pushback failure: please first plan your pushback to tell me " ++
        "where you want to go.")
    else none
  else none

/-- The function `bp_start`: the session enters the phase number 1 and the
flight loop `bp_run` is scheduled. -/
def bp_start (M : Ext) (s : State) : Bool × State :=
  if s.bp_started then (true, s)
  else if bp_can_start s = false then (false, s)
  else
    let s := bp_gather M s
    let s : State := { s with bp := { s.bp with
      last_pos := s.bp.cur_pos,
      last_t := s.bp.cur_t,
      step := 1,
      step_start_t := s.bp.cur_t,
      start_pos := s.bp.cur_pos.pos,
      start_hdg := s.bp.cur_pos.hdg } }
    (true, { s with
      bp_started := true,
      drs := { s.drs with landing_lights_on := 0, taxi_light_on := 0 } })

/-- What the host, the operator's menus, the planner and the network peer may
change between two ticks: everything except the session context `bp` (of which
only the path queue is theirs to change), the tug object, the simulator
version, the started flag, the master/slave role and the ghost logs. A change
of role goes through `bp_fini`. -/
def host_step (s s1 : State) : Prop :=
  s1.bp = { s.bp with segs := s1.bp.segs } ∧ s1.tug = s.tug ∧
    s1.bp_xp_ver = s.bp_xp_ver ∧ s1.bp_started = s.bp_started ∧
    s1.slave_mode = s.slave_mode ∧ s1.calls = s.calls ∧ s1.divs = s.divs

/-- The states of one session between ticks: `bp_start` succeeds on an idle
plugin (no session, no tug, empty divisor log); then ticks of `bp_run` while
the session is started, changes by the host, the operator's stop, disconnect
and reconnect commands, and `bp_fini` (abort or change of role), which runs
`bp_complete`. -/
inductive session (M : Ext) : State → Prop where
  | start (s s1 : State) : s.bp_started = false → s.tug = none → s.divs = [] →
      bp_start M s = (true, s1) → session M s1
  | tick (s s1 : State) (r : Int) : session M s → s.bp_started = true →
      bp_run M s = some (r, s1) → session M s1
  | host (s s1 : State) : session M s → host_step s s1 → session M s1
  | stop (s : State) : session M s → session M (bp_stop s).2
  | disco (s : State) : session M s → session M (disco_handler s).2
  | recon (s s1 : State) (r : Int) : session M s → recon_handler s = some (r, s1) →
      session M s1
  | fini (s : State) (slave : Bool) : session M s →
      session M { bp_complete s with slave_mode := slave }

/-- A step inside a tick that leaves the session running: the tick delta, the
started flag and the allocation of the tug are kept, the phase does not go
back, and every divisor it logs is the tick delta. -/
def keeps (s s1 : State) : Prop :=
  s1.bp.d_t = s.bp.d_t ∧ s1.bp_started = s.bp_started ∧
    s1.tug.isSome = s.tug.isSome ∧ s.bp.step ≤ s1.bp.step ∧
    ∀ d ∈ s1.divs, d ∈ s.divs ∨ d = s.bp.d_t

/-- A step inside a tick that tears the session down: it ends in phase OFF,
not started, without a tug, and every divisor it logs is the tick delta. -/
def torn (s s1 : State) : Prop :=
  s1.bp_started = false ∧ s1.tug = none ∧ s1.bp.step = PB_STEP_OFF ∧
    ∀ d ∈ s1.divs, d ∈ s.divs ∨ d = s.bp.d_t

/-- The invariant of a session between ticks: every tick delta that was used
as a divisor is at least `MIN_STEP_TIME`; past the tug-dispatch phase the
stored tick delta is at least `MIN_STEP_TIME`; while the session is started
the tug is allocated exactly from `PB_STEP_START` on; when it is not started
there is no tug and the phase is OFF. -/
def session_inv (s : State) : Prop :=
  (∀ d ∈ s.divs, MIN_STEP_TIME ≤ d) ∧
    (PB_STEP_TUG_LOAD < s.bp.step → MIN_STEP_TIME ≤ s.bp.d_t) ∧
    (s.bp_started = true → (s.tug.isSome = true ↔ PB_STEP_START ≤ s.bp.step)) ∧
    (s.bp_started = false → s.tug = none ∧ s.bp.step = PB_STEP_OFF)

/-! ## Scenarios

A concrete instance of the external functions and concrete session states, on
which the definitions above can be evaluated. -/

/-- The function `rel_hdg` of libacfutils: the signed turn from `hdg1` to
`hdg2`, in degrees. -/
def rel_hdg (hdg1 hdg2 : ℚ) : ℚ :=
  if hdg1 > hdg2 then
    if hdg1 > hdg2 + 180 then 360 - hdg1 + hdg2 else -(hdg1 - hdg2)
  else
    if hdg2 > hdg1 + 180 then -(360 - hdg2 + hdg1) else hdg2 - hdg1

/-- The function `normalize_hdg` of libacfutils: the heading brought into
`[0, 360)`. -/
def normalize_hdg (hdg : ℚ) : ℚ := hdg - 360 * (⌊hdg / 360⌋ : Int)

/-- Triangle wave in half-turns: `1` at `0`, `0` at `1/2`, `-1` at `1`, period
`2`. It agrees with the cosine at every multiple of a quarter turn. -/
def tri_cos (t : ℚ) : ℚ :=
  let u := t - 2 * (⌊(t + 1) / 2⌋ : Int)
  1 - 2 * |u|

/-- Stand-in for `hdg2dir`: exact on the headings 0, 90, 180 and 270. -/
def hdg2dir_example (hdg : ℚ) : vect2_t :=
  { x := tri_cos (hdg / 180 - 1 / 2), y := tri_cos (hdg / 180) }

/-- Stand-in for `dir2hdg`: exact on axis-aligned directions. -/
def dir2hdg_example (v : vect2_t) : ℚ :=
  if v.x = 0 then (if v.y ≥ 0 then 0 else 180)
  else if v.x > 0 then 90 else 270

/-- A planner for the example scenarios, following the completion rule of the
specification: the head segment is complete when the projection of (position -
segment end) on the direction of travel is non-negative; otherwise it asks for
neutral steering at the maximum speed of the direction of travel. -/
def drive_seg_example (pos : vehicle_pos_t) (veh : vehicle_t) (seg : seg_t)
    (_rest : List seg_t) (_last_mis_hdg _d_t : ℚ) : drive_out_t :=
  let end_dir := hdg2dir_example seg.end_hdg
  let end_dir := if seg.backward then vect2_neg end_dir else end_dir
  { complete := decide (vect2_dotprod end_dir (vect2_sub pos.pos seg.end_pos) ≥ 0),
    last_mis_hdg := 0,
    steer := 0,
    speed := if seg.backward then -veh.max_rev_spd else veh.max_fwd_spd,
    decel := false }

/-- A tug of the example scenarios. -/
def tug_example : tug_t :=
  { info := {
      tug_name := "example.tug", mass := 4000, max_fwd_speed := 4, max_TE := 50000,
      lift_wall_z := 1, lift_height := 1 / 10, apch_dist := 5 },
    veh := { wheelbase := 3, max_steer := 40, max_fwd_spd := 4, max_rev_spd := 2 },
    veh_slow := { wheelbase := 3, max_steer := 40, max_fwd_spd := 1 / 2, max_rev_spd := 1 / 2 } }

/-- A concrete instance of the external functions. The geometry is exact on
axis-aligned vectors and on angles that are multiples of 90 degrees, which is
all that the example scenarios use: the trigonometric functions are triangle
waves, `tan` at a quarter turn has the value that the C library returns for
`tan(M_PI / 2)`, distances are exact along an axis. The tug moves only when
it is told to (`tug_run` is the identity). -/
def ext_example : Ext :=
  { M_PI := 355 / 113,
    sin := fun x => tri_cos (x / (355 / 113) - 1 / 2),
    cos := fun x => tri_cos (x / (355 / 113)),
    tan := fun x =>
      if tri_cos (x / (355 / 113)) = 0 then 16331239353195370
      else tri_cos (x / (355 / 113) - 1 / 2) / tri_cos (x / (355 / 113)),
    asin := fun x => x * 90,
    rel_hdg := rel_hdg,
    normalize_hdg := normalize_hdg,
    hdg2dir := hdg2dir_example,
    dir2hdg := dir2hdg_example,
    vect2_set_abs := fun v a => vect2_scmul v (a / (|v.x| + |v.y|)),
    vect2_dist := fun a b => |a.x - b.x| + |a.y - b.y|,
    vect2_rot := fun v a =>
      { x := v.x * tri_cos (a / 180) + v.y * tri_cos (a / 180 - 1 / 2),
        y := v.y * tri_cos (a / 180) - v.x * tri_cos (a / 180 - 1 / 2) },
    vect2_norm := fun v right =>
      if right then { x := v.y, y := -v.x } else { x := -v.y, y := v.x },
    fx_lin := fun x x1 y1 x2 y2 => ((x - x1) / (x2 - x1)) * (y2 - y1) + y1,
    MIN_SPEED_XP10 := 6 / 10,
    ang_vel_speed_limit := fun _ _ speed => speed,
    drive_seg := drive_seg_example,
    msg_dur := fun _ => 3,
    tug_set_steering := fun t steer _ => { t with cur_steer := steer },
    tug_set_pos := fun t p hdg spd =>
      { t with pos := { pos := p, hdg := hdg, spd := spd }, segs := [] },
    tug_run := fun t _ _ => t,
    tug_is_stopped := fun t => t.segs.isEmpty,
    tug_drive2point := fun t p hdg =>
      (true, { t with segs := t.segs ++ [{ end_pos := p, end_hdg := hdg }] }),
    tug_lift_wall_off := fun _ => 0,
    tug_plat_h := fun t => t.info.plat_h,
    tug_alloc_auto := fun _ _ _ _ _ _ => some tug_example,
    tug_alloc_man := fun name _ _ _ =>
      if name = "example.tug" then some tug_example else none }

/-- An aircraft of 1000 kg, nose gear on the ground, steering neutral, at
rest, whose stored push force is at the force limit of 5000 N; the tick
lasts 0.02 s. -/
def state_saturated : State :=
  { bp := {
      d_t := 1 / 50, last_force := 5000, cur_t := 100, last_t := 100 - 1 / 50,
      veh := {
        wheelbase := 5, max_steer := 35, max_fwd_spd := 4, max_rev_spd := 111 / 100,
        max_accel := 1 / 4 },
      acf := { n_gear := 3, gear_is := [0, 1, 2], nw_i := 0, nw_z := -4, main_z := 1 },
      step := PB_STEP_PUSHING },
    tug := some tug_example,
    drs := { acf_mass := 1000, gear_on_ground := fun _ => 1, nw_steer_on := 1 },
    bp_started := true }

/-- A body whose tug stands at the steering stop, 35 degrees to the right of
the body heading, both at rest; during the tick the body heading has turned
by one degree to the left. -/
def state_at_steer_stop : State :=
  { bp := {
      d_t := 1 / 50, cur_t := 100, last_t := 100 - 1 / 50,
      d_pos := { hdg := -1 },
      veh := {
        wheelbase := 5, max_steer := 35, max_fwd_spd := 4, max_rev_spd := 111 / 100,
        max_accel := 1 / 4 },
      acf := { n_gear := 3, gear_is := [0, 1, 2], nw_i := 0, nw_z := -4, main_z := 1 },
      step := PB_STEP_PUSHING },
    tug := some { tug_example with pos := { hdg := 35 } },
    drs := { acf_mass := 1000, gear_on_ground := fun _ => 1, nw_steer_on := 1 },
    bp_started := true }

/-- A straight segment driven forwards, from the origin 10 m to the north. -/
def seg_forward : seg_t :=
  { type := seg_type_t.SEG_TYPE_STRAIGHT, start_pos := { x := 0, y := 0 },
    start_hdg := 0, end_pos := { x := 0, y := 10 }, end_hdg := 0, backward := false, len := 10 }

/-- The straight segment that follows: driven backwards, from there back to
the origin. -/
def seg_backward : seg_t :=
  { type := seg_type_t.SEG_TYPE_STRAIGHT, start_pos := { x := 0, y := 10 },
    start_hdg := 0, end_pos := { x := 0, y := 0 }, end_hdg := 0, backward := true, len := 10 }

/-- A body heading north that has just reached the end of `seg_forward`, with
`seg_backward` next in the queue, brakes released, no reversal pending, at
simulation time `t`. -/
def state_at_reversal (t : ℚ) : State :=
  { bp := {
      d_t := 1 / 50, cur_t := t, last_t := t - 1 / 50,
      cur_pos := { pos := { x := 0, y := 10 }, hdg := 0, spd := 0 },
      last_pos := { pos := { x := 0, y := 10 }, hdg := 0, spd := 0 },
      segs := [seg_forward, seg_backward],
      veh := {
        wheelbase := 5, max_steer := 35, max_fwd_spd := 4, max_rev_spd := 111 / 100,
        max_accel := 1 / 4 },
      acf := { n_gear := 3, gear_is := [0, 1, 2], nw_i := 0, nw_z := -4, main_z := 1 },
      step := PB_STEP_PUSHING },
    tug := some tug_example,
    drs := { acf_mass := 1000, gear_on_ground := fun _ => 1, nw_steer_on := 1 },
    bp_started := true }

/-- The tick that follows `state_at_reversal 0` one second later: the state
that `bp_run_push` left, at simulation time 1. -/
def state_after_reversal_at_zero : State :=
  { (bp_run_push ext_example (state_at_reversal 0)).1 with
    bp := { (bp_run_push ext_example (state_at_reversal 0)).1.bp with cur_t := 1 } }

/-- A body on `seg_backward` whose reversal timer holds `t0`, at simulation
time `t`, brakes released. -/
def state_in_pause (t0 t : ℚ) : State :=
  { bp := {
      d_t := 1 / 50, cur_t := t, last_t := t - 1 / 50, reverse_t := t0,
      cur_pos := { pos := { x := 0, y := 10 }, hdg := 0, spd := 0 },
      last_pos := { pos := { x := 0, y := 10 }, hdg := 0, spd := 0 },
      segs := [seg_backward],
      veh := {
        wheelbase := 5, max_steer := 35, max_fwd_spd := 4, max_rev_spd := 111 / 100,
        max_accel := 1 / 4 },
      acf := { n_gear := 3, gear_is := [0, 1, 2], nw_i := 0, nw_z := -4, main_z := 1 },
      step := PB_STEP_PUSHING },
    tug := some tug_example,
    drs := { acf_mass := 1000, gear_on_ground := fun _ => 1, nw_steer_on := 1 },
    bp_started := true }

/-- The phases whose handler gates its exit by the state-transition delay. -/
inductive dwell_phase_t where
  | DRIVING_UP_CLOSE
  | WAITING_FOR_PBRAKE
  | DRIVING_UP_CONNECT
  | CONNECTED
  | STOPPING
  | STOPPED
deriving DecidableEq, Repr, Inhabited

/-- The handler of a dwell-gated phase; `none` is a failed `VERIFY`. -/
def dwell_handler (M : Ext) : dwell_phase_t → State → Option State
  | dwell_phase_t.DRIVING_UP_CLOSE, s => some (pb_step_driving_up_close M s)
  | dwell_phase_t.WAITING_FOR_PBRAKE, s => pb_step_waiting_for_pbrake M s
  | dwell_phase_t.DRIVING_UP_CONNECT, s => some (pb_step_driving_up_connect M s)
  | dwell_phase_t.CONNECTED, s => some (pb_step_connected M s)
  | dwell_phase_t.STOPPING, s => some (pb_step_stopping M s)
  | dwell_phase_t.STOPPED, s => some (pb_step_stopped M s)

/-- The value of the local `done` of `pb_step_stopping` at the end of its
master block: the heading of a final turn is reached within one degree and
both steering deflections are below their thresholds. -/
def pb_step_stopping_done (M : Ext) (s : State) : Bool :=
  if s.slave_mode = false then
    let steer := s.drs.tire_steer_cmd s.bp.acf.nw_i
    let hdg_off : Bool :=
      match s.bp.last_hdg with
      | some last_hdg => decide (|M.rel_hdg (corr_acf_pos M s).hdg last_hdg| > 1)
      | none => false
    !hdg_off &&
      !(decide (ABS (bp_ls_tug s).cur_steer > TOW_COMPLETE_TUG_STEER_THRESH) ||
        decide (ABS steer > TOW_COMPLETE_ACF_STEER_THRESH))
  else true

/-- The exit condition of a dwell-gated phase, as its handler tests it: the tug
has stopped; the parking brake is set and the ready-to-connect message is
over; the tug has stopped; the parking brake is released and the connected
message is over; the aircraft is slower than `SPEED_COMPLETE_THRESH` with the
steering straightened out; the parking brake is set (or ignored by
configuration). -/
def dwell_exit_cond (M : Ext) : dwell_phase_t → State → Bool
  | dwell_phase_t.DRIVING_UP_CLOSE, s => M.tug_is_stopped (bp_ls_tug s)
  | dwell_phase_t.WAITING_FOR_PBRAKE, s =>
    pbrake_is_set s &&
      !decide (s.bp.cur_t - s.bp.last_voice_t < M.msg_dur msg_type_t.MSG_RDY2CONN)
  | dwell_phase_t.DRIVING_UP_CONNECT, s => M.tug_is_stopped (bp_ls_tug s)
  | dwell_phase_t.CONNECTED, s =>
    !pbrake_is_set s &&
      !decide (s.bp.cur_t - s.bp.last_voice_t < M.msg_dur msg_type_t.MSG_CONNECTED)
  | dwell_phase_t.STOPPING, s =>
    !decide (ABS s.bp.cur_pos.spd ≥ SPEED_COMPLETE_THRESH) && pb_step_stopping_done M s
  | dwell_phase_t.STOPPED, s => pbrake_is_set s || s.cfg_ignore_park_break

/-- What a dwell-gated handler may do to the phase and its timestamp: it
re-arms the timestamp and keeps the phase, or it keeps both, or it advances
the phase by one with the dwell elapsed. -/
def dwell_outcome (s s1 : State) (cond : Bool) : Prop :=
  (cond = false → s1.bp.step_start_t = s.bp.cur_t ∧ s1.bp.step = s.bp.step) ∧
    (s1.bp.step ≠ s.bp.step →
      cond = true ∧ s.bp.cur_t - s.bp.step_start_t ≥ STATE_TRANS_DELAY ∧
        s1.bp.step = s.bp.step + 1)

/-- A session in phase CONNECTED at time `t`, in the phase since `start`, with
parking brake ratio `pbrake`; the connected message was started at time
`start`. -/
def state_connected (t start pbrake : ℚ) : State :=
  { bp := {
      d_t := 1 / 50, cur_t := t, last_t := t - 1 / 50, step_start_t := start,
      last_voice_t := start - 10,
      cur_pos := { pos := { x := 0, y := 10 }, hdg := 0, spd := 0 },
      last_pos := { pos := { x := 0, y := 10 }, hdg := 0, spd := 0 },
      segs := [seg_backward],
      veh := {
        wheelbase := 5, max_steer := 35, max_fwd_spd := 4, max_rev_spd := 111 / 100,
        max_accel := 1 / 4 },
      acf := { n_gear := 3, gear_is := [0, 1, 2], nw_i := 0, nw_z := -4, main_z := 1 },
      step := PB_STEP_CONNECTED },
    tug := some tug_example,
    drs := {
      acf_mass := 1000, gear_on_ground := fun _ => 1, nw_steer_on := 1, pbrake := pbrake,
      local_x := 0, local_z := -10, sim_time := t + 1 / 50 },
    bp_started := true, bp_connected := true }

/-- A started master session in phase `step` whose path queue is empty (the
operator has stopped it), with the aircraft at rest, steering authority
present and parking brake ratio `pbrake`; the host clock stands at 100.04 s,
the last tick was at 100 s and the phase was entered at 99.5 s. -/
def state_stopped_by_operator (step : Nat) (pbrake : ℚ) : State :=
  { bp := {
      d_t := 1 / 50, cur_t := 100, last_t := 100, step_start_t := 199 / 2,
      last_voice_t := 90, last_hdg := none,
      cur_pos := { pos := { x := 0, y := 10 }, hdg := 0, spd := 0 },
      last_pos := { pos := { x := 0, y := 10 }, hdg := 0, spd := 0 },
      segs := [],
      veh := {
        wheelbase := 5, max_steer := 35, max_fwd_spd := 4, max_rev_spd := 111 / 100,
        max_accel := 1 / 4 },
      acf := { n_gear := 3, gear_is := [0, 1, 2], nw_i := 0, nw_z := -4, main_z := 1 },
      step := step },
    tug := some tug_example,
    drs := {
      acf_mass := 1000, gear_on_ground := fun _ => 1, nw_steer_on := 1, pbrake := pbrake,
      local_x := 0, local_z := -10, sim_time := 100 + 1 / 25 },
    bp_started := true }

/-- A master session in phase PUSHING along one backward segment, lights off,
with left brake ratio `lbrake` and parking brake ratio `pbrake`; the force
state left by the previous tick is 1200 N axial, 300 N of yaw moment. -/
def state_pushing (lbrake pbrake : ℚ) : State :=
  { bp := {
      d_t := 1 / 50, cur_t := 100, last_t := 100, step_start_t := 90,
      last_voice_t := 80, last_force := 1200,
      cur_pos := { pos := { x := 0, y := 10 }, hdg := 0, spd := -1 },
      last_pos := { pos := { x := 0, y := 10 }, hdg := 0, spd := -1 },
      segs := [seg_backward],
      veh := {
        wheelbase := 5, max_steer := 35, max_fwd_spd := 4, max_rev_spd := 111 / 100,
        max_accel := 1 / 4 },
      acf := { n_gear := 3, gear_is := [0, 1, 2], nw_i := 0, nw_z := -4, main_z := 1 },
      step := PB_STEP_PUSHING },
    tug := some tug_example,
    drs := {
      acf_mass := 1000, gear_on_ground := fun _ => 1, nw_steer_on := 1,
      lbrake := lbrake, pbrake := pbrake, axial_force := -1200, rot_force_N := 300,
      local_x := 0, local_z := -10, sim_time := 100 + 1 / 25 },
    bp_started := true, bp_connected := true }

/-- One step of a force-control scenario: the host and the rest of the tick
rewrite the state in any way (`before`), then `push_at_speed` is called with
the given arguments. -/
structure push_tick_t where
  before : State → State
  targ_speed : ℚ
  max_accel : ℚ
  allow_snd_ctl : Bool
  decelerating : Bool

/-- A sequence of `push_at_speed` calls, each preceded by its `before`. -/
def push_ticks (M : Ext) : List push_tick_t → State → State
  | [], s => s
  | t :: ts, s =>
    push_ticks M ts
      (push_at_speed M t.targ_speed t.max_accel t.allow_snd_ctl t.decelerating (t.before s))

/-- An aircraft of 1000 kg rolling forwards at 5 m/s, steering neutral, nose
gear on the ground, no stored push force, on a surface of good friction; the
tick lasts 0.02 s. -/
def state_fast : State :=
  { bp := {
      d_t := 1 / 50, cur_t := 100, last_t := 100 - 1 / 50,
      cur_pos := { pos := { x := 0, y := 10 }, hdg := 0, spd := 5 },
      last_pos := { pos := { x := 0, y := 99 / 10 }, hdg := 0, spd := 5 },
      veh := {
        wheelbase := 5, max_steer := 35, max_fwd_spd := 4, max_rev_spd := 111 / 100,
        max_accel := 1 / 4 },
      acf := { n_gear := 3, gear_is := [0, 1, 2], nw_i := 0, nw_z := -4, main_z := 1 },
      step := PB_STEP_PUSHING },
    tug := some tug_example,
    drs := {
      acf_mass := 1000, gear_on_ground := fun _ => 1, nw_steer_on := 1,
      rwy_friction := RWY_FRICTION_GOOD },
    bp_started := true }

/-- The tick time accumulated by a sequence of `push_at_speed` calls: the sum
of the tick deltas `bp.d_t` that the calls read. -/
def push_ticks_time (M : Ext) : List push_tick_t → State → ℚ
  | [], _ => 0
  | t :: ts, s =>
    (t.before s).bp.d_t +
      push_ticks_time M ts
        (push_at_speed M t.targ_speed t.max_accel t.allow_snd_ctl t.decelerating (t.before s))

/-- The state `state_saturated` with the stored push force `f` and the nose
gear off the ground. -/
def state_nose_up (f : ℚ) : State :=
  { state_saturated with
    bp := { state_saturated.bp with last_force := f },
    drs := { state_saturated.drs with gear_on_ground := fun _ => 0 } }

/-- The state `state_saturated` with the stored push force `f`: nose gear on
the ground, aircraft of 1000 kg, tick of 0.02 s. -/
def state_on_ground (f : ℚ) : State :=
  { state_saturated with bp := { state_saturated.bp with last_force := f } }

/-- The divisor `bp.acf.n_gear - 1` of the last statement of `read_gear_info`,
`bp.acf.main_z /= bp.acf.n_gear - 1`. -/
def read_gear_info_divisor (s : State) : Int :=
  ((s.bp.acf.gear_is ++ read_gear_info_eligible s).length : Int) - 1

/-- An idle plugin on X-Plane 12 under an aircraft with `n` wheeled gears,
deployed and on the ground (gear 0 at 4 m ahead of the origin, the others 1 m
behind it), of which the gears selected by `steers` are steerable. -/
def state_gears (n : Nat) (steers : Nat → Int) : State :=
  { drs := {
      acf_mass := 1000,
      gear_types := fun i => if i < n then 2 else 0,
      gear_on_ground := fun i => if i < n then 1 else 0,
      gear_deploy := fun i => if i < n then 1 else 0,
      gear_steers := steers,
      tire_z := fun i => if i = 0 then -4 else 1,
      nw_steerdeg1 := 60, nw_steerdeg2 := 10,
      onground_any := 1 },
    bp_xp_ver := 12000 }

/-- An idle plugin on X-Plane 12 under an aircraft whose only eligible gear is
not steerable and sits 4 m behind the origin: the mean main-gear position that
`read_gear_info` computes is `0.0 / 0`. -/
def state_single_gear : State :=
  { state_gears 1 (fun _ => 0) with
    drs := { (state_gears 1 (fun _ => 0)).drs with tire_z := fun _ => 4 } }

/-- An idle plugin on X-Plane 12 under a parked aircraft with three gears, the
nose gear steerable, and a plan of one backward segment. -/
def state_idle : State :=
  { state_gears 3 (fun i => if i = 0 then 1 else 0) with
    bp := { segs := [seg_backward] } }

/-- The session right after `bp_start` on the idle plugin, before the first
tick. -/
def state_begun (M : Ext) : State := (bp_start M state_idle).2

/-- A run of flight-loop callbacks: before each one the host advances the
simulator clock to the given time; `bp_run` is called while the session is
started, and the run ends at a failed `VERIFY`. -/
def flight_loop (M : Ext) : List ℚ → State → State
  | [], s => s
  | t :: ts, s =>
    let s0 : State := { s with drs := { s.drs with sim_time := t } }
    if s0.bp_started = true then
      match bp_run M s0 with
      | some (_, s1) => flight_loop M ts s1
      | none => s0
    else s0

/-- The external functions of the example scenarios with a tug whose
configuration sets `quick_debug`. -/
def ext_quick : Ext :=
  { ext_example with
    tug_alloc_auto := fun _ _ _ _ _ _ =>
      some { tug_example with info := { tug_example.info with quick_debug := true } } }

/-- The session on the idle plugin with the quick-debug tug after three
callbacks: two full ticks one second apart (the tug is loaded, then its lift
holds the nose gear), then a callback half a millisecond later, which is too
short to pass the minimum-interval check. -/
def state_quick_held : State :=
  flight_loop ext_quick [1, 2, 2 + 1 / 2000] (state_begun ext_quick)

/-- A session in phase GRABBING with a winch-type tug: the winching started
with the body at 10 m north of the origin, and the body is now at `y` m. -/
def state_winching (y : ℚ) : State :=
  { bp := {
      d_t := 1 / 50, cur_t := 100, last_t := 100 - 1 / 50, step_start_t := 95,
      cur_pos := { pos := { x := 0, y := y }, hdg := 0, spd := 1 / 10 },
      last_pos := { pos := { x := 0, y := y }, hdg := 0, spd := 1 / 10 },
      winching := { start_acf_pos := { x := 0, y := 10 } },
      segs := [seg_backward],
      veh := {
        wheelbase := 5, max_steer := 35, max_fwd_spd := 4, max_rev_spd := 111 / 100,
        max_accel := 1 / 4 },
      acf := { n_gear := 3, gear_is := [0, 1, 2], nw_i := 0, nw_z := -4, main_z := 1 },
      step := PB_STEP_GRABBING },
    tug := some { tug_example with
      info := { tug_example.info with lift_type := lift_t.LIFT_WINCH, plat_z := 1 / 2 } },
    drs := {
      acf_mass := 1000, gear_on_ground := fun _ => 1, nw_steer_on := 1,
      local_x := 0, local_z := -y, sim_time := 100 + 1 / 50 },
    bp_started := true }

/-- The session of `state_pushing` with released brakes in manual-push mode:
towing backwards, keyboard steering at 60 of 100 to the right, no yoke. -/
def state_manual_push : State :=
  { state_pushing 0 0 with
    push_manual := { active := true, forward_direction := false, angle := 60 } }

/-- The session of `state_pushing` in phase STOPPING, after a straight last
segment, with the tug's steering still 10 degrees off centre. -/
def state_stopping_crooked : State :=
  { state_pushing 0 0 with
    bp := { (state_pushing 0 0).bp with step := PB_STEP_STOPPING, last_hdg := none },
    tug := some { tug_example with cur_steer := 10 } }

/-- A started master session in phase OPENING_CRADLE, entered at time 0, whose
last tick was at `t - 1/50`; the host clock stands at `t` and the door sensors
report `doors`. -/
def state_cradle (t : ℚ) (doors : Bool) : State :=
  { bp := {
      d_t := 1 / 50, cur_t := t - 1 / 50, last_t := t - 1 / 50, step_start_t := 0,
      last_voice_t := 0,
      cur_pos := { pos := { x := 0, y := 10 }, hdg := 0, spd := 0 },
      last_pos := { pos := { x := 0, y := 10 }, hdg := 0, spd := 0 },
      segs := [seg_backward],
      veh := {
        wheelbase := 5, max_steer := 35, max_fwd_spd := 4, max_rev_spd := 111 / 100,
        max_accel := 1 / 4 },
      acf := { n_gear := 3, gear_is := [0, 1, 2], nw_i := 0, nw_z := -4, main_z := 1 },
      step := PB_STEP_OPENING_CRADLE },
    tug := some tug_example,
    drs := {
      acf_mass := 1000, gear_on_ground := fun _ => 1, nw_steer_on := 1,
      doors_closed := doors,
      local_x := 0, local_z := -10, sim_time := t },
    bp_started := true }

/-- The state `s` as a tick finds it half a millisecond after the last tick
that was processed: less than `MIN_STEP_TIME` has passed. -/
def state_short_tick (s : State) : State :=
  { s with drs := { s.drs with sim_time := s.bp.last_t + 1 / 2000 } }

/-- The state `s` with the host reporting nosewheel steering not enabled. -/
def state_steering_off (s : State) : State :=
  { s with drs := { s.drs with nw_steer_on := 0 } }

/-- A master session in phase STARTING, entered at 97 s, parking brake
released, with the aircraft still rolling backward at 0.1 m/s; the host clock
stands at 100.02 s. -/
def state_rolling : State :=
  { state_connected 100 97 0 with
    bp := { (state_connected 100 97 0).bp with step := PB_STEP_STARTING },
    drs := { (state_connected 100 97 0).drs with local_vz := 1 / 10 } }

/-- The session of `state_rolling` one tick later: the tick at 100.02 s has
run, the aircraft has slowed down to 0.07 m/s, the operator has stopped the
push (`bp_stop`) and the host clock stands at 100.04 s. -/
def state_rolling_stopped : State :=
  match bp_run ext_example state_rolling with
  | some (_, s1) =>
    (bp_stop { s1 with drs := { s1.drs with sim_time := 100 + 1 / 25, local_vz := 7 / 100 } }).2
  | none => state_rolling

/-! ## Theorems -/

/-! ### Arithmetic of the helper macros -/

theorem MIN_eq_min (x y : ℚ) : MIN x y = min x y := by
  unfold MIN
  split_ifs with h
  · exact (min_eq_left h.le).symm
  · exact (min_eq_right (not_lt.mp h)).symm

theorem MAX_eq_max (x y : ℚ) : MAX x y = max x y := by
  unfold MAX
  split_ifs with h
  · exact (max_eq_left (le_of_lt h)).symm
  · exact (max_eq_right (not_lt.mp h)).symm

theorem ABS_eq_abs (x : ℚ) : ABS x = |x| := by
  unfold ABS
  split_ifs with h
  · exact (abs_of_pos h).symm
  · exact (abs_of_nonpos (not_lt.mp h)).symm

theorem abs_MAX_MIN_le (L f : ℚ) (hL : 0 ≤ L) : |MAX (-L) (MIN L f)| ≤ L := by
  rw [MAX_eq_max, MIN_eq_min, abs_le]
  constructor
  · exact le_max_left _ _
  · exact max_le (by linarith) (min_le_left _ _)

theorem push_at_speed_lim_nonneg (s : State) (hm : 0 ≤ s.drs.acf_mass) :
    0 ≤ push_at_speed_lim s := by
  unfold push_at_speed_lim FORCE_PER_TON
  positivity

theorem push_at_speed_last_force (M : Ext) (targ_speed max_accel : ℚ)
    (allow_snd_ctl decelerating : Bool) (s : State) :
    ∃ f, (push_at_speed M targ_speed max_accel allow_snd_ctl decelerating s).bp.last_force =
      MAX (-push_at_speed_lim s) (MIN (push_at_speed_lim s) f) :=
  ⟨_, rfl⟩

theorem push_at_speed_abs_le (M : Ext) (targ_speed max_accel : ℚ)
    (allow_snd_ctl decelerating : Bool) (s : State) (hm : 0 ≤ s.drs.acf_mass) :
    |(push_at_speed M targ_speed max_accel allow_snd_ctl decelerating s).bp.last_force| ≤
      FORCE_PER_TON * s.drs.acf_mass / 1000 := by
  obtain ⟨f, hf⟩ := push_at_speed_last_force M targ_speed max_accel allow_snd_ctl decelerating s
  rw [hf]
  have h := abs_MAX_MIN_le (push_at_speed_lim s) f (push_at_speed_lim_nonneg s hm)
  have e : push_at_speed_lim s = FORCE_PER_TON * s.drs.acf_mass / 1000 := by
    unfold push_at_speed_lim
    ring
  rw [← e]
  exact h

theorem push_ticks_append (M : Ext) (ts : List push_tick_t) (t : push_tick_t) (s : State) :
    push_ticks M (ts ++ [t]) s =
      push_at_speed M t.targ_speed t.max_accel t.allow_snd_ctl t.decelerating
        (t.before (push_ticks M ts s)) := by
  induction ts generalizing s with
  | nil => rfl
  | cons a as ih =>
    simp only [List.cons_append, push_ticks]
    exact ih _

/-! ### Frame lemmas

What the force controller and the coupling leave unchanged. -/

@[simp]
theorem push_at_speed_bp_step (M : Ext) (targ_speed max_accel : ℚ) (a d : Bool) (s : State) :
    (push_at_speed M targ_speed max_accel a d s).bp.step = s.bp.step :=
  rfl

@[simp]
theorem push_at_speed_bp_step_start_t (M : Ext) (targ_speed max_accel : ℚ) (a d : Bool) (s : State) :
    (push_at_speed M targ_speed max_accel a d s).bp.step_start_t = s.bp.step_start_t :=
  rfl

@[simp]
theorem push_at_speed_bp_cur_pos (M : Ext) (targ_speed max_accel : ℚ) (a d : Bool) (s : State) :
    (push_at_speed M targ_speed max_accel a d s).bp.cur_pos = s.bp.cur_pos :=
  rfl

@[simp]
theorem push_at_speed_bp_last_pos (M : Ext) (targ_speed max_accel : ℚ) (a d : Bool) (s : State) :
    (push_at_speed M targ_speed max_accel a d s).bp.last_pos = s.bp.last_pos :=
  rfl

@[simp]
theorem push_at_speed_bp_d_pos (M : Ext) (targ_speed max_accel : ℚ) (a d : Bool) (s : State) :
    (push_at_speed M targ_speed max_accel a d s).bp.d_pos = s.bp.d_pos :=
  rfl

@[simp]
theorem push_at_speed_bp_cur_t (M : Ext) (targ_speed max_accel : ℚ) (a d : Bool) (s : State) :
    (push_at_speed M targ_speed max_accel a d s).bp.cur_t = s.bp.cur_t :=
  rfl

@[simp]
theorem push_at_speed_bp_last_t (M : Ext) (targ_speed max_accel : ℚ) (a d : Bool) (s : State) :
    (push_at_speed M targ_speed max_accel a d s).bp.last_t = s.bp.last_t :=
  rfl

@[simp]
theorem push_at_speed_bp_d_t (M : Ext) (targ_speed max_accel : ℚ) (a d : Bool) (s : State) :
    (push_at_speed M targ_speed max_accel a d s).bp.d_t = s.bp.d_t :=
  rfl

@[simp]
theorem push_at_speed_bp_reverse_t (M : Ext) (targ_speed max_accel : ℚ) (a d : Bool) (s : State) :
    (push_at_speed M targ_speed max_accel a d s).bp.reverse_t = s.bp.reverse_t :=
  rfl

@[simp]
theorem push_at_speed_bp_last_voice_t (M : Ext) (targ_speed max_accel : ℚ) (a d : Bool) (s : State) :
    (push_at_speed M targ_speed max_accel a d s).bp.last_voice_t = s.bp.last_voice_t :=
  rfl

@[simp]
theorem push_at_speed_bp_last_mis_hdg (M : Ext) (targ_speed max_accel : ℚ) (a d : Bool) (s : State) :
    (push_at_speed M targ_speed max_accel a d s).bp.last_mis_hdg = s.bp.last_mis_hdg :=
  rfl

@[simp]
theorem push_at_speed_bp_last_steer (M : Ext) (targ_speed max_accel : ℚ) (a d : Bool) (s : State) :
    (push_at_speed M targ_speed max_accel a d s).bp.last_steer = s.bp.last_steer :=
  rfl

@[simp]
theorem push_at_speed_bp_last_hdg (M : Ext) (targ_speed max_accel : ℚ) (a d : Bool) (s : State) :
    (push_at_speed M targ_speed max_accel a d s).bp.last_hdg = s.bp.last_hdg :=
  rfl

@[simp]
theorem push_at_speed_bp_last_seg_is_back (M : Ext) (targ_speed max_accel : ℚ) (a d : Bool) (s : State) :
    (push_at_speed M targ_speed max_accel a d s).bp.last_seg_is_back = s.bp.last_seg_is_back :=
  rfl

@[simp]
theorem push_at_speed_bp_light_warn (M : Ext) (targ_speed max_accel : ℚ) (a d : Bool) (s : State) :
    (push_at_speed M targ_speed max_accel a d s).bp.light_warn = s.bp.light_warn :=
  rfl

@[simp]
theorem push_at_speed_bp_reconnect (M : Ext) (targ_speed max_accel : ℚ) (a d : Bool) (s : State) :
    (push_at_speed M targ_speed max_accel a d s).bp.reconnect = s.bp.reconnect :=
  rfl

@[simp]
theorem push_at_speed_bp_ok2disco (M : Ext) (targ_speed max_accel : ℚ) (a d : Bool) (s : State) :
    (push_at_speed M targ_speed max_accel a d s).bp.ok2disco = s.bp.ok2disco :=
  rfl

@[simp]
theorem push_at_speed_bp_start_pos (M : Ext) (targ_speed max_accel : ℚ) (a d : Bool) (s : State) :
    (push_at_speed M targ_speed max_accel a d s).bp.start_pos = s.bp.start_pos :=
  rfl

@[simp]
theorem push_at_speed_bp_start_hdg (M : Ext) (targ_speed max_accel : ℚ) (a d : Bool) (s : State) :
    (push_at_speed M targ_speed max_accel a d s).bp.start_hdg = s.bp.start_hdg :=
  rfl

@[simp]
theorem push_at_speed_bp_winching (M : Ext) (targ_speed max_accel : ℚ) (a d : Bool) (s : State) :
    (push_at_speed M targ_speed max_accel a d s).bp.winching = s.bp.winching :=
  rfl

@[simp]
theorem push_at_speed_bp_nosewheel_rot_spd (M : Ext) (targ_speed max_accel : ℚ) (a d : Bool) (s : State) :
    (push_at_speed M targ_speed max_accel a d s).bp.nosewheel_rot_spd = s.bp.nosewheel_rot_spd :=
  rfl

@[simp]
theorem push_at_speed_bp_segs (M : Ext) (targ_speed max_accel : ℚ) (a d : Bool) (s : State) :
    (push_at_speed M targ_speed max_accel a d s).bp.segs = s.bp.segs :=
  rfl

@[simp]
theorem push_at_speed_bp_veh (M : Ext) (targ_speed max_accel : ℚ) (a d : Bool) (s : State) :
    (push_at_speed M targ_speed max_accel a d s).bp.veh = s.bp.veh :=
  rfl

@[simp]
theorem push_at_speed_bp_acf (M : Ext) (targ_speed max_accel : ℚ) (a d : Bool) (s : State) :
    (push_at_speed M targ_speed max_accel a d s).bp.acf = s.bp.acf :=
  rfl

@[simp]
theorem push_at_speed_tug (M : Ext) (targ_speed max_accel : ℚ) (a d : Bool) (s : State) :
    (push_at_speed M targ_speed max_accel a d s).tug = s.tug :=
  rfl

@[simp]
theorem push_at_speed_bp_xp_ver (M : Ext) (targ_speed max_accel : ℚ) (a d : Bool) (s : State) :
    (push_at_speed M targ_speed max_accel a d s).bp_xp_ver = s.bp_xp_ver :=
  rfl

@[simp]
theorem push_at_speed_bp_started (M : Ext) (targ_speed max_accel : ℚ) (a d : Bool) (s : State) :
    (push_at_speed M targ_speed max_accel a d s).bp_started = s.bp_started :=
  rfl

@[simp]
theorem push_at_speed_bp_connected (M : Ext) (targ_speed max_accel : ℚ) (a d : Bool) (s : State) :
    (push_at_speed M targ_speed max_accel a d s).bp_connected = s.bp_connected :=
  rfl

@[simp]
theorem push_at_speed_slave_mode (M : Ext) (targ_speed max_accel : ℚ) (a d : Bool) (s : State) :
    (push_at_speed M targ_speed max_accel a d s).slave_mode = s.slave_mode :=
  rfl

@[simp]
theorem push_at_speed_op_complete (M : Ext) (targ_speed max_accel : ℚ) (a d : Bool) (s : State) :
    (push_at_speed M targ_speed max_accel a d s).op_complete = s.op_complete :=
  rfl

@[simp]
theorem push_at_speed_plan_complete (M : Ext) (targ_speed max_accel : ℚ) (a d : Bool) (s : State) :
    (push_at_speed M targ_speed max_accel a d s).plan_complete = s.plan_complete :=
  rfl

@[simp]
theorem push_at_speed_pb_set_remote (M : Ext) (targ_speed max_accel : ℚ) (a d : Bool) (s : State) :
    (push_at_speed M targ_speed max_accel a d s).pb_set_remote = s.pb_set_remote :=
  rfl

@[simp]
theorem push_at_speed_pb_set_override (M : Ext) (targ_speed max_accel : ℚ) (a d : Bool) (s : State) :
    (push_at_speed M targ_speed max_accel a d s).pb_set_override = s.pb_set_override :=
  rfl

@[simp]
theorem push_at_speed_late_plan_requested (M : Ext) (targ_speed max_accel : ℚ) (a d : Bool) (s : State) :
    (push_at_speed M targ_speed max_accel a d s).late_plan_requested = s.late_plan_requested :=
  rfl

@[simp]
theorem push_at_speed_tug_pending_mode (M : Ext) (targ_speed max_accel : ℚ) (a d : Bool) (s : State) :
    (push_at_speed M targ_speed max_accel a d s).tug_pending_mode = s.tug_pending_mode :=
  rfl

@[simp]
theorem push_at_speed_tug_auto_start (M : Ext) (targ_speed max_accel : ℚ) (a d : Bool) (s : State) :
    (push_at_speed M targ_speed max_accel a d s).tug_auto_start = s.tug_auto_start :=
  rfl

@[simp]
theorem push_at_speed_tug_starts_next_plane (M : Ext) (targ_speed max_accel : ℚ) (a d : Bool) (s : State) :
    (push_at_speed M targ_speed max_accel a d s).tug_starts_next_plane = s.tug_starts_next_plane :=
  rfl

@[simp]
theorem push_at_speed_cfg_ignore_park_break (M : Ext) (targ_speed max_accel : ℚ) (a d : Bool) (s : State) :
    (push_at_speed M targ_speed max_accel a d s).cfg_ignore_park_break = s.cfg_ignore_park_break :=
  rfl

@[simp]
theorem push_at_speed_cfg_disco_when_done (M : Ext) (targ_speed max_accel : ℚ) (a d : Bool) (s : State) :
    (push_at_speed M targ_speed max_accel a d s).cfg_disco_when_done = s.cfg_disco_when_done :=
  rfl

@[simp]
theorem push_at_speed_bp_tug_name (M : Ext) (targ_speed max_accel : ℚ) (a d : Bool) (s : State) :
    (push_at_speed M targ_speed max_accel a d s).bp_tug_name = s.bp_tug_name :=
  rfl

@[simp]
theorem push_at_speed_disco_win (M : Ext) (targ_speed max_accel : ℚ) (a d : Bool) (s : State) :
    (push_at_speed M targ_speed max_accel a d s).disco_win = s.disco_win :=
  rfl

@[simp]
theorem push_at_speed_push_manual (M : Ext) (targ_speed max_accel : ℚ) (a d : Bool) (s : State) :
    (push_at_speed M targ_speed max_accel a d s).push_manual = s.push_manual :=
  rfl

@[simp]
theorem pbrake_is_set_push_at_speed (M : Ext) (targ_speed max_accel : ℚ) (a d : Bool) (s : State) :
    pbrake_is_set (push_at_speed M targ_speed max_accel a d s) = pbrake_is_set s :=
  rfl

@[simp]
theorem turn_nosewheel_bp (M : Ext) (req_steer : ℚ) (s : State) :
    (turn_nosewheel M req_steer s).bp = s.bp :=
  rfl

@[simp]
theorem turn_nosewheel_bp_xp_ver (M : Ext) (req_steer : ℚ) (s : State) :
    (turn_nosewheel M req_steer s).bp_xp_ver = s.bp_xp_ver :=
  rfl

@[simp]
theorem turn_nosewheel_bp_started (M : Ext) (req_steer : ℚ) (s : State) :
    (turn_nosewheel M req_steer s).bp_started = s.bp_started :=
  rfl

@[simp]
theorem turn_nosewheel_bp_connected (M : Ext) (req_steer : ℚ) (s : State) :
    (turn_nosewheel M req_steer s).bp_connected = s.bp_connected :=
  rfl

@[simp]
theorem turn_nosewheel_slave_mode (M : Ext) (req_steer : ℚ) (s : State) :
    (turn_nosewheel M req_steer s).slave_mode = s.slave_mode :=
  rfl

@[simp]
theorem turn_nosewheel_op_complete (M : Ext) (req_steer : ℚ) (s : State) :
    (turn_nosewheel M req_steer s).op_complete = s.op_complete :=
  rfl

@[simp]
theorem turn_nosewheel_plan_complete (M : Ext) (req_steer : ℚ) (s : State) :
    (turn_nosewheel M req_steer s).plan_complete = s.plan_complete :=
  rfl

@[simp]
theorem turn_nosewheel_pb_set_remote (M : Ext) (req_steer : ℚ) (s : State) :
    (turn_nosewheel M req_steer s).pb_set_remote = s.pb_set_remote :=
  rfl

@[simp]
theorem turn_nosewheel_pb_set_override (M : Ext) (req_steer : ℚ) (s : State) :
    (turn_nosewheel M req_steer s).pb_set_override = s.pb_set_override :=
  rfl

@[simp]
theorem turn_nosewheel_late_plan_requested (M : Ext) (req_steer : ℚ) (s : State) :
    (turn_nosewheel M req_steer s).late_plan_requested = s.late_plan_requested :=
  rfl

@[simp]
theorem turn_nosewheel_tug_pending_mode (M : Ext) (req_steer : ℚ) (s : State) :
    (turn_nosewheel M req_steer s).tug_pending_mode = s.tug_pending_mode :=
  rfl

@[simp]
theorem turn_nosewheel_tug_auto_start (M : Ext) (req_steer : ℚ) (s : State) :
    (turn_nosewheel M req_steer s).tug_auto_start = s.tug_auto_start :=
  rfl

@[simp]
theorem turn_nosewheel_tug_starts_next_plane (M : Ext) (req_steer : ℚ) (s : State) :
    (turn_nosewheel M req_steer s).tug_starts_next_plane = s.tug_starts_next_plane :=
  rfl

@[simp]
theorem turn_nosewheel_cfg_ignore_park_break (M : Ext) (req_steer : ℚ) (s : State) :
    (turn_nosewheel M req_steer s).cfg_ignore_park_break = s.cfg_ignore_park_break :=
  rfl

@[simp]
theorem turn_nosewheel_cfg_disco_when_done (M : Ext) (req_steer : ℚ) (s : State) :
    (turn_nosewheel M req_steer s).cfg_disco_when_done = s.cfg_disco_when_done :=
  rfl

@[simp]
theorem turn_nosewheel_bp_tug_name (M : Ext) (req_steer : ℚ) (s : State) :
    (turn_nosewheel M req_steer s).bp_tug_name = s.bp_tug_name :=
  rfl

@[simp]
theorem turn_nosewheel_disco_win (M : Ext) (req_steer : ℚ) (s : State) :
    (turn_nosewheel M req_steer s).disco_win = s.disco_win :=
  rfl

@[simp]
theorem turn_nosewheel_push_manual (M : Ext) (req_steer : ℚ) (s : State) :
    (turn_nosewheel M req_steer s).push_manual = s.push_manual :=
  rfl

@[simp]
theorem pbrake_is_set_turn_nosewheel (M : Ext) (req_steer : ℚ) (s : State) :
    pbrake_is_set (turn_nosewheel M req_steer s) = pbrake_is_set s :=
  rfl

@[simp]
theorem turn_nosewheel_tug_isSome (M : Ext) (req_steer : ℚ) (s : State) :
    (turn_nosewheel M req_steer s).tug.isSome = s.tug.isSome := by
  cases h : s.tug <;> simp [turn_nosewheel, reorient_aircraft, h]

@[simp]
theorem pbrake_is_set_brakes_set (flag : Bool) (s : State) :
    pbrake_is_set (brakes_set flag s) = pbrake_is_set s :=
  rfl

@[simp]
theorem brakes_set_bp (flag : Bool) (s : State) : (brakes_set flag s).bp = s.bp :=
  rfl

@[simp]
theorem brakes_set_calls (flag : Bool) (s : State) : (brakes_set flag s).calls = s.calls :=
  rfl

@[simp]
theorem brakes_set_tug (flag : Bool) (s : State) : (brakes_set flag s).tug = s.tug :=
  rfl

@[simp]
theorem brakes_set_bp_xp_ver (flag : Bool) (s : State) : (brakes_set flag s).bp_xp_ver = s.bp_xp_ver :=
  rfl

@[simp]
theorem brakes_set_bp_started (flag : Bool) (s : State) : (brakes_set flag s).bp_started = s.bp_started :=
  rfl

@[simp]
theorem brakes_set_bp_connected (flag : Bool) (s : State) : (brakes_set flag s).bp_connected = s.bp_connected :=
  rfl

@[simp]
theorem brakes_set_slave_mode (flag : Bool) (s : State) : (brakes_set flag s).slave_mode = s.slave_mode :=
  rfl

@[simp]
theorem brakes_set_op_complete (flag : Bool) (s : State) : (brakes_set flag s).op_complete = s.op_complete :=
  rfl

@[simp]
theorem brakes_set_plan_complete (flag : Bool) (s : State) : (brakes_set flag s).plan_complete = s.plan_complete :=
  rfl

@[simp]
theorem brakes_set_pb_set_remote (flag : Bool) (s : State) : (brakes_set flag s).pb_set_remote = s.pb_set_remote :=
  rfl

@[simp]
theorem brakes_set_pb_set_override (flag : Bool) (s : State) : (brakes_set flag s).pb_set_override = s.pb_set_override :=
  rfl

@[simp]
theorem brakes_set_late_plan_requested (flag : Bool) (s : State) : (brakes_set flag s).late_plan_requested = s.late_plan_requested :=
  rfl

@[simp]
theorem brakes_set_tug_pending_mode (flag : Bool) (s : State) : (brakes_set flag s).tug_pending_mode = s.tug_pending_mode :=
  rfl

@[simp]
theorem brakes_set_tug_auto_start (flag : Bool) (s : State) : (brakes_set flag s).tug_auto_start = s.tug_auto_start :=
  rfl

@[simp]
theorem brakes_set_tug_starts_next_plane (flag : Bool) (s : State) : (brakes_set flag s).tug_starts_next_plane = s.tug_starts_next_plane :=
  rfl

@[simp]
theorem brakes_set_cfg_ignore_park_break (flag : Bool) (s : State) : (brakes_set flag s).cfg_ignore_park_break = s.cfg_ignore_park_break :=
  rfl

@[simp]
theorem brakes_set_cfg_disco_when_done (flag : Bool) (s : State) : (brakes_set flag s).cfg_disco_when_done = s.cfg_disco_when_done :=
  rfl

@[simp]
theorem brakes_set_bp_tug_name (flag : Bool) (s : State) : (brakes_set flag s).bp_tug_name = s.bp_tug_name :=
  rfl

@[simp]
theorem brakes_set_disco_win (flag : Bool) (s : State) : (brakes_set flag s).disco_win = s.disco_win :=
  rfl

@[simp]
theorem brakes_set_push_manual (flag : Bool) (s : State) : (brakes_set flag s).push_manual = s.push_manual :=
  rfl

theorem turn_nosewheel_tug_still (M : Ext) (req_steer : ℚ) (s : State)
    (h : ¬ ABS (bp_ls_tug s).pos.spd > 1 / 100) :
    (turn_nosewheel M req_steer s).tug = s.tug := by
  unfold turn_nosewheel reorient_aircraft
  simp only [h, if_false]
  cases hs : s.tug with
  | none => rfl
  | some t => simp [bp_ls_tug, hs]

theorem bp_ls_tug_turn_nosewheel (M : Ext) (req_steer : ℚ) (s : State)
    (h : ¬ ABS (bp_ls_tug s).pos.spd > 1 / 100) :
    bp_ls_tug (turn_nosewheel M req_steer s) = bp_ls_tug s := by
  unfold bp_ls_tug
  rw [turn_nosewheel_tug_still M req_steer s h]

/-! ### C1 -/

/-- C1: after every call of `push_at_speed` with aircraft mass `m >= 0`, from any
prior state, the stored force state satisfies `|last_force| <= FORCE_PER_TON * m /
1000`; and the same bound holds after any non-empty sequence of calls, whatever
the rest of the tick does between them, as long as the mass read is `m`. -/
theorem push_at_speed_force_within_limit (M : Ext) (targ_speed max_accel : ℚ)
    (allow_snd_ctl decelerating : Bool) (s s0 : State) (m : ℚ) (ticks : List push_tick_t)
    (hm : 0 ≤ m) (hs : s.drs.acf_mass = m) (hne : ticks ≠ [])
    (hticks : ∀ t ∈ ticks, ∀ s1 : State, (t.before s1).drs.acf_mass = m) :
    |(push_at_speed M targ_speed max_accel allow_snd_ctl decelerating s).bp.last_force| ≤
        FORCE_PER_TON * m / 1000 ∧
      |(push_ticks M ticks s0).bp.last_force| ≤ FORCE_PER_TON * m / 1000 := by
  constructor
  · have h := push_at_speed_abs_le M targ_speed max_accel allow_snd_ctl decelerating s
      (by rw [hs]; exact hm)
    rw [hs] at h
    exact h
  · obtain ⟨ts, t, rfl⟩ : ∃ ts t, ticks = ts ++ [t] :=
      ⟨ticks.dropLast, ticks.getLast hne, (List.dropLast_append_getLast hne).symm⟩
    rw [push_ticks_append]
    have hmass := hticks t (by simp) (push_ticks M ts s0)
    have h := push_at_speed_abs_le M t.targ_speed t.max_accel t.allow_snd_ctl t.decelerating
      (t.before (push_ticks M ts s0)) (by rw [hmass]; exact hm)
    rw [hmass] at h
    exact h

/-- Witness of C1: an aircraft of 1000 kg, one call and a sequence of two
calls. -/
theorem push_at_speed_force_within_limit_witness :
    |(push_at_speed ext_example 1 (1 / 4) true false state_saturated).bp.last_force| ≤
        FORCE_PER_TON * 1000 / 1000 ∧
      |(push_ticks ext_example
          [⟨fun _ => state_saturated, 1, 1 / 4, true, false⟩,
           ⟨fun _ => state_saturated, -1, 1 / 4, true, false⟩]
          state_saturated).bp.last_force| ≤ FORCE_PER_TON * 1000 / 1000 :=
  push_at_speed_force_within_limit ext_example 1 (1 / 4) true false state_saturated
    state_saturated 1000
    [⟨fun _ => state_saturated, 1, 1 / 4, true, false⟩,
     ⟨fun _ => state_saturated, -1, 1 / 4, true, false⟩]
    (by norm_num) rfl (by simp)
    (by
      intro t ht s1
      simp only [List.mem_cons, List.mem_singleton, List.not_mem_nil, or_false] at ht
      rcases ht with rfl | rfl <;> rfl)

/-! ### C2 -/

/-- C2: the force resolved into `Fz` and `Fx` is the force state before the
final clamp. On an aircraft of 1000 kg (limit 5000 N) whose stored force is at
the limit and which does not accelerate, a tick of 0.02 s towards 1 m/s
commands `Fz = 5100 N`, above the limit, subtracts it from the axial-force
output, and only then stores the clamped 5000 N. -/
theorem push_at_speed_commands_above_limit :
    |state_saturated.bp.last_force| ≤ FORCE_PER_TON * state_saturated.drs.acf_mass / 1000 ∧
      FORCE_PER_TON * state_saturated.drs.acf_mass / 1000 = 5000 ∧
      push_at_speed_Fz ext_example 1 (1 / 4) false state_saturated = 5100 ∧
      push_at_speed_Fx ext_example 1 (1 / 4) false state_saturated = 0 ∧
      (push_at_speed ext_example 1 (1 / 4) true false state_saturated).drs.axial_force =
        state_saturated.drs.axial_force - 5100 ∧
      (push_at_speed ext_example 1 (1 / 4) true false state_saturated).bp.last_force = 5000 := by
  have hFz : push_at_speed_Fz ext_example 1 (1 / 4) false state_saturated = 5100 := by
    norm_num [push_at_speed_Fz, push_at_speed_force, push_at_speed_targ, push_at_speed_incr,
      push_at_speed_lim, state_saturated, ext_example, tug_speed, DEG2RAD, tri_cos,
      hdg2dir_example, vect2_dotprod, ABS, BREAKAWAY_THRESH, FORCE_PER_TON, RWY_FRICTION_MED,
      RWY_FRICTION_POOR]
  have hFx : push_at_speed_Fx ext_example 1 (1 / 4) false state_saturated = 0 := by
    norm_num [push_at_speed_Fx, push_at_speed_force, push_at_speed_targ, push_at_speed_incr,
      push_at_speed_lim, state_saturated, ext_example, tug_speed, DEG2RAD, tri_cos,
      hdg2dir_example, vect2_dotprod, ABS, BREAKAWAY_THRESH, FORCE_PER_TON, RWY_FRICTION_MED,
      RWY_FRICTION_POOR, abs_div, abs_inv, abs_one, Nat.abs_ofNat]
  have hforce : push_at_speed_force ext_example 1 (1 / 4) false state_saturated = 5100 := by
    norm_num [push_at_speed_force, push_at_speed_targ, push_at_speed_incr,
      push_at_speed_lim, state_saturated, ext_example, tug_speed, DEG2RAD, tri_cos,
      hdg2dir_example, vect2_dotprod, ABS, BREAKAWAY_THRESH, FORCE_PER_TON, RWY_FRICTION_MED,
      RWY_FRICTION_POOR]
  refine ⟨?_, ?_, hFz, hFx, ?_, ?_⟩
  · norm_num [state_saturated, FORCE_PER_TON]
  · norm_num [state_saturated, FORCE_PER_TON]
  · show state_saturated.drs.axial_force -
        push_at_speed_Fz ext_example 1 (1 / 4) false state_saturated = _
    rw [hFz]
  · show MAX (-push_at_speed_lim state_saturated) (MIN (push_at_speed_lim state_saturated)
        (if (decide (state_saturated.bp_xp_ver ≥ 11000) &&
            decide (state_saturated.drs.gear_on_ground state_saturated.bp.acf.nw_i ≠ 1)) = true
          then _ else push_at_speed_force ext_example 1 (1 / 4) false state_saturated)) = 5000
    rw [hforce]
    norm_num [push_at_speed_lim, state_saturated, FORCE_PER_TON, MAX, MIN]

/-! ### C3 -/

theorem turn_nosewheel_writes (M : Ext) (req_steer : ℚ) (s : State) :
    (turn_nosewheel M req_steer s).drs.tire_steer_cmd =
      dr_setvf1 s.drs.tire_steer_cmd s.bp.acf.nw_i (turn_nosewheel_cmd M s) :=
  rfl

theorem abs_MAX_MIN_le_right (L f : ℚ) (hL : 0 ≤ L) : |MAX (MIN f L) (-L)| ≤ L := by
  rw [MAX_eq_max, MIN_eq_min, abs_le]
  constructor
  · exact le_max_right _ _
  · exact max_le (min_le_right _ _) (by linarith)

/-- C3, the claim as stated fails: with the tug at the steering stop of 35
degrees and the body heading turned by one degree during the tick,
`turn_nosewheel` writes 36 degrees to the nosewheel entry of `tire_steer_cmd`,
more than `bp.veh.max_steer = 35`. -/
theorem turn_nosewheel_cmd_exceeds_max_steer :
    state_at_steer_stop.bp.veh.max_steer = 35 ∧
      (turn_nosewheel ext_example 0 state_at_steer_stop).drs.tire_steer_cmd
        state_at_steer_stop.bp.acf.nw_i = 36 ∧
      ¬ (|(turn_nosewheel ext_example 0 state_at_steer_stop).drs.tire_steer_cmd
          state_at_steer_stop.bp.acf.nw_i| ≤ state_at_steer_stop.bp.veh.max_steer) := by
  have h : (turn_nosewheel ext_example 0 state_at_steer_stop).drs.tire_steer_cmd
      state_at_steer_stop.bp.acf.nw_i = 36 := by
    rw [turn_nosewheel_writes]
    norm_num [dr_setvf1, turn_nosewheel_cmd, turn_nosewheel_rate, state_at_steer_stop,
      ext_example, tug_example, bp_ls_tug, rel_hdg, ABS, MIN, MAX]
  refine ⟨rfl, h, ?_⟩
  rw [h]
  norm_num [state_at_steer_stop]

/-- C3, amended: the value that `turn_nosewheel` writes to the nosewheel entry
of `tire_steer_cmd` is the relative heading of tug and body advanced by the
relative turn rate and clamped to 85 degrees, whatever the request; its
absolute value is at most 85. The bound `bp.veh.max_steer` holds for the
request after limiting, from which the tug steering is derived. -/
theorem turn_nosewheel_cmd_bounded (M : Ext) (req_steer : ℚ) (s : State)
    (hmax : 0 ≤ s.bp.veh.max_steer) :
    (turn_nosewheel M req_steer s).drs.tire_steer_cmd s.bp.acf.nw_i =
        turn_nosewheel_cmd M s ∧
      |(turn_nosewheel M req_steer s).drs.tire_steer_cmd s.bp.acf.nw_i| ≤ 85 ∧
      |turn_nosewheel_req req_steer s| ≤ s.bp.veh.max_steer := by
  have hw : (turn_nosewheel M req_steer s).drs.tire_steer_cmd s.bp.acf.nw_i =
      turn_nosewheel_cmd M s := by
    rw [turn_nosewheel_writes]
    simp [dr_setvf1]
  refine ⟨hw, ?_, ?_⟩
  · rw [hw]
    exact abs_MAX_MIN_le_right 85 _ (by norm_num)
  · exact abs_MAX_MIN_le_right _ _ hmax

/-- Witness of the amended C3: a request of 60 degrees on the example state,
whose `max_steer` is 35. -/
theorem turn_nosewheel_cmd_bounded_witness :
    (turn_nosewheel ext_example 60 state_at_steer_stop).drs.tire_steer_cmd
          state_at_steer_stop.bp.acf.nw_i =
        turn_nosewheel_cmd ext_example state_at_steer_stop ∧
      |(turn_nosewheel ext_example 60 state_at_steer_stop).drs.tire_steer_cmd
          state_at_steer_stop.bp.acf.nw_i| ≤ 85 ∧
      |turn_nosewheel_req 60 state_at_steer_stop| ≤ state_at_steer_stop.bp.veh.max_steer :=
  turn_nosewheel_cmd_bounded ext_example 60 state_at_steer_stop
    (by norm_num [state_at_steer_stop])

/-! ### C4 -/

theorem push_at_speed_calls (M : Ext) (targ_speed max_accel : ℚ)
    (allow_snd_ctl decelerating : Bool) (s : State) :
    (push_at_speed M targ_speed max_accel allow_snd_ctl decelerating s).calls =
      s.calls ++ [call_t.push_at_speed targ_speed] :=
  rfl

theorem turn_nosewheel_calls (M : Ext) (req_steer : ℚ) (s : State) :
    (turn_nosewheel M req_steer s).calls = s.calls ++ [call_t.turn_nosewheel req_steer] :=
  rfl

theorem drive_segs_calls (M : Ext) (seg : seg_t) (rest : List seg_t) (s : State) :
    (drive_segs M seg rest s).2.calls = s.calls ++ [call_t.drive_segs] :=
  rfl

theorem bp_run_push_drive_calls (M : Ext) (out : drive_out_t) (s : State) :
    ∃ l, (bp_run_push_drive M out s).calls = s.calls ++ l := by
  unfold bp_run_push_drive
  split_ifs with h
  · exact ⟨[call_t.turn_nosewheel out.steer, call_t.push_at_speed _], by
      simp only [push_at_speed_calls, turn_nosewheel_calls, List.append_assoc]; rfl⟩
  · exact ⟨[call_t.turn_nosewheel 0, call_t.push_at_speed _], by
      simp only [push_at_speed_calls, turn_nosewheel_calls, List.append_assoc]; rfl⟩

theorem reversal_check_calls (rest : List seg_t) (lb : Bool) (s : State) :
    (reversal_check rest lb s).calls = s.calls := by
  cases rest with
  | nil => rfl
  | cons next rest2 =>
    simp only [reversal_check]
    split_ifs <;> rfl

theorem bp_run_push_loop_calls (M : Ext) (segs : List seg_t) :
    ∀ (lb : Bool) (s : State), ∃ l, (bp_run_push_loop M segs lb s).1.calls = s.calls ++ l := by
  induction segs with
  | nil =>
    intro lb s
    exact ⟨[], by simp [bp_run_push_loop]⟩
  | cons seg rest ih =>
    intro lb s
    rw [bp_run_push_loop]
    split_ifs with h1 h2 h3
    · exact ⟨[], by simp [push_brake_stop]⟩
    · exact ⟨[call_t.push_at_speed 0], rfl⟩
    · obtain ⟨l, hl⟩ := bp_run_push_drive_calls M
        (drive_segs_out M seg rest (reverse_clear s)) (drive_segs M seg rest (reverse_clear s)).2
      exact ⟨call_t.drive_segs :: l, by
        rw [hl, drive_segs_calls]; simp [reverse_clear]⟩
    · obtain ⟨l, hl⟩ := ih (next_backward rest lb)
        (reversal_check rest lb (drive_segs M seg rest (reverse_clear s)).2)
      exact ⟨call_t.drive_segs :: l, by
        rw [hl, reversal_check_calls, drive_segs_calls]; simp [reverse_clear]⟩

theorem drive_segs_out_reverse_clear (M : Ext) (seg : seg_t) (rest : List seg_t) (s : State) :
    drive_segs_out M seg rest (reverse_clear s) = drive_segs_out M seg rest s :=
  rfl

theorem drive_segs_fst (M : Ext) (seg : seg_t) (rest : List seg_t) (s : State) :
    (drive_segs M seg rest s).1 = !(drive_segs_out M seg rest s).complete :=
  rfl

theorem brakes_applied_drive_segs (M : Ext) (seg : seg_t) (rest : List seg_t) (s : State) :
    brakes_applied (drive_segs M seg rest (reverse_clear s)).2 = brakes_applied s :=
  rfl

theorem brakes_applied_reverse_mark (s : State) :
    brakes_applied (reverse_mark s) = brakes_applied s :=
  rfl

/-- The tick of `bp_run_push` in which the head segment completes and the next
one runs the other way, at a time other than 0: the planner is called once, the
reversal timer is set to the time of the tick and the force controller is
called with target speed 0. -/
theorem bp_run_push_at_reversal (M : Ext) (s : State) (seg next : seg_t) (rest : List seg_t)
    (hauto : s.push_manual.active = false) (hbrk : brakes_applied s = false)
    (hsegs : s.bp.segs = seg :: next :: rest) (hidle : reversal_wait s = false)
    (hdone : (drive_segs_out M seg (next :: rest) s).complete = true)
    (hrev : next.backward ≠ seg.backward) (ht : s.bp.cur_t ≠ 0) :
    bp_run_push M s =
      (push_at_speed M 0 s.bp.veh.max_accel true false
        (reverse_mark (drive_segs M seg (next :: rest) (reverse_clear s)).2), true) := by
  unfold bp_run_push
  rw [hauto, hsegs]
  simp only [Bool.false_eq_true, if_false]
  rw [bp_run_push_loop]
  simp only [hbrk, hidle, drive_segs_fst, drive_segs_out_reverse_clear, hdone, Bool.not_true,
    Bool.false_eq_true, if_false]
  simp only [next_backward, reversal_check, hrev, ne_eq, not_false_eq_true, if_true]
  rw [bp_run_push_loop]
  have hw : reversal_wait
      (reverse_mark (drive_segs M seg (next :: rest) (reverse_clear s)).2) = true := by
    simp only [reversal_wait, reverse_mark, drive_segs, reverse_clear, STATE_TRANS_DELAY]
    simp [ht]
  simp only [brakes_applied_reverse_mark, brakes_applied_drive_segs, hbrk, hw,
    Bool.false_eq_true, if_false, if_true]
  rfl

/-- A tick of `bp_run_push` during the reversal pause: only the force controller
is called, with target speed 0. -/
theorem bp_run_push_in_pause (M : Ext) (s : State)
    (hauto : s.push_manual.active = false) (hbrk : brakes_applied s = false)
    (hsegs : s.bp.segs ≠ []) (hwait : reversal_wait s = true) :
    bp_run_push M s = (push_at_speed M 0 s.bp.veh.max_accel true false s, true) := by
  unfold bp_run_push
  rw [hauto]
  simp only [Bool.false_eq_true, if_false]
  cases hs : s.bp.segs with
  | nil => exact absurd hs hsegs
  | cons seg rest =>
    rw [bp_run_push_loop]
    simp only [hbrk, hwait, Bool.false_eq_true, if_false, if_true]

/-- A tick of `bp_run_push` with no reversal pause running: the reversal timer
is cleared and the planner is called first. -/
theorem bp_run_push_resume (M : Ext) (s : State) (seg : seg_t) (rest : List seg_t)
    (hauto : s.push_manual.active = false) (hbrk : brakes_applied s = false)
    (hsegs : s.bp.segs = seg :: rest) (hidle : reversal_wait s = false) :
    (∃ l, (bp_run_push M s).1.calls = s.calls ++ call_t.drive_segs :: l) ∧
      ((drive_segs_out M seg rest s).complete = false →
        (bp_run_push M s).1.bp.reverse_t = 0 ∧ (bp_run_push M s).1.bp.segs = seg :: rest) := by
  unfold bp_run_push
  rw [hauto, hsegs]
  simp only [Bool.false_eq_true, if_false]
  rw [bp_run_push_loop]
  simp only [hbrk, hidle, Bool.false_eq_true, if_false]
  constructor
  · split_ifs with h
    · obtain ⟨l, hl⟩ := bp_run_push_drive_calls M
        (drive_segs_out M seg rest (reverse_clear s)) (drive_segs M seg rest (reverse_clear s)).2
      exact ⟨l, by rw [hl, drive_segs_calls]; simp [reverse_clear]⟩
    · obtain ⟨l, hl⟩ := bp_run_push_loop_calls M rest (next_backward rest seg.backward)
        (reversal_check rest seg.backward (drive_segs M seg rest (reverse_clear s)).2)
      exact ⟨l, by rw [hl, reversal_check_calls, drive_segs_calls]; simp [reverse_clear]⟩
  · intro hnot
    simp only [drive_segs_fst, drive_segs_out_reverse_clear, hnot, Bool.not_false, if_true]
    unfold bp_run_push_drive
    have h1 : (drive_segs M seg rest (reverse_clear s)).2.bp.reverse_t = 0 := rfl
    have h2 : (drive_segs M seg rest (reverse_clear s)).2.bp.segs =
        if (drive_segs_out M seg rest s).complete then rest else seg :: rest := rfl
    rw [hnot] at h2
    split_ifs <;>
      simp only [push_at_speed_bp_reverse_t, push_at_speed_bp_segs, turn_nosewheel_bp, h1, h2,
        Bool.false_eq_true, if_false, and_self]


theorem bp_run_push_loop_resume (M : Ext) (s : State) (seg : seg_t) (rest : List seg_t)
    (lb : Bool) (hbrk : brakes_applied s = false) (hidle : reversal_wait s = false)
    (hnot : (drive_segs_out M seg rest s).complete = false) :
    bp_run_push_loop M (seg :: rest) lb s =
      (bp_run_push_drive M (drive_segs_out M seg rest s)
        (drive_segs M seg rest (reverse_clear s)).2, true) := by
  rw [bp_run_push_loop]
  simp only [hbrk, hidle, drive_segs_fst, drive_segs_out_reverse_clear, hnot, Bool.not_false,
    Bool.false_eq_true, if_false, if_true]

theorem bp_run_push_at_reversal_zero (M : Ext) (s : State) (seg next : seg_t)
    (rest : List seg_t)
    (hauto : s.push_manual.active = false) (hbrk : brakes_applied s = false)
    (hsegs : s.bp.segs = seg :: next :: rest) (hidle : reversal_wait s = false)
    (hdone : (drive_segs_out M seg (next :: rest) s).complete = true)
    (hrev : next.backward ≠ seg.backward) (ht : s.bp.cur_t = 0)
    (hnot : (drive_segs_out M next rest
      (reverse_mark (drive_segs M seg (next :: rest) (reverse_clear s)).2)).complete = false) :
    bp_run_push M s =
      (bp_run_push_drive M
        (drive_segs_out M next rest
          (reverse_mark (drive_segs M seg (next :: rest) (reverse_clear s)).2))
        (drive_segs M next rest (reverse_clear
          (reverse_mark (drive_segs M seg (next :: rest) (reverse_clear s)).2))).2, true) := by
  unfold bp_run_push
  rw [hauto, hsegs]
  simp only [Bool.false_eq_true, if_false]
  rw [bp_run_push_loop]
  simp only [hbrk, hidle, drive_segs_fst, drive_segs_out_reverse_clear, hdone, Bool.not_true,
    Bool.false_eq_true, if_false]
  simp only [next_backward, reversal_check, hrev, ne_eq, not_false_eq_true, if_true]
  have hw : reversal_wait
      (reverse_mark (drive_segs M seg (next :: rest) (reverse_clear s)).2) = false := by
    simp only [reversal_wait, reverse_mark, drive_segs, reverse_clear]
    simp [ht]
  exact bp_run_push_loop_resume M _ next rest next.backward
    (by rw [brakes_applied_reverse_mark, brakes_applied_drive_segs]; exact hbrk) hw hnot

theorem state_at_reversal_corr (t : ℚ) :
    corr_acf_pos ext_example (state_at_reversal t) =
      { pos := { x := 0, y := 10 }, hdg := 0, spd := 0 } := by
  norm_num [corr_acf_pos, state_at_reversal, tug_rear2acf_nw, bp_ls_tug, ext_example,
    tug_example, hdg2dir_example, dir2hdg_example, tri_cos, normalize_hdg, vect2_add, vect2_sub,
    vect2_scmul, abs_div, abs_inv, abs_one, Nat.abs_ofNat]

theorem state_at_reversal_brakes (t : ℚ) : brakes_applied (state_at_reversal t) = false := by
  norm_num [brakes_applied, pbrake_is_set, state_at_reversal, BRAKE_PEDAL_THRESH]

theorem state_at_reversal_idle (t : ℚ) : reversal_wait (state_at_reversal t) = false := by
  simp [reversal_wait, state_at_reversal]

theorem state_at_reversal_out (t : ℚ) :
    drive_segs_out ext_example seg_forward [seg_backward] (state_at_reversal t) =
      { complete := true, last_mis_hdg := 0, steer := 0, speed := 4, decel := false } := by
  unfold drive_segs_out
  rw [state_at_reversal_corr]
  norm_num [ext_example, drive_seg_example, seg_forward, hdg2dir_example, tri_cos, vect2_sub,
    vect2_dotprod, state_at_reversal, abs_div, abs_inv, abs_one, Nat.abs_ofNat]

theorem state_at_reversal_out_next (t : ℚ) :
    drive_segs_out ext_example seg_backward []
        (reverse_mark (drive_segs ext_example seg_forward [seg_backward]
          (reverse_clear (state_at_reversal t))).2) =
      { complete := false, last_mis_hdg := 0, steer := 0, speed := -(111 / 100),
        decel := false } := by
  have hc : corr_acf_pos ext_example
      (reverse_mark (drive_segs ext_example seg_forward [seg_backward]
        (reverse_clear (state_at_reversal t))).2) =
      corr_acf_pos ext_example (state_at_reversal t) := rfl
  unfold drive_segs_out
  rw [hc, state_at_reversal_corr]
  norm_num [ext_example, drive_seg_example, seg_backward, hdg2dir_example, tri_cos, vect2_sub,
    vect2_dotprod, vect2_neg, state_at_reversal, reverse_mark, drive_segs, reverse_clear,
    abs_div, abs_inv, abs_one, Nat.abs_ofNat]

theorem state_at_reversal_zero_run :
    bp_run_push ext_example (state_at_reversal 0) =
      (bp_run_push_drive ext_example
        { complete := false, last_mis_hdg := 0, steer := 0, speed := -(111 / 100),
          decel := false }
        (drive_segs ext_example seg_backward [] (reverse_clear
          (reverse_mark (drive_segs ext_example seg_forward [seg_backward]
            (reverse_clear (state_at_reversal 0))).2))).2, true) := by
  have h := bp_run_push_at_reversal_zero ext_example (state_at_reversal 0) seg_forward
    seg_backward [] rfl (state_at_reversal_brakes 0) rfl (state_at_reversal_idle 0)
    (by rw [state_at_reversal_out]) (by decide) rfl (by rw [state_at_reversal_out_next])
  rw [state_at_reversal_out_next] at h
  exact h

theorem bp_run_push_drive_bp_segs (M : Ext) (out : drive_out_t) (s : State) :
    (bp_run_push_drive M out s).bp.segs = s.bp.segs := by
  unfold bp_run_push_drive
  split_ifs <;> rfl

theorem bp_run_push_drive_bp_reverse_t (M : Ext) (out : drive_out_t) (s : State) :
    (bp_run_push_drive M out s).bp.reverse_t = s.bp.reverse_t := by
  unfold bp_run_push_drive
  split_ifs <;> rfl

theorem bp_run_push_drive_push_manual (M : Ext) (out : drive_out_t) (s : State) :
    (bp_run_push_drive M out s).push_manual = s.push_manual := by
  unfold bp_run_push_drive
  split_ifs <;> rfl

theorem bp_run_push_drive_brakes (M : Ext) (out : drive_out_t) (s : State) :
    brakes_applied (bp_run_push_drive M out s) = brakes_applied s := by
  unfold bp_run_push_drive
  split_ifs <;> rfl

theorem bp_run_push_drive_calls_still (M : Ext) (out : drive_out_t) (s : State)
    (hend : nearing_end M s = false) (hstill : ¬ ABS (bp_ls_tug s).pos.spd > 1 / 100) :
    (bp_run_push_drive M out s).calls =
      s.calls ++ [call_t.turn_nosewheel out.steer,
        call_t.push_at_speed (out.speed /
          MAX (M.cos (DEG2RAD M (M.rel_hdg s.bp.cur_pos.hdg (bp_ls_tug s).pos.hdg))) (1 / 10))] := by
  unfold bp_run_push_drive
  simp only [hend, if_true, push_at_speed_calls, turn_nosewheel_calls, turn_nosewheel_bp,
    bp_ls_tug_turn_nosewheel M out.steer s hstill, List.append_assoc]
  rfl

/-- The value 0 of the timer `bp.reverse_t` stands for "no reversal pending":
were `bp_run_push` handed a state whose time `bp.cur_t` is exactly 0 in which
the head of the queue changes to a segment of the opposite direction, the
timer would keep the value 0, the planner would be called again in that tick
and the force controller would get the target speed -1.11 m/s. No tick of a
session hands over such a state, see `bp_run_prelude_time_pos`. -/
theorem bp_run_push_reversal_at_time_zero :
    (bp_run_push ext_example (state_at_reversal 0)).1.bp.segs = [seg_backward] ∧
      (bp_run_push ext_example (state_at_reversal 0)).1.bp.reverse_t = 0 ∧
      (bp_run_push ext_example (state_at_reversal 0)).1.calls =
        [call_t.drive_segs, call_t.drive_segs, call_t.turn_nosewheel 0,
          call_t.push_at_speed (-(111 / 100))] ∧
      state_after_reversal_at_zero.bp.cur_t - (state_at_reversal 0).bp.cur_t <
        2 * STATE_TRANS_DELAY ∧
      ∃ l, (bp_run_push ext_example state_after_reversal_at_zero).1.calls =
        state_after_reversal_at_zero.calls ++ call_t.drive_segs :: l := by
  have hsegs : (bp_run_push ext_example (state_at_reversal 0)).1.bp.segs = [seg_backward] := by
    rw [state_at_reversal_zero_run]
    simp only [bp_run_push_drive_bp_segs]
    show (if (drive_segs_out ext_example seg_backward [] _).complete then []
      else [seg_backward]) = [seg_backward]
    rw [drive_segs_out_reverse_clear, state_at_reversal_out_next]
    rfl
  have hrev : (bp_run_push ext_example (state_at_reversal 0)).1.bp.reverse_t = 0 := by
    rw [state_at_reversal_zero_run]
    simp only [bp_run_push_drive_bp_reverse_t]
    rfl
  refine ⟨hsegs, hrev, ?_, ?_, ?_⟩
  · rw [state_at_reversal_zero_run]
    simp only []
    rw [bp_run_push_drive_calls_still]
    · norm_num [drive_segs_calls, reverse_clear, reverse_mark, state_at_reversal, bp_ls_tug,
        drive_segs, ext_example, tug_example, rel_hdg, DEG2RAD, tri_cos, MAX]
    · rw [state_at_reversal_zero_run] at hsegs
      simp only [bp_run_push_drive_bp_segs] at hsegs
      unfold nearing_end
      rw [hsegs]
      norm_num [seg_backward, ext_example, hdg2dir_example, tri_cos, vect2_neg, vect2_sub,
        vect2_dotprod, NEARING_END_THRESHOLD, drive_segs, reverse_clear, reverse_mark,
        state_at_reversal, abs_div, abs_inv, abs_one, Nat.abs_ofNat]
    · norm_num [bp_ls_tug, drive_segs, reverse_clear, reverse_mark, state_at_reversal,
        tug_example, ABS]
  · norm_num [state_after_reversal_at_zero, state_at_reversal, STATE_TRANS_DELAY]
  · refine (bp_run_push_resume ext_example state_after_reversal_at_zero seg_backward []
      ?_ ?_ hsegs ?_).1
    · show (bp_run_push ext_example (state_at_reversal 0)).1.push_manual.active = false
      rw [state_at_reversal_zero_run, bp_run_push_drive_push_manual]
      rfl
    · show brakes_applied (bp_run_push ext_example (state_at_reversal 0)).1 = false
      rw [state_at_reversal_zero_run, bp_run_push_drive_brakes]
      exact state_at_reversal_brakes 0
    · have h0 : state_after_reversal_at_zero.bp.reverse_t = 0 := hrev
      simp [reversal_wait, h0]

/-! ### C5 -/

@[simp]
theorem step_next_bp_step (s : State) : (step_next s).bp.step = s.bp.step + 1 :=
  rfl

@[simp]
theorem step_next_bp_step_start_t (s : State) : (step_next s).bp.step_start_t = s.bp.cur_t :=
  rfl

@[simp]
theorem step_rearm_bp_step (s : State) : (step_rearm s).bp.step = s.bp.step :=
  rfl

@[simp]
theorem step_rearm_bp_step_start_t (s : State) : (step_rearm s).bp.step_start_t = s.bp.cur_t :=
  rfl

@[simp]
theorem voice_now_bp_step (s : State) : (voice_now s).bp.step = s.bp.step :=
  rfl

@[simp]
theorem voice_now_bp_step_start_t (s : State) :
    (voice_now s).bp.step_start_t = s.bp.step_start_t :=
  rfl

@[simp]
theorem tug_upd_bp (f : tug_t → tug_t) (s : State) : (tug_upd f s).bp = s.bp :=
  rfl

theorem pb_step_driving_up_close_outcome (M : Ext) (s : State) :
    dwell_outcome s (pb_step_driving_up_close M s)
      (dwell_exit_cond M dwell_phase_t.DRIVING_UP_CLOSE s) := by
  unfold dwell_outcome pb_step_driving_up_close dwell_exit_cond
  split_ifs with h1 h2 <;> simp_all

theorem pb_step_driving_up_connect_outcome (M : Ext) (s : State) :
    dwell_outcome s (pb_step_driving_up_connect M s)
      (dwell_exit_cond M dwell_phase_t.DRIVING_UP_CONNECT s) := by
  unfold dwell_outcome pb_step_driving_up_connect dwell_exit_cond
  have hb : bp_ls_tug (brakes_set true s) = bp_ls_tug s := rfl
  dsimp only
  split_ifs <;> simp_all

theorem pb_step_connected_outcome (M : Ext) (s : State) :
    dwell_outcome s (pb_step_connected M s)
      (dwell_exit_cond M dwell_phase_t.CONNECTED s) := by
  unfold dwell_outcome pb_step_connected dwell_exit_cond
  split_ifs with h1 h2 <;> simp_all

theorem zibo_chocks_remove_bp (s : State) : (zibo_chocks_remove s).bp = s.bp := by
  unfold zibo_chocks_remove
  cases s.drs.zibo_chocks with
  | none => rfl
  | some v =>
    dsimp only
    split_ifs <;> rfl

theorem pb_step_waiting_for_pbrake_outcome (M : Ext) (s s1 : State)
    (h : pb_step_waiting_for_pbrake M s = some s1) :
    dwell_outcome s s1 (dwell_exit_cond M dwell_phase_t.WAITING_FOR_PBRAKE s) := by
  unfold pb_step_waiting_for_pbrake at h
  unfold dwell_outcome dwell_exit_cond
  split_ifs at h with h1 h2
  · rw [Option.some.injEq] at h
    subst h
    rcases h1 with h1 | h1 <;> simp_all
  · rw [Option.some.injEq] at h
    subst h
    simp_all
  · dsimp only at h
    have h2' : s.bp.cur_t - s.bp.step_start_t ≥ STATE_TRANS_DELAY := not_lt.mp h2
    split_ifs at h
    all_goals
      rw [Option.some.injEq] at h
      subst h
      simp only [step_next_bp_step, tug_upd_bp, zibo_chocks_remove_bp]
      simp_all

theorem pb_step_waiting_for_pbrake_rearm (M : Ext) (s : State)
    (h : dwell_exit_cond M dwell_phase_t.WAITING_FOR_PBRAKE s = false) :
    pb_step_waiting_for_pbrake M s = some (step_rearm s) := by
  unfold pb_step_waiting_for_pbrake
  unfold dwell_exit_cond at h
  have : pbrake_is_set s = false ∨
      s.bp.cur_t - s.bp.last_voice_t < M.msg_dur msg_type_t.MSG_RDY2CONN := by
    cases hp : pbrake_is_set s <;> simp_all
  rw [if_pos this]

theorem pb_step_stopping_steer_bp (M : Ext) (s : State) :
    (pb_step_stopping_steer M s).1.bp.step = s.bp.step ∧
      (pb_step_stopping_steer M s).1.bp.step_start_t = s.bp.step_start_t ∧
      (pb_step_stopping_steer M s).1.bp.cur_t = s.bp.cur_t ∧
      (pb_step_stopping_steer M s).1.bp.cur_pos = s.bp.cur_pos := by
  unfold pb_step_stopping_steer
  dsimp only
  split_ifs <;> exact ⟨rfl, rfl, rfl, rfl⟩

theorem pb_step_stopping_steer_done (M : Ext) (s : State) :
    (pb_step_stopping_steer M s).2 = pb_step_stopping_done M s := by
  unfold pb_step_stopping_steer pb_step_stopping_done
  dsimp only
  split_ifs <;> simp_all
  all_goals
    intro hh
    rcases ‹_ ∨ _› with h1 | h1
    · exact absurd hh (not_le.mpr h1)
    · exact h1

theorem pb_step_stopping_outcome (M : Ext) (s : State) :
    dwell_outcome s (pb_step_stopping M s)
      (dwell_exit_cond M dwell_phase_t.STOPPING s) := by
  obtain ⟨e1, e2, e3, e4⟩ := pb_step_stopping_steer_bp M s
  have e5 := pb_step_stopping_steer_done M s
  unfold dwell_outcome pb_step_stopping dwell_exit_cond
  dsimp only
  rw [e5, e4]
  split_ifs <;> simp_all

theorem pb_step_stopped_outcome (M : Ext) (s : State) :
    dwell_outcome s (pb_step_stopped M s)
      (dwell_exit_cond M dwell_phase_t.STOPPED s) := by
  unfold dwell_outcome pb_step_stopped dwell_exit_cond
  dsimp only
  split_ifs <;> simp_all
  all_goals
    cases hp : pbrake_is_set s <;> simp_all

theorem dwell_handler_outcome (M : Ext) (p : dwell_phase_t) (s s1 : State)
    (h : dwell_handler M p s = some s1) :
    dwell_outcome s s1 (dwell_exit_cond M p s) := by
  cases p
  · simp only [dwell_handler, Option.some.injEq] at h
    subst h
    exact pb_step_driving_up_close_outcome M s
  · exact pb_step_waiting_for_pbrake_outcome M s s1 h
  · simp only [dwell_handler, Option.some.injEq] at h
    subst h
    exact pb_step_driving_up_connect_outcome M s
  · simp only [dwell_handler, Option.some.injEq] at h
    subst h
    exact pb_step_connected_outcome M s
  · simp only [dwell_handler, Option.some.injEq] at h
    subst h
    exact pb_step_stopping_outcome M s
  · simp only [dwell_handler, Option.some.injEq] at h
    subst h
    exact pb_step_stopped_outcome M s

theorem dwell_handler_returns (M : Ext) (p : dwell_phase_t) (s : State)
    (h : dwell_exit_cond M p s = false) : ∃ s1, dwell_handler M p s = some s1 := by
  cases p
  · exact ⟨_, rfl⟩
  · exact ⟨_, pb_step_waiting_for_pbrake_rearm M s h⟩
  · exact ⟨_, rfl⟩
  · exact ⟨_, rfl⟩
  · exact ⟨_, rfl⟩
  · exact ⟨_, rfl⟩

/-- C5: for each dwell-gated phase handler (DRIVING_UP_CLOSE,
WAITING_FOR_PARK_BRAKE, DRIVING_UP_CONNECT, CONNECTED, STOPPING, STOPPED): on a
tick `s2` where the exit condition of the phase is false the handler returns
with `step_start_t` set to the current time and the phase unchanged; on any
tick the handler advances the phase only when the condition is true and `cur_t
- step_start_t >= STATE_TRANS_DELAY`, and then by exactly one; hence on a later
tick `s3` that finds the timestamp left by `s2`, the phase advances only when
`STATE_TRANS_DELAY` has passed since the false observation `s2`. -/
theorem dwell_gating_restarts (M : Ext) (p : dwell_phase_t) (s2 s3 : State)
    (hfalse : dwell_exit_cond M p s2 = false) (hkeep : s3.bp.step_start_t = s2.bp.cur_t) :
    (∃ s2', dwell_handler M p s2 = some s2' ∧ s2'.bp.step_start_t = s2.bp.cur_t ∧
        s2'.bp.step = s2.bp.step) ∧
      (∀ s s1, dwell_handler M p s = some s1 → s1.bp.step ≠ s.bp.step →
        dwell_exit_cond M p s = true ∧ s.bp.cur_t - s.bp.step_start_t ≥ STATE_TRANS_DELAY ∧
          s1.bp.step = s.bp.step + 1) ∧
      (∀ s3', dwell_handler M p s3 = some s3' → s3'.bp.step ≠ s3.bp.step →
        s3.bp.cur_t - s2.bp.cur_t ≥ STATE_TRANS_DELAY) := by
  refine ⟨?_, ?_, ?_⟩
  · obtain ⟨s2', h2⟩ := dwell_handler_returns M p s2 hfalse
    exact ⟨s2', h2, (dwell_handler_outcome M p s2 s2' h2).1 hfalse⟩
  · intro s s1 h hne
    exact (dwell_handler_outcome M p s s1 h).2 hne
  · intro s3' h hne
    have := ((dwell_handler_outcome M p s3 s3' h).2 hne).2.1
    rw [hkeep] at this
    exact this

/-- Witness of C5: phase CONNECTED with the parking brake still set at time
101, and a later tick at time 102 with the brake released. -/
theorem dwell_gating_restarts_witness :
    (∃ s2', dwell_handler ext_example dwell_phase_t.CONNECTED (state_connected 101 90 1) =
          some s2' ∧
        s2'.bp.step_start_t = (state_connected 101 90 1).bp.cur_t ∧
        s2'.bp.step = (state_connected 101 90 1).bp.step) ∧
      (∀ s3', dwell_handler ext_example dwell_phase_t.CONNECTED (state_connected 102 101 0) =
          some s3' →
        s3'.bp.step ≠ (state_connected 102 101 0).bp.step →
        (state_connected 102 101 0).bp.cur_t - (state_connected 101 90 1).bp.cur_t ≥
          STATE_TRANS_DELAY) :=
  have h := dwell_gating_restarts ext_example dwell_phase_t.CONNECTED
    (state_connected 101 90 1) (state_connected 102 101 0)
    (by norm_num [dwell_exit_cond, pbrake_is_set, state_connected]) rfl
  ⟨h.1, h.2.2⟩

/-! ### The start of a tick -/

theorem tug_pos_update_eq (M : Ext) (my_pos : vect2_t) (my_hdg : ℚ) (pos_only : Bool)
    (s : State) :
    tug_pos_update M my_pos my_hdg pos_only s =
      { s with
        tug := (tug_pos_update M my_pos my_hdg pos_only s).tug,
        divs := (tug_pos_update M my_pos my_hdg pos_only s).divs } := by
  unfold tug_pos_update
  dsimp only
  split_ifs <;> rfl

theorem draw_tugs_eq (M : Ext) (s : State) :
    draw_tugs M s = { s with tug := (draw_tugs M s).tug, divs := (draw_tugs M s).divs } := by
  unfold draw_tugs
  cases s.tug with
  | none => rfl
  | some t =>
    dsimp only
    split_ifs
    · exact tug_pos_update_eq M _ _ _ s
    · rfl

theorem bp_run_tug_eq (M : Ext) (s : State) :
    bp_run_tug M s =
      { s with tug := (bp_run_tug M s).tug, divs := (bp_run_tug M s).divs } := by
  unfold bp_run_tug
  cases s.tug with
  | none => rfl
  | some t =>
    dsimp only
    split_ifs
    · exact tug_pos_update_eq M _ _ _ _
    · rfl

theorem bp_run_steer_override_eq (s : State) :
    bp_run_steer_override s = { s with drs := (bp_run_steer_override s).drs } := by
  unfold bp_run_steer_override
  split_ifs <;> rfl

@[simp]
theorem draw_tugs_bp (M : Ext) (s : State) : (draw_tugs M s).bp = s.bp := by
  rw [draw_tugs_eq M s]

@[simp]
theorem draw_tugs_drs (M : Ext) (s : State) : (draw_tugs M s).drs = s.drs := by
  rw [draw_tugs_eq M s]

@[simp]
theorem draw_tugs_bp_xp_ver (M : Ext) (s : State) : (draw_tugs M s).bp_xp_ver = s.bp_xp_ver := by
  rw [draw_tugs_eq M s]

@[simp]
theorem draw_tugs_bp_started (M : Ext) (s : State) : (draw_tugs M s).bp_started = s.bp_started := by
  rw [draw_tugs_eq M s]

@[simp]
theorem draw_tugs_bp_connected (M : Ext) (s : State) : (draw_tugs M s).bp_connected = s.bp_connected := by
  rw [draw_tugs_eq M s]

@[simp]
theorem draw_tugs_slave_mode (M : Ext) (s : State) : (draw_tugs M s).slave_mode = s.slave_mode := by
  rw [draw_tugs_eq M s]

@[simp]
theorem draw_tugs_op_complete (M : Ext) (s : State) : (draw_tugs M s).op_complete = s.op_complete := by
  rw [draw_tugs_eq M s]

@[simp]
theorem draw_tugs_plan_complete (M : Ext) (s : State) : (draw_tugs M s).plan_complete = s.plan_complete := by
  rw [draw_tugs_eq M s]

@[simp]
theorem draw_tugs_pb_set_remote (M : Ext) (s : State) : (draw_tugs M s).pb_set_remote = s.pb_set_remote := by
  rw [draw_tugs_eq M s]

@[simp]
theorem draw_tugs_pb_set_override (M : Ext) (s : State) : (draw_tugs M s).pb_set_override = s.pb_set_override := by
  rw [draw_tugs_eq M s]

@[simp]
theorem draw_tugs_late_plan_requested (M : Ext) (s : State) : (draw_tugs M s).late_plan_requested = s.late_plan_requested := by
  rw [draw_tugs_eq M s]

@[simp]
theorem draw_tugs_tug_pending_mode (M : Ext) (s : State) : (draw_tugs M s).tug_pending_mode = s.tug_pending_mode := by
  rw [draw_tugs_eq M s]

@[simp]
theorem draw_tugs_tug_auto_start (M : Ext) (s : State) : (draw_tugs M s).tug_auto_start = s.tug_auto_start := by
  rw [draw_tugs_eq M s]

@[simp]
theorem draw_tugs_tug_starts_next_plane (M : Ext) (s : State) : (draw_tugs M s).tug_starts_next_plane = s.tug_starts_next_plane := by
  rw [draw_tugs_eq M s]

@[simp]
theorem draw_tugs_cfg_ignore_park_break (M : Ext) (s : State) : (draw_tugs M s).cfg_ignore_park_break = s.cfg_ignore_park_break := by
  rw [draw_tugs_eq M s]

@[simp]
theorem draw_tugs_cfg_disco_when_done (M : Ext) (s : State) : (draw_tugs M s).cfg_disco_when_done = s.cfg_disco_when_done := by
  rw [draw_tugs_eq M s]

@[simp]
theorem draw_tugs_bp_tug_name (M : Ext) (s : State) : (draw_tugs M s).bp_tug_name = s.bp_tug_name := by
  rw [draw_tugs_eq M s]

@[simp]
theorem draw_tugs_disco_win (M : Ext) (s : State) : (draw_tugs M s).disco_win = s.disco_win := by
  rw [draw_tugs_eq M s]

@[simp]
theorem draw_tugs_push_manual (M : Ext) (s : State) : (draw_tugs M s).push_manual = s.push_manual := by
  rw [draw_tugs_eq M s]

@[simp]
theorem draw_tugs_calls (M : Ext) (s : State) : (draw_tugs M s).calls = s.calls := by
  rw [draw_tugs_eq M s]

@[simp]
theorem bp_run_tug_bp (M : Ext) (s : State) : (bp_run_tug M s).bp = s.bp := by
  rw [bp_run_tug_eq M s]

@[simp]
theorem bp_run_tug_drs (M : Ext) (s : State) : (bp_run_tug M s).drs = s.drs := by
  rw [bp_run_tug_eq M s]

@[simp]
theorem bp_run_tug_bp_xp_ver (M : Ext) (s : State) : (bp_run_tug M s).bp_xp_ver = s.bp_xp_ver := by
  rw [bp_run_tug_eq M s]

@[simp]
theorem bp_run_tug_bp_started (M : Ext) (s : State) : (bp_run_tug M s).bp_started = s.bp_started := by
  rw [bp_run_tug_eq M s]

@[simp]
theorem bp_run_tug_bp_connected (M : Ext) (s : State) : (bp_run_tug M s).bp_connected = s.bp_connected := by
  rw [bp_run_tug_eq M s]

@[simp]
theorem bp_run_tug_slave_mode (M : Ext) (s : State) : (bp_run_tug M s).slave_mode = s.slave_mode := by
  rw [bp_run_tug_eq M s]

@[simp]
theorem bp_run_tug_op_complete (M : Ext) (s : State) : (bp_run_tug M s).op_complete = s.op_complete := by
  rw [bp_run_tug_eq M s]

@[simp]
theorem bp_run_tug_plan_complete (M : Ext) (s : State) : (bp_run_tug M s).plan_complete = s.plan_complete := by
  rw [bp_run_tug_eq M s]

@[simp]
theorem bp_run_tug_pb_set_remote (M : Ext) (s : State) : (bp_run_tug M s).pb_set_remote = s.pb_set_remote := by
  rw [bp_run_tug_eq M s]

@[simp]
theorem bp_run_tug_pb_set_override (M : Ext) (s : State) : (bp_run_tug M s).pb_set_override = s.pb_set_override := by
  rw [bp_run_tug_eq M s]

@[simp]
theorem bp_run_tug_late_plan_requested (M : Ext) (s : State) : (bp_run_tug M s).late_plan_requested = s.late_plan_requested := by
  rw [bp_run_tug_eq M s]

@[simp]
theorem bp_run_tug_tug_pending_mode (M : Ext) (s : State) : (bp_run_tug M s).tug_pending_mode = s.tug_pending_mode := by
  rw [bp_run_tug_eq M s]

@[simp]
theorem bp_run_tug_tug_auto_start (M : Ext) (s : State) : (bp_run_tug M s).tug_auto_start = s.tug_auto_start := by
  rw [bp_run_tug_eq M s]

@[simp]
theorem bp_run_tug_tug_starts_next_plane (M : Ext) (s : State) : (bp_run_tug M s).tug_starts_next_plane = s.tug_starts_next_plane := by
  rw [bp_run_tug_eq M s]

@[simp]
theorem bp_run_tug_cfg_ignore_park_break (M : Ext) (s : State) : (bp_run_tug M s).cfg_ignore_park_break = s.cfg_ignore_park_break := by
  rw [bp_run_tug_eq M s]

@[simp]
theorem bp_run_tug_cfg_disco_when_done (M : Ext) (s : State) : (bp_run_tug M s).cfg_disco_when_done = s.cfg_disco_when_done := by
  rw [bp_run_tug_eq M s]

@[simp]
theorem bp_run_tug_bp_tug_name (M : Ext) (s : State) : (bp_run_tug M s).bp_tug_name = s.bp_tug_name := by
  rw [bp_run_tug_eq M s]

@[simp]
theorem bp_run_tug_disco_win (M : Ext) (s : State) : (bp_run_tug M s).disco_win = s.disco_win := by
  rw [bp_run_tug_eq M s]

@[simp]
theorem bp_run_tug_push_manual (M : Ext) (s : State) : (bp_run_tug M s).push_manual = s.push_manual := by
  rw [bp_run_tug_eq M s]

@[simp]
theorem bp_run_tug_calls (M : Ext) (s : State) : (bp_run_tug M s).calls = s.calls := by
  rw [bp_run_tug_eq M s]

@[simp]
theorem bp_run_steer_override_bp (s : State) : (bp_run_steer_override s).bp = s.bp := by
  rw [bp_run_steer_override_eq s]

@[simp]
theorem bp_run_steer_override_tug (s : State) : (bp_run_steer_override s).tug = s.tug := by
  rw [bp_run_steer_override_eq s]

@[simp]
theorem bp_run_steer_override_bp_xp_ver (s : State) : (bp_run_steer_override s).bp_xp_ver = s.bp_xp_ver := by
  rw [bp_run_steer_override_eq s]

@[simp]
theorem bp_run_steer_override_bp_started (s : State) : (bp_run_steer_override s).bp_started = s.bp_started := by
  rw [bp_run_steer_override_eq s]

@[simp]
theorem bp_run_steer_override_bp_connected (s : State) : (bp_run_steer_override s).bp_connected = s.bp_connected := by
  rw [bp_run_steer_override_eq s]

@[simp]
theorem bp_run_steer_override_slave_mode (s : State) : (bp_run_steer_override s).slave_mode = s.slave_mode := by
  rw [bp_run_steer_override_eq s]

@[simp]
theorem bp_run_steer_override_op_complete (s : State) : (bp_run_steer_override s).op_complete = s.op_complete := by
  rw [bp_run_steer_override_eq s]

@[simp]
theorem bp_run_steer_override_plan_complete (s : State) : (bp_run_steer_override s).plan_complete = s.plan_complete := by
  rw [bp_run_steer_override_eq s]

@[simp]
theorem bp_run_steer_override_pb_set_remote (s : State) : (bp_run_steer_override s).pb_set_remote = s.pb_set_remote := by
  rw [bp_run_steer_override_eq s]

@[simp]
theorem bp_run_steer_override_pb_set_override (s : State) : (bp_run_steer_override s).pb_set_override = s.pb_set_override := by
  rw [bp_run_steer_override_eq s]

@[simp]
theorem bp_run_steer_override_late_plan_requested (s : State) : (bp_run_steer_override s).late_plan_requested = s.late_plan_requested := by
  rw [bp_run_steer_override_eq s]

@[simp]
theorem bp_run_steer_override_tug_pending_mode (s : State) : (bp_run_steer_override s).tug_pending_mode = s.tug_pending_mode := by
  rw [bp_run_steer_override_eq s]

@[simp]
theorem bp_run_steer_override_tug_auto_start (s : State) : (bp_run_steer_override s).tug_auto_start = s.tug_auto_start := by
  rw [bp_run_steer_override_eq s]

@[simp]
theorem bp_run_steer_override_tug_starts_next_plane (s : State) : (bp_run_steer_override s).tug_starts_next_plane = s.tug_starts_next_plane := by
  rw [bp_run_steer_override_eq s]

@[simp]
theorem bp_run_steer_override_cfg_ignore_park_break (s : State) : (bp_run_steer_override s).cfg_ignore_park_break = s.cfg_ignore_park_break := by
  rw [bp_run_steer_override_eq s]

@[simp]
theorem bp_run_steer_override_cfg_disco_when_done (s : State) : (bp_run_steer_override s).cfg_disco_when_done = s.cfg_disco_when_done := by
  rw [bp_run_steer_override_eq s]

@[simp]
theorem bp_run_steer_override_bp_tug_name (s : State) : (bp_run_steer_override s).bp_tug_name = s.bp_tug_name := by
  rw [bp_run_steer_override_eq s]

@[simp]
theorem bp_run_steer_override_disco_win (s : State) : (bp_run_steer_override s).disco_win = s.disco_win := by
  rw [bp_run_steer_override_eq s]

@[simp]
theorem bp_run_steer_override_push_manual (s : State) : (bp_run_steer_override s).push_manual = s.push_manual := by
  rw [bp_run_steer_override_eq s]

@[simp]
theorem bp_run_steer_override_calls (s : State) : (bp_run_steer_override s).calls = s.calls := by
  rw [bp_run_steer_override_eq s]

@[simp]
theorem pbrake_is_set_draw_tugs (M : Ext) (s : State) :
    pbrake_is_set (draw_tugs M s) = pbrake_is_set s := by
  rw [draw_tugs_eq]
  rfl

@[simp]
theorem pbrake_is_set_bp_run_tug (M : Ext) (s : State) :
    pbrake_is_set (bp_run_tug M s) = pbrake_is_set s := by
  rw [bp_run_tug_eq]
  rfl

@[simp]
theorem pbrake_is_set_bp_run_steer_override (s : State) :
    pbrake_is_set (bp_run_steer_override s) = pbrake_is_set s := by
  unfold bp_run_steer_override
  split_ifs <;> rfl

@[simp]
theorem stop_signal_bp_run_prelude (M : Ext) (s : State) :
    stop_signal (bp_run_prelude M s) = stop_signal s := by
  simp [stop_signal, bp_run_prelude, bp_run_connected, bp_run_delta, bp_gather]

@[simp]
theorem nw_steer_lost_moved (M : Ext) (s : State) :
    nw_steer_lost (bp_run_tug M (bp_run_delta M (draw_tugs M (bp_gather M s)))) =
      nw_steer_lost s := by
  simp [nw_steer_lost, bp_run_delta, bp_gather]

@[simp]
theorem bp_run_prelude_bp_step (M : Ext) (s : State) :
    (bp_run_prelude M s).bp.step = s.bp.step := by
  simp [bp_run_prelude, bp_run_connected, bp_run_delta, bp_gather]

@[simp]
theorem bp_run_prelude_calls (M : Ext) (s : State) :
    (bp_run_prelude M s).calls = s.calls := by
  simp [bp_run_prelude, bp_run_connected, bp_run_delta, bp_gather]

@[simp]
theorem bp_run_prelude_bp_started (M : Ext) (s : State) :
    (bp_run_prelude M s).bp_started = s.bp_started := by
  simp [bp_run_prelude, bp_run_connected, bp_run_delta, bp_gather]

@[simp]
theorem bp_run_prelude_slave_mode (M : Ext) (s : State) :
    (bp_run_prelude M s).slave_mode = s.slave_mode := by
  simp [bp_run_prelude, bp_run_connected, bp_run_delta, bp_gather]

@[simp]
theorem bp_run_prelude_pbrake (M : Ext) (s : State) :
    pbrake_is_set (bp_run_prelude M s) = pbrake_is_set s := by
  unfold bp_run_prelude
  have h : ∀ x : State, pbrake_is_set (bp_run_connected x) = pbrake_is_set x := fun _ => rfl
  have h2 : ∀ x : State, pbrake_is_set (bp_run_delta M x) = pbrake_is_set x := fun _ => rfl
  have h3 : ∀ x : State, pbrake_is_set (bp_gather M x) = pbrake_is_set x := fun _ => rfl
  simp [h, h2, h3]

theorem bp_run_prelude_cur_pos (M : Ext) (s : State) :
    (bp_run_prelude M s).bp.cur_pos = (bp_gather M s).bp.cur_pos := by
  simp [bp_run_prelude, bp_run_connected, bp_run_delta]

/-! ### Teardown -/

/-- What every path of `bp_state_init` establishes: the session context is the
zeroed one up to aircraft geometry and vehicle profile, and nothing outside
`bp` changes. -/
theorem bp_state_init_clean (s : State) :
    (bp_state_init s).2.bp.step = PB_STEP_OFF ∧ (bp_state_init s).2.bp.segs = [] ∧
      (bp_state_init s).2.bp.step_start_t = 0 ∧ (bp_state_init s).2.bp.last_force = 0 ∧
      (bp_state_init s).2.bp.tug_weight_force = 0 ∧ (bp_state_init s).2.bp.reverse_t = 0 ∧
      (bp_state_init s).2.tug = s.tug ∧ (bp_state_init s).2.bp_started = s.bp_started ∧
      (bp_state_init s).2.bp_connected = s.bp_connected ∧
      (bp_state_init s).2.late_plan_requested = s.late_plan_requested ∧
      (bp_state_init s).2.plan_complete = s.plan_complete ∧
      (bp_state_init s).2.calls = s.calls := by
  unfold bp_state_init
  dsimp only
  split_ifs with h1
  · exact ⟨rfl, rfl, rfl, rfl, rfl, rfl, rfl, rfl, rfl, rfl, rfl, rfl⟩
  · cases hf : s.drs.acf_file with
    | none => exact ⟨rfl, rfl, rfl, rfl, rfl, rfl, rfl, rfl, rfl, rfl, rfl, rfl⟩
    | some flags =>
      dsimp only
      split_ifs <;> exact ⟨rfl, rfl, rfl, rfl, rfl, rfl, rfl, rfl, rfl, rfl, rfl, rfl⟩

/-- A started session after `bp_complete`: initial phase, not started, tug
released, queue empty; the call is logged and no other call is made. -/
theorem bp_complete_started (s : State) (h : s.bp_started = true) :
    (bp_complete s).bp.step = PB_STEP_OFF ∧ (bp_complete s).bp_started = false ∧
      (bp_complete s).bp_connected = false ∧ (bp_complete s).tug = none ∧
      (bp_complete s).bp.segs = [] ∧ (bp_complete s).bp.last_force = 0 ∧
      (bp_complete s).calls = s.calls ++ [call_t.bp_complete] := by
  unfold bp_complete
  dsimp only
  have hs : (bp_delete_all_segs s).bp_started = true := h
  simp only [hs, Bool.true_eq_false, if_false]
  split_ifs with h2
  · obtain ⟨e1, e2, _, e4, _, _, e7, e8, e9, _, _, e12⟩ := bp_state_init_clean
      { (let s1 : State := { (bp_delete_all_segs s) with
            calls := (bp_delete_all_segs s).calls ++ [call_t.bp_complete],
            bp_started := false, bp_connected := false, late_plan_requested := false,
            plan_complete := false, tug := none, disco_win := false }
          let s2 : State := { s1 with drs := { s1.drs with override_steer := 0 } }
          let s3 := brakes_set false s2
          ({ s3 with drs := { s3.drs with
            leg_len := dr_setvf1 s3.drs.leg_len s3.bp.acf.nw_i s3.bp.acf.nw_len } } : State))
        with bp_tug_name := "" }
    exact ⟨e1, e8, e9, e7, e2, e4, e12⟩
  · obtain ⟨e1, e2, _, e4, _, _, e7, e8, e9, _, _, e12⟩ := bp_state_init_clean
      { ({ (bp_delete_all_segs s) with
            calls := (bp_delete_all_segs s).calls ++ [call_t.bp_complete],
            bp_started := false, bp_connected := false, late_plan_requested := false,
            plan_complete := false, tug := none, disco_win := false } : State)
        with bp_tug_name := "" }
    exact ⟨e1, e8, e9, e7, e2, e4, e12⟩

/-! ### The tick, case by case -/

theorem bp_run_short (M : Ext) (s : State)
    (h : s.drs.sim_time - s.bp.last_t < MIN_STEP_TIME) :
    bp_run M s = some (-1, draw_tugs M (bp_gather M s)) := by
  unfold bp_run
  dsimp only
  have e : (draw_tugs M (bp_gather M s)).bp.cur_t - (draw_tugs M (bp_gather M s)).bp.last_t =
      s.drs.sim_time - s.bp.last_t := by
    simp [bp_gather]
  rw [e, if_pos h]

theorem bp_run_long (M : Ext) (s : State)
    (h : ¬ s.drs.sim_time - s.bp.last_t < MIN_STEP_TIME) :
    bp_run M s =
      if nw_steer_lost s then
        some (0, bp_complete (bp_run_tug M (bp_run_delta M (draw_tugs M (bp_gather M s)))))
      else
        match bp_run_stop (bp_run_prelude M s) with
        | none => some (0, bp_complete (bp_run_prelude M s))
        | some s1 => bp_run_phase M s1 := by
  unfold bp_run
  dsimp only
  have e : (draw_tugs M (bp_gather M s)).bp.cur_t - (draw_tugs M (bp_gather M s)).bp.last_t =
      s.drs.sim_time - s.bp.last_t := by
    simp [bp_gather]
  rw [e, if_neg h, nw_steer_lost_moved]
  rfl

theorem bp_run_stop_before_grab (M : Ext) (s : State)
    (hstop : stop_signal s = true) (hstep : s.bp.step < PB_STEP_GRABBING) :
    bp_run_stop (bp_run_prelude M s) = none := by
  unfold bp_run_stop
  simp [hstop, hstep]

theorem bp_run_stop_after_grab (M : Ext) (s : State)
    (hstop : stop_signal s = true) (hstep : PB_STEP_GRABBING ≤ s.bp.step) :
    bp_run_stop (bp_run_prelude M s) =
      some { (bp_run_prelude M s) with
        bp := { (bp_run_prelude M s).bp with step := bp_run_stop_step (bp_run_prelude M s) } } := by
  unfold bp_run_stop
  simp [hstop, not_lt.mpr hstep]

/-- The teardown of a tick that sees the stop signal before the tug holds the
nose gear. -/
theorem bp_run_teardown (M : Ext) (s : State)
    (htick : ¬ s.drs.sim_time - s.bp.last_t < MIN_STEP_TIME)
    (hstop : stop_signal s = true) (hstep : s.bp.step < PB_STEP_GRABBING) :
    ∃ s1, bp_run M s = some (0, bp_complete s1) ∧ s1.calls = s.calls ∧
      s1.bp_started = s.bp_started := by
  rw [bp_run_long M s htick]
  split_ifs with h
  · exact ⟨_, rfl, by simp [bp_run_delta, bp_gather], by simp [bp_run_delta, bp_gather]⟩
  · rw [bp_run_stop_before_grab M s hstop hstep]
    exact ⟨_, rfl, by simp, by simp⟩

/-- The fast-forward of a tick that sees the stop signal once the tug holds
the nose gear. -/
theorem bp_run_fast_forward (M : Ext) (s : State)
    (htick : ¬ s.drs.sim_time - s.bp.last_t < MIN_STEP_TIME)
    (hnw : nw_steer_lost s = false)
    (hstop : stop_signal s = true) (hstep : PB_STEP_GRABBING ≤ s.bp.step) :
    bp_run M s =
      bp_run_phase M { (bp_run_prelude M s) with
        bp := { (bp_run_prelude M s).bp with step := bp_run_stop_step (bp_run_prelude M s) } } := by
  rw [bp_run_long M s htick, hnw, bp_run_stop_after_grab M s hstop hstep]
  rfl

theorem bp_run_stop_step_eq (M : Ext) (s : State) :
    bp_run_stop_step (bp_run_prelude M s) =
      if s.bp.step < PB_STEP_STOPPING then
        if ABS (bp_gather M s).bp.cur_pos.spd < SPEED_COMPLETE_THRESH ∧ pbrake_is_set s = true
        then PB_STEP_STOPPED else PB_STEP_STOPPING
      else s.bp.step := by
  unfold bp_run_stop_step
  rw [bp_run_prelude_bp_step, bp_run_prelude_pbrake, bp_run_prelude_cur_pos]

/-- The time of a tick that `bp_run` processes is positive when the time of
the last processed tick, or of `bp_start`, was not negative: `bp_run` goes on
past the minimum-interval check only when `cur_t - last_t >= MIN_STEP_TIME`.
The phase switch, and with it `bp_run_push`, never runs at time 0. -/
theorem bp_run_prelude_time_pos (M : Ext) (s : State) (hlast : 0 ≤ s.bp.last_t)
    (htick : ¬ s.drs.sim_time - s.bp.last_t < MIN_STEP_TIME) :
    0 < (bp_run_prelude M s).bp.cur_t := by
  have hp_time : (bp_run_prelude M s).bp.cur_t = s.drs.sim_time := by
    simp [bp_run_prelude, bp_run_connected, bp_run_delta, bp_gather]
  rw [hp_time]
  unfold MIN_STEP_TIME at htick
  linarith

/-! ### C4, the pause -/

/-- C4: the reversal pause of automatic pushing. In the tick `s0` in which the
head segment completes and the new head runs the other way, `bp_run_push`
calls the planner once, sets the reversal timer to the time of the tick and
calls the force controller with target speed 0. In every later tick `s1` less
than `2 * STATE_TRANS_DELAY` after that tick it calls the force controller
with target speed 0 and nothing else, and keeps timer and queue. In a tick `s2`
at or after `2 * STATE_TRANS_DELAY` it calls the planner first; the timer is
cleared (and stays so unless the planner completes the head segment in that
tick). The time of the reversal is any time other than 0, the value of
`bp.reverse_t` that stands for no reversal pending. This covers every reversal
of a session: a tick `x` that `bp_run` processes, the time of the last
processed tick (or of `bp_start`) being not negative, hands a state to the
phase switch whose time is not 0. -/
theorem bp_run_push_reversal_pause (M : Ext) (s0 s1 s2 : State) (seg next seg2 : seg_t)
    (rest rest2 : List seg_t)
    (hauto0 : s0.push_manual.active = false) (hbrk0 : brakes_applied s0 = false)
    (hsegs0 : s0.bp.segs = seg :: next :: rest) (hidle0 : reversal_wait s0 = false)
    (hdone0 : (drive_segs_out M seg (next :: rest) s0).complete = true)
    (hrev : next.backward ≠ seg.backward) (ht0 : s0.bp.cur_t ≠ 0)
    (hauto1 : s1.push_manual.active = false) (hbrk1 : brakes_applied s1 = false)
    (hsegs1 : s1.bp.segs ≠ []) (htimer1 : s1.bp.reverse_t = s0.bp.cur_t)
    (hlt1 : s1.bp.cur_t - s0.bp.cur_t < 2 * STATE_TRANS_DELAY)
    (hauto2 : s2.push_manual.active = false) (hbrk2 : brakes_applied s2 = false)
    (hsegs2 : s2.bp.segs = seg2 :: rest2) (htimer2 : s2.bp.reverse_t = s0.bp.cur_t)
    (hge2 : s2.bp.cur_t - s0.bp.cur_t ≥ 2 * STATE_TRANS_DELAY) :
    ((bp_run_push M s0).1.bp.reverse_t = s0.bp.cur_t ∧
        (bp_run_push M s0).1.bp.segs = next :: rest ∧
        (bp_run_push M s0).1.calls =
          s0.calls ++ [call_t.drive_segs, call_t.push_at_speed 0]) ∧
      (bp_run_push M s1 = (push_at_speed M 0 s1.bp.veh.max_accel true false s1, true) ∧
        (bp_run_push M s1).1.calls = s1.calls ++ [call_t.push_at_speed 0] ∧
        (bp_run_push M s1).1.bp.reverse_t = s0.bp.cur_t ∧
        (bp_run_push M s1).1.bp.segs = s1.bp.segs) ∧
      ((∃ l, (bp_run_push M s2).1.calls = s2.calls ++ call_t.drive_segs :: l) ∧
        ((drive_segs_out M seg2 rest2 s2).complete = false →
          (bp_run_push M s2).1.bp.reverse_t = 0 ∧
            (bp_run_push M s2).1.bp.segs = seg2 :: rest2)) ∧
      (∀ x : State, 0 ≤ x.bp.last_t → ¬ x.drs.sim_time - x.bp.last_t < MIN_STEP_TIME →
        (bp_run_prelude M x).bp.cur_t ≠ 0) := by
  refine ⟨?_, ?_, ?_, fun x hl ht => ne_of_gt (bp_run_prelude_time_pos M x hl ht)⟩
  · rw [bp_run_push_at_reversal M s0 seg next rest hauto0 hbrk0 hsegs0 hidle0 hdone0 hrev ht0]
    refine ⟨rfl, ?_, ?_⟩
    · show (if (drive_segs_out M seg (next :: rest) (reverse_clear s0)).complete then next :: rest
        else seg :: next :: rest) = next :: rest
      rw [drive_segs_out_reverse_clear, hdone0]
      rfl
    · show (s0.calls ++ [call_t.drive_segs]) ++ [call_t.push_at_speed 0] = _
      simp
  · have hw : reversal_wait s1 = true := by
      simp only [reversal_wait, htimer1, Bool.and_eq_true, decide_eq_true_eq]
      exact ⟨ht0, hlt1⟩
    rw [bp_run_push_in_pause M s1 hauto1 hbrk1 hsegs1 hw]
    exact ⟨rfl, rfl, htimer1, rfl⟩
  · have hw : reversal_wait s2 = false := by
      simp only [reversal_wait, htimer2, Bool.and_eq_false_imp, decide_eq_true_eq,
        decide_eq_false_iff_not, not_lt]
      intro _
      exact hge2
    exact bp_run_push_resume M s2 seg2 rest2 hauto2 hbrk2 hsegs2 hw

/-- Witness of C4: a reversal at simulation time 100, a tick one
second and a tick four seconds later. -/
theorem bp_run_push_reversal_pause_witness :
    (bp_run_push ext_example (state_at_reversal 100)).1.calls =
        (state_at_reversal 100).calls ++ [call_t.drive_segs, call_t.push_at_speed 0] ∧
      bp_run_push ext_example (state_in_pause 100 101) =
        (push_at_speed ext_example 0 (state_in_pause 100 101).bp.veh.max_accel true false
          (state_in_pause 100 101), true) ∧
      ∃ l, (bp_run_push ext_example (state_in_pause 100 104)).1.calls =
        (state_in_pause 100 104).calls ++ call_t.drive_segs :: l :=
  have h := bp_run_push_reversal_pause ext_example (state_at_reversal 100)
    (state_in_pause 100 101) (state_in_pause 100 104) seg_forward seg_backward seg_backward
    [] [] rfl (state_at_reversal_brakes 100) rfl (state_at_reversal_idle 100)
    (by rw [state_at_reversal_out]) (by decide) (by norm_num [state_at_reversal])
    rfl (by norm_num [brakes_applied, pbrake_is_set, state_in_pause, BRAKE_PEDAL_THRESH])
    (by simp [state_in_pause]) rfl
    (by norm_num [state_in_pause, state_at_reversal, STATE_TRANS_DELAY])
    rfl (by norm_num [brakes_applied, pbrake_is_set, state_in_pause, BRAKE_PEDAL_THRESH])
    rfl rfl (by norm_num [state_in_pause, state_at_reversal, STATE_TRANS_DELAY])
  ⟨h.1.2.2, h.2.1.1, h.2.2.1.1⟩

/-! ### C10 -/

/-- C10: on a tick with `cur_t - last_t < MIN_STEP_TIME`, where `cur_t` is the
simulation time that the tick reads, `bp_run` returns -1 and leaves the phase,
the phase-entry timestamp, the stored force state, `last_t`, `last_pos`, the
tick delta `d_t` and the segment queue unchanged; it calls neither the planner
nor the force controller nor the teardown. -/
theorem bp_run_min_step_noop (M : Ext) (s : State)
    (h : s.drs.sim_time - s.bp.last_t < MIN_STEP_TIME) :
    ∃ s1, bp_run M s = some (-1, s1) ∧
      s1.bp.step = s.bp.step ∧ s1.bp.step_start_t = s.bp.step_start_t ∧
      s1.bp.last_force = s.bp.last_force ∧ s1.bp.last_t = s.bp.last_t ∧
      s1.bp.last_pos = s.bp.last_pos ∧ s1.bp.d_t = s.bp.d_t ∧ s1.bp.segs = s.bp.segs ∧
      s1.calls = s.calls := by
  refine ⟨_, bp_run_short M s h, ?_⟩
  simp [bp_gather]

/-- Witness of C10: a tick 0.0005 s after the last one. -/
theorem bp_run_min_step_noop_witness :
    ∃ s1, bp_run ext_example
        { state_stopped_by_operator PB_STEP_PUSHING 0 with
          drs := { (state_stopped_by_operator PB_STEP_PUSHING 0).drs with
            sim_time := 100 + 1 / 2000 } } = some (-1, s1) ∧
      s1.bp.step = PB_STEP_PUSHING ∧ s1.bp.step_start_t = 199 / 2 ∧
      s1.bp.last_force = 0 ∧ s1.bp.last_t = 100 ∧
      s1.bp.last_pos = { pos := { x := 0, y := 10 }, hdg := 0, spd := 0 } ∧
      s1.bp.d_t = 1 / 50 ∧ s1.bp.segs = [] ∧ s1.calls = [] :=
  bp_run_min_step_noop ext_example
    { state_stopped_by_operator PB_STEP_PUSHING 0 with
      drs := { (state_stopped_by_operator PB_STEP_PUSHING 0).drs with
        sim_time := 100 + 1 / 2000 } }
    (by norm_num [state_stopped_by_operator, MIN_STEP_TIME])

/-! ### The stop signal once the tug holds the nose gear -/

theorem bp_run_quick_debug_late (M : Ext) (x : State)
    (h1 : PB_STEP_CONNECTED ≤ x.bp.step) (h2 : x.bp.step ≠ PB_STEP_UNGRABBING) :
    bp_run_quick_debug M x = (x, true) := by
  unfold bp_run_quick_debug
  have h4 : ¬ x.bp.step < PB_STEP_CONNECTED := not_lt.mpr h1
  simp only [h4, h2, if_false]
  split_ifs <;> rfl

theorem bp_run_phase_stopping (M : Ext) (x : State) (hx : x.bp.step = PB_STEP_STOPPING) :
    bp_run_phase M x =
      some (-1, bp_run_finish (pb_step_stopping M { x with disco_win := false })) := by
  unfold bp_run_phase
  rw [bp_run_quick_debug_late M x (by rw [hx]; decide) (by rw [hx]; decide)]
  simp [bp_run_switch, hx, PB_STEP_STOPPING, PB_STEP_WAITING4OK2DISCO, PB_STEP_OFF,
    PB_STEP_TUG_LOAD, PB_STEP_START, PB_STEP_DRIVING_UP_CLOSE, PB_STEP_WAITING_FOR_DOORS,
    PB_STEP_OPENING_CRADLE, PB_STEP_WAITING_FOR_PBRAKE, PB_STEP_DRIVING_UP_CONNECT,
    PB_STEP_GRABBING, PB_STEP_LIFTING, PB_STEP_CONNECTED, PB_STEP_STARTING, PB_STEP_PUSHING]

theorem bp_run_phase_stopped (M : Ext) (x : State) (hx : x.bp.step = PB_STEP_STOPPED) :
    bp_run_phase M x =
      some (-1, bp_run_finish (pb_step_stopped M { x with disco_win := false })) := by
  unfold bp_run_phase
  rw [bp_run_quick_debug_late M x (by rw [hx]; decide) (by rw [hx]; decide)]
  simp [bp_run_switch, hx, PB_STEP_STOPPING, PB_STEP_WAITING4OK2DISCO, PB_STEP_OFF,
    PB_STEP_TUG_LOAD, PB_STEP_START, PB_STEP_DRIVING_UP_CLOSE, PB_STEP_WAITING_FOR_DOORS,
    PB_STEP_OPENING_CRADLE, PB_STEP_WAITING_FOR_PBRAKE, PB_STEP_DRIVING_UP_CONNECT,
    PB_STEP_GRABBING, PB_STEP_LIFTING, PB_STEP_CONNECTED, PB_STEP_STARTING, PB_STEP_PUSHING,
    PB_STEP_STOPPED]

theorem pb_step_stopping_steer_master (M : Ext) (s : State) (h : s.slave_mode = false) :
    ∃ a v, (pb_step_stopping_steer M s).1.calls =
        s.calls ++ [call_t.turn_nosewheel a] ++ [call_t.push_at_speed v] ∧
      (pb_step_stopping_steer M s).1.bp_started = s.bp_started := by
  unfold pb_step_stopping_steer
  simp only [h, if_true]
  split_ifs <;> exact ⟨_, _, rfl, rfl⟩

theorem pb_step_stopping_master (M : Ext) (s : State) (h : s.slave_mode = false) :
    ∃ a v, (pb_step_stopping M s).calls =
        s.calls ++ [call_t.turn_nosewheel a] ++ [call_t.push_at_speed v] ∧
      (pb_step_stopping M s).bp_started = s.bp_started := by
  obtain ⟨a, v, h1, h2⟩ := pb_step_stopping_steer_master M s h
  refine ⟨a, v, ?_, ?_⟩
  · rw [← h1]
    unfold pb_step_stopping
    dsimp only
    split_ifs <;> rfl
  · rw [← h2]
    unfold pb_step_stopping
    dsimp only
    split_ifs <;> rfl

theorem pb_step_stopped_master (M : Ext) (s : State) (h : s.slave_mode = false) :
    (pb_step_stopped M s).calls =
        s.calls ++ [call_t.turn_nosewheel 0] ++ [call_t.push_at_speed 0] ∧
      (pb_step_stopped M s).bp_started = s.bp_started := by
  unfold pb_step_stopped
  simp only [h, if_true]
  constructor <;> split_ifs <;> rfl

theorem dwell_outcome_step (s s1 : State) (c : Bool) (h : dwell_outcome s s1 c) :
    (s1.bp.step = s.bp.step ∨ s1.bp.step = s.bp.step + 1) ∧
      (s.bp.cur_t - s.bp.step_start_t < STATE_TRANS_DELAY → s1.bp.step = s.bp.step) := by
  by_cases hs : s1.bp.step = s.bp.step
  · exact ⟨Or.inl hs, fun _ => hs⟩
  · obtain ⟨_, h2, h3⟩ := h.2 hs
    exact ⟨Or.inr h3, fun hlt => absurd h2 (not_le.mpr hlt)⟩

/-- A master tick that sees the stop signal while the tug holds the nose gear
and the phase is before STOPPING: the session goes on, the phase is
fast-forwarded, the handler of the new phase runs and calls the force
controller. -/
theorem bp_run_stop_lifted (M : Ext) (s : State)
    (htick : ¬ s.drs.sim_time - s.bp.last_t < MIN_STEP_TIME)
    (hnw : nw_steer_lost s = false) (hstop : stop_signal s = true)
    (hmaster : s.slave_mode = false)
    (hlo : PB_STEP_GRABBING ≤ s.bp.step) (hhi : s.bp.step < PB_STEP_STOPPING) :
    ∃ s1 a v, bp_run M s = some (-1, s1) ∧
      s1.calls = s.calls ++ [call_t.turn_nosewheel a] ++ [call_t.push_at_speed v] ∧
      s1.bp_started = s.bp_started ∧
      (s1.bp.step = PB_STEP_STOPPING ∨ s1.bp.step = PB_STEP_STOPPED ∨
        s1.bp.step = PB_STEP_LOWERING) ∧
      (s.drs.sim_time - s.bp.step_start_t < STATE_TRANS_DELAY →
        s1.bp.step = bp_run_stop_step (bp_run_prelude M s)) := by
  rw [bp_run_fast_forward M s htick hnw hstop hlo]
  have hstep := bp_run_stop_step_eq M s
  rw [if_pos hhi] at hstep
  have hp_master : (bp_run_prelude M s).slave_mode = false := by simp [hmaster]
  have hp_time : (bp_run_prelude M s).bp.cur_t = s.drs.sim_time := by
    simp [bp_run_prelude, bp_run_connected, bp_run_delta, bp_gather]
  have hp_start : (bp_run_prelude M s).bp.step_start_t = s.bp.step_start_t := by
    simp [bp_run_prelude, bp_run_connected, bp_run_delta, bp_gather]
  by_cases hq : ABS (bp_gather M s).bp.cur_pos.spd < SPEED_COMPLETE_THRESH ∧
      pbrake_is_set s = true
  · rw [if_pos hq] at hstep
    rw [hstep, bp_run_phase_stopped M _ rfl]
    obtain ⟨c1, c2⟩ := pb_step_stopped_master M
      { ({ (bp_run_prelude M s) with
          bp := { (bp_run_prelude M s).bp with step := PB_STEP_STOPPED } } : State) with
        disco_win := false } hp_master
    obtain ⟨d1, d2⟩ := dwell_outcome_step _ _ _ (pb_step_stopped_outcome M
      { ({ (bp_run_prelude M s) with
          bp := { (bp_run_prelude M s).bp with step := PB_STEP_STOPPED } } : State) with
        disco_win := false })
    refine ⟨_, 0, 0, rfl, ?_, ?_, ?_, ?_⟩
    · exact c1.trans (by simp)
    · exact c2.trans (by simp)
    · rcases d1 with d | d
      · exact Or.inr (Or.inl d)
      · exact Or.inr (Or.inr d)
    · intro hlt
      exact d2 (by
        show (bp_run_prelude M s).bp.cur_t - (bp_run_prelude M s).bp.step_start_t < _
        rw [hp_time, hp_start]
        exact hlt)
  · rw [if_neg hq] at hstep
    rw [hstep, bp_run_phase_stopping M _ rfl]
    obtain ⟨a, v, c1, c2⟩ := pb_step_stopping_master M
      { ({ (bp_run_prelude M s) with
          bp := { (bp_run_prelude M s).bp with step := PB_STEP_STOPPING } } : State) with
        disco_win := false } hp_master
    obtain ⟨d1, d2⟩ := dwell_outcome_step _ _ _ (pb_step_stopping_outcome M
      { ({ (bp_run_prelude M s) with
          bp := { (bp_run_prelude M s).bp with step := PB_STEP_STOPPING } } : State) with
        disco_win := false })
    refine ⟨_, a, v, rfl, ?_, ?_, ?_, ?_⟩
    · exact c1.trans (by simp)
    · exact c2.trans (by simp)
    · rcases d1 with d | d
      · exact Or.inl d
      · exact Or.inr (Or.inl d)
    · intro hlt
      exact d2 (by
        show (bp_run_prelude M s).bp.cur_t - (bp_run_prelude M s).bp.step_start_t < _
        rw [hp_time, hp_start]
        exact hlt)

/-! ### C6 -/

/-- C6, the claim as stated fails in phase GRABBING: a started master session
in phase GRABBING with an empty queue, manual push inactive and no late plan
sees the stop signal, but the tick does not tear the session down; `bp_run`
returns -1, the phase is fast-forwarded to STOPPING, the session stays started
and `bp_complete` is not called. -/
theorem bp_run_stop_signal_at_grabbing :
    stop_signal (state_stopped_by_operator PB_STEP_GRABBING 0) = true ∧
      (state_stopped_by_operator PB_STEP_GRABBING 0).bp_started = true ∧
      ∃ s1, bp_run ext_example (state_stopped_by_operator PB_STEP_GRABBING 0) = some (-1, s1) ∧
        s1.bp.step = PB_STEP_STOPPING ∧ s1.bp_started = true ∧
        call_t.bp_complete ∉ s1.calls := by
  have hstop : stop_signal (state_stopped_by_operator PB_STEP_GRABBING 0) = true := by
    simp [stop_signal, state_stopped_by_operator]
  refine ⟨hstop, rfl, ?_⟩
  obtain ⟨s1, a, v, h1, h2, h3, _, h5⟩ := bp_run_stop_lifted ext_example
    (state_stopped_by_operator PB_STEP_GRABBING 0)
    (by norm_num [state_stopped_by_operator, MIN_STEP_TIME])
    (by simp [nw_steer_lost, state_stopped_by_operator]) hstop rfl
    (by decide) (by decide)
  refine ⟨s1, h1, ?_, h3, ?_⟩
  · rw [h5 (by norm_num [state_stopped_by_operator, STATE_TRANS_DELAY]), bp_run_stop_step_eq]
    have hp : pbrake_is_set (state_stopped_by_operator PB_STEP_GRABBING 0) = false := by
      simp [pbrake_is_set, state_stopped_by_operator]
    rw [hp]
    simp [state_stopped_by_operator, PB_STEP_GRABBING, PB_STEP_STOPPING]
  · rw [h2]
    simp [state_stopped_by_operator]

/-- C6, amended: in a started session, on a tick that passes the
minimum-interval check, with the stop signal present (no late plan pending;
master with manual push inactive and an empty path queue, or slave with
`op_complete` set), in every phase that precedes GRABBING (OFF through
DRIVING_UP_CONNECT) `bp_run` runs `bp_complete` and returns 0 without running a
phase handler: the phase becomes OFF, the session is no longer started, the tug
is released, the queue is empty, and the only call logged is the teardown. -/
theorem bp_run_stop_signal_before_grabbing (M : Ext) (s : State)
    (hstarted : s.bp_started = true)
    (htick : ¬ s.drs.sim_time - s.bp.last_t < MIN_STEP_TIME)
    (hstop : stop_signal s = true) (hstep : s.bp.step < PB_STEP_GRABBING) :
    ∃ s1, bp_run M s = some (0, bp_complete s1) ∧
      (bp_complete s1).bp.step = PB_STEP_OFF ∧ (bp_complete s1).bp_started = false ∧
      (bp_complete s1).tug = none ∧ (bp_complete s1).bp.segs = [] ∧
      (bp_complete s1).calls = s.calls ++ [call_t.bp_complete] := by
  obtain ⟨s1, h1, h2, h3⟩ := bp_run_teardown M s htick hstop hstep
  obtain ⟨c1, c2, _, c4, c5, _, c7⟩ := bp_complete_started s1 (by rw [h3]; exact hstarted)
  exact ⟨s1, h1, c1, c2, c4, c5, by rw [c7, h2]⟩

/-- Witness of the amended C6: the stop signal in phase DRIVING_UP_CLOSE. -/
theorem bp_run_stop_signal_before_grabbing_witness :
    ∃ s1, bp_run ext_example (state_stopped_by_operator PB_STEP_DRIVING_UP_CLOSE 0) =
        some (0, bp_complete s1) ∧
      (bp_complete s1).bp.step = PB_STEP_OFF ∧ (bp_complete s1).bp_started = false ∧
      (bp_complete s1).tug = none ∧ (bp_complete s1).bp.segs = [] ∧
      (bp_complete s1).calls =
        (state_stopped_by_operator PB_STEP_DRIVING_UP_CLOSE 0).calls ++ [call_t.bp_complete] :=
  bp_run_stop_signal_before_grabbing ext_example
    (state_stopped_by_operator PB_STEP_DRIVING_UP_CLOSE 0) rfl
    (by norm_num [state_stopped_by_operator, MIN_STEP_TIME])
    (by simp [stop_signal, state_stopped_by_operator]) (by decide)

/-! ### C7 -/

/-- C7, the claim as stated fails on two kinds of tick. The operator has
stopped a master session in phase CONNECTED (empty queue, manual push
inactive, no late plan). When the host reports nosewheel steering not enabled,
`bp_run` tears the session down and returns 0 with the phase OFF; on a tick
half a millisecond after the last one `bp_run` returns -1 with the phase still
CONNECTED. In neither tick is the phase set to STOPPING or STOPPED. -/
theorem bp_run_stop_signal_not_fast_forwarded :
    stop_signal (state_steering_off (state_stopped_by_operator PB_STEP_CONNECTED 0)) = true ∧
      (state_steering_off (state_stopped_by_operator PB_STEP_CONNECTED 0)).bp.step =
        PB_STEP_CONNECTED ∧
      (bp_run ext_example
          (state_steering_off (state_stopped_by_operator PB_STEP_CONNECTED 0))).map
          (fun r => (r.1, r.2.bp.step)) = some (0, PB_STEP_OFF) ∧
      stop_signal (state_short_tick (state_stopped_by_operator PB_STEP_CONNECTED 0)) = true ∧
      (state_short_tick (state_stopped_by_operator PB_STEP_CONNECTED 0)).bp.step =
        PB_STEP_CONNECTED ∧
      (bp_run ext_example
          (state_short_tick (state_stopped_by_operator PB_STEP_CONNECTED 0))).map
          (fun r => (r.1, r.2.bp.step)) = some (-1, PB_STEP_CONNECTED) := by
  refine ⟨rfl, rfl, ?_, rfl, rfl, ?_⟩
  · with_unfolding_all rfl
  · with_unfolding_all rfl

/-- C7, amended: on a tick of `bp_run` that reaches the stop block (it passes the
minimum-interval check and the steering-authority check) with the stop signal
present, the phase with which the tick goes on into the phase switch is: when
the phase is CONNECTED, STARTING or PUSHING, STOPPED if `|speed| <
SPEED_COMPLETE_THRESH` and the parking brake is set, and STOPPING otherwise;
when the phase is STOPPING or later, the phase itself. -/
theorem bp_run_stop_signal_fast_forward (M : Ext) (s : State)
    (htick : ¬ s.drs.sim_time - s.bp.last_t < MIN_STEP_TIME)
    (hnw : nw_steer_lost s = false) (hstop : stop_signal s = true)
    (hstep : PB_STEP_CONNECTED ≤ s.bp.step) :
    bp_run_stop (bp_run_prelude M s) =
        some { (bp_run_prelude M s) with
          bp := { (bp_run_prelude M s).bp with
            step := bp_run_stop_step (bp_run_prelude M s) } } ∧
      bp_run M s =
        bp_run_phase M { (bp_run_prelude M s) with
          bp := { (bp_run_prelude M s).bp with
            step := bp_run_stop_step (bp_run_prelude M s) } } ∧
      (s.bp.step ≤ PB_STEP_PUSHING →
        bp_run_stop_step (bp_run_prelude M s) =
          if ABS (bp_gather M s).bp.cur_pos.spd < SPEED_COMPLETE_THRESH ∧
              pbrake_is_set s = true
          then PB_STEP_STOPPED else PB_STEP_STOPPING) ∧
      (PB_STEP_STOPPING ≤ s.bp.step → bp_run_stop_step (bp_run_prelude M s) = s.bp.step) := by
  have hlo : PB_STEP_GRABBING ≤ s.bp.step := le_trans (by decide) hstep
  refine ⟨bp_run_stop_after_grab M s hstop hlo, bp_run_fast_forward M s htick hnw hstop hlo,
    ?_, ?_⟩
  · intro hle
    rw [bp_run_stop_step_eq, if_pos (lt_of_le_of_lt hle (by decide))]
  · intro hge
    rw [bp_run_stop_step_eq, if_neg (not_lt.mpr hge)]

/-- Witness of the amended C7: the stop signal in phase PUSHING, aircraft at rest with the
parking brake set. -/
theorem bp_run_stop_signal_fast_forward_witness :
    bp_run_stop_step (bp_run_prelude ext_example (state_stopped_by_operator PB_STEP_PUSHING 1)) =
      if ABS (bp_gather ext_example
            (state_stopped_by_operator PB_STEP_PUSHING 1)).bp.cur_pos.spd <
          SPEED_COMPLETE_THRESH ∧
          pbrake_is_set (state_stopped_by_operator PB_STEP_PUSHING 1) = true
      then PB_STEP_STOPPED else PB_STEP_STOPPING :=
  (bp_run_stop_signal_fast_forward ext_example (state_stopped_by_operator PB_STEP_PUSHING 1)
    (by norm_num [state_stopped_by_operator, MIN_STEP_TIME])
    (by simp [nw_steer_lost, state_stopped_by_operator])
    (by simp [stop_signal, state_stopped_by_operator]) (by decide)).2.2.1 (by decide)

/-! ### C8 -/

theorem bp_stop_started (s0 : State) (h : s0.bp_started = true) :
    bp_stop s0 =
      (true, { (bp_delete_all_segs { s0 with bp := { s0.bp with
          last_hdg := none,
          last_seg_is_back :=
            match s0.bp.segs.getLast? with
            | some seg => seg.backward
            | none => s0.bp.last_seg_is_back } }) with
        late_plan_requested := false, tug_pending_mode := false }) := by
  unfold bp_stop
  rw [if_neg (by simp [h])]

/-- The tick after the operator's stop in a master session whose tug holds the
nose gear, in a phase before STOPPING: the session goes on in phase STOPPING,
STOPPED or LOWERING and the force controller is called. -/
theorem bp_run_after_bp_stop (M : Ext) (s0 : State)
    (hstarted : s0.bp_started = true) (hmaster : s0.slave_mode = false)
    (hauto : s0.push_manual.active = false)
    (hlo : PB_STEP_GRABBING ≤ s0.bp.step) (hhi : s0.bp.step < PB_STEP_STOPPING)
    (htick : ¬ s0.drs.sim_time - s0.bp.last_t < MIN_STEP_TIME)
    (hnw : s0.drs.nw_steer_on = 1) :
    (bp_stop s0).1 = true ∧ (bp_stop s0).2.bp.segs = [] ∧
      ∃ s1 a v, bp_run M (bp_stop s0).2 = some (-1, s1) ∧
        s1.calls = s0.calls ++ [call_t.turn_nosewheel a] ++ [call_t.push_at_speed v] ∧
        s1.bp_started = true ∧
        (s1.bp.step = PB_STEP_STOPPING ∨ s1.bp.step = PB_STEP_STOPPED ∨
          s1.bp.step = PB_STEP_LOWERING) ∧
        (s0.drs.sim_time - s0.bp.step_start_t < STATE_TRANS_DELAY →
          s1.bp.step =
            if ABS (bp_gather M s0).bp.cur_pos.spd < SPEED_COMPLETE_THRESH ∧
                pbrake_is_set s0 = true
            then PB_STEP_STOPPED else PB_STEP_STOPPING) := by
  rw [bp_stop_started s0 hstarted]
  refine ⟨rfl, rfl, ?_⟩
  obtain ⟨s1, a, v, h1, h2, h3, h4, h5⟩ := bp_run_stop_lifted M
    ({ (bp_delete_all_segs { s0 with bp := { s0.bp with
          last_hdg := none,
          last_seg_is_back :=
            match s0.bp.segs.getLast? with
            | some seg => seg.backward
            | none => s0.bp.last_seg_is_back } }) with
        late_plan_requested := false, tug_pending_mode := false } : State)
    htick
    (by simp [nw_steer_lost, bp_delete_all_segs, hnw])
    (by simp [stop_signal, bp_delete_all_segs, hmaster, hauto])
    hmaster hlo hhi
  refine ⟨s1, a, v, h1, h2, h3.trans hstarted, h4, ?_⟩
  intro hlt
  rw [h5 hlt, bp_run_stop_step_eq]
  exact if_pos hhi

/-- C8, the claim as stated fails: the operator stops a master session in phase
CONNECTED, aircraft at rest, parking brake released. The next tick of `bp_run`
returns -1 with the phase fast-forwarded to STOPPING, not OFF; the session is
still started and the log of the tick holds a call of `push_at_speed`. -/
theorem bp_run_after_stop_in_connected_goes_on :
    (state_connected 100 (199 / 2) 0).bp.step = PB_STEP_CONNECTED ∧
      (bp_stop (state_connected 100 (199 / 2) 0)).1 = true ∧
      (bp_stop (state_connected 100 (199 / 2) 0)).2.bp.segs = [] ∧
      ∃ s1 a v, bp_run ext_example (bp_stop (state_connected 100 (199 / 2) 0)).2 =
          some (-1, s1) ∧
        s1.bp.step = PB_STEP_STOPPING ∧ s1.bp.step ≠ PB_STEP_OFF ∧ s1.bp_started = true ∧
        s1.calls = [call_t.turn_nosewheel a, call_t.push_at_speed v] := by
  obtain ⟨h1, h2, s1, a, v, h3, h4, h5, _, h7⟩ := bp_run_after_bp_stop ext_example
    (state_connected 100 (199 / 2) 0) rfl rfl rfl (by decide) (by decide)
    (by norm_num [state_connected, MIN_STEP_TIME]) rfl
  have hstep : s1.bp.step = PB_STEP_STOPPING := by
    rw [h7 (by norm_num [state_connected, STATE_TRANS_DELAY])]
    have hp : pbrake_is_set (state_connected 100 (199 / 2) 0) = false := by
      simp [pbrake_is_set, state_connected]
    rw [hp]
    simp
  refine ⟨rfl, h1, h2, s1, a, v, h3, hstep, ?_, h5, ?_⟩
  · rw [hstep]
    decide
  · rw [h4]
    simp [state_connected]

/-- C8, amended: if the operator issues stop (`bp_stop` empties the path queue)
in a started master session with manual push inactive while phase = CONNECTED,
then the next tick of `bp_run`, when it passes the minimum-interval check and
the host reports nosewheel steering enabled (`nw_steer_on = 1`), does not tear
the session down: it returns -1, the session stays started, the tick logs one
call of `turn_nosewheel` followed by one call of the force controller
`push_at_speed`, and it ends in phase STOPPING, STOPPED or LOWERING; when less
than `STATE_TRANS_DELAY` has passed since the phase timer, it ends in STOPPED
if `|speed| < SPEED_COMPLETE_THRESH` and the parking brake is set, and in
STOPPING otherwise. -/
theorem bp_run_after_stop_in_connected (M : Ext) (s0 : State)
    (hstarted : s0.bp_started = true) (hmaster : s0.slave_mode = false)
    (hauto : s0.push_manual.active = false) (hstep : s0.bp.step = PB_STEP_CONNECTED)
    (htick : ¬ s0.drs.sim_time - s0.bp.last_t < MIN_STEP_TIME)
    (hnw : s0.drs.nw_steer_on = 1) :
    (bp_stop s0).1 = true ∧ (bp_stop s0).2.bp.segs = [] ∧
      ∃ s1 a v, bp_run M (bp_stop s0).2 = some (-1, s1) ∧
        s1.calls = s0.calls ++ [call_t.turn_nosewheel a] ++ [call_t.push_at_speed v] ∧
        s1.bp_started = true ∧
        (s1.bp.step = PB_STEP_STOPPING ∨ s1.bp.step = PB_STEP_STOPPED ∨
          s1.bp.step = PB_STEP_LOWERING) ∧
        (s0.drs.sim_time - s0.bp.step_start_t < STATE_TRANS_DELAY →
          s1.bp.step =
            if ABS (bp_gather M s0).bp.cur_pos.spd < SPEED_COMPLETE_THRESH ∧
                pbrake_is_set s0 = true
            then PB_STEP_STOPPED else PB_STEP_STOPPING) :=
  bp_run_after_bp_stop M s0 hstarted hmaster hauto (by rw [hstep]; decide)
    (by rw [hstep]; decide) htick hnw

/-- Witness of the amended C8: the stop in phase CONNECTED with the parking
brake set. -/
theorem bp_run_after_stop_in_connected_witness :
    (bp_stop (state_connected 100 (199 / 2) 1)).1 = true ∧
      (bp_stop (state_connected 100 (199 / 2) 1)).2.bp.segs = [] :=
  have h := bp_run_after_stop_in_connected ext_example (state_connected 100 (199 / 2) 1)
    rfl rfl rfl rfl (by norm_num [state_connected, MIN_STEP_TIME]) rfl
  ⟨h.1, h.2.1⟩

/-! ### C9 -/

theorem bp_run_prelude_drs_sensors (M : Ext) (s : State) :
    (bp_run_prelude M s).drs.landing_lights_on = s.drs.landing_lights_on ∧
      (bp_run_prelude M s).drs.taxi_light_on = s.drs.taxi_light_on ∧
      (bp_run_prelude M s).drs.lbrake = s.drs.lbrake ∧
      (bp_run_prelude M s).drs.rbrake = s.drs.rbrake := by
  have h1 : ∀ x : State,
      (bp_run_steer_override x).drs.landing_lights_on = x.drs.landing_lights_on := by
    intro x
    unfold bp_run_steer_override
    split_ifs <;> rfl
  have h2 : ∀ x : State,
      (bp_run_steer_override x).drs.taxi_light_on = x.drs.taxi_light_on := by
    intro x
    unfold bp_run_steer_override
    split_ifs <;> rfl
  have h3 : ∀ x : State, (bp_run_steer_override x).drs.lbrake = x.drs.lbrake := by
    intro x
    unfold bp_run_steer_override
    split_ifs <;> rfl
  have h4 : ∀ x : State, (bp_run_steer_override x).drs.rbrake = x.drs.rbrake := by
    intro x
    unfold bp_run_steer_override
    split_ifs <;> rfl
  simp [bp_run_prelude, bp_run_connected, bp_run_delta, bp_gather, h1, h2, h3, h4]

theorem bp_run_prelude_brakes_applied (M : Ext) (s : State) :
    brakes_applied (bp_run_prelude M s) = brakes_applied s := by
  obtain ⟨_, _, h3, h4⟩ := bp_run_prelude_drs_sensors M s
  unfold brakes_applied
  rw [h3, h4, bp_run_prelude_pbrake]

theorem bp_run_prelude_queue (M : Ext) (s : State) :
    (bp_run_prelude M s).bp.segs = s.bp.segs ∧
      (bp_run_prelude M s).push_manual = s.push_manual := by
  simp [bp_run_prelude, bp_run_connected, bp_run_delta, bp_gather]

theorem bp_run_push_braked (M : Ext) (s : State)
    (hq : s.push_manual.active = true ∨ s.bp.segs ≠ [])
    (hb : brakes_applied s = true) :
    bp_run_push M s = (push_brake_stop s, true) := by
  unfold bp_run_push
  by_cases ha : s.push_manual.active = true
  · rw [if_pos ha]
    unfold bp_run_push_manual
    rw [if_pos hb, ha]
  · rw [if_neg ha]
    have hne : s.bp.segs ≠ [] := hq.resolve_left ha
    dsimp only
    cases hs : s.bp.segs with
    | nil => exact absurd hs hne
    | cons seg rest => rw [bp_run_push_loop, if_pos hb]

theorem pb_step_pushing_braked (M : Ext) (s : State)
    (hl : s.drs.landing_lights_on = 0) (ht : s.drs.taxi_light_on = 0)
    (hm : s.slave_mode = false)
    (hq : s.push_manual.active = true ∨ s.bp.segs ≠ [])
    (hb : brakes_applied s = true) :
    pb_step_pushing M s =
      push_brake_stop { ({ s with bp := { s.bp with light_warn := false } } : State) with
        drs := { s.drs with override_steer := 1 } } := by
  have e := bp_run_push_braked M
    { ({ s with bp := { s.bp with light_warn := false } } : State) with
      drs := { s.drs with override_steer := 1 } } hq hb
  unfold pb_step_pushing
  rw [if_neg (by simp [hl, ht])]
  dsimp only at e ⊢
  rw [if_pos hm, e]
  simp

theorem bp_run_phase_pushing (M : Ext) (x : State) (hx : x.bp.step = PB_STEP_PUSHING) :
    bp_run_phase M x =
      some (-1, bp_run_finish (pb_step_pushing M { x with disco_win := false })) := by
  unfold bp_run_phase
  rw [bp_run_quick_debug_late M x (by rw [hx]; decide) (by rw [hx]; decide)]
  simp [bp_run_switch, hx, PB_STEP_WAITING4OK2DISCO, PB_STEP_OFF,
    PB_STEP_TUG_LOAD, PB_STEP_START, PB_STEP_DRIVING_UP_CLOSE, PB_STEP_WAITING_FOR_DOORS,
    PB_STEP_OPENING_CRADLE, PB_STEP_WAITING_FOR_PBRAKE, PB_STEP_DRIVING_UP_CONNECT,
    PB_STEP_GRABBING, PB_STEP_LIFTING, PB_STEP_CONNECTED, PB_STEP_STARTING, PB_STEP_PUSHING]

/-- C9, the claim as stated fails on two kinds of tick. A master session in
phase PUSHING, lights off, queue not empty, the left brake pedal pressed
(ratio 1/2), with the force outputs of the last tick still standing. On a tick
half a millisecond after the last one `bp_run` returns -1 without running the
phase switch: the axial force, the yaw moment and `bp.last_force` keep their
non-zero values. When the host reports nosewheel steering not enabled,
`bp_run` tears the session down and the phase is OFF, not PUSHING. -/
theorem bp_run_pushing_brake_not_zeroed :
    (state_short_tick (state_pushing (1 / 2) 0)).bp.step = PB_STEP_PUSHING ∧
      (state_short_tick (state_pushing (1 / 2) 0)).drs.landing_lights_on = 0 ∧
      (state_short_tick (state_pushing (1 / 2) 0)).drs.taxi_light_on = 0 ∧
      (state_short_tick (state_pushing (1 / 2) 0)).drs.lbrake ≥ BRAKE_PEDAL_THRESH ∧
      (state_short_tick (state_pushing (1 / 2) 0)).bp.segs ≠ [] ∧
      (bp_run ext_example (state_short_tick (state_pushing (1 / 2) 0))).map
          (fun r => (r.1, r.2.drs.axial_force, r.2.drs.rot_force_N, r.2.bp.last_force)) =
        some (-1, -1200, 300, 1200) ∧
      (state_steering_off (state_pushing (1 / 2) 0)).bp.step = PB_STEP_PUSHING ∧
      (bp_run ext_example (state_steering_off (state_pushing (1 / 2) 0))).map
          (fun r => (r.1, r.2.bp.step)) = some (0, PB_STEP_OFF) := by
  refine ⟨rfl, rfl, rfl, ?_, ?_, ?_, rfl, ?_⟩
  · norm_num [state_short_tick, state_pushing, BRAKE_PEDAL_THRESH]
  · simp [state_short_tick, state_pushing]
  · with_unfolding_all rfl
  · with_unfolding_all rfl

/-- C9, amended: in phase PUSHING of a master session with the landing and taxi
lights off, in manual mode or in automatic mode with a non-empty queue, while
the left or right brake ratio is at least `BRAKE_PEDAL_THRESH` or the parking
brake is set: the handler `pb_step_pushing` leaves the axial-force output, the
yaw-moment output and `bp.last_force` at 0, logs no call of the steering
planner or of the force controller, and leaves the segment queue and the phase
PUSHING unchanged. A tick of `bp_run` that passes the minimum-interval check
while the host reports nosewheel steering enabled (`nw_steer_on = 1`) returns
-1 and does the same. -/
theorem bp_run_pushing_brake_zeroes_force (M : Ext) (s : State)
    (hstep : s.bp.step = PB_STEP_PUSHING)
    (hl : s.drs.landing_lights_on = 0) (ht : s.drs.taxi_light_on = 0)
    (hm : s.slave_mode = false)
    (hq : s.push_manual.active = true ∨ s.bp.segs ≠ [])
    (hbrk : s.drs.lbrake ≥ BRAKE_PEDAL_THRESH ∨ s.drs.rbrake ≥ BRAKE_PEDAL_THRESH ∨
      pbrake_is_set s = true) :
    ((pb_step_pushing M s).drs.axial_force = 0 ∧ (pb_step_pushing M s).drs.rot_force_N = 0 ∧
      (pb_step_pushing M s).bp.last_force = 0 ∧ (pb_step_pushing M s).calls = s.calls ∧
      (pb_step_pushing M s).bp.segs = s.bp.segs ∧
      (pb_step_pushing M s).bp.step = PB_STEP_PUSHING) ∧
      (¬ s.drs.sim_time - s.bp.last_t < MIN_STEP_TIME → s.drs.nw_steer_on = 1 →
        ∃ s1, bp_run M s = some (-1, s1) ∧
          s1.drs.axial_force = 0 ∧ s1.drs.rot_force_N = 0 ∧ s1.bp.last_force = 0 ∧
          s1.calls = s.calls ∧ s1.bp.segs = s.bp.segs ∧ s1.bp.step = PB_STEP_PUSHING) := by
  have hb : brakes_applied s = true := by
    unfold brakes_applied
    rcases hbrk with h | h | h
    · simp [h]
    · simp [h]
    · simp [h]
  constructor
  · rw [pb_step_pushing_braked M s hl ht hm hq hb]
    exact ⟨rfl, rfl, rfl, rfl, rfl, hstep⟩
  intro htick hnw
  have hnl : nw_steer_lost s = false := by simp [nw_steer_lost, hnw]
  have hstop : stop_signal s = false := by
    rcases hq with h | h
    · simp [stop_signal, hm, h]
    · simp [stop_signal, hm, h]
  have hrs : bp_run_stop (bp_run_prelude M s) = some (bp_run_prelude M s) := by
    unfold bp_run_stop
    rw [stop_signal_bp_run_prelude, hstop]
    simp
  obtain ⟨p1, p2, _, _⟩ := bp_run_prelude_drs_sensors M s
  obtain ⟨p5, p6⟩ := bp_run_prelude_queue M s
  have hx : pb_step_pushing M { bp_run_prelude M s with disco_win := false } =
      push_brake_stop { ({ ({ bp_run_prelude M s with disco_win := false } : State) with
          bp := { (bp_run_prelude M s).bp with light_warn := false } } : State) with
        drs := { (bp_run_prelude M s).drs with override_steer := 1 } } :=
    pb_step_pushing_braked M { bp_run_prelude M s with disco_win := false }
      (p1.trans hl) (p2.trans ht) ((bp_run_prelude_slave_mode M s).trans hm)
      (by
        show (bp_run_prelude M s).push_manual.active = true ∨ (bp_run_prelude M s).bp.segs ≠ []
        rw [p5, p6]
        exact hq)
      ((bp_run_prelude_brakes_applied M s).trans hb)
  rw [bp_run_long M s htick, hnl, hrs]
  simp only [Bool.false_eq_true, if_false]
  rw [bp_run_phase_pushing M _ ((bp_run_prelude_bp_step M s).trans hstep), hx]
  exact ⟨_, rfl, rfl, rfl, rfl, bp_run_prelude_calls M s, p5,
    (bp_run_prelude_bp_step M s).trans hstep⟩

/-- Witness of the amended C9: the pilot presses the left brake pedal (ratio
1/2) during an automatic push. -/
theorem bp_run_pushing_brake_zeroes_force_witness :
    (pb_step_pushing ext_example (state_pushing (1 / 2) 0)).drs.axial_force = 0 ∧
      (pb_step_pushing ext_example (state_pushing (1 / 2) 0)).bp.last_force = 0 ∧
      (state_pushing (1 / 2) 0).drs.axial_force = -1200 ∧
      (state_pushing (1 / 2) 0).bp.last_force = 1200 ∧
      ∃ s1, bp_run ext_example (state_pushing (1 / 2) 0) = some (-1, s1) ∧
        s1.drs.axial_force = 0 ∧ s1.bp.last_force = 0 ∧ s1.bp.step = PB_STEP_PUSHING :=
  have h := bp_run_pushing_brake_zeroes_force ext_example (state_pushing (1 / 2) 0)
    rfl rfl rfl rfl (Or.inr (by simp [state_pushing]))
    (Or.inl (by norm_num [state_pushing, BRAKE_PEDAL_THRESH]))
  have h2 := h.2 (by norm_num [state_pushing, MIN_STEP_TIME]) rfl
  ⟨h.1.1, h.1.2.2.1, rfl, rfl, h2.elim fun s1 hs1 => ⟨s1, hs1.1, hs1.2.1, hs1.2.2.2.1,
    hs1.2.2.2.2.2.2⟩⟩

/-! ### C12 -/

/-- C12, the claim as stated fails on a tick shorter than `MIN_STEP_TIME`: a
started master session in phase PUSHING whose host reports nosewheel steering
not enabled, on a tick half a millisecond after the last one. `bp_run` returns
-1 before it tests the steering; the session stays started in phase PUSHING
with its tug, and `bp_complete` is not called. -/
theorem bp_run_steering_lost_short_tick :
    (state_short_tick (state_steering_off (state_pushing 0 0))).bp_started = true ∧
      (state_short_tick (state_steering_off (state_pushing 0 0))).slave_mode = false ∧
      PB_STEP_START < (state_short_tick (state_steering_off (state_pushing 0 0))).bp.step ∧
      (state_short_tick (state_steering_off (state_pushing 0 0))).drs.nw_steer_on ≠ 1 ∧
      (bp_run ext_example (state_short_tick (state_steering_off (state_pushing 0 0)))).map
          (fun r => (r.1, r.2.bp.step, r.2.bp_started, r.2.tug.isSome, r.2.calls)) =
        some (-1, PB_STEP_PUSHING, true, true, []) := by
  refine ⟨rfl, rfl, by decide, by decide, ?_⟩
  with_unfolding_all rfl

/-- C12, amended: in a started master session, with the phase later than
`PB_STEP_START` and the host reporting nosewheel steering not enabled
(`nw_steer_on != 1`): on a tick that passes the minimum-interval check `bp_run`
runs `bp_complete` on the state it has gathered (pose, tug movement, deltas)
and returns 0: the phase is OFF, the session is no longer started, the tug is
released, the queue is empty, and the teardown is the only call logged, so no
phase handler has steered or pushed. On a tick shorter than `MIN_STEP_TIME`
`bp_run` returns -1 before the steering test: the session stays started in
its phase and nothing is logged. -/
theorem bp_run_steering_lost_aborts (M : Ext) (s : State)
    (hstarted : s.bp_started = true) (hmaster : s.slave_mode = false)
    (hstep : PB_STEP_START < s.bp.step) (hnw : s.drs.nw_steer_on ≠ 1) :
    (¬ s.drs.sim_time - s.bp.last_t < MIN_STEP_TIME →
        bp_run M s =
          some (0, bp_complete (bp_run_tug M (bp_run_delta M (draw_tugs M (bp_gather M s))))) ∧
        ∃ s1, bp_run M s = some (0, s1) ∧
          s1.bp.step = PB_STEP_OFF ∧ s1.bp_started = false ∧ s1.tug = none ∧
          s1.bp.segs = [] ∧ s1.calls = s.calls ++ [call_t.bp_complete]) ∧
      (s.drs.sim_time - s.bp.last_t < MIN_STEP_TIME →
        ∃ s1, bp_run M s = some (-1, s1) ∧
          s1.bp.step = s.bp.step ∧ s1.bp_started = true ∧ s1.calls = s.calls) := by
  constructor
  · intro htick
    have hlost : nw_steer_lost s = true := by
      simp [nw_steer_lost, hmaster, hstep, hnw]
    have hrun : bp_run M s =
        some (0, bp_complete (bp_run_tug M (bp_run_delta M (draw_tugs M (bp_gather M s))))) := by
      rw [bp_run_long M s htick, hlost]
      rfl
    refine ⟨hrun, _, hrun, ?_⟩
    obtain ⟨c1, c2, _, c4, c5, _, c7⟩ := bp_complete_started
      (bp_run_tug M (bp_run_delta M (draw_tugs M (bp_gather M s))))
      (by simp [bp_run_delta, bp_gather, hstarted])
    refine ⟨c1, c2, c4, c5, ?_⟩
    rw [c7]
    simp [bp_run_delta, bp_gather]
  · intro hshort
    refine ⟨_, bp_run_short M s hshort, ?_, ?_, ?_⟩
    · simp [bp_gather]
    · simp [bp_gather, hstarted]
    · simp [bp_gather]

/-- Witness of the amended C12: the host switches nosewheel steering off
during the push. -/
theorem bp_run_steering_lost_aborts_witness :
    ∃ s1, bp_run ext_example (state_steering_off (state_pushing 0 0)) = some (0, s1) ∧
        s1.bp.step = PB_STEP_OFF ∧ s1.bp_started = false ∧ s1.tug = none ∧
        s1.bp.segs = [] ∧ s1.calls = [call_t.bp_complete] :=
  ((bp_run_steering_lost_aborts ext_example (state_steering_off (state_pushing 0 0))
    rfl rfl (by decide) (by decide)).1
    (by norm_num [state_steering_off, state_pushing, MIN_STEP_TIME])).2

/-! ### C13 -/

theorem push_at_speed_targ_med (v : ℚ) (s : State) (h : s.drs.rwy_friction = RWY_FRICTION_MED) :
    |push_at_speed_targ v s| ≤ MAX_SPEED_MED_FRICTION := by
  unfold push_at_speed_targ
  rw [if_pos h, MIN_eq_min, MAX_eq_max, abs_le]
  unfold MAX_SPEED_MED_FRICTION
  constructor
  · exact le_min (le_max_right _ _) (by norm_num)
  · exact min_le_right _ _

theorem push_at_speed_targ_poor (v : ℚ) (s : State) (h : s.drs.rwy_friction = RWY_FRICTION_POOR) :
    |push_at_speed_targ v s| ≤ MAX_SPEED_POOR_FRICTION := by
  unfold push_at_speed_targ
  rw [if_neg (by rw [h]; decide), if_pos h, MIN_eq_min, MAX_eq_max, abs_le]
  unfold MAX_SPEED_POOR_FRICTION
  constructor
  · exact le_min (le_max_right _ _) (by norm_num)
  · exact min_le_right _ _

theorem push_at_speed_targ_good (v : ℚ) (s : State)
    (h1 : s.drs.rwy_friction ≠ RWY_FRICTION_MED) (h2 : s.drs.rwy_friction ≠ RWY_FRICTION_POOR) :
    push_at_speed_targ v s = v := by
  unfold push_at_speed_targ
  rw [if_neg h1, if_neg h2]

theorem push_at_speed_targ_idem (v : ℚ) (s : State) :
    push_at_speed_targ (push_at_speed_targ v s) s = push_at_speed_targ v s := by
  unfold push_at_speed_targ
  split_ifs
  · simp only [MIN_eq_min, MAX_eq_max, MAX_SPEED_MED_FRICTION]
    rw [max_eq_left (le_min (le_max_right _ _) (by norm_num)), min_eq_left (min_le_right _ _)]
  · simp only [MIN_eq_min, MAX_eq_max, MAX_SPEED_POOR_FRICTION]
    rw [max_eq_left (le_min (le_max_right _ _) (by norm_num)), min_eq_left (min_le_right _ _)]
  · rfl

theorem push_at_speed_force_targ (M : Ext) (v max_accel : ℚ) (decelerating : Bool) (s : State) :
    push_at_speed_force M v max_accel decelerating s =
      push_at_speed_force M (push_at_speed_targ v s) max_accel decelerating s := by
  unfold push_at_speed_force
  rw [push_at_speed_targ_idem]

/-- C13, the claim as stated fails on the good tier: `push_at_speed` clamps
the target only on medium and poor friction. On good friction, with the body
rolling at 5 m/s (faster than every speed limit of the plugin) and a requested
speed of 100 m/s, the target stays 100 m/s and the call raises the push force
from 0 to 100 N; on poor friction the same request is clamped to 1.11 m/s and
the call lowers the force to -100 N. -/
theorem push_at_speed_no_ceiling_on_good_friction :
    state_fast.drs.rwy_friction = RWY_FRICTION_GOOD ∧
      tug_speed ext_example state_fast = 5 ∧
      push_at_speed_targ 100 state_fast = 100 ∧
      state_fast.bp.last_force = 0 ∧
      push_at_speed_force ext_example 100 (1 / 4) false state_fast = 100 ∧
      (push_at_speed ext_example 100 (1 / 4) true false state_fast).bp.last_force = 100 ∧
      push_at_speed_targ 100
        { state_fast with drs := { state_fast.drs with rwy_friction := RWY_FRICTION_POOR } } =
          111 / 100 ∧
      (push_at_speed ext_example 100 (1 / 4) true false
        { state_fast with drs := { state_fast.drs with rwy_friction := RWY_FRICTION_POOR } }
        ).bp.last_force = -100 := by
  have hf : push_at_speed_force ext_example 100 (1 / 4) false state_fast = 100 := by
    norm_num [push_at_speed_force, push_at_speed_targ, push_at_speed_incr,
      push_at_speed_lim, state_fast, ext_example, tug_speed, DEG2RAD, tri_cos,
      hdg2dir_example, vect2_dotprod, ABS, BREAKAWAY_THRESH, FORCE_PER_TON, RWY_FRICTION_GOOD,
      RWY_FRICTION_MED, RWY_FRICTION_POOR]
  have hp : push_at_speed_force ext_example 100 (1 / 4) false
      { state_fast with drs := { state_fast.drs with rwy_friction := RWY_FRICTION_POOR } } =
        -100 := by
    norm_num [push_at_speed_force, push_at_speed_targ, push_at_speed_incr,
      push_at_speed_lim, state_fast, ext_example, tug_speed, DEG2RAD, tri_cos,
      hdg2dir_example, vect2_dotprod, ABS, BREAKAWAY_THRESH, FORCE_PER_TON, RWY_FRICTION_GOOD,
      RWY_FRICTION_MED, RWY_FRICTION_POOR, MAX_SPEED_POOR_FRICTION, MIN, MAX]
  refine ⟨rfl, ?_, ?_, rfl, hf, ?_, ?_, ?_⟩
  · norm_num [state_fast, ext_example, tug_speed, DEG2RAD, tri_cos, hdg2dir_example,
      vect2_dotprod]
  · norm_num [push_at_speed_targ, state_fast, RWY_FRICTION_GOOD, RWY_FRICTION_MED,
      RWY_FRICTION_POOR]
  · show MAX (-push_at_speed_lim state_fast) (MIN (push_at_speed_lim state_fast)
      (if (decide (state_fast.bp_xp_ver ≥ 11000) &&
            decide (state_fast.drs.gear_on_ground state_fast.bp.acf.nw_i ≠ 1)) = true then _
        else push_at_speed_force ext_example 100 (1 / 4) false state_fast)) = 100
    rw [hf]
    norm_num [push_at_speed_lim, state_fast, FORCE_PER_TON, MIN, MAX]
  · norm_num [push_at_speed_targ, state_fast, RWY_FRICTION_GOOD, RWY_FRICTION_MED,
      RWY_FRICTION_POOR, MAX_SPEED_POOR_FRICTION, MIN, MAX]
  · show MAX (-push_at_speed_lim _) (MIN (push_at_speed_lim _)
      (if (decide (state_fast.bp_xp_ver ≥ 11000) &&
            decide (state_fast.drs.gear_on_ground state_fast.bp.acf.nw_i ≠ 1)) = true then _
        else push_at_speed_force ext_example 100 (1 / 4) false
          { state_fast with drs := { state_fast.drs with rwy_friction := RWY_FRICTION_POOR } }))
        = -100
    rw [hp]
    norm_num [push_at_speed_lim, state_fast, FORCE_PER_TON, MIN, MAX, RWY_FRICTION_POOR]

/-- C13, amended: `push_at_speed` regulates towards the target
`push_at_speed_targ`, and its force is the one it computes for that target.
On medium friction the magnitude of the target is at most 2 m/s and on poor
friction at most 1.11 m/s, for every requested speed; on every other value of
the friction dataref (the good tier) the target is the requested speed,
without a ceiling. The target depends on the state only through the friction
tier read in the same tick. -/
theorem push_at_speed_friction_ceiling (M : Ext) (v max_accel : ℚ) (decelerating : Bool)
    (s s2 : State) (hsame : s2.drs.rwy_friction = s.drs.rwy_friction) :
    (s.drs.rwy_friction = RWY_FRICTION_MED → |push_at_speed_targ v s| ≤ 2) ∧
      (s.drs.rwy_friction = RWY_FRICTION_POOR → |push_at_speed_targ v s| ≤ 111 / 100) ∧
      (s.drs.rwy_friction ≠ RWY_FRICTION_MED → s.drs.rwy_friction ≠ RWY_FRICTION_POOR →
        push_at_speed_targ v s = v) ∧
      push_at_speed_force M v max_accel decelerating s =
        push_at_speed_force M (push_at_speed_targ v s) max_accel decelerating s ∧
      push_at_speed_targ v s2 = push_at_speed_targ v s := by
  refine ⟨push_at_speed_targ_med v s, push_at_speed_targ_poor v s, push_at_speed_targ_good v s,
    push_at_speed_force_targ M v max_accel decelerating s, ?_⟩
  unfold push_at_speed_targ
  rw [hsame]

/-- Witness of the amended C13: a request of 100 m/s on poor friction. -/
theorem push_at_speed_friction_ceiling_witness :
    |push_at_speed_targ 100
        { state_fast with drs := { state_fast.drs with rwy_friction := RWY_FRICTION_POOR } }| ≤
      111 / 100 :=
  (push_at_speed_friction_ceiling ext_example 100 (1 / 4) false
    { state_fast with drs := { state_fast.drs with rwy_friction := RWY_FRICTION_POOR } }
    { state_fast with drs := { state_fast.drs with rwy_friction := RWY_FRICTION_POOR } } rfl).2.1 rfl

/-! ### C14 -/

theorem push_at_speed_tug_weight_force (M : Ext) (v max_accel : ℚ) (snd decel : Bool)
    (s : State) :
    (push_at_speed M v max_accel snd decel s).bp.tug_weight_force =
      if s.bp_xp_ver ≥ 11000 then
        if s.drs.gear_on_ground s.bp.acf.nw_i ≠ 1 then
          MIN (s.bp.tug_weight_force + MASS2GFORCE (bp_ls_tug s).info.mass * s.bp.d_t)
            (MASS2GFORCE (bp_ls_tug s).info.mass)
        else 0
      else s.bp.tug_weight_force :=
  rfl

theorem MASS2GFORCE_nonneg (m : ℚ) (h : 0 ≤ m) : 0 ≤ MASS2GFORCE m := by
  unfold MASS2GFORCE EARTH_GRAVITY
  positivity

theorem push_at_speed_tug_weight_force_range (M : Ext) (v max_accel : ℚ) (snd decel : Bool)
    (s : State) (hm : 0 ≤ (bp_ls_tug s).info.mass) (hd : 0 ≤ s.bp.d_t)
    (h0 : 0 ≤ s.bp.tug_weight_force)
    (h1 : s.bp.tug_weight_force ≤ MASS2GFORCE (bp_ls_tug s).info.mass) :
    0 ≤ (push_at_speed M v max_accel snd decel s).bp.tug_weight_force ∧
      (push_at_speed M v max_accel snd decel s).bp.tug_weight_force ≤
        MASS2GFORCE (bp_ls_tug s).info.mass := by
  have hG := MASS2GFORCE_nonneg _ hm
  rw [push_at_speed_tug_weight_force]
  split_ifs
  · rw [MIN_eq_min]
    exact ⟨le_min (by positivity) hG, min_le_right _ _⟩
  · exact ⟨le_refl _, hG⟩
  · exact ⟨h0, h1⟩

theorem push_ticks_tug_weight_force_range (M : Ext) (m : ℚ) (hm : 0 ≤ m)
    (ticks : List push_tick_t)
    (hticks : ∀ t ∈ ticks, ∀ s1 : State,
      (bp_ls_tug (t.before s1)).info.mass = m ∧ 0 ≤ (t.before s1).bp.d_t ∧
        (t.before s1).bp.tug_weight_force = s1.bp.tug_weight_force)
    (s0 : State) (h0 : 0 ≤ s0.bp.tug_weight_force)
    (h1 : s0.bp.tug_weight_force ≤ MASS2GFORCE m) :
    0 ≤ (push_ticks M ticks s0).bp.tug_weight_force ∧
      (push_ticks M ticks s0).bp.tug_weight_force ≤ MASS2GFORCE m := by
  induction ticks generalizing s0 with
  | nil => exact ⟨h0, h1⟩
  | cons t ts ih =>
    obtain ⟨e1, e2, e3⟩ := hticks t (by simp) s0
    have h := push_at_speed_tug_weight_force_range M t.targ_speed t.max_accel t.allow_snd_ctl
      t.decelerating (t.before s0) (by rw [e1]; exact hm) e2 (by rw [e3]; exact h0)
      (by rw [e3, e1]; exact h1)
    rw [e1] at h
    exact ih (fun t1 ht1 => hticks t1 (List.mem_cons_of_mem _ ht1)) _ h.1 h.2

/-- C14: one call of `push_at_speed` (X-Plane 11 or later, tug mass `>= 0`,
`d_t >= 0`) from a weight force `w` in `[0, G]`, `G = MASS2GFORCE(tug mass)`:
with the nose gear off the ground the weight force becomes `min(w + G * d_t,
G)`, which is at least `w` and at most `G`; with the nose gear on the ground it
becomes exactly 0. Over every sequence of calls that starts within `[0, G]` the
weight force stays within `[0, G]`, whatever the rest of the tick does between
the calls as long as it leaves the weight force and the tug mass alone. -/
theorem push_at_speed_weight_force_ramp (M : Ext) (v max_accel : ℚ) (snd decel : Bool)
    (s s0 : State) (ticks : List push_tick_t)
    (hver : s.bp_xp_ver ≥ 11000)
    (hm : 0 ≤ (bp_ls_tug s).info.mass) (hd : 0 ≤ s.bp.d_t)
    (h1 : s.bp.tug_weight_force ≤ MASS2GFORCE (bp_ls_tug s).info.mass)
    (hticks : ∀ t ∈ ticks, ∀ s1 : State,
      (bp_ls_tug (t.before s1)).info.mass = (bp_ls_tug s).info.mass ∧
        0 ≤ (t.before s1).bp.d_t ∧
        (t.before s1).bp.tug_weight_force = s1.bp.tug_weight_force)
    (hs0 : 0 ≤ s0.bp.tug_weight_force ∧
      s0.bp.tug_weight_force ≤ MASS2GFORCE (bp_ls_tug s).info.mass) :
    (s.drs.gear_on_ground s.bp.acf.nw_i ≠ 1 →
        (push_at_speed M v max_accel snd decel s).bp.tug_weight_force =
            min (s.bp.tug_weight_force + MASS2GFORCE (bp_ls_tug s).info.mass * s.bp.d_t)
              (MASS2GFORCE (bp_ls_tug s).info.mass) ∧
          s.bp.tug_weight_force ≤
            (push_at_speed M v max_accel snd decel s).bp.tug_weight_force ∧
          (push_at_speed M v max_accel snd decel s).bp.tug_weight_force ≤
            MASS2GFORCE (bp_ls_tug s).info.mass) ∧
      (s.drs.gear_on_ground s.bp.acf.nw_i = 1 →
        (push_at_speed M v max_accel snd decel s).bp.tug_weight_force = 0) ∧
      0 ≤ (push_ticks M ticks s0).bp.tug_weight_force ∧
      (push_ticks M ticks s0).bp.tug_weight_force ≤ MASS2GFORCE (bp_ls_tug s).info.mass := by
  have hG := MASS2GFORCE_nonneg _ hm
  refine ⟨?_, ?_, push_ticks_tug_weight_force_range M _ hm ticks hticks s0 hs0.1 hs0.2⟩
  · intro hoff
    rw [push_at_speed_tug_weight_force, if_pos hver, if_pos hoff, MIN_eq_min]
    refine ⟨rfl, le_min ?_ h1, min_le_right _ _⟩
    have : 0 ≤ MASS2GFORCE (bp_ls_tug s).info.mass * s.bp.d_t := mul_nonneg hG hd
    linarith
  · intro hon
    rw [push_at_speed_tug_weight_force, if_pos hver, if_neg (not_not.mpr hon)]

/-- Witness of C14: the nose gear leaves the ground for two ticks of 0.02 s
under a tug of 4000 kg; between the calls the rest of the tick restores
everything but the weight force. -/
theorem push_at_speed_weight_force_ramp_witness :
    (push_at_speed ext_example 0 (1 / 4) true false (state_nose_up 0)).bp.tug_weight_force =
        min (0 + MASS2GFORCE 4000 * (1 / 50)) (MASS2GFORCE 4000) ∧
      0 ≤ (push_ticks ext_example
          [⟨fun s1 => { state_nose_up 0 with bp := { (state_nose_up 0).bp with
              tug_weight_force := s1.bp.tug_weight_force } }, 0, 1 / 4, true, false⟩,
           ⟨fun s1 => { state_nose_up 0 with bp := { (state_nose_up 0).bp with
              tug_weight_force := s1.bp.tug_weight_force } }, 0, 1 / 4, true, false⟩]
          (state_nose_up 0)).bp.tug_weight_force :=
  have h := push_at_speed_weight_force_ramp ext_example 0 (1 / 4) true false (state_nose_up 0)
    (state_nose_up 0)
    [⟨fun s1 => { state_nose_up 0 with bp := { (state_nose_up 0).bp with
        tug_weight_force := s1.bp.tug_weight_force } }, 0, 1 / 4, true, false⟩,
     ⟨fun s1 => { state_nose_up 0 with bp := { (state_nose_up 0).bp with
        tug_weight_force := s1.bp.tug_weight_force } }, 0, 1 / 4, true, false⟩]
    (by decide) (by norm_num [state_nose_up, state_saturated, bp_ls_tug, tug_example])
    (by norm_num [state_nose_up, state_saturated])
    (MASS2GFORCE_nonneg (bp_ls_tug (state_nose_up 0)).info.mass
      (by norm_num [state_nose_up, state_saturated, bp_ls_tug, tug_example]))
    (by
      intro t ht s1
      simp only [List.mem_cons, List.mem_singleton, List.not_mem_nil, or_false] at ht
      rcases ht with rfl | rfl <;>
        exact ⟨rfl, by norm_num [state_nose_up, state_saturated], rfl⟩)
    ⟨le_refl _, MASS2GFORCE_nonneg (bp_ls_tug (state_nose_up 0)).info.mass
      (by norm_num [state_nose_up, state_saturated, bp_ls_tug, tug_example])⟩
  ⟨(h.1 (by decide)).1, h.2.2.1⟩

/-! ### C15 -/

theorem push_at_speed_force_cases (M : Ext) (v max_accel : ℚ) (decel : Bool) (s : State) :
    push_at_speed_force M v max_accel decel s = s.bp.last_force + push_at_speed_incr s ∨
      push_at_speed_force M v max_accel decel s = s.bp.last_force - push_at_speed_incr s ∨
      push_at_speed_force M v max_accel decel s = s.bp.last_force := by
  unfold push_at_speed_force
  dsimp only
  split_ifs <;> simp

theorem push_at_speed_last_force_eq (M : Ext) (v max_accel : ℚ) (snd decel : Bool)
    (s : State) :
    (push_at_speed M v max_accel snd decel s).bp.last_force =
      MAX (-push_at_speed_lim s) (MIN (push_at_speed_lim s)
        (if (decide (s.bp_xp_ver ≥ 11000) &&
              decide (s.drs.gear_on_ground s.bp.acf.nw_i ≠ 1)) = true then
          if push_at_speed_force M v max_accel decel s < 0 then
            push_at_speed_force M v max_accel decel s + 2 * push_at_speed_incr s
          else push_at_speed_force M v max_accel decel s - 2 * push_at_speed_incr s
        else push_at_speed_force M v max_accel decel s)) :=
  rfl

theorem abs_MAX_MIN_le_abs (L f : ℚ) (hL : 0 ≤ L) : |MAX (-L) (MIN L f)| ≤ |f| := by
  rw [MAX_eq_max, MIN_eq_min]
  rcases le_total f 0 with h | h
  · rw [min_eq_right (by linarith), abs_of_nonpos (max_le (by linarith) h), abs_of_nonpos h]
    have := le_max_right (-L) f
    linarith
  · rw [abs_of_nonneg h, abs_of_nonneg (le_max_of_le_right (le_min hL h))]
    exact max_le (by linarith) (min_le_right _ _)

theorem bleed_arith (f i g : ℚ) (hi : 0 ≤ i) (hg : g = f + i ∨ g = f - i ∨ g = f) :
    |if g < 0 then g + 2 * i else g - 2 * i| ≤ max (|f| - i) (2 * i) := by
  rw [le_max_iff]
  rcases abs_cases f with ⟨hf, hs⟩ | ⟨hf, hs⟩ <;> rw [hf] <;>
    rcases hg with h | h | h <;> rw [h] <;> split_ifs with hneg <;>
    simp only [abs_le] <;>
    first
    | (by_cases hc : f ≥ 3 * i
       · left; constructor <;> linarith
       · right; constructor <;> linarith)
    | (by_cases hc : -f ≥ 3 * i
       · left; constructor <;> linarith
       · right; constructor <;> linarith)

theorem push_at_speed_bleed_bound (M : Ext) (v max_accel : ℚ) (snd decel : Bool) (s : State)
    (hver : s.bp_xp_ver ≥ 11000) (hoff : s.drs.gear_on_ground s.bp.acf.nw_i ≠ 1)
    (hm : 0 ≤ s.drs.acf_mass) (hd : 0 ≤ s.bp.d_t) :
    |(push_at_speed M v max_accel snd decel s).bp.last_force| ≤
      max (|s.bp.last_force| - push_at_speed_incr s) (2 * push_at_speed_incr s) := by
  have hL := push_at_speed_lim_nonneg s hm
  have hi : 0 ≤ push_at_speed_incr s := mul_nonneg hL hd
  rw [push_at_speed_last_force_eq]
  refine le_trans (abs_MAX_MIN_le_abs _ _ hL) ?_
  have ha : (decide (s.bp_xp_ver ≥ 11000) &&
      decide (s.drs.gear_on_ground s.bp.acf.nw_i ≠ 1)) = true := by
    simp [hver, hoff]
  rw [if_pos ha]
  exact bleed_arith _ _ _ hi (push_at_speed_force_cases M v max_accel decel s)

/-- C15, the claim as stated fails for a small prior force: with the nose gear
off the ground the code subtracts (or adds) twice the per-tick increment
whatever the size of the force, so from the stored force 0, with target speed
0 and no acceleration, the call stores -200 N (aircraft of 1000 kg, tick of
0.02 s, increment 100 N): the magnitude grows. -/
theorem push_at_speed_nose_up_force_grows :
    (state_nose_up 0).drs.gear_on_ground (state_nose_up 0).bp.acf.nw_i ≠ 1 ∧
      (state_nose_up 0).bp.last_force = 0 ∧
      push_at_speed_lim (state_nose_up 0) = 5000 ∧
      push_at_speed_incr (state_nose_up 0) = 100 ∧
      (push_at_speed ext_example 0 (1 / 4) true false (state_nose_up 0)).bp.last_force = -200 ∧
      |(state_nose_up 0).bp.last_force| <
        |(push_at_speed ext_example 0 (1 / 4) true false (state_nose_up 0)).bp.last_force| := by
  have hf : push_at_speed_force ext_example 0 (1 / 4) false (state_nose_up 0) = 0 := by
    norm_num [push_at_speed_force, push_at_speed_targ, push_at_speed_incr,
      push_at_speed_lim, state_nose_up, state_saturated, ext_example, tug_speed, DEG2RAD,
      tri_cos, hdg2dir_example, vect2_dotprod, ABS, BREAKAWAY_THRESH, FORCE_PER_TON,
      RWY_FRICTION_MED, RWY_FRICTION_POOR]
  have hl : push_at_speed_lim (state_nose_up 0) = 5000 := by
    norm_num [push_at_speed_lim, state_nose_up, state_saturated, FORCE_PER_TON]
  have hi : push_at_speed_incr (state_nose_up 0) = 100 := by
    rw [push_at_speed_incr, hl]
    norm_num [state_nose_up, state_saturated]
  have hn : (push_at_speed ext_example 0 (1 / 4) true false (state_nose_up 0)).bp.last_force =
      -200 := by
    rw [push_at_speed_last_force_eq, hf, hl, hi]
    norm_num [state_nose_up, state_saturated, MIN, MAX]
  refine ⟨by decide, rfl, hl, hi, hn, ?_⟩
  rw [hn]
  norm_num [state_nose_up, state_saturated]

/-- C15, amended: on every call of `push_at_speed` with the nose gear off the
ground (X-Plane 11 or later, mass `>= 0`, `d_t >= 0`), for every target speed
and measured acceleration, the magnitude of the stored force is at most
`max(|old| - i, 2 * i)` with `i = L * d_t` the per-tick increment and `L =
FORCE_PER_TON * m / 1000`: the force is bled by at least one increment per tick
until it is within two increments of zero, where it stays. In particular the
magnitude does not grow whenever the prior magnitude is at least `2 * i`. -/
theorem push_at_speed_nose_up_bleeds (M : Ext) (v max_accel : ℚ) (snd decel : Bool) (s : State)
    (hver : s.bp_xp_ver ≥ 11000) (hoff : s.drs.gear_on_ground s.bp.acf.nw_i ≠ 1)
    (hm : 0 ≤ s.drs.acf_mass) (hd : 0 ≤ s.bp.d_t) :
    |(push_at_speed M v max_accel snd decel s).bp.last_force| ≤
        max (|s.bp.last_force| - FORCE_PER_TON * (s.drs.acf_mass / 1000) * s.bp.d_t)
          (2 * (FORCE_PER_TON * (s.drs.acf_mass / 1000) * s.bp.d_t)) ∧
      (2 * (FORCE_PER_TON * (s.drs.acf_mass / 1000) * s.bp.d_t) ≤ |s.bp.last_force| →
        |(push_at_speed M v max_accel snd decel s).bp.last_force| ≤ |s.bp.last_force|) := by
  have h := push_at_speed_bleed_bound M v max_accel snd decel s hver hoff hm hd
  have hi : 0 ≤ push_at_speed_incr s := mul_nonneg (push_at_speed_lim_nonneg s hm) hd
  unfold push_at_speed_incr push_at_speed_lim at h hi
  refine ⟨h, fun hbig => le_trans h (max_le ?_ hbig)⟩
  linarith

/-- Witness of the amended C15: the nose gear leaves the ground while the
stored force is 5000 N. -/
theorem push_at_speed_nose_up_bleeds_witness :
    |(push_at_speed ext_example 0 (1 / 4) true false (state_nose_up 5000)).bp.last_force| ≤
      |(state_nose_up 5000).bp.last_force| :=
  (push_at_speed_nose_up_bleeds ext_example 0 (1 / 4) true false (state_nose_up 5000)
    (by decide) (by decide) (by norm_num [state_nose_up, state_saturated])
    (by norm_num [state_nose_up, state_saturated])).2
    (by norm_num [state_nose_up, state_saturated, FORCE_PER_TON])

/-! ### C16 -/

theorem clamp_step (L f g i : ℚ) (hf : |f| ≤ L) (hg : |g - f| ≤ i) :
    |MAX (-L) (MIN L g) - f| ≤ i := by
  rw [MAX_eq_max, MIN_eq_min]
  rw [abs_le] at hf hg ⊢
  obtain ⟨hf1, hf2⟩ := hf
  obtain ⟨hg1, hg2⟩ := hg
  constructor
  · have := le_max_right (-L) (min L g)
    rcases le_total L g with h | h
    · rw [min_eq_left h] at this ⊢
      rw [max_eq_right (by linarith)]
      linarith
    · rw [min_eq_right h] at this ⊢
      linarith
  · have : max (-L) (min L g) ≤ max (-L) g := max_le_max (le_refl _) (min_le_right _ _)
    rcases le_total (-L) g with h | h
    · rw [max_eq_right h] at this
      linarith
    · rw [max_eq_left h] at this
      linarith

theorem push_at_speed_ground_step (M : Ext) (v max_accel : ℚ) (snd decel : Bool) (s : State)
    (hgnd : s.bp_xp_ver ≥ 11000 → s.drs.gear_on_ground s.bp.acf.nw_i = 1)
    (hf : |s.bp.last_force| ≤ push_at_speed_lim s) (hd : 0 ≤ s.bp.d_t) :
    |(push_at_speed M v max_accel snd decel s).bp.last_force - s.bp.last_force| ≤
      push_at_speed_lim s * s.bp.d_t := by
  have hL : 0 ≤ push_at_speed_lim s := le_trans (abs_nonneg _) hf
  have hi : 0 ≤ push_at_speed_incr s := mul_nonneg hL hd
  rw [push_at_speed_last_force_eq]
  have ha : ¬ (decide (s.bp_xp_ver ≥ 11000) &&
      decide (s.drs.gear_on_ground s.bp.acf.nw_i ≠ 1)) = true := by
    simp only [Bool.and_eq_true, decide_eq_true_eq, not_and, not_not]
    exact hgnd
  rw [if_neg ha]
  refine clamp_step _ _ _ _ hf ?_
  show _ ≤ push_at_speed_incr s
  rcases push_at_speed_force_cases M v max_accel decel s with h | h | h <;> rw [h]
  · rw [add_sub_cancel_left, abs_of_nonneg hi]
  · rw [sub_sub_cancel_left, abs_neg, abs_of_nonneg hi]
  · rw [sub_self, abs_zero]
    exact hi

theorem push_ticks_force_ramp (M : Ext) (m : ℚ) (ticks : List push_tick_t)
    (hticks : ∀ t ∈ ticks, ∀ s1 : State,
      (t.before s1).drs.acf_mass = m ∧ 0 ≤ (t.before s1).bp.d_t ∧
        (t.before s1).bp.last_force = s1.bp.last_force ∧
        ((t.before s1).bp_xp_ver ≥ 11000 →
          (t.before s1).drs.gear_on_ground (t.before s1).bp.acf.nw_i = 1))
    (s0 : State) (h0 : |s0.bp.last_force| ≤ FORCE_PER_TON * (m / 1000)) :
    |(push_ticks M ticks s0).bp.last_force| ≤
      |s0.bp.last_force| + FORCE_PER_TON * (m / 1000) * push_ticks_time M ticks s0 := by
  induction ticks generalizing s0 with
  | nil => simp [push_ticks, push_ticks_time]
  | cons t ts ih =>
    obtain ⟨e1, e2, e3, e4⟩ := hticks t (by simp) s0
    have hl : push_at_speed_lim (t.before s0) = FORCE_PER_TON * (m / 1000) := by
      rw [push_at_speed_lim, e1]
    have hm : 0 ≤ (t.before s0).drs.acf_mass := by
      have h1 : 0 ≤ FORCE_PER_TON * (m / 1000) := le_trans (abs_nonneg _) h0
      rw [e1]
      unfold FORCE_PER_TON at h1
      linarith
    have hstep := push_at_speed_ground_step M t.targ_speed t.max_accel t.allow_snd_ctl
      t.decelerating (t.before s0) e4 (by rw [hl, e3]; exact h0) e2
    have hnext := push_at_speed_abs_le M t.targ_speed t.max_accel t.allow_snd_ctl
      t.decelerating (t.before s0) hm
    rw [e1] at hnext
    have hih := ih (fun t1 ht1 => hticks t1 (List.mem_cons_of_mem _ ht1)) _
      (by rw [mul_div_assoc] at hnext; exact hnext)
    rw [hl, e3] at hstep
    show |(push_ticks M ts _).bp.last_force| ≤
      |s0.bp.last_force| + FORCE_PER_TON * (m / 1000) * ((t.before s0).bp.d_t +
        push_ticks_time M ts _)
    have htri := abs_sub_abs_le_abs_sub
      (push_at_speed M t.targ_speed t.max_accel t.allow_snd_ctl t.decelerating
        (t.before s0)).bp.last_force s0.bp.last_force
    linarith

/-- C16: for every call of `push_at_speed` with the nose gear on the ground
(on every simulator version), the prior force state within the limit `L =
FORCE_PER_TON * m / 1000` and `d_t >= 0`, the stored force state changes by at
most the per-tick increment: `|new - old| <= L * d_t`. Over every sequence of
such calls that starts from zero force the stored force is at most `L` times
the accumulated tick time, so it stays below the limit `L > 0` as long as the
accumulated tick time is less than 1 s. -/
theorem push_at_speed_force_rate (M : Ext) (v max_accel : ℚ) (snd decel : Bool) (s s0 : State)
    (ticks : List push_tick_t)
    (hgnd : s.bp_xp_ver ≥ 11000 → s.drs.gear_on_ground s.bp.acf.nw_i = 1)
    (hf : |s.bp.last_force| ≤ FORCE_PER_TON * s.drs.acf_mass / 1000) (hd : 0 ≤ s.bp.d_t)
    (hticks : ∀ t ∈ ticks, ∀ s1 : State,
      (t.before s1).drs.acf_mass = s.drs.acf_mass ∧ 0 ≤ (t.before s1).bp.d_t ∧
        (t.before s1).bp.last_force = s1.bp.last_force ∧
        ((t.before s1).bp_xp_ver ≥ 11000 →
          (t.before s1).drs.gear_on_ground (t.before s1).bp.acf.nw_i = 1))
    (hzero : s0.bp.last_force = 0) :
    |(push_at_speed M v max_accel snd decel s).bp.last_force - s.bp.last_force| ≤
        FORCE_PER_TON * s.drs.acf_mass / 1000 * s.bp.d_t ∧
      |(push_ticks M ticks s0).bp.last_force| ≤
        FORCE_PER_TON * s.drs.acf_mass / 1000 * push_ticks_time M ticks s0 ∧
      (0 < s.drs.acf_mass → push_ticks_time M ticks s0 < 1 →
        |(push_ticks M ticks s0).bp.last_force| < FORCE_PER_TON * s.drs.acf_mass / 1000) := by
  have e : push_at_speed_lim s = FORCE_PER_TON * s.drs.acf_mass / 1000 := by
    unfold push_at_speed_lim
    ring
  have hL : 0 ≤ FORCE_PER_TON * s.drs.acf_mass / 1000 := le_trans (abs_nonneg _) hf
  have hseq := push_ticks_force_ramp M s.drs.acf_mass ticks hticks s0
    (by rw [hzero, abs_zero, ← mul_div_assoc]; exact hL)
  rw [hzero, abs_zero, zero_add, ← mul_div_assoc] at hseq
  refine ⟨?_, hseq, ?_⟩
  · rw [← e]
    exact push_at_speed_ground_step M v max_accel snd decel s hgnd (by rw [e]; exact hf) hd
  · intro hpos hlt
    refine lt_of_le_of_lt hseq ?_
    have hLpos : 0 < FORCE_PER_TON * s.drs.acf_mass / 1000 := by
      unfold FORCE_PER_TON
      positivity
    calc FORCE_PER_TON * s.drs.acf_mass / 1000 * push_ticks_time M ticks s0
        < FORCE_PER_TON * s.drs.acf_mass / 1000 * 1 := mul_lt_mul_of_pos_left hlt hLpos
      _ = FORCE_PER_TON * s.drs.acf_mass / 1000 := mul_one _

/-- Witness of C16: two ticks of 0.02 s from zero force on an aircraft of
1000 kg; between the calls the rest of the tick restores everything but the
stored force. -/
theorem push_at_speed_force_rate_witness :
    |(push_at_speed ext_example 1 (1 / 4) true false (state_on_ground 0)).bp.last_force -
        (state_on_ground 0).bp.last_force| ≤
      FORCE_PER_TON * (state_on_ground 0).drs.acf_mass / 1000 * (state_on_ground 0).bp.d_t ∧
    |(push_ticks ext_example
        [⟨fun s1 => state_on_ground s1.bp.last_force, 1, 1 / 4, true, false⟩,
         ⟨fun s1 => state_on_ground s1.bp.last_force, 1, 1 / 4, true, false⟩]
        (state_on_ground 0)).bp.last_force| <
      FORCE_PER_TON * (state_on_ground 0).drs.acf_mass / 1000 :=
  have h := push_at_speed_force_rate ext_example 1 (1 / 4) true false (state_on_ground 0)
    (state_on_ground 0)
    [⟨fun s1 => state_on_ground s1.bp.last_force, 1, 1 / 4, true, false⟩,
     ⟨fun s1 => state_on_ground s1.bp.last_force, 1, 1 / 4, true, false⟩]
    (fun _ => rfl)
    (by norm_num [state_on_ground, state_saturated, FORCE_PER_TON])
    (by norm_num [state_on_ground, state_saturated])
    (by
      intro t ht s1
      simp only [List.mem_cons, List.mem_singleton, List.not_mem_nil, or_false] at ht
      rcases ht with rfl | rfl <;>
        exact ⟨rfl, by norm_num [state_on_ground, state_saturated], rfl, fun _ => rfl⟩)
    rfl
  ⟨h.1, h.2.2 (by norm_num [state_on_ground, state_saturated])
    (by norm_num [push_ticks_time, state_on_ground, state_saturated])⟩

/-! ### C18 -/

/-- C18: outside phase WAITING_FOR_DISCONNECT_OK both `disco_handler` and
`recon_handler` return 0 and leave the whole state unchanged. In that phase
`disco_handler` returns 1 and sets only `ok2disco`; `recon_handler` (on a
slave, or on a master whose planner camera starts) returns 1 with the phase
GRABBING, the reconnect flag set, `op_complete` cleared and `step_start_t`
the current time, changing nothing else but the late-plan request of the
master. -/
theorem recon_disco_only_when_waiting (s : State) :
    (s.bp.step ≠ PB_STEP_WAITING4OK2DISCO →
        disco_handler s = (0, s) ∧ recon_handler s = some (0, s)) ∧
      (s.bp.step = PB_STEP_WAITING4OK2DISCO →
        disco_handler s = (1, { s with bp := { s.bp with ok2disco := true } }) ∧
          (s.slave_mode = true ∨ s.drs.cam_can_start = true →
            recon_handler s =
              some (1, { s with
                op_complete := false,
                late_plan_requested := if s.slave_mode then s.late_plan_requested else true,
                bp := { s.bp with
                  reconnect := true, step := PB_STEP_GRABBING,
                  step_start_t := s.bp.cur_t } }))) := by
  constructor
  · intro h
    unfold disco_handler recon_handler
    rw [if_pos h, if_pos h]
    exact ⟨rfl, rfl⟩
  · intro h
    constructor
    · unfold disco_handler
      rw [if_neg (not_not.mpr h)]
    · intro hcam
      unfold recon_handler
      rw [if_neg (not_not.mpr h)]
      unfold bp_reconnect_notify
      dsimp only
      cases hs : s.slave_mode
      · have hc : s.drs.cam_can_start = true := by
          rcases hcam with h1 | h1
          · rw [hs] at h1
            exact absurd h1 (by decide)
          · exact h1
        simp [hc]
      · simp

/-- Witness of C18: the operator's reconnect in phase WAITING_FOR_DISCONNECT_OK
and in phase PUSHING. -/
theorem recon_disco_only_when_waiting_witness :
    recon_handler (state_pushing 0 0) = some (0, state_pushing 0 0) ∧
      (recon_handler (state_stopped_by_operator PB_STEP_WAITING4OK2DISCO 1)).map
          (fun r => (r.1, r.2.bp.step, r.2.bp.reconnect, r.2.op_complete)) =
        some (1, PB_STEP_GRABBING, true, false) :=
  ⟨((recon_disco_only_when_waiting (state_pushing 0 0)).1 (by decide)).2,
    by
      rw [((recon_disco_only_when_waiting
        (state_stopped_by_operator PB_STEP_WAITING4OK2DISCO 1)).2 rfl).2 (Or.inr rfl)]
      rfl⟩

/-! ### C19 -/

theorem read_gear_info_steer_none (s : State) (l : List Nat) (acc : Int × ℚ)
    (h : ∀ g ∈ l, s.drs.gear_steers g ≠ 1) :
    read_gear_info_steer s l acc = acc := by
  induction l generalizing acc with
  | nil => rfl
  | cons g gs ih =>
    unfold read_gear_info_steer
    rw [if_neg (fun hc => h g (by simp) hc.1)]
    exact ih acc (fun g1 hg1 => h g1 (List.mem_cons_of_mem _ hg1))

theorem read_gear_info_returns_true (s : State) : (read_gear_info s).1 = true :=
  rfl

theorem read_gear_info_fallback (s : State)
    (h : ∀ g ∈ s.bp.acf.gear_is ++ read_gear_info_eligible s, s.drs.gear_steers g ≠ 1) :
    (read_gear_info s).2.bp.acf.nw_i =
        (s.bp.acf.gear_is ++ read_gear_info_eligible s).headD 0 ∧
      (read_gear_info s).2.bp.acf.nw_z =
        s.drs.tire_z ((s.bp.acf.gear_is ++ read_gear_info_eligible s).headD 0) := by
  unfold read_gear_info
  simp only [read_gear_info_steer_none s _ _ h, if_true, Int.toNat_ofNat]
  exact ⟨trivial, trivial⟩

theorem ite_fst_not (b : Bool) (x y : State) :
    (if b = true then (false, x) else (true, y)).1 = !b := by
  cases b <;> rfl

theorem bp_state_init_gear_check (s : State) (flags : model_flags_t)
    (hver : ¬ s.bp_xp_ver < MIN_XPLANE_VERSION) (hfile : s.drs.acf_file = some flags)
    (hhelo : (flags.is_helicopter || flags.fly_like_a_helo) = false) :
    (bp_state_init s).1 =
      !double_le_zero
        ((read_gear_info { s with bp := { acf := { model_flags := flags } } }).2.bp.acf.main_z -
          (read_gear_info { s with bp := { acf := { model_flags := flags } } }).2.bp.acf.nw_z)
        (read_gear_info
          { s with bp := { acf := { model_flags := flags } } }).2.bp.acf.main_z_nf := by
  unfold bp_state_init
  dsimp only
  rw [if_neg hver]
  simp only [hfile]
  rw [if_neg (by rw [hhelo]; decide)]
  rw [if_neg (by rw [read_gear_info_returns_true]; decide)]
  exact ite_fst_not _ _ _

theorem read_gear_info_main_z (s : State) :
    (read_gear_info s).2.bp.acf.main_z =
        (double_div_int
          (s.bp.acf.main_z +
            (((s.bp.acf.gear_is ++ read_gear_info_eligible s).filter
              (fun g => decide (g ≠ (read_gear_info s).2.bp.acf.nw_i))).map s.drs.tire_z).sum)
          s.bp.acf.main_z_nf (read_gear_info_divisor s)).1 ∧
      (read_gear_info s).2.bp.acf.main_z_nf =
        (double_div_int
          (s.bp.acf.main_z +
            (((s.bp.acf.gear_is ++ read_gear_info_eligible s).filter
              (fun g => decide (g ≠ (read_gear_info s).2.bp.acf.nw_i))).map s.drs.tire_z).sum)
          s.bp.acf.main_z_nf (read_gear_info_divisor s)).2 :=
  ⟨rfl, rfl⟩

/-- With a divisor other than 0 the mean of a finite sum is finite and is the
quotient. -/
theorem double_div_int_finite (x : ℚ) (d : Int) (hd : d ≠ 0) :
    double_div_int x none d = (x / (d : ℚ), none) := by
  unfold double_div_int
  simp only [if_neg hd]

/-- The quotient `0.0 / 0` is NaN. -/
theorem double_div_int_nan : double_div_int 0 none 0 = (0, some nonfinite_t.NAN) := by
  unfold double_div_int
  simp

/-- The test `wheelbase <= 0` on a finite wheelbase. -/
theorem double_le_zero_finite (x : ℚ) : double_le_zero x none = decide (x ≤ 0) :=
  rfl

/-- The nose gear that `read_gear_info` picks when a single gear is eligible
is that gear, steerable or not. -/
theorem read_gear_info_single (s : State) (g : Nat)
    (h : s.bp.acf.gear_is ++ read_gear_info_eligible s = [g]) :
    (read_gear_info s).2.bp.acf.nw_i = g := by
  have hg : (g : Int) ≠ -1 := by omega
  unfold read_gear_info
  dsimp only
  rw [h]
  by_cases hc : s.drs.gear_steers g = 1 ∧ s.drs.tire_z g < 10000000000
  · simp [read_gear_info_steer, hc, hg]
  · simp [read_gear_info_steer, hc]

/-- With a single eligible gear on a zeroed context the sum of the main-gear
positions is `0.0` and the divisor `n_gear - 1` is 0: the mean is NaN. -/
theorem read_gear_info_single_nan (s : State) (hz : s.bp.acf.main_z = 0)
    (hnf : s.bp.acf.main_z_nf = none)
    (h : (s.bp.acf.gear_is ++ read_gear_info_eligible s).length = 1) :
    (read_gear_info s).2.bp.acf.main_z_nf = some nonfinite_t.NAN := by
  obtain ⟨g, hg⟩ := List.length_eq_one.mp h
  rw [(read_gear_info_main_z s).2, read_gear_info_single s g hg, hz, hnf,
    read_gear_info_divisor, hg]
  simp [double_div_int]

/-- With a number of eligible gears other than one the mean of the main-gear
positions is finite. -/
theorem read_gear_info_finite (s : State) (hnf : s.bp.acf.main_z_nf = none)
    (h : (s.bp.acf.gear_is ++ read_gear_info_eligible s).length ≠ 1) :
    (read_gear_info s).2.bp.acf.main_z_nf = none := by
  have hd : read_gear_info_divisor s ≠ 0 := by
    unfold read_gear_info_divisor
    omega
  rw [(read_gear_info_main_z s).2, hnf, double_div_int_finite _ _ hd]

theorem read_gear_info_n_gear (s : State) :
    (read_gear_info s).2.bp.acf.n_gear =
      (s.bp.acf.gear_is ++ read_gear_info_eligible s).length :=
  rfl

/-- C20: `read_gear_info` reports success without guarding the gear count. On
an aircraft whose only eligible gear is the steerable nose gear it returns
true with `n_gear = 1`, so the divisor `n_gear - 1` of the mean main-gear
position is 0; on an aircraft without any eligible gear it returns true with
`n_gear = 0`, takes the nose-gear index from slot 0 of the empty gear list and
divides by -1. In both cases `bp_state_init` returns true. -/
theorem read_gear_info_gear_count_unguarded :
    (read_gear_info_eligible
        { state_gears 1 (fun i => if i = 0 then 1 else 0) with
          bp := { acf := { model_flags := {} } } } = [0] ∧
      (read_gear_info
        { state_gears 1 (fun i => if i = 0 then 1 else 0) with
          bp := { acf := { model_flags := {} } } }).1 = true ∧
      (read_gear_info
        { state_gears 1 (fun i => if i = 0 then 1 else 0) with
          bp := { acf := { model_flags := {} } } }).2.bp.acf.n_gear = 1 ∧
      read_gear_info_divisor
        { state_gears 1 (fun i => if i = 0 then 1 else 0) with
          bp := { acf := { model_flags := {} } } } = 0 ∧
      (bp_state_init (state_gears 1 (fun i => if i = 0 then 1 else 0))).1 = true) ∧
    (read_gear_info_eligible
        { state_gears 0 (fun _ => 0) with bp := { acf := { model_flags := {} } } } = [] ∧
      (read_gear_info
        { state_gears 0 (fun _ => 0) with bp := { acf := { model_flags := {} } } }).1 = true ∧
      (read_gear_info
        { state_gears 0 (fun _ => 0) with
          bp := { acf := { model_flags := {} } } }).2.bp.acf.n_gear = 0 ∧
      (read_gear_info
        { state_gears 0 (fun _ => 0) with
          bp := { acf := { model_flags := {} } } }).2.bp.acf.nw_i = 0 ∧
      read_gear_info_divisor
        { state_gears 0 (fun _ => 0) with bp := { acf := { model_flags := {} } } } = -1 ∧
      (bp_state_init (state_gears 0 (fun _ => 0))).1 = true) := by
  have he1 : read_gear_info_eligible
      { state_gears 1 (fun i => if i = 0 then 1 else 0) with
        bp := { acf := { model_flags := {} } } } = [0] := by decide
  have he0 : read_gear_info_eligible
      { state_gears 0 (fun _ => 0) with bp := { acf := { model_flags := {} } } } = [] := by
    decide
  have hd1 : read_gear_info_divisor
      { state_gears 1 (fun i => if i = 0 then 1 else 0) with
        bp := { acf := { model_flags := {} } } } = 0 := by
    rw [read_gear_info_divisor, he1]
    rfl
  have hd0 : read_gear_info_divisor
      { state_gears 0 (fun _ => 0) with bp := { acf := { model_flags := {} } } } = -1 := by
    rw [read_gear_info_divisor, he0]
    rfl
  have hn1 : (read_gear_info
      { state_gears 1 (fun i => if i = 0 then 1 else 0) with
        bp := { acf := { model_flags := {} } } }).2.bp.acf.n_gear = 1 := by
    rw [read_gear_info_n_gear, he1]
    rfl
  have hn0 : (read_gear_info
      { state_gears 0 (fun _ => 0) with
        bp := { acf := { model_flags := {} } } }).2.bp.acf.n_gear = 0 := by
    rw [read_gear_info_n_gear, he0]
    rfl
  obtain ⟨hi0, hz0⟩ := read_gear_info_fallback
    { state_gears 0 (fun _ => 0) with bp := { acf := { model_flags := {} } } }
    (fun _ _ => show (0 : Int) ≠ 1 by decide)
  rw [he0] at hi0 hz0
  refine ⟨⟨he1, rfl, hn1, hd1, ?_⟩, ⟨he0, rfl, hn0, hi0, hd0, ?_⟩⟩
  · rw [bp_state_init_gear_check _ {} (by decide) rfl rfl,
      read_gear_info_single_nan _ rfl rfl (by rw [he1]; rfl)]
    rfl
  · rw [bp_state_init_gear_check _ {} (by decide) rfl rfl,
      read_gear_info_finite _ rfl (by rw [he0]; decide), double_le_zero_finite,
      (read_gear_info_main_z _).1, hd0, hz0, hi0, he0]
    norm_num [state_gears, double_div_int]

/-! ### What a tick keeps -/

@[simp]
theorem push_at_speed_divs (M : Ext) (targ_speed max_accel : ℚ) (a d : Bool) (s : State) :
    (push_at_speed M targ_speed max_accel a d s).divs = s.divs ++ [s.bp.d_t] :=
  rfl

@[simp]
theorem turn_nosewheel_divs (M : Ext) (req_steer : ℚ) (s : State) :
    (turn_nosewheel M req_steer s).divs = s.divs ++ [s.bp.d_t] :=
  rfl

@[simp]
theorem brakes_set_divs (flag : Bool) (s : State) : (brakes_set flag s).divs = s.divs :=
  rfl

theorem keeps_refl (s : State) : keeps s s :=
  ⟨rfl, rfl, rfl, le_refl _, fun _ h => Or.inl h⟩

theorem keeps_trans (s s1 s2 : State) (h1 : keeps s s1) (h2 : keeps s1 s2) : keeps s s2 := by
  obtain ⟨a1, a2, a3, a4, a5⟩ := h1
  obtain ⟨b1, b2, b3, b4, b5⟩ := h2
  refine ⟨b1.trans a1, b2.trans a2, b3.trans a3, le_trans a4 b4, ?_⟩
  intro d hd
  rcases b5 d hd with h | h
  · exact a5 d h
  · exact Or.inr (h.trans a1)

theorem keeps_torn (s s1 s2 : State) (h1 : keeps s s1) (h2 : torn s1 s2) : torn s s2 := by
  obtain ⟨a1, a2, a3, a4, a5⟩ := h1
  obtain ⟨b1, b2, b3, b5⟩ := h2
  refine ⟨b1, b2, b3, ?_⟩
  intro d hd
  rcases b5 d hd with h | h
  · exact a5 d h
  · exact Or.inr (h.trans a1)

theorem keeps_push_at_speed (M : Ext) (v max_accel : ℚ) (a d : Bool) (s : State) :
    keeps s (push_at_speed M v max_accel a d s) := by
  simp [keeps]

theorem keeps_turn_nosewheel (M : Ext) (r : ℚ) (s : State) :
    keeps s (turn_nosewheel M r s) := by
  simp [keeps]

theorem pb_step_driving_up_close_keeps (M : Ext) (s : State) :
    keeps s (pb_step_driving_up_close M s) := by
  unfold pb_step_driving_up_close
  try dsimp only
  split_ifs
  all_goals first
    | exact ⟨rfl, rfl, rfl, le_refl _, fun _ h => Or.inl h⟩
    | exact ⟨rfl, rfl, rfl, Nat.le_succ _, fun _ h => Or.inl h⟩

theorem pb_step_waiting_for_doors_keeps (s : State) :
    keeps s (pb_step_waiting_for_doors s) := by
  exact ⟨rfl, rfl, rfl, Nat.le_succ _, fun _ h => Or.inl h⟩

theorem pb_step_opening_cradle_keeps (s : State) :
    keeps s (pb_step_opening_cradle s) := by
  unfold pb_step_opening_cradle
  try dsimp only
  split_ifs
  all_goals first
    | exact ⟨rfl, rfl, rfl, le_refl _, fun _ h => Or.inl h⟩
    | exact ⟨rfl, rfl, rfl, Nat.le_succ _, fun _ h => Or.inl h⟩

theorem pb_step_driving_up_connect_keeps (M : Ext) (s : State) :
    keeps s (pb_step_driving_up_connect M s) := by
  unfold pb_step_driving_up_connect
  try dsimp only
  split_ifs
  all_goals first
    | exact ⟨rfl, rfl, rfl, le_refl _, fun _ h => Or.inl h⟩
    | exact ⟨rfl, rfl, rfl, Nat.le_succ _, fun _ h => Or.inl h⟩

theorem pb_step_connect_grab_keeps (s : State) :
    keeps s (pb_step_connect_grab s) := by
  unfold pb_step_connect_grab
  try dsimp only
  split_ifs
  all_goals first
    | exact ⟨rfl, rfl, rfl, le_refl _, fun _ h => Or.inl h⟩
    | exact ⟨rfl, rfl, rfl, Nat.le_succ _, fun _ h => Or.inl h⟩

theorem pb_step_connect_winch_keeps (M : Ext) (s : State) :
    keeps s (pb_step_connect_winch M s) := by
  unfold pb_step_connect_winch
  try dsimp only
  split_ifs
  all_goals first
    | exact ⟨rfl, rfl, rfl, le_refl _, fun _ h => Or.inl h⟩
    | exact ⟨rfl, rfl, rfl, Nat.le_succ _, fun _ h => Or.inl h⟩
    | (simp [keeps, step_next, step_rearm, voice_now, tug_upd, disco_handler]; try tauto)

theorem pb_step_grab_keeps (M : Ext) (s : State) :
    keeps s (pb_step_grab M s) := by
  unfold pb_step_grab
  dsimp only
  split_ifs
  all_goals first
    | exact keeps_trans _ _ _ ⟨rfl, rfl, rfl, le_refl _, fun _ h => Or.inl h⟩
        (pb_step_connect_grab_keeps _)
    | exact keeps_trans _ _ _ ⟨rfl, rfl, rfl, le_refl _, fun _ h => Or.inl h⟩
        (pb_step_connect_winch_keeps M _)

theorem pb_step_lift_keeps (M : Ext) (s : State) :
    keeps s (pb_step_lift M s) := by
  unfold pb_step_lift
  try dsimp only
  split_ifs
  all_goals first
    | exact ⟨rfl, rfl, rfl, le_refl _, fun _ h => Or.inl h⟩
    | exact ⟨rfl, rfl, rfl, Nat.le_succ _, fun _ h => Or.inl h⟩

theorem pb_step_connected_keeps (M : Ext) (s : State) :
    keeps s (pb_step_connected M s) := by
  unfold pb_step_connected
  try dsimp only
  split_ifs
  all_goals first
    | exact ⟨rfl, rfl, rfl, le_refl _, fun _ h => Or.inl h⟩
    | exact ⟨rfl, rfl, rfl, Nat.le_succ _, fun _ h => Or.inl h⟩

theorem pb_step_starting_keeps (M : Ext) (s : State) :
    keeps s (pb_step_starting M s) := by
  unfold pb_step_starting
  try dsimp only
  split_ifs
  all_goals first
    | exact ⟨rfl, rfl, rfl, le_refl _, fun _ h => Or.inl h⟩
    | exact ⟨rfl, rfl, rfl, Nat.le_succ _, fun _ h => Or.inl h⟩
    | (simp [keeps, step_next, step_rearm, voice_now, tug_upd, disco_handler]; try tauto)

theorem pb_step_stopped_keeps (M : Ext) (s : State) :
    keeps s (pb_step_stopped M s) := by
  unfold pb_step_stopped
  try dsimp only
  split_ifs
  all_goals first
    | exact ⟨rfl, rfl, rfl, le_refl _, fun _ h => Or.inl h⟩
    | exact ⟨rfl, rfl, rfl, Nat.le_succ _, fun _ h => Or.inl h⟩
    | (simp [keeps, step_next, step_rearm, voice_now, tug_upd, disco_handler]; try tauto)

theorem pb_step_lowering_keeps (M : Ext) (s : State) :
    keeps s (pb_step_lowering M s) := by
  unfold pb_step_lowering
  try dsimp only
  split_ifs
  all_goals first
    | exact ⟨rfl, rfl, rfl, le_refl _, fun _ h => Or.inl h⟩
    | exact ⟨rfl, rfl, rfl, Nat.le_succ _, fun _ h => Or.inl h⟩
    | (simp [keeps, step_next, step_rearm, voice_now, tug_upd, disco_handler]; try tauto)

theorem pb_step_ungrabbing_keeps (s : State) :
    keeps s (pb_step_ungrabbing s) := by
  unfold pb_step_ungrabbing
  try dsimp only
  split_ifs
  all_goals first
    | exact ⟨rfl, rfl, rfl, le_refl _, fun _ h => Or.inl h⟩
    | exact ⟨rfl, rfl, rfl, Nat.le_succ _, fun _ h => Or.inl h⟩

theorem pb_step_waiting4ok2disco_keeps (M : Ext) (s : State) :
    keeps s (pb_step_waiting4ok2disco M s) := by
  unfold pb_step_waiting4ok2disco disco_handler
  try dsimp only
  split_ifs
  all_goals first
    | exact ⟨rfl, rfl, rfl, le_refl _, fun _ h => Or.inl h⟩
    | exact ⟨rfl, rfl, rfl, Nat.le_succ _, fun _ h => Or.inl h⟩
    | (simp [keeps, step_next, step_rearm, voice_now, tug_upd, disco_handler]; try tauto)

theorem pb_step_moving_away_keeps (M : Ext) (s : State) :
    keeps s (pb_step_moving_away M s) := by
  unfold pb_step_moving_away
  try dsimp only
  split_ifs
  all_goals first
    | exact ⟨rfl, rfl, rfl, le_refl _, fun _ h => Or.inl h⟩
    | exact ⟨rfl, rfl, rfl, Nat.le_succ _, fun _ h => Or.inl h⟩

theorem pb_step_closing_cradle_keeps (s : State) :
    keeps s (pb_step_closing_cradle s) := by
  unfold pb_step_closing_cradle
  try dsimp only
  split_ifs
  all_goals first
    | exact ⟨rfl, rfl, rfl, le_refl _, fun _ h => Or.inl h⟩
    | exact ⟨rfl, rfl, rfl, Nat.le_succ _, fun _ h => Or.inl h⟩

theorem keeps_tug_upd (f : tug_t → tug_t) (s : State) : keeps s (tug_upd f s) := by
  simp [keeps, tug_upd]
  tauto

theorem keeps_step_next (s : State) : keeps s (step_next s) :=
  ⟨rfl, rfl, rfl, Nat.le_succ _, fun _ h => Or.inl h⟩

theorem keeps_voice_now (s : State) : keeps s (voice_now s) :=
  ⟨rfl, rfl, rfl, le_refl _, fun _ h => Or.inl h⟩

theorem pb_step_start_keeps (M : Ext) (s s1 : State) (h : pb_step_start M s = some s1) :
    keeps s s1 := by
  unfold pb_step_start at h
  dsimp only at h
  split_ifs at h
  all_goals
    simp only [Option.map_some', Option.map_none', Option.some.injEq] at h
  all_goals first
    | contradiction
    | (subst h
       exact keeps_trans _ _ _ (keeps_tug_upd _ s)
         (keeps_trans _ _ _ (keeps_step_next _) (keeps_voice_now _)))

theorem pb_step_waiting_for_pbrake_keeps (M : Ext) (s s1 : State)
    (h : pb_step_waiting_for_pbrake M s = some s1) : keeps s s1 := by
  unfold pb_step_waiting_for_pbrake at h
  dsimp only at h
  have hz : keeps s (zibo_chocks_remove s) := by
    unfold zibo_chocks_remove
    cases s.drs.zibo_chocks with
    | none => exact keeps_refl s
    | some v =>
      dsimp only
      split_ifs
      · exact ⟨rfl, rfl, rfl, le_refl _, fun _ h => Or.inl h⟩
      · exact keeps_refl s
  split_ifs at h
  all_goals first
    | contradiction
    | (rw [Option.some.injEq] at h
       subst h
       first
         | exact ⟨rfl, rfl, rfl, le_refl _, fun _ h => Or.inl h⟩
         | exact keeps_trans _ _ _ hz
             (keeps_trans _ _ _ (keeps_tug_upd _ _) (keeps_step_next _)))

theorem pb_step_starting2clear_keeps (M : Ext) (s s1 : State)
    (h : pb_step_starting2clear M s = some s1) : keeps s s1 := by
  unfold pb_step_starting2clear at h
  dsimp only at h
  split_ifs at h
  all_goals first
    | contradiction
    | (rw [Option.some.injEq] at h
       subst h
       first
         | exact keeps_refl _
         | exact keeps_trans _ _ _ (keeps_tug_upd _ _) (keeps_step_next _))

theorem pb_step_clear_signal_keeps (M : Ext) (s s1 : State)
    (h : pb_step_clear_signal M s = some s1) : keeps s s1 := by
  unfold pb_step_clear_signal at h
  dsimp only at h
  split_ifs at h with h1
  · rw [Option.some.injEq] at h
    subst h
    exact keeps_refl _
  all_goals
    (rw [Option.map_eq_some'] at h
     obtain ⟨t, _, ht⟩ := h
     subst ht
     exact keeps_trans _ _ _ (keeps_tug_upd _ _) (keeps_step_next _))

theorem keeps_drive_segs (M : Ext) (seg : seg_t) (rest : List seg_t) (s : State) :
    keeps s (drive_segs M seg rest s).2 :=
  ⟨rfl, rfl, rfl, le_refl _, fun _ h => Or.inl h⟩

theorem keeps_reverse_clear (s : State) : keeps s (reverse_clear s) :=
  ⟨rfl, rfl, rfl, le_refl _, fun _ h => Or.inl h⟩

theorem keeps_reversal_check (rest : List seg_t) (lb : Bool) (s : State) :
    keeps s (reversal_check rest lb s) := by
  unfold reversal_check
  cases rest with
  | nil => exact keeps_refl s
  | cons next tl =>
    dsimp only
    split_ifs
    · exact ⟨rfl, rfl, rfl, le_refl _, fun _ h => Or.inl h⟩
    · exact keeps_refl s

theorem keeps_push_brake_stop (s : State) : keeps s (push_brake_stop s) :=
  ⟨rfl, rfl, rfl, le_refl _, fun _ h => Or.inl h⟩

theorem keeps_bp_run_push_drive (M : Ext) (out : drive_out_t) (s : State) :
    keeps s (bp_run_push_drive M out s) := by
  unfold bp_run_push_drive
  dsimp only
  split_ifs
  · exact keeps_trans _ _ _ (keeps_turn_nosewheel M _ s) (keeps_push_at_speed M _ _ _ _ _)
  · exact keeps_trans _ _ _ (keeps_turn_nosewheel M _ s) (keeps_push_at_speed M _ _ _ _ _)

theorem keeps_bp_run_push_loop (M : Ext) (segs : List seg_t) (lb : Bool) (s : State) :
    keeps s (bp_run_push_loop M segs lb s).1 := by
  induction segs generalizing lb s with
  | nil => exact keeps_refl s
  | cons seg rest ih =>
    rw [bp_run_push_loop]
    split_ifs
    · exact keeps_push_brake_stop s
    · exact keeps_push_at_speed M 0 s.bp.veh.max_accel true false s
    · exact keeps_trans _ _ _ (keeps_reverse_clear s)
        (keeps_trans _ _ _ (keeps_drive_segs M seg rest _) (keeps_bp_run_push_drive M _ _))
    · exact keeps_trans _ _ _ (keeps_reverse_clear s)
        (keeps_trans _ _ _ (keeps_drive_segs M seg rest _)
          (keeps_trans _ _ _ (keeps_reversal_check rest lb _) (ih _ _)))

theorem keeps_bp_run_push_manual (M : Ext) (s : State) :
    keeps s (bp_run_push_manual M s).1 := by
  unfold bp_run_push_manual
  dsimp only
  by_cases hb : brakes_applied s = true
  · rw [if_pos hb]
    exact keeps_push_brake_stop s
  · rw [if_neg hb]
    by_cases hw : reversal_wait s = true
    · rw [if_pos hw]
      exact keeps_push_at_speed M 0 s.bp.veh.max_accel true false s
    · rw [if_neg hw]
      exact keeps_trans _ (reverse_clear s) _ (keeps_reverse_clear s)
        (keeps_trans _ (turn_nosewheel M _ (reverse_clear s)) _
          (keeps_turn_nosewheel M _ _) (keeps_push_at_speed M _ _ true false _))

theorem keeps_bp_run_push (M : Ext) (s : State) : keeps s (bp_run_push M s).1 := by
  unfold bp_run_push
  split_ifs
  · exact keeps_bp_run_push_manual M s
  · exact keeps_bp_run_push_loop M _ _ s

theorem pb_step_pushing_keeps (M : Ext) (s : State) : keeps s (pb_step_pushing M s) := by
  unfold pb_step_pushing
  dsimp only
  split_ifs
  · refine keeps_trans _ (push_at_speed M 0 s.bp.veh.max_accel true true s) _
      (keeps_push_at_speed M 0 s.bp.veh.max_accel true true s) ?_
    exact ⟨rfl, rfl, rfl, le_refl _, fun _ h => Or.inl h⟩
  · exact ⟨rfl, rfl, rfl, le_refl _, fun _ h => Or.inl h⟩
  · refine keeps_trans _
      ({ ({ s with bp := { s.bp with light_warn := false } } : State) with
        drs := { s.drs with override_steer := 1 } } : State) _
      ⟨rfl, rfl, rfl, le_refl _, fun _ h => Or.inl h⟩ ?_
    refine keeps_trans _ _ _ (keeps_bp_run_push M _) ?_
    exact ⟨rfl, rfl, rfl, Nat.le_succ _, fun _ h => Or.inl h⟩
  · exact keeps_trans _
      ({ ({ s with bp := { s.bp with light_warn := false } } : State) with
        drs := { s.drs with override_steer := 1 } } : State) _
      ⟨rfl, rfl, rfl, le_refl _, fun _ h => Or.inl h⟩ (keeps_bp_run_push M _)
  · exact ⟨rfl, rfl, rfl, le_refl _, fun _ h => Or.inl h⟩

theorem keeps_turn_push (M : Ext) (r v a : ℚ) (snd d : Bool) (s : State) :
    keeps s (push_at_speed M v a snd d (turn_nosewheel M r s)) :=
  keeps_trans _ _ _ (keeps_turn_nosewheel M r s) (keeps_push_at_speed M v a snd d _)

theorem keeps_pb_step_stopping_steer (M : Ext) (s : State) :
    keeps s (pb_step_stopping_steer M s).1 := by
  unfold pb_step_stopping_steer
  dsimp only
  split
  · split
    · exact keeps_turn_push M _ _ _ false false s
    · split
      · exact keeps_turn_push M 0 _ _ false false s
      · exact keeps_turn_push M 0 0 _ false true s
  · exact keeps_refl s

theorem pb_step_stopping_keeps (M : Ext) (s : State) : keeps s (pb_step_stopping M s) := by
  unfold pb_step_stopping
  dsimp only
  split_ifs
  all_goals
    refine keeps_trans _ (pb_step_stopping_steer M s).1 _ (keeps_pb_step_stopping_steer M s) ?_
  all_goals first
    | exact ⟨rfl, rfl, rfl, le_refl _, fun _ h => Or.inl h⟩
    | exact ⟨rfl, rfl, rfl, Nat.le_succ _, fun _ h => Or.inl h⟩

/-! ### Teardown and tug dispatch inside a tick -/

theorem bp_state_init_divs (s : State) : (bp_state_init s).2.divs = s.divs := by
  unfold bp_state_init
  dsimp only
  split_ifs with h1
  · rfl
  · cases hf : s.drs.acf_file with
    | none => rfl
    | some flags =>
      dsimp only
      split_ifs <;> rfl

theorem bp_complete_divs (s : State) : (bp_complete s).divs = s.divs := by
  unfold bp_complete
  dsimp only
  split_ifs
  · rfl
  · rw [bp_state_init_divs]
    rfl
  · rw [bp_state_init_divs]
    rfl

theorem bp_complete_torn (s : State) (h : s.bp_started = true) : torn s (bp_complete s) := by
  obtain ⟨c1, c2, _, c4, _, _, _⟩ := bp_complete_started s h
  refine ⟨c2, c4, c1, ?_⟩
  rw [bp_complete_divs]
  exact fun _ hd => Or.inl hd

theorem keeps_pb_step_tug_load_place (M : Ext) (s : State) :
    keeps s (pb_step_tug_load_place M s) := by
  unfold pb_step_tug_load_place
  dsimp only
  split_ifs
  all_goals exact keeps_trans _ _ _ (keeps_tug_upd _ s) (keeps_step_next _)

/-- The outcomes of `pb_step_tug_load` in a started session. -/
theorem pb_step_tug_load_outcome (M : Ext) (s : State) (hst : s.bp_started = true)
    (r : Bool × State) (hr : pb_step_tug_load M s = r) :
    (r.1 = false ∧ torn s r.2) ∨ (r.1 = true ∧ r.2 = s) ∨
      (r.1 = true ∧ r.2.tug.isSome = true ∧ r.2.bp.step = s.bp.step + 1 ∧
        r.2.bp.d_t = s.bp.d_t ∧ r.2.bp_started = s.bp_started ∧ r.2.divs = s.divs) := by
  have hplace : ∀ x : State, x.tug.isSome = true →
      (pb_step_tug_load_place M x).tug.isSome = true ∧
        (pb_step_tug_load_place M x).bp.step = x.bp.step + 1 ∧
        (pb_step_tug_load_place M x).bp.d_t = x.bp.d_t ∧
        (pb_step_tug_load_place M x).bp_started = x.bp_started ∧
        (pb_step_tug_load_place M x).divs = x.divs := by
    intro x hx
    unfold pb_step_tug_load_place
    dsimp only
    split_ifs <;> simp [step_next, tug_upd, hx]
  unfold pb_step_tug_load at hr
  dsimp only at hr
  split_ifs at hr with h1 h2
  · cases hm : M.tug_alloc_auto s.drs.mtow (s.drs.leg_len 0) s.bp.acf.tirrad s.bp.acf.nw_type
        s.drs.icao (tug_load_airline s) with
    | none =>
      rw [hm] at hr
      subst hr
      exact Or.inl ⟨rfl, bp_complete_torn s hst⟩
    | some tug =>
      rw [hm] at hr
      subst hr
      exact Or.inr (Or.inr ⟨rfl, hplace _ rfl⟩)
  · subst hr
    exact Or.inr (Or.inl ⟨rfl, rfl⟩)
  · cases hm : M.tug_alloc_man (String.mk (s.bp_tug_name.toList.take 63)) s.bp.acf.tirrad
        s.drs.icao (tug_load_airline s) with
    | none =>
      rw [hm] at hr
      subst hr
      exact Or.inl ⟨rfl, bp_complete_torn s hst⟩
    | some tug =>
      rw [hm] at hr
      subst hr
      exact Or.inr (Or.inr ⟨rfl, hplace _ rfl⟩)

/-! ### The phase switch inside a tick -/

theorem some_pair_eq (s1 x : State) (fl b : Bool) (h : some (x, b) = some (s1, fl)) :
    x = s1 ∧ b = fl := by
  rw [Option.some.injEq, Prod.mk.injEq] at h
  exact h

theorem map_pair_eq (o : Option State) (s1 : State) (fl : Bool)
    (h : o.map (fun s => (s, true)) = some (s1, fl)) : o = some s1 ∧ fl = true := by
  cases o with
  | none => exact absurd h (by simp)
  | some x =>
    rw [Option.map_some', Option.some.injEq, Prod.mk.injEq] at h
    exact ⟨by rw [h.1], h.2.symm⟩

/-- From `PB_STEP_START` on, a case of the phase switch either keeps the
session running or tears it down. -/
theorem bp_run_switch_late (M : Ext) (s s1 : State) (fl : Bool)
    (hlate : PB_STEP_START ≤ s.bp.step) (hst : s.bp_started = true)
    (h : bp_run_switch M s = some (s1, fl)) :
    (fl = true ∧ keeps s s1) ∨ (fl = false ∧ torn s s1) := by
  unfold bp_run_switch at h
  by_cases h_off : s.bp.step = PB_STEP_OFF
  · rw [h_off] at hlate
    exact absurd hlate (by decide)
  rw [if_neg h_off] at h
  by_cases h_tug_load : s.bp.step = PB_STEP_TUG_LOAD
  · rw [h_tug_load] at hlate
    exact absurd hlate (by decide)
  rw [if_neg h_tug_load] at h
  by_cases h_start : s.bp.step = PB_STEP_START
  · rw [if_pos h_start] at h
    split_ifs at h
    · obtain ⟨e1, e2⟩ := map_pair_eq _ _ _ h
      exact Or.inl ⟨e2, pb_step_start_keeps M s s1 e1⟩
    · obtain ⟨e1, e2⟩ := some_pair_eq _ _ _ _ h
      subst e1
      exact Or.inl ⟨e2.symm, keeps_refl _⟩
  rw [if_neg h_start] at h
  by_cases h_driving_up_close : s.bp.step = PB_STEP_DRIVING_UP_CLOSE
  · rw [if_pos h_driving_up_close] at h
    obtain ⟨e1, e2⟩ := some_pair_eq _ _ _ _ h
    subst e1
    exact Or.inl ⟨e2.symm, pb_step_driving_up_close_keeps M s⟩
  rw [if_neg h_driving_up_close] at h
  by_cases h_waiting_for_doors : s.bp.step = PB_STEP_WAITING_FOR_DOORS
  · rw [if_pos h_waiting_for_doors] at h
    obtain ⟨e1, e2⟩ := some_pair_eq _ _ _ _ h
    subst e1
    exact Or.inl ⟨e2.symm, pb_step_waiting_for_doors_keeps s⟩
  rw [if_neg h_waiting_for_doors] at h
  by_cases h_opening_cradle : s.bp.step = PB_STEP_OPENING_CRADLE
  · rw [if_pos h_opening_cradle] at h
    obtain ⟨e1, e2⟩ := some_pair_eq _ _ _ _ h
    subst e1
    exact Or.inl ⟨e2.symm, pb_step_opening_cradle_keeps s⟩
  rw [if_neg h_opening_cradle] at h
  by_cases h_waiting_for_pbrake : s.bp.step = PB_STEP_WAITING_FOR_PBRAKE
  · rw [if_pos h_waiting_for_pbrake] at h
    obtain ⟨e1, e2⟩ := map_pair_eq _ _ _ h
    exact Or.inl ⟨e2, pb_step_waiting_for_pbrake_keeps M s s1 e1⟩
  rw [if_neg h_waiting_for_pbrake] at h
  by_cases h_driving_up_connect : s.bp.step = PB_STEP_DRIVING_UP_CONNECT
  · rw [if_pos h_driving_up_connect] at h
    obtain ⟨e1, e2⟩ := some_pair_eq _ _ _ _ h
    subst e1
    exact Or.inl ⟨e2.symm, pb_step_driving_up_connect_keeps M s⟩
  rw [if_neg h_driving_up_connect] at h
  by_cases h_grabbing : s.bp.step = PB_STEP_GRABBING
  · rw [if_pos h_grabbing] at h
    obtain ⟨e1, e2⟩ := some_pair_eq _ _ _ _ h
    subst e1
    exact Or.inl ⟨e2.symm, pb_step_grab_keeps M s⟩
  rw [if_neg h_grabbing] at h
  by_cases h_lifting : s.bp.step = PB_STEP_LIFTING
  · rw [if_pos h_lifting] at h
    obtain ⟨e1, e2⟩ := some_pair_eq _ _ _ _ h
    subst e1
    exact Or.inl ⟨e2.symm, pb_step_lift_keeps M s⟩
  rw [if_neg h_lifting] at h
  by_cases h_connected : s.bp.step = PB_STEP_CONNECTED
  · rw [if_pos h_connected] at h
    obtain ⟨e1, e2⟩ := some_pair_eq _ _ _ _ h
    subst e1
    exact Or.inl ⟨e2.symm, pb_step_connected_keeps M s⟩
  rw [if_neg h_connected] at h
  by_cases h_starting : s.bp.step = PB_STEP_STARTING
  · rw [if_pos h_starting] at h
    obtain ⟨e1, e2⟩ := some_pair_eq _ _ _ _ h
    subst e1
    exact Or.inl ⟨e2.symm, pb_step_starting_keeps M s⟩
  rw [if_neg h_starting] at h
  by_cases h_pushing : s.bp.step = PB_STEP_PUSHING
  · rw [if_pos h_pushing] at h
    obtain ⟨e1, e2⟩ := some_pair_eq _ _ _ _ h
    subst e1
    exact Or.inl ⟨e2.symm, pb_step_pushing_keeps M s⟩
  rw [if_neg h_pushing] at h
  by_cases h_stopping : s.bp.step = PB_STEP_STOPPING
  · rw [if_pos h_stopping] at h
    obtain ⟨e1, e2⟩ := some_pair_eq _ _ _ _ h
    subst e1
    exact Or.inl ⟨e2.symm, pb_step_stopping_keeps M s⟩
  rw [if_neg h_stopping] at h
  by_cases h_stopped : s.bp.step = PB_STEP_STOPPED
  · rw [if_pos h_stopped] at h
    obtain ⟨e1, e2⟩ := some_pair_eq _ _ _ _ h
    subst e1
    exact Or.inl ⟨e2.symm, pb_step_stopped_keeps M s⟩
  rw [if_neg h_stopped] at h
  by_cases h_lowering : s.bp.step = PB_STEP_LOWERING
  · rw [if_pos h_lowering] at h
    obtain ⟨e1, e2⟩ := some_pair_eq _ _ _ _ h
    subst e1
    exact Or.inl ⟨e2.symm, pb_step_lowering_keeps M s⟩
  rw [if_neg h_lowering] at h
  by_cases h_ungrabbing : s.bp.step = PB_STEP_UNGRABBING
  · rw [if_pos h_ungrabbing] at h
    obtain ⟨e1, e2⟩ := some_pair_eq _ _ _ _ h
    subst e1
    exact Or.inl ⟨e2.symm, pb_step_ungrabbing_keeps s⟩
  rw [if_neg h_ungrabbing] at h
  by_cases h_waiting4ok2disco : s.bp.step = PB_STEP_WAITING4OK2DISCO
  · rw [if_pos h_waiting4ok2disco] at h
    obtain ⟨e1, e2⟩ := some_pair_eq _ _ _ _ h
    subst e1
    exact Or.inl ⟨e2.symm, pb_step_waiting4ok2disco_keeps M s⟩
  rw [if_neg h_waiting4ok2disco] at h
  by_cases h_moving_away : s.bp.step = PB_STEP_MOVING_AWAY
  · rw [if_pos h_moving_away] at h
    obtain ⟨e1, e2⟩ := some_pair_eq _ _ _ _ h
    subst e1
    exact Or.inl ⟨e2.symm, pb_step_moving_away_keeps M s⟩
  rw [if_neg h_moving_away] at h
  by_cases h_closing_cradle : s.bp.step = PB_STEP_CLOSING_CRADLE
  · rw [if_pos h_closing_cradle] at h
    obtain ⟨e1, e2⟩ := some_pair_eq _ _ _ _ h
    subst e1
    exact Or.inl ⟨e2.symm, pb_step_closing_cradle_keeps s⟩
  rw [if_neg h_closing_cradle] at h
  by_cases h_starting2clear : s.bp.step = PB_STEP_STARTING2CLEAR
  · rw [if_pos h_starting2clear] at h
    obtain ⟨e1, e2⟩ := map_pair_eq _ _ _ h
    exact Or.inl ⟨e2, pb_step_starting2clear_keeps M s s1 e1⟩
  rw [if_neg h_starting2clear] at h
  by_cases h_moving2clear : s.bp.step = PB_STEP_MOVING2CLEAR
  · rw [if_pos h_moving2clear] at h
    obtain ⟨e1, e2⟩ := some_pair_eq _ _ _ _ h
    subst e1
    refine Or.inl ⟨e2.symm, ?_⟩
    split_ifs
    · exact keeps_step_next s
    · exact keeps_refl s
  rw [if_neg h_moving2clear] at h
  by_cases h_clear_signal : s.bp.step = PB_STEP_CLEAR_SIGNAL
  · rw [if_pos h_clear_signal] at h
    obtain ⟨e1, e2⟩ := map_pair_eq _ _ _ h
    exact Or.inl ⟨e2, pb_step_clear_signal_keeps M s s1 e1⟩
  rw [if_neg h_clear_signal] at h
  by_cases h_driving_away : s.bp.step = PB_STEP_DRIVING_AWAY
  · rw [if_pos h_driving_away] at h
    split_ifs at h
    · obtain ⟨e1, e2⟩ := some_pair_eq _ _ _ _ h
      subst e1
      exact Or.inr ⟨e2.symm, bp_complete_torn s hst⟩
    · obtain ⟨e1, e2⟩ := some_pair_eq _ _ _ _ h
      subst e1
      exact Or.inl ⟨e2.symm, keeps_refl _⟩
  rw [if_neg h_driving_away] at h
  obtain ⟨e1, e2⟩ := some_pair_eq _ _ _ _ h
  subst e1
  exact Or.inl ⟨e2.symm, keeps_refl _⟩

/-- The phase switch in the tug-dispatch phase of a started session: the
session is torn down, or nothing but the pending-mode flag changes (the slave
waits for the name of the tug), or the tug is allocated and the phase moves
on to `PB_STEP_START`. -/
theorem bp_run_switch_load (M : Ext) (s s1 : State) (fl : Bool)
    (hstep : s.bp.step = PB_STEP_TUG_LOAD) (hst : s.bp_started = true)
    (h : bp_run_switch M s = some (s1, fl)) :
    (fl = false ∧ torn s s1) ∨
      (fl = true ∧ s1.bp = s.bp ∧ s1.tug = s.tug ∧ s1.bp_started = s.bp_started ∧
        s1.divs = s.divs) ∨
      (fl = true ∧ s1.tug.isSome = true ∧ s1.bp.step = PB_STEP_START ∧
        s1.bp.d_t = s.bp.d_t ∧ s1.bp_started = s.bp_started ∧ s1.divs = s.divs) := by
  unfold bp_run_switch at h
  rw [if_neg (by rw [hstep]; decide), if_pos hstep] at h
  dsimp only at h
  rcases pb_step_tug_load_outcome M s hst _ rfl with ⟨o1, o2⟩ | ⟨o1, o2⟩ | ⟨o1, o2, o3, o4, o5, o6⟩
  · rw [if_pos o1] at h
    obtain ⟨e1, e2⟩ := some_pair_eq _ _ _ _ h
    subst e1
    exact Or.inl ⟨e2.symm, o2⟩
  · rw [if_neg (by rw [o1]; decide)] at h
    obtain ⟨e1, e2⟩ := some_pair_eq _ _ _ _ h
    subst e1
    refine Or.inr (Or.inl ⟨e2.symm, ?_⟩)
    rw [o2]
    exact ⟨rfl, rfl, rfl, rfl⟩
  · rw [if_neg (by rw [o1]; decide)] at h
    obtain ⟨e1, e2⟩ := some_pair_eq _ _ _ _ h
    subst e1
    refine Or.inr (Or.inr ⟨e2.symm, o2, ?_, o4, o5, o6⟩)
    show (pb_step_tug_load M s).2.bp.step = PB_STEP_START
    rw [o3, hstep]
    rfl

/-! ### The parts of a tick -/

theorem keeps_bp_run_quick_debug (M : Ext) (s : State) :
    keeps s (bp_run_quick_debug M s).1 := by
  unfold bp_run_quick_debug
  split_ifs with h1 h2 h3
  · dsimp only
    refine ⟨rfl, rfl, ?_, le_of_lt h2, fun _ h => Or.inl h⟩
    simp [tug_upd]
  · exact ⟨rfl, rfl, rfl, le_refl _, fun _ h => Or.inl h⟩
  · exact keeps_refl s
  · exact keeps_refl s

theorem bp_run_quick_debug_no_tug (M : Ext) (s : State) (h : s.tug = none) :
    bp_run_quick_debug M s = (s, true) := by
  unfold bp_run_quick_debug
  rw [if_neg (by simp [h])]

theorem keeps_bp_run_finish (s : State) : keeps s (bp_run_finish s) :=
  ⟨rfl, rfl, rfl, le_refl _, fun _ h => Or.inl h⟩

theorem keeps_disco_win_clear (s : State) :
    keeps s (if s.bp.step ≠ PB_STEP_WAITING4OK2DISCO then { s with disco_win := false }
      else s) := by
  split_ifs
  · exact ⟨rfl, rfl, rfl, le_refl _, fun _ h => Or.inl h⟩
  · exact keeps_refl s

/-- The part of `bp_run` after the stop block, from `PB_STEP_START` on: the
tick goes on (-1) and keeps the session, or it ends it (0). -/
theorem bp_run_phase_late (M : Ext) (x s1 : State) (r : Int)
    (hlate : PB_STEP_START ≤ x.bp.step) (hst : x.bp_started = true)
    (h : bp_run_phase M x = some (r, s1)) :
    (r = -1 ∧ keeps x s1) ∨ (r = 0 ∧ torn x s1) := by
  have hq := keeps_bp_run_quick_debug M x
  have hd := keeps_disco_win_clear (bp_run_quick_debug M x).1
  have hqd := keeps_trans _ _ _ hq hd
  unfold bp_run_phase at h
  dsimp only at h
  split_ifs at h with h1 h2
  · rw [Option.some.injEq, Prod.mk.injEq] at h
    obtain ⟨e1, e2⟩ := h
    subst e2
    exact Or.inr ⟨e1.symm, keeps_torn _ _ _ hq (bp_complete_torn _ (hq.2.1.trans hst))⟩
  · cases hsw : bp_run_switch M
        { (bp_run_quick_debug M x).1 with disco_win := false } with
    | none =>
      rw [hsw] at h
      exact absurd h (by simp)
    | some p =>
      obtain ⟨s2, fl⟩ := p
      rw [hsw] at h
      rw [if_pos h2] at hd hqd
      rcases bp_run_switch_late M _ s2 fl (le_trans hlate hqd.2.2.2.1)
          (hqd.2.1.trans hst) hsw with ⟨f1, f2⟩ | ⟨f1, f2⟩
      · subst f1
        rw [Option.some.injEq, Prod.mk.injEq] at h
        obtain ⟨e1, e2⟩ := h
        subst e2
        exact Or.inl ⟨e1.symm, keeps_trans _ _ _ hqd
          (keeps_trans _ _ _ f2 (keeps_bp_run_finish _))⟩
      · subst f1
        rw [Option.some.injEq, Prod.mk.injEq] at h
        obtain ⟨e1, e2⟩ := h
        subst e2
        exact Or.inr ⟨e1.symm, keeps_torn _ _ _ hqd f2⟩
  · cases hsw : bp_run_switch M (bp_run_quick_debug M x).1 with
    | none =>
      rw [hsw] at h
      exact absurd h (by simp)
    | some p =>
      obtain ⟨s2, fl⟩ := p
      rw [hsw] at h
      rcases bp_run_switch_late M _ s2 fl (le_trans hlate hq.2.2.2.1)
          (hq.2.1.trans hst) hsw with ⟨f1, f2⟩ | ⟨f1, f2⟩
      · subst f1
        rw [Option.some.injEq, Prod.mk.injEq] at h
        obtain ⟨e1, e2⟩ := h
        subst e2
        exact Or.inl ⟨e1.symm, keeps_trans _ _ _ hq
          (keeps_trans _ _ _ f2 (keeps_bp_run_finish _))⟩
      · subst f1
        rw [Option.some.injEq, Prod.mk.injEq] at h
        obtain ⟨e1, e2⟩ := h
        subst e2
        exact Or.inr ⟨e1.symm, keeps_torn _ _ _ hq f2⟩

/-- The part of `bp_run` after the stop block in the tug-dispatch phase, while
no tug is allocated. -/
theorem bp_run_phase_load (M : Ext) (x s1 : State) (r : Int)
    (hstep : x.bp.step = PB_STEP_TUG_LOAD) (htug : x.tug = none) (hst : x.bp_started = true)
    (h : bp_run_phase M x = some (r, s1)) :
    (r = 0 ∧ torn x s1) ∨
      (r = -1 ∧ s1.bp.d_t = x.bp.d_t ∧ s1.bp_started = true ∧ s1.divs = x.divs ∧
        ((s1.tug = none ∧ s1.bp.step = PB_STEP_TUG_LOAD) ∨
          (s1.tug.isSome = true ∧ s1.bp.step = PB_STEP_START))) := by
  unfold bp_run_phase at h
  rw [bp_run_quick_debug_no_tug M x htug] at h
  dsimp only at h
  rw [if_neg (by decide), if_pos (by rw [hstep]; decide)] at h
  cases hsw : bp_run_switch M { x with disco_win := false } with
  | none =>
    rw [hsw] at h
    exact absurd h (by simp)
  | some p =>
    obtain ⟨s2, fl⟩ := p
    rw [hsw] at h
    have hload := bp_run_switch_load M { x with disco_win := false } s2 fl hstep hst hsw
    rcases hload with ⟨f1, f2⟩ | ⟨f1, f2, f3, f4, f5⟩ | ⟨f1, f2, f3, f4, f5, f6⟩
    · subst f1
      rw [Option.some.injEq, Prod.mk.injEq] at h
      obtain ⟨e1, e2⟩ := h
      subst e2
      exact Or.inl ⟨e1.symm, f2⟩
    · subst f1
      rw [Option.some.injEq, Prod.mk.injEq] at h
      obtain ⟨e1, e2⟩ := h
      subst e2
      refine Or.inr ⟨e1.symm, ?_, f4.trans hst, f5, Or.inl ⟨f3.trans htug, ?_⟩⟩
      · show s2.bp.d_t = x.bp.d_t
        rw [f2]
      · show s2.bp.step = PB_STEP_TUG_LOAD
        rw [f2]
        exact hstep
    · subst f1
      rw [Option.some.injEq, Prod.mk.injEq] at h
      obtain ⟨e1, e2⟩ := h
      subst e2
      exact Or.inr ⟨e1.symm, f4, f5.trans hst, f6, Or.inr ⟨f2, f3⟩⟩

/-- In phase OFF the phase switch fails its `VERIFY`. -/
theorem bp_run_phase_off (M : Ext) (x : State) (hstep : x.bp.step = PB_STEP_OFF)
    (htug : x.tug = none) : bp_run_phase M x = none := by
  unfold bp_run_phase
  rw [bp_run_quick_debug_no_tug M x htug]
  dsimp only
  rw [if_neg (by decide), if_pos (by rw [hstep]; decide)]
  unfold bp_run_switch
  rw [if_pos hstep]

theorem tug_is_attached_step (s : State) (h : tug_is_attached s = true) :
    PB_STEP_GRABBING ≤ s.bp.step := by
  unfold tug_is_attached at h
  simp only [Bool.and_eq_true, decide_eq_true_eq] at h
  exact h.1.2

theorem tug_pos_update_divs (M : Ext) (p : vect2_t) (hdg : ℚ) (b : Bool) (s : State) :
    (tug_pos_update M p hdg b s).divs = s.divs ++ [s.bp.d_t] := by
  unfold tug_pos_update
  dsimp only
  split_ifs <;> rfl

theorem tug_pos_update_tug_isSome (M : Ext) (p : vect2_t) (hdg : ℚ) (b : Bool) (s : State) :
    (tug_pos_update M p hdg b s).tug.isSome = s.tug.isSome := by
  unfold tug_pos_update
  dsimp only
  split_ifs <;> simp [tug_upd]

theorem draw_tugs_divs (M : Ext) (s : State) :
    (draw_tugs M s).divs = s.divs ∨
      ((draw_tugs M s).divs = s.divs ++ [s.bp.d_t] ∧ PB_STEP_GRABBING ≤ s.bp.step) := by
  unfold draw_tugs
  cases s.tug with
  | none => exact Or.inl rfl
  | some t =>
    dsimp only
    split_ifs with h
    · exact Or.inr ⟨tug_pos_update_divs M _ _ _ s, tug_is_attached_step s h⟩
    · exact Or.inl rfl

theorem draw_tugs_tug_isSome (M : Ext) (s : State) :
    (draw_tugs M s).tug.isSome = s.tug.isSome := by
  unfold draw_tugs
  cases hs : s.tug with
  | none => simp [hs]
  | some t =>
    dsimp only
    split_ifs with h
    · rw [tug_pos_update_tug_isSome, hs]
    · rw [hs]

theorem bp_run_tug_divs (M : Ext) (s : State) :
    ∀ d ∈ (bp_run_tug M s).divs, d ∈ s.divs ∨ d = s.bp.d_t := by
  unfold bp_run_tug
  cases s.tug with
  | none => exact fun _ h => Or.inl h
  | some t =>
    dsimp only
    split_ifs with h
    · intro d hd
      rw [tug_pos_update_divs] at hd
      simp only [List.mem_append, List.mem_singleton] at hd
      exact hd
    · exact fun _ h => Or.inl h

theorem bp_run_tug_tug_isSome (M : Ext) (s : State) :
    (bp_run_tug M s).tug.isSome = s.tug.isSome := by
  unfold bp_run_tug
  cases hs : s.tug with
  | none => simp [hs]
  | some t =>
    dsimp only
    split_ifs with h
    · rw [tug_pos_update_tug_isSome]
      simp [tug_upd, hs]
    · simp [tug_upd, hs]

/-- The state of `bp_run` after the tug update of a long tick. -/
theorem bp_run_moved_facts (M : Ext) (s : State) :
    let x := bp_run_tug M (bp_run_delta M (draw_tugs M (bp_gather M s)))
    x.bp.d_t = s.drs.sim_time - s.bp.last_t ∧ x.bp.step = s.bp.step ∧
      x.bp_started = s.bp_started ∧ x.tug.isSome = s.tug.isSome ∧
      ∀ d ∈ x.divs, d ∈ s.divs ∨ (d = s.bp.d_t ∧ PB_STEP_GRABBING ≤ s.bp.step) ∨
        d = s.drs.sim_time - s.bp.last_t := by
  intro x
  have hd : x.bp.d_t = s.drs.sim_time - s.bp.last_t := by
    simp [x, bp_run_delta, bp_gather]
  refine ⟨hd, ?_, ?_, ?_, ?_⟩
  · simp [x, bp_run_delta, bp_gather]
  · simp [x, bp_run_delta, bp_gather]
  · show (bp_run_tug M (bp_run_delta M (draw_tugs M (bp_gather M s)))).tug.isSome = _
    rw [bp_run_tug_tug_isSome]
    show (draw_tugs M (bp_gather M s)).tug.isSome = _
    rw [draw_tugs_tug_isSome]
    rfl
  · intro d hmem
    rcases bp_run_tug_divs M _ d hmem with h1 | h1
    · have h2 : d ∈ (draw_tugs M (bp_gather M s)).divs := h1
      rcases draw_tugs_divs M (bp_gather M s) with e | ⟨e, hg⟩
      · rw [e] at h2
        exact Or.inl h2
      · rw [e] at h2
        simp only [List.mem_append, List.mem_singleton] at h2
        rcases h2 with h3 | h3
        · exact Or.inl h3
        · exact Or.inr (Or.inl ⟨h3, hg⟩)
    · refine Or.inr (Or.inr ?_)
      rw [h1]
      simp [bp_run_delta, bp_gather]

theorem bp_run_prelude_facts (M : Ext) (s : State) :
    (bp_run_prelude M s).bp.d_t = s.drs.sim_time - s.bp.last_t ∧
      (bp_run_prelude M s).tug.isSome = s.tug.isSome ∧
      ∀ d ∈ (bp_run_prelude M s).divs,
        d ∈ s.divs ∨ (d = s.bp.d_t ∧ PB_STEP_GRABBING ≤ s.bp.step) ∨
          d = s.drs.sim_time - s.bp.last_t := by
  obtain ⟨h1, _, _, h4, h5⟩ := bp_run_moved_facts M s
  have e : ∀ x : State, (bp_run_connected (bp_run_steer_override x)).bp = x.bp ∧
      (bp_run_connected (bp_run_steer_override x)).tug = x.tug ∧
      (bp_run_connected (bp_run_steer_override x)).divs = x.divs := by
    intro x
    unfold bp_run_connected bp_run_steer_override
    split_ifs <;> exact ⟨rfl, rfl, rfl⟩
  unfold bp_run_prelude
  obtain ⟨e1, e2, e3⟩ := e (bp_run_tug M (bp_run_delta M (draw_tugs M (bp_gather M s))))
  rw [e1, e2, e3]
  exact ⟨h1, h4, h5⟩

theorem bp_run_stop_keeps (x x1 : State) (h : bp_run_stop x = some x1) : keeps x x1 := by
  unfold bp_run_stop at h
  split_ifs at h with h1 h2
  · rw [Option.some.injEq] at h
    subst h
    refine ⟨rfl, rfl, rfl, ?_, fun _ h => Or.inl h⟩
    show x.bp.step ≤ bp_run_stop_step x
    unfold bp_run_stop_step
    split_ifs with h3 h4
    · exact le_of_lt (lt_of_lt_of_le h3 (by decide))
    · exact le_of_lt h3
    · exact le_refl _
  · rw [Option.some.injEq] at h
    subst h
    exact keeps_refl x

/-! ### The invariant of a session -/

theorem session_inv_of_torn (x s1 : State) (hdivs : ∀ d ∈ x.divs, MIN_STEP_TIME ≤ d)
    (hdt : MIN_STEP_TIME ≤ x.bp.d_t) (h : torn x s1) : session_inv s1 := by
  obtain ⟨t1, t2, t3, t4⟩ := h
  refine ⟨?_, ?_, ?_, fun _ => ⟨t2, t3⟩⟩
  · intro d hd
    rcases t4 d hd with h | h
    · exact hdivs d h
    · rw [h]
      exact hdt
  · intro hlt
    rw [t3] at hlt
    exact absurd hlt (by decide)
  · intro hst
    rw [t1] at hst
    exact absurd hst (by decide)

theorem session_inv_of_keeps (x s1 : State) (hdivs : ∀ d ∈ x.divs, MIN_STEP_TIME ≤ d)
    (hdt : MIN_STEP_TIME ≤ x.bp.d_t) (hst : x.bp_started = true)
    (htug : x.tug.isSome = true) (hlate : PB_STEP_START ≤ x.bp.step)
    (h : keeps x s1) : session_inv s1 := by
  obtain ⟨k1, k2, k3, k4, k5⟩ := h
  refine ⟨?_, ?_, ?_, ?_⟩
  · intro d hd
    rcases k5 d hd with h | h
    · exact hdivs d h
    · rw [h]
      exact hdt
  · intro _
    rw [k1]
    exact hdt
  · intro _
    rw [k3, htug]
    exact ⟨fun _ => le_trans hlate k4, fun _ => rfl⟩
  · intro hns
    rw [k2, hst] at hns
    exact absurd hns (by decide)

/-- The phase part of a long tick keeps the invariant. -/
theorem session_inv_of_phase (M : Ext) (x s1 : State) (r : Int)
    (hdivs : ∀ d ∈ x.divs, MIN_STEP_TIME ≤ d) (hdt : MIN_STEP_TIME ≤ x.bp.d_t)
    (hst : x.bp_started = true)
    (htug : x.tug.isSome = true ↔ PB_STEP_START ≤ x.bp.step)
    (h : bp_run_phase M x = some (r, s1)) : session_inv s1 := by
  by_cases hlate : PB_STEP_START ≤ x.bp.step
  · rcases bp_run_phase_late M x s1 r hlate hst h with ⟨_, hk⟩ | ⟨_, ht⟩
    · exact session_inv_of_keeps x s1 hdivs hdt hst (htug.mpr hlate) hlate hk
    · exact session_inv_of_torn x s1 hdivs hdt ht
  · have hnone : x.tug = none := by
      cases ht : x.tug with
      | none => rfl
      | some t =>
        have : x.tug.isSome = true := by rw [ht]; rfl
        exact absurd (htug.mp this) hlate
    have hcase : x.bp.step = PB_STEP_OFF ∨ x.bp.step = PB_STEP_TUG_LOAD := by
      unfold PB_STEP_START at hlate
      unfold PB_STEP_OFF PB_STEP_TUG_LOAD
      omega
    rcases hcase with hoff | hload
    · rw [bp_run_phase_off M x hoff hnone] at h
      contradiction
    · rcases bp_run_phase_load M x s1 r hload hnone hst h with
        ⟨_, ht⟩ | ⟨_, f2, f3, f4, f5⟩
      · exact session_inv_of_torn x s1 hdivs hdt ht
      · refine ⟨?_, ?_, ?_, ?_⟩
        · rw [f4]
          exact hdivs
        · intro _
          rw [f2]
          exact hdt
        · intro _
          rcases f5 with ⟨g1, g2⟩ | ⟨g1, g2⟩
          · rw [g1, g2]
            exact ⟨fun h => absurd h (by decide), fun h => absurd h (by decide)⟩
          · rw [g1, g2]
            exact ⟨fun _ => le_refl _, fun _ => rfl⟩
        · intro hns
          rw [f3] at hns
          exact absurd hns (by decide)

/-- A tick of `bp_run` on a started session keeps the invariant. -/
theorem session_inv_tick (M : Ext) (s s1 : State) (r : Int) (hinv : session_inv s)
    (hst : s.bp_started = true) (h : bp_run M s = some (r, s1)) : session_inv s1 := by
  obtain ⟨i1, i2, i3, i4⟩ := hinv
  have i3 := i3 hst
  by_cases hshort : s.drs.sim_time - s.bp.last_t < MIN_STEP_TIME
  · rw [bp_run_short M s hshort, Option.some.injEq, Prod.mk.injEq] at h
    obtain ⟨_, e⟩ := h
    subst e
    have hbp : (draw_tugs M (bp_gather M s)).bp.step = s.bp.step := by simp [bp_gather]
    have hdt : (draw_tugs M (bp_gather M s)).bp.d_t = s.bp.d_t := by simp [bp_gather]
    have htg : (draw_tugs M (bp_gather M s)).tug.isSome = s.tug.isSome := by
      rw [draw_tugs_tug_isSome]
      rfl
    have hs : (draw_tugs M (bp_gather M s)).bp_started = s.bp_started := by simp [bp_gather]
    refine ⟨?_, ?_, ?_, ?_⟩
    · intro d hd
      rcases draw_tugs_divs M (bp_gather M s) with e | ⟨e, hg⟩
      · rw [e] at hd
        exact i1 d hd
      · rw [e] at hd
        simp only [List.mem_append, List.mem_singleton] at hd
        rcases hd with h3 | h3
        · exact i1 d h3
        · rw [h3]
          exact i2 (lt_of_lt_of_le (by decide) hg)
    · rw [hbp, hdt]
      exact i2
    · intro _
      rw [htg, hbp]
      exact i3
    · intro hns
      rw [hs, hst] at hns
      exact absurd hns (by decide)
  · have hlong : MIN_STEP_TIME ≤ s.drs.sim_time - s.bp.last_t := not_lt.mp hshort
    have hdivs_of : ∀ d : ℚ,
        (d ∈ s.divs ∨ (d = s.bp.d_t ∧ PB_STEP_GRABBING ≤ s.bp.step) ∨
          d = s.drs.sim_time - s.bp.last_t) → MIN_STEP_TIME ≤ d := by
      intro d hd
      rcases hd with h1 | ⟨h1, h2⟩ | h1
      · exact i1 d h1
      · rw [h1]
        exact i2 (lt_of_lt_of_le (by decide) h2)
      · rw [h1]
        exact hlong
    rw [bp_run_long M s hshort] at h
    by_cases hlost : nw_steer_lost s = true
    · rw [if_pos hlost, Option.some.injEq, Prod.mk.injEq] at h
      obtain ⟨_, e⟩ := h
      subst e
      obtain ⟨m1, _, m3, _, m5⟩ := bp_run_moved_facts M s
      refine session_inv_of_torn _ _ (fun d hd => hdivs_of d (m5 d hd)) ?_
        (bp_complete_torn _ (m3.trans hst))
      rw [m1]
      exact hlong
    · rw [if_neg hlost] at h
      obtain ⟨p1, p2, p3⟩ := bp_run_prelude_facts M s
      have pdivs : ∀ d ∈ (bp_run_prelude M s).divs, MIN_STEP_TIME ≤ d :=
        fun d hd => hdivs_of d (p3 d hd)
      have pdt : MIN_STEP_TIME ≤ (bp_run_prelude M s).bp.d_t := by
        rw [p1]
        exact hlong
      have pst : (bp_run_prelude M s).bp_started = true :=
        (bp_run_prelude_bp_started M s).trans hst
      cases hstop : bp_run_stop (bp_run_prelude M s) with
      | none =>
        rw [hstop] at h
        dsimp only at h
        rw [Option.some.injEq, Prod.mk.injEq] at h
        obtain ⟨_, e⟩ := h
        subst e
        exact session_inv_of_torn _ _ pdivs pdt (bp_complete_torn _ pst)
      | some x =>
        rw [hstop] at h
        dsimp only at h
        obtain ⟨k1, k2, k3, k4, k5⟩ := bp_run_stop_keeps _ _ hstop
        have xdivs : ∀ d ∈ x.divs, MIN_STEP_TIME ≤ d := by
          intro d hd
          rcases k5 d hd with h1 | h1
          · exact pdivs d h1
          · rw [h1]
            exact pdt
        have xtug : x.tug.isSome = true ↔ PB_STEP_START ≤ x.bp.step := by
          rw [k3, p2]
          constructor
          · intro ht
            have := i3.mp ht
            rw [bp_run_prelude_bp_step] at k4
            exact le_trans this k4
          · intro hx
            by_cases hs2 : PB_STEP_START ≤ s.bp.step
            · exact i3.mpr hs2
            · exfalso
              unfold bp_run_stop at hstop
              split_ifs at hstop with q1 q2
              · rw [bp_run_prelude_bp_step] at q2
                exact hs2 (le_trans (by decide) (not_lt.mp q2))
              · rw [Option.some.injEq] at hstop
                subst hstop
                rw [bp_run_prelude_bp_step] at hx
                exact hs2 hx
        exact session_inv_of_phase M x s1 r xdivs (by rw [k1]; exact pdt) (k2.trans pst) xtug h

theorem session_inv_start (M : Ext) (s s1 : State) (hst : s.bp_started = false)
    (htug : s.tug = none) (hdivs : s.divs = []) (h : bp_start M s = (true, s1)) :
    session_inv s1 ∧ s1.bp.step = PB_STEP_TUG_LOAD ∧ s1.tug = none ∧
      s1.bp_started = true := by
  unfold bp_start at h
  rw [hst] at h
  rw [if_neg (by decide)] at h
  split_ifs at h with h1
  · rw [Prod.mk.injEq] at h
    exact absurd h.1 (by decide)
  · rw [Prod.mk.injEq] at h
    obtain ⟨_, e⟩ := h
    subst e
    refine ⟨⟨?_, ?_, ?_, ?_⟩, rfl, htug, rfl⟩
    · intro d hd
      have hd2 : d ∈ s.divs := hd
      rw [hdivs] at hd2
      exact absurd hd2 (List.not_mem_nil d)
    · intro hlt
      have hlt2 : PB_STEP_TUG_LOAD < 1 := hlt
      exact absurd hlt2 (by decide)
    · intro _
      show s.tug.isSome = true ↔ PB_STEP_START ≤ 1
      rw [htug]
      exact ⟨fun h => absurd h (by decide), fun h => absurd h (by decide)⟩
    · intro hns
      have hns2 : true = false := hns
      exact absurd hns2 (by decide)

theorem session_inv_host (s s1 : State) (hinv : session_inv s) (h : host_step s s1) :
    session_inv s1 := by
  obtain ⟨i1, i2, i3, i4⟩ := hinv
  obtain ⟨h1, h2, _, h4, _, _, h7⟩ := h
  have hstep : s1.bp.step = s.bp.step := by rw [h1]
  have hdt : s1.bp.d_t = s.bp.d_t := by rw [h1]
  rw [session_inv, h7, hstep, hdt, h2, h4]
  exact ⟨i1, i2, i3, i4⟩

theorem session_inv_stop (s : State) (hinv : session_inv s) : session_inv (bp_stop s).2 := by
  unfold bp_stop
  split_ifs
  · exact hinv
  · exact hinv

theorem session_inv_disco (s : State) (hinv : session_inv s) :
    session_inv (disco_handler s).2 := by
  unfold disco_handler
  split_ifs
  · exact hinv
  · exact hinv

theorem session_inv_recon (s s1 : State) (r : Int) (hinv : session_inv s)
    (h : recon_handler s = some (r, s1)) : session_inv s1 := by
  obtain ⟨i1, i2, i3, i4⟩ := hinv
  unfold recon_handler at h
  split_ifs at h with h1
  · rw [Option.some.injEq, Prod.mk.injEq] at h
    obtain ⟨_, e⟩ := h
    subst e
    exact ⟨i1, i2, i3, i4⟩
  · have hw : s.bp.step = PB_STEP_WAITING4OK2DISCO := not_not.mp h1
    have hdt : MIN_STEP_TIME ≤ s.bp.d_t := i2 (by rw [hw]; decide)
    have hstarted : s.bp_started = true := by
      cases hb : s.bp_started with
      | true => rfl
      | false =>
        have := (i4 hb).2
        rw [hw] at this
        exact absurd this (by decide)
    have htug : s.tug.isSome = true := (i3 hstarted).mpr (by rw [hw]; decide)
    have hgrab : PB_STEP_START ≤ PB_STEP_GRABBING := by decide
    unfold bp_reconnect_notify at h
    dsimp only at h
    split_ifs at h with h2 h3
    · rw [Option.map_some', Option.some.injEq, Prod.mk.injEq] at h
      obtain ⟨_, e⟩ := h
      subst e
      exact ⟨i1, fun _ => hdt, fun _ => ⟨fun _ => hgrab, fun _ => htug⟩,
        fun hns => absurd (hstarted.symm.trans hns) (by decide)⟩
    · rw [Option.map_none'] at h
      contradiction
    · rw [Option.map_some', Option.some.injEq, Prod.mk.injEq] at h
      obtain ⟨_, e⟩ := h
      subst e
      exact ⟨i1, fun _ => hdt, fun _ => ⟨fun _ => hgrab, fun _ => htug⟩,
        fun hns => absurd (hstarted.symm.trans hns) (by decide)⟩

theorem bp_complete_not_started (s : State) (h : s.bp_started = false) :
    (bp_complete s).bp.step = s.bp.step ∧ (bp_complete s).bp.d_t = s.bp.d_t ∧
      (bp_complete s).tug = s.tug ∧ (bp_complete s).bp_started = false := by
  unfold bp_complete
  dsimp only
  have hs : (bp_delete_all_segs s).bp_started = false := h
  rw [if_pos hs]
  exact ⟨rfl, rfl, rfl, h⟩

theorem session_inv_fini (s : State) (slave : Bool) (hinv : session_inv s) :
    session_inv { bp_complete s with slave_mode := slave } := by
  obtain ⟨i1, i2, i3, i4⟩ := hinv
  have hdivs : ∀ d ∈ (bp_complete s).divs, MIN_STEP_TIME ≤ d := by
    rw [bp_complete_divs]
    exact i1
  cases hb : s.bp_started with
  | true =>
    obtain ⟨c1, c2, _, c4, _, _, _⟩ := bp_complete_started s hb
    refine ⟨hdivs, ?_, ?_, fun _ => ⟨c4, c1⟩⟩
    · intro hlt
      have hlt2 : PB_STEP_TUG_LOAD < (bp_complete s).bp.step := hlt
      rw [c1] at hlt2
      exact absurd hlt2 (by decide)
    · intro hst
      have hst2 : (bp_complete s).bp_started = true := hst
      rw [c2] at hst2
      exact absurd hst2 (by decide)
  | false =>
    obtain ⟨c1, c2, c3, c4⟩ := bp_complete_not_started s hb
    obtain ⟨j1, j2⟩ := i4 hb
    refine ⟨hdivs, ?_, ?_, fun _ => ⟨c3.trans j1, c1.trans j2⟩⟩
    · intro hlt
      have hlt2 : PB_STEP_TUG_LOAD < (bp_complete s).bp.step := hlt
      rw [c1, j2] at hlt2
      exact absurd hlt2 (by decide)
    · intro hst
      have hst2 : (bp_complete s).bp_started = true := hst
      rw [c4] at hst2
      exact absurd hst2 (by decide)

/-- Every state of a session satisfies the invariant. -/
theorem session_session_inv (M : Ext) (s : State) (h : session M s) : session_inv s := by
  induction h with
  | start s s1 hst htug hdivs hs => exact (session_inv_start M s s1 hst htug hdivs hs).1
  | tick s s1 r _ hst hr ih => exact session_inv_tick M s s1 r ih hst hr
  | host s s1 _ hh ih => exact session_inv_host s s1 ih hh
  | stop s _ ih => exact session_inv_stop s ih
  | disco s _ ih => exact session_inv_disco s ih
  | recon s s1 r _ hr ih => exact session_inv_recon s s1 r ih hr
  | fini s slave _ ih => exact session_inv_fini s slave ih

theorem bp_start_state_idle (M : Ext) : bp_start M state_idle = (true, (bp_start M state_idle).2) := by
  have h : (bp_start M state_idle).1 = true := by
    unfold bp_start
    rw [if_neg (by decide), if_neg]
    norm_num [bp_can_start, acf_on_gnd_stopped, state_idle, state_gears]
  exact Prod.ext h rfl

theorem session_start_state_idle (M : Ext) : session M (bp_start M state_idle).2 :=
  session.start state_idle _ rfl rfl rfl (bp_start_state_idle M)

theorem session_flight_loop (M : Ext) (ts : List ℚ) :
    ∀ s : State, session M s → session M (flight_loop M ts s) := by
  induction ts with
  | nil => exact fun s h => h
  | cons t ts ih =>
    intro s h
    have h0 : session M { s with drs := { s.drs with sim_time := t } } :=
      session.host s _ h ⟨rfl, rfl, rfl, rfl, rfl, rfl, rfl⟩
    unfold flight_loop
    dsimp only
    split_ifs with hst
    · cases hr : bp_run M { s with drs := { s.drs with sim_time := t } } with
      | none => exact h0
      | some p =>
        obtain ⟨r, s1⟩ := p
        exact ih s1 (session.tick _ s1 r h0 hst hr)
    · exact h0

theorem session_state_begun (M : Ext) : session M (state_begun M) :=
  session_start_state_idle M

theorem session_state_quick_held : session ext_quick state_quick_held :=
  session_flight_loop ext_quick _ _ (session_state_begun ext_quick)

/-! ### C11 -/

/-- C11: the tick delta `bp.d_t` is used as a divisor by `tug_speed` (called
from `tug_pos_update`), by `turn_nosewheel` and by `push_at_speed`, and each of
the three appends the value it divides by to the log `divs`. In every state of
a session between ticks (after `bp_start`, any number of `bp_run` callbacks,
host changes, operator commands and teardowns), every logged divisor is at
least `MIN_STEP_TIME`, hence positive; this includes the divisions of
`draw_tugs`, which runs before the minimum-interval check with the delta of
an earlier tick, because past the tug-dispatch phase the stored delta is at
least `MIN_STEP_TIME`. -/
theorem session_divisors_min_step_time (M : Ext) (s : State) (h : session M s) :
    (∀ d ∈ s.divs, MIN_STEP_TIME ≤ d ∧ 0 < d) ∧
      (PB_STEP_TUG_LOAD < s.bp.step → MIN_STEP_TIME ≤ s.bp.d_t) ∧
      (∀ (x : State) (p : vect2_t) (hdg : ℚ) (b : Bool),
        (tug_pos_update M p hdg b x).divs = x.divs ++ [x.bp.d_t]) ∧
      (∀ (x : State) (req_steer : ℚ),
        (turn_nosewheel M req_steer x).divs = x.divs ++ [x.bp.d_t]) ∧
      (∀ (x : State) (targ_speed max_accel : ℚ) (a b : Bool),
        (push_at_speed M targ_speed max_accel a b x).divs = x.divs ++ [x.bp.d_t]) := by
  obtain ⟨i1, i2, _, _⟩ := session_session_inv M s h
  refine ⟨fun d hd => ⟨i1 d hd, lt_of_lt_of_le (by norm_num [MIN_STEP_TIME]) (i1 d hd)⟩, i2,
    fun x p hdg b => tug_pos_update_divs M p hdg b x, fun _ _ => rfl, fun _ _ _ _ _ => rfl⟩

/-- Witness of C11: with the quick-debug tug the lift holds the nose gear
after two ticks of one second; the third callback comes too early, and its
`draw_tugs` divides by the delta of the tick before, which is the one logged
divisor. -/
theorem session_divisors_min_step_time_witness :
    state_quick_held.divs = [1] ∧ state_quick_held.bp.step = PB_STEP_CONNECTED ∧
      (∀ d ∈ state_quick_held.divs, MIN_STEP_TIME ≤ d ∧ 0 < d) ∧
      (PB_STEP_TUG_LOAD < state_quick_held.bp.step →
        MIN_STEP_TIME ≤ state_quick_held.bp.d_t) :=
  ⟨by with_unfolding_all rfl, by with_unfolding_all rfl,
    (session_divisors_min_step_time ext_quick state_quick_held session_state_quick_held).1,
    (session_divisors_min_step_time ext_quick state_quick_held session_state_quick_held).2.1⟩

/-! ### C17 -/

/-- C17, counterexample: right after `bp_start` the session is started in the
tug-dispatch phase `PB_STEP_TUG_LOAD` and no tug is allocated yet; the tug is
allocated by `pb_step_tug_load` in the first full tick. -/
theorem session_tug_load_without_tug :
    session ext_example (state_begun ext_example) ∧
      (state_begun ext_example).bp_started = true ∧
      (state_begun ext_example).bp.step = PB_STEP_TUG_LOAD ∧
      (state_begun ext_example).tug = none ∧
      ¬ ((state_begun ext_example).tug.isSome = true ↔
        PB_STEP_TUG_LOAD ≤ (state_begun ext_example).bp.step) := by
  have h := session_inv_start ext_example state_idle (state_begun ext_example) rfl rfl rfl
    (bp_start_state_idle ext_example)
  refine ⟨session_state_begun ext_example, h.2.2.2, h.2.1, h.2.2.1, ?_⟩
  rw [h.2.1, h.2.2.1]
  exact fun hiff => absurd (hiff.mpr (le_refl _)) (by decide)

/-- C17 (amended): in every state of a session between ticks, in master or
slave mode, the tug object is allocated if and only if the phase is
`PB_STEP_START` or a later one; in the tug-dispatch phase `PB_STEP_TUG_LOAD`
there is no tug yet, and a session that is not started has no tug and is in
phase OFF. -/
theorem session_tug_iff_from_start_phase (M : Ext) (s : State) (h : session M s) :
    (s.tug.isSome = true ↔ PB_STEP_START ≤ s.bp.step) ∧
      (s.bp.step = PB_STEP_TUG_LOAD → s.tug = none) ∧
      (s.bp_started = false → s.tug = none ∧ s.bp.step = PB_STEP_OFF) := by
  obtain ⟨_, _, i3, i4⟩ := session_session_inv M s h
  have hiff : s.tug.isSome = true ↔ PB_STEP_START ≤ s.bp.step := by
    cases hb : s.bp_started with
    | true => exact i3 hb
    | false =>
      obtain ⟨j1, j2⟩ := i4 hb
      rw [j1, j2]
      exact ⟨fun h => absurd h (by decide), fun h => absurd h (by decide)⟩
  refine ⟨hiff, ?_, i4⟩
  intro hload
  cases ht : s.tug with
  | none => rfl
  | some t =>
    have h2 := hiff.mp (by rw [ht]; rfl)
    rw [hload] at h2
    exact absurd h2 (by decide)

/-- Witness of C17: the session with the quick-debug tug after its three
callbacks is in phase CONNECTED and has its tug. -/
theorem session_tug_iff_from_start_phase_witness :
    state_quick_held.tug.isSome = true ∧ PB_STEP_START ≤ state_quick_held.bp.step ∧
      (state_quick_held.tug.isSome = true ↔ PB_STEP_START ≤ state_quick_held.bp.step) :=
  ⟨by with_unfolding_all rfl, by with_unfolding_all decide,
    (session_tug_iff_from_start_phase ext_quick state_quick_held session_state_quick_held).1⟩

/-! ### C21 -/

theorem acf_on_gnd_stopped_reason_isSome (s : State) :
    (acf_on_gnd_stopped_reason s).isSome = !acf_on_gnd_stopped s := by
  unfold acf_on_gnd_stopped_reason acf_on_gnd_stopped
  split_ifs <;> rfl

theorem bp_can_start_reason_isSome (s : State) :
    (bp_can_start_reason s).isSome = !bp_can_start s := by
  unfold bp_can_start_reason bp_can_start
  split_ifs with h1 h2 h3 h4 h5
  all_goals first
    | rfl
    | rw [acf_on_gnd_stopped_reason_isSome, h2]

/-- C21: with the aircraft compatible, on the ground, stationary with the gear
extended (`acf_on_gnd_stopped`) and the engines acceptable, `bp_can_start`
returns false, with the reason that asks for a plan, when the path queue is
empty and none of late plan, slave mode and manual push is active, and it
returns true, without a reason, when the queue is not empty or one of the three
is active. On every state `bp_can_start` returns false exactly when it gives a
reason; when it returns false on a session that is not started, `bp_start`
returns false and leaves the whole state unchanged (not started, same phase);
when the session is already started `bp_start` returns true and leaves the
whole state unchanged. -/
theorem bp_can_start_plan_check (M : Ext) (s : State)
    (hcompat : s.drs.acf_compatible = true) (hgnd : acf_on_gnd_stopped s = true)
    (heng : ¬ (s.drs.eng_ok2start = false ∧ s.drs.eng_running = true)) :
    (s.bp.segs = [] ∧ s.late_plan_requested = false ∧ s.slave_mode = false ∧
        s.push_manual.active = false →
      bp_can_start s = false ∧
        bp_can_start_reason s =
          some ("Pushback failure: please first plan your pushback to tell me " ++
            "where you want to go.")) ∧
      (s.bp.segs ≠ [] ∨ s.late_plan_requested = true ∨ s.slave_mode = true ∨
          s.push_manual.active = true →
        bp_can_start s = true ∧ bp_can_start_reason s = none) ∧
      (∀ x : State, bp_can_start x = false ↔ (bp_can_start_reason x).isSome = true) ∧
      (∀ x : State, x.bp_started = false → bp_can_start x = false →
        bp_start M x = (false, x)) ∧
      (∀ x : State, x.bp_started = true → bp_start M x = (true, x)) := by
  have hc : ¬ s.drs.acf_compatible = false := by rw [hcompat]; decide
  have hg : ¬ acf_on_gnd_stopped s = false := by rw [hgnd]; decide
  refine ⟨?_, ?_, ?_, ?_, ?_⟩
  · rintro ⟨h1, h2, h3, h4⟩
    have hcond : s.bp.segs.isEmpty = true ∧ s.late_plan_requested = false ∧
        s.slave_mode = false := ⟨by rw [h1]; rfl, h2, h3⟩
    unfold bp_can_start bp_can_start_reason
    rw [if_neg hc, if_neg hg, if_neg heng, if_pos h4, if_pos hcond,
      if_neg hc, if_neg hg, if_neg heng, if_pos h4, if_pos hcond]
    exact ⟨rfl, rfl⟩
  · intro h
    unfold bp_can_start bp_can_start_reason
    rw [if_neg hc, if_neg hg, if_neg heng, if_neg hc, if_neg hg, if_neg heng]
    by_cases hm : s.push_manual.active = false
    · have hcond : ¬ (s.bp.segs.isEmpty = true ∧ s.late_plan_requested = false ∧
          s.slave_mode = false) := by
        rintro ⟨c1, c2, c3⟩
        rcases h with h | h | h | h
        · exact h (List.isEmpty_iff.mp c1)
        · rw [c2] at h
          exact absurd h (by decide)
        · rw [c3] at h
          exact absurd h (by decide)
        · rw [hm] at h
          exact absurd h (by decide)
      rw [if_pos hm, if_neg hcond, if_pos hm, if_neg hcond]
      exact ⟨rfl, rfl⟩
    · rw [if_neg hm, if_neg hm]
      exact ⟨rfl, rfl⟩
  · intro x
    rw [bp_can_start_reason_isSome]
    cases bp_can_start x <;> decide
  · intro x h1 h2
    unfold bp_start
    rw [h1, if_neg (by decide), if_pos h2]
  · intro x h1
    unfold bp_start
    rw [if_pos h1]

/-- Witness of C21: the idle plugin of the example, with its plan of one
segment. -/
theorem bp_can_start_plan_check_witness :
    bp_can_start state_idle = true ∧ bp_can_start_reason state_idle = none :=
  (bp_can_start_plan_check ext_example state_idle rfl
    (by norm_num [acf_on_gnd_stopped, state_idle, state_gears])
    (by decide)).2.1 (Or.inl (by decide))

/-! ### C22 -/

/-- On a started session `bp_complete` ends with `bp_state_init`, run on a
state whose flags are cleared and whose tug is released. -/
theorem bp_complete_started_init (s : State) (h : s.bp_started = true) :
    ∃ x : State, bp_complete s = (bp_state_init x).2 ∧ x.tug = none ∧
      x.bp_started = false ∧ x.bp_connected = false ∧ x.late_plan_requested = false ∧
      x.plan_complete = false := by
  unfold bp_complete
  dsimp only
  have hs : (bp_delete_all_segs s).bp_started = true := h
  simp only [hs, Bool.true_eq_false, if_false]
  split_ifs with h2
  · exact ⟨_, rfl, rfl, rfl, rfl, rfl, rfl⟩
  · exact ⟨_, rfl, rfl, rfl, rfl, rfl, rfl⟩

/-- C22: after `bp_complete` on a started session, whatever the phase was,
`bp_started` and `bp_connected` are false, the phase is OFF, the tug is
released, the path queue is empty, the stored force, the weight force, the
reversal timer and the phase timer are 0, and the late-plan and plan-complete
flags are cleared. On a session that is not started `bp_complete` empties the
path queue and changes nothing else of the program state (the ghost call log
records the call). -/
theorem bp_complete_clean_slate (s : State) :
    (s.bp_started = true →
      (bp_complete s).bp_started = false ∧ (bp_complete s).bp_connected = false ∧
        (bp_complete s).bp.step = PB_STEP_OFF ∧ (bp_complete s).tug = none ∧
        (bp_complete s).bp.segs = [] ∧ (bp_complete s).bp.last_force = 0 ∧
        (bp_complete s).bp.tug_weight_force = 0 ∧ (bp_complete s).bp.reverse_t = 0 ∧
        (bp_complete s).bp.step_start_t = 0 ∧
        (bp_complete s).late_plan_requested = false ∧
        (bp_complete s).plan_complete = false) ∧
      (s.bp_started = false →
        bp_complete s =
          { s with
            bp := { s.bp with segs := [] },
            calls := s.calls ++ [call_t.bp_complete] }) := by
  constructor
  · intro h
    obtain ⟨x, hx, x1, x2, x3, x4, x5⟩ := bp_complete_started_init s h
    obtain ⟨e1, e2, e3, e4, e5, e6, e7, e8, e9, e10, e11, _⟩ := bp_state_init_clean x
    rw [hx]
    exact ⟨e8.trans x2, e9.trans x3, e1, e7.trans x1, e2, e4, e5, e6, e3, e10.trans x4,
      e11.trans x5⟩
  · intro h
    unfold bp_complete
    dsimp only
    have hs : (bp_delete_all_segs s).bp_started = false := h
    rw [if_pos hs]
    rfl

/-- Witness of C22: teardown in the middle of the push. -/
theorem bp_complete_clean_slate_witness :
    (bp_complete (state_pushing 0 0)).bp_started = false ∧
      (bp_complete (state_pushing 0 0)).bp_connected = false ∧
      (bp_complete (state_pushing 0 0)).bp.step = PB_STEP_OFF ∧
      (bp_complete (state_pushing 0 0)).tug = none ∧
      (bp_complete (state_pushing 0 0)).bp.segs = [] ∧
      (bp_complete (state_pushing 0 0)).bp.last_force = 0 ∧
      (bp_complete (state_pushing 0 0)).bp.tug_weight_force = 0 ∧
      (bp_complete (state_pushing 0 0)).bp.reverse_t = 0 ∧
      (bp_complete (state_pushing 0 0)).bp.step_start_t = 0 ∧
      (bp_complete (state_pushing 0 0)).late_plan_requested = false ∧
      (bp_complete (state_pushing 0 0)).plan_complete = false :=
  (bp_complete_clean_slate (state_pushing 0 0)).1 rfl

/-! ### C23 -/

/-- C23: in `tug_pos_update` with the phase GRABBING and a winch-type tug, the
tug is placed by `tug_set_pos` at `winching.start_acf_pos + dir(body heading) *
(-nw_z - plat_z)` with the body heading and speed 0, whatever the position
argument and the flag `pos_only` are. Hence two runs with the same tug, the
same body heading, the same recorded winching start position and the same
nose-gear offset, which may differ in the body position and in everything
else, leave the same tug. -/
theorem tug_pos_update_winching_fixed (M : Ext) (my_pos my_pos2 : vect2_t) (my_hdg : ℚ)
    (pos_only pos_only2 : Bool) (s s2 : State)
    (hstep : s.bp.step = PB_STEP_GRABBING)
    (hwinch : (bp_ls_tug s).info.lift_type = lift_t.LIFT_WINCH)
    (hstep2 : s2.bp.step = PB_STEP_GRABBING) (htug : s2.tug = s.tug)
    (hstart : s2.bp.winching.start_acf_pos = s.bp.winching.start_acf_pos)
    (hnw : s2.bp.acf.nw_z = s.bp.acf.nw_z) :
    (tug_pos_update M my_pos my_hdg pos_only s).tug =
        s.tug.map (fun t => M.tug_set_pos t
          (vect2_add s.bp.winching.start_acf_pos
            (vect2_scmul (M.hdg2dir my_hdg)
              ((-s.bp.acf.nw_z) + (-(bp_ls_tug s).info.plat_z)))) my_hdg 0) ∧
      (tug_pos_update M my_pos2 my_hdg pos_only2 s2).tug =
        (tug_pos_update M my_pos my_hdg pos_only s).tug := by
  have h1 : ∀ (p : vect2_t) (b : Bool) (x : State), x.bp.step = PB_STEP_GRABBING →
      (bp_ls_tug x).info.lift_type = lift_t.LIFT_WINCH →
      (tug_pos_update M p my_hdg b x).tug =
        x.tug.map (fun t => M.tug_set_pos t
          (vect2_add x.bp.winching.start_acf_pos
            (vect2_scmul (M.hdg2dir my_hdg)
              ((-x.bp.acf.nw_z) + (-(bp_ls_tug x).info.plat_z)))) my_hdg 0) := by
    intro p b x hx hw
    unfold tug_pos_update
    dsimp only
    rw [if_pos ⟨hx, hw⟩]
    rfl
  have hls : bp_ls_tug s2 = bp_ls_tug s := by
    unfold bp_ls_tug
    rw [htug]
  refine ⟨h1 my_pos pos_only s hstep hwinch, ?_⟩
  rw [h1 my_pos pos_only s hstep hwinch, h1 my_pos2 pos_only2 s2 hstep2 (by rw [hls]; exact hwinch),
    htug, hstart, hnw, hls]

/-- Witness of C23: the body has been winched 2 m forward; the tug stays where
the winching start position puts it. -/
theorem tug_pos_update_winching_fixed_witness :
    (tug_pos_update ext_example { x := 0, y := 12 } 0 false (state_winching 12)).tug =
      (tug_pos_update ext_example { x := 0, y := 10 } 0 false (state_winching 10)).tug :=
  (tug_pos_update_winching_fixed ext_example { x := 0, y := 10 } { x := 0, y := 12 } 0
    false false (state_winching 10) (state_winching 12) rfl rfl rfl rfl rfl rfl).2

/-! ### C29 -/

/-- On the successful path of `bp_state_init` the simulator version is
supported and `bp.veh.max_steer` is the declared steering angle capped by
`max_steer_angle`, or the mean of that cap and `MIN_STEER_ANGLE` when the
capped declaration is below `MIN_STEER_ANGLE`. -/
theorem bp_state_init_max_steer (s : State) (h : (bp_state_init s).1 = true) :
    ¬ s.bp_xp_ver < MIN_XPLANE_VERSION ∧
      (bp_state_init s).2.bp.veh.max_steer =
        if MIN (MAX s.drs.nw_steerdeg1 s.drs.nw_steerdeg2) (max_steer_angle s) <
            MIN_STEER_ANGLE then
          (max_steer_angle s + MIN_STEER_ANGLE) / 2
        else MIN (MAX s.drs.nw_steerdeg1 s.drs.nw_steerdeg2) (max_steer_angle s) := by
  by_cases h1 : s.bp_xp_ver < MIN_XPLANE_VERSION
  · unfold bp_state_init at h
    dsimp only at h
    rw [if_pos h1] at h
    exact absurd h Bool.false_ne_true
  refine ⟨h1, ?_⟩
  cases hf : s.drs.acf_file with
  | none =>
    unfold bp_state_init at h
    dsimp only at h
    rw [if_neg h1, hf] at h
    exact absurd h Bool.false_ne_true
  | some flags =>
    by_cases hhelo : (flags.is_helicopter || flags.fly_like_a_helo) = true
    · unfold bp_state_init at h
      dsimp only at h
      rw [if_neg h1] at h
      simp only [hf] at h
      rw [if_pos hhelo] at h
      exact absurd h Bool.false_ne_true
    · have hh : (flags.is_helicopter || flags.fly_like_a_helo) = false := by
        cases hb : (flags.is_helicopter || flags.fly_like_a_helo) with
        | true => exact absurd hb hhelo
        | false => rfl
      have hg := bp_state_init_gear_check s flags h1 hf hh
      rw [h] at hg
      have hwb : ¬ double_le_zero
          ((read_gear_info
              { s with bp := { acf := { model_flags := flags } } }).2.bp.acf.main_z -
            (read_gear_info
              { s with bp := { acf := { model_flags := flags } } }).2.bp.acf.nw_z)
          (read_gear_info
            { s with bp := { acf := { model_flags := flags } } }).2.bp.acf.main_z_nf = true := by
        intro hc
        rw [hc] at hg
        exact absurd hg (by decide)
      unfold bp_state_init
      dsimp only
      rw [if_neg h1]
      simp only [hf]
      rw [if_neg hhelo, if_neg (by rw [read_gear_info_returns_true]; decide), if_neg hwb]
      rfl

/-- C29: after every successful `bp_state_init`, for all declared nosewheel
steering angles and every friction tier, `max_steer_angle()` is `A` = 50 on
medium friction, 35 on poor friction and 75 otherwise (the simulator version
is at least `MIN_XPLANE_VERSION`), and `bp.veh.max_steer` equals
`min(max(steerdeg1, steerdeg2), A)` when that is at least `MIN_STEER_ANGLE` =
35 and `(A + 35) / 2` otherwise; so it lies in `[35, A]`. -/
theorem bp_state_init_max_steer_range (s : State) (h : (bp_state_init s).1 = true) :
    max_steer_angle s =
        (if s.drs.rwy_friction = RWY_FRICTION_MED then 50
         else if s.drs.rwy_friction = RWY_FRICTION_POOR then 35 else 75) ∧
      (bp_state_init s).2.bp.veh.max_steer =
        (if 35 ≤ min (max s.drs.nw_steerdeg1 s.drs.nw_steerdeg2) (max_steer_angle s) then
          min (max s.drs.nw_steerdeg1 s.drs.nw_steerdeg2) (max_steer_angle s)
         else (max_steer_angle s + 35) / 2) ∧
      MIN_STEER_ANGLE ≤ (bp_state_init s).2.bp.veh.max_steer ∧
      (bp_state_init s).2.bp.veh.max_steer ≤ max_steer_angle s := by
  obtain ⟨hver, hval⟩ := bp_state_init_max_steer s h
  have hA : max_steer_angle s =
      (if s.drs.rwy_friction = RWY_FRICTION_MED then 50
       else if s.drs.rwy_friction = RWY_FRICTION_POOR then 35 else 75) := by
    unfold max_steer_angle
    have h11 : ¬ s.bp_xp_ver < 11000 := by
      unfold MIN_XPLANE_VERSION at hver
      omega
    rw [if_neg h11]
  have hA35 : (35 : ℚ) ≤ max_steer_angle s := by
    rw [hA]
    split_ifs <;> norm_num
  rw [MIN_eq_min, MAX_eq_max] at hval
  unfold MIN_STEER_ANGLE at hval ⊢
  refine ⟨hA, ?_, ?_, ?_⟩
  · rw [hval]
    by_cases hc : min (max s.drs.nw_steerdeg1 s.drs.nw_steerdeg2) (max_steer_angle s) < 35
    · rw [if_pos hc, if_neg (not_le.mpr hc)]
    · rw [if_neg hc, if_pos (not_lt.mp hc)]
  · rw [hval]
    split_ifs with hc
    · linarith
    · exact not_lt.mp hc
  · rw [hval]
    split_ifs with hc
    · linarith
    · exact min_le_right _ _

/-- Witness of C29: an aircraft that declares 60 and 10 degrees, on good
friction, with a single eligible gear behind the origin, on which
`bp_state_init` succeeds with a NaN wheelbase. -/
theorem bp_state_init_max_steer_range_witness :
    (bp_state_init state_single_gear).1 = true ∧
      (bp_state_init state_single_gear).2.bp.veh.wheelbase_nf = some nonfinite_t.NAN ∧
      (bp_state_init state_single_gear).2.bp.veh.max_steer = 60 ∧
      MIN_STEER_ANGLE ≤ (bp_state_init state_single_gear).2.bp.veh.max_steer ∧
      (bp_state_init state_single_gear).2.bp.veh.max_steer ≤ max_steer_angle state_single_gear :=
  have h : (bp_state_init state_single_gear).1 = true := by with_unfolding_all rfl
  ⟨h, by with_unfolding_all rfl, by with_unfolding_all rfl,
    (bp_state_init_max_steer_range state_single_gear h).2.2⟩

/-! ### C30 -/

theorem bp_run_push_manual_eq (M : Ext) (s : State) (hbrake : brakes_applied s = false)
    (hwait : reversal_wait s = false) :
    bp_run_push_manual M s =
      (push_at_speed M (bp_run_push_manual_speed M s) s.bp.veh.max_accel true false
        (turn_nosewheel M (bp_run_push_manual_angle s) (reverse_clear s)),
        s.push_manual.active) := by
  unfold bp_run_push_manual
  rw [if_neg (by rw [hbrake]; decide), if_neg (by rw [hwait]; decide)]
  rfl

theorem scale_bounds (x f lo hi : ℚ) (hf0 : 0 ≤ f) (hf1 : f ≤ 1) (hlo : lo ≤ 0) (hhi : 0 ≤ hi)
    (h1 : lo ≤ x) (h2 : x ≤ hi) : lo ≤ x * f ∧ x * f ≤ hi := by
  constructor
  · nlinarith [mul_nonneg hf0 (sub_nonneg.mpr hf1)]
  · nlinarith [mul_nonneg hf0 (sub_nonneg.mpr hf1)]

theorem bp_run_push_manual_speed_bounds (M : Ext) (s : State)
    (hcos : ∀ x, M.cos x ≤ 1) (hjoy1 : |s.drs.joystick 1| ≤ 1)
    (hrev : 0 ≤ s.bp.veh.max_rev_spd) (hfwd : s.bp.veh.max_rev_spd ≤ s.bp.veh.max_fwd_spd) :
    -s.bp.veh.max_rev_spd ≤ bp_run_push_manual_speed M s ∧
      bp_run_push_manual_speed M s ≤ s.bp.veh.max_fwd_spd ∧
      (|bp_run_push_manual_angle s| > MIN_STEER_ANGLE →
        |bp_run_push_manual_speed M s| ≤ s.bp.veh.max_rev_spd) ∧
      (s.push_manual.pause = true → bp_run_push_manual_speed M s = 0) := by
  obtain ⟨j1, j2⟩ := abs_le.mp hjoy1
  have hf0 : 0 ≤ s.bp.veh.max_fwd_spd := le_trans hrev hfwd
  -- the speed before the direction flag
  have h0 : ∀ v : ℚ,
      v = (if s.push_manual.with_yoke then
            s.bp.veh.max_fwd_spd * (if -s.drs.joystick 1 < 0 then 0 else -s.drs.joystick 1)
           else s.bp.veh.max_fwd_spd) →
      0 ≤ v ∧ v ≤ s.bp.veh.max_fwd_spd := by
    intro v hv
    rw [hv]
    split_ifs with c1 c2
    · rw [mul_zero]
      exact ⟨le_refl _, hf0⟩
    · constructor
      · exact mul_nonneg hf0 (not_lt.mp c2)
      · nlinarith
    · exact ⟨hf0, le_refl _⟩
  obtain ⟨a0, a1⟩ := h0 _ rfl
  -- the factor of the last line
  have hfac : ∀ f : ℚ,
      f = (if s.push_manual.pause then 0
           else MAX (M.cos (DEG2RAD M |bp_run_push_manual_angle s|)) (1 / 10)) →
      0 ≤ f ∧ f ≤ 1 := by
    intro f hf
    rw [hf, MAX_eq_max]
    split_ifs
    · norm_num
    · exact ⟨le_trans (by norm_num) (le_max_right _ _), max_le (hcos _) (by norm_num)⟩
  obtain ⟨f0, f1⟩ := hfac _ rfl
  have hpause : s.push_manual.pause = true → bp_run_push_manual_speed M s = 0 := by
    intro hp
    unfold bp_run_push_manual_speed
    dsimp only
    rw [if_pos hp, mul_zero]
  have hmain : -s.bp.veh.max_rev_spd ≤ bp_run_push_manual_speed M s ∧
      bp_run_push_manual_speed M s ≤ s.bp.veh.max_fwd_spd ∧
      (|bp_run_push_manual_angle s| > MIN_STEER_ANGLE →
        |bp_run_push_manual_speed M s| ≤ s.bp.veh.max_rev_spd) := by
    unfold bp_run_push_manual_speed
    dsimp only
    generalize (if s.push_manual.pause then 0
      else MAX (M.cos (DEG2RAD M |bp_run_push_manual_angle s|)) (1 / 10)) = f at f0 f1 ⊢
    generalize (if s.push_manual.with_yoke then
        s.bp.veh.max_fwd_spd * (if -s.drs.joystick 1 < 0 then 0 else -s.drs.joystick 1)
      else s.bp.veh.max_fwd_spd) = v at a0 a1 ⊢
    split_ifs with c1 c2 c3 c4 c5 c6 c7 c8
    all_goals
      refine ⟨(scale_bounds _ f (-s.bp.veh.max_rev_spd) s.bp.veh.max_fwd_spd f0 f1
          (by linarith) hf0 (by linarith) (by linarith)).1,
        (scale_bounds _ f (-s.bp.veh.max_rev_spd) s.bp.veh.max_fwd_spd f0 f1
          (by linarith) hf0 (by linarith) (by linarith)).2, fun ha => ?_⟩
    all_goals first
      | exact absurd ha ‹_›
      | exact abs_le.mpr (scale_bounds _ f (-s.bp.veh.max_rev_spd) s.bp.veh.max_rev_spd f0 f1
          (by linarith) hrev (by linarith) (by linarith))
  exact ⟨hmain.1, hmain.2.1, hmain.2.2, hpause⟩

theorem tri_cos_le_one (t : ℚ) : tri_cos t ≤ 1 := by
  unfold tri_cos
  dsimp only
  linarith [abs_nonneg (t - 2 * ((⌊(t + 1) / 2⌋ : Int) : ℚ))]

/-- C30: in manual-push mode, with the brakes released and no reversal wait
(the bound `cos <= 1` of the C library, yoke axes in `[-1, 1]`, keyboard angle
in `[-100, 100]`, `0 <= max_rev_spd <= max_fwd_spd`, `0 <= max_steer`),
`bp_run_push_manual` calls `turn_nosewheel` with the steer request
`bp_run_push_manual_angle` and then `push_at_speed` with the target speed
`bp_run_push_manual_speed`, and makes no other call. The target speed lies in
`[-max_rev_spd, max_fwd_spd]`, its magnitude is at most `max_rev_spd` whenever
the steer request exceeds `MIN_STEER_ANGLE` in magnitude, and it is 0 while the
pause flag is set; the steer request has magnitude at most `bp.veh.max_steer`;
the function returns true (the mode is still active), and leaves the
manual-push block and the segment queue untouched. -/
theorem bp_run_push_manual_targets (M : Ext) (s : State)
    (hcos : ∀ x, M.cos x ≤ 1) (hactive : s.push_manual.active = true)
    (hbrake : brakes_applied s = false) (hwait : reversal_wait s = false)
    (hjoy1 : |s.drs.joystick 1| ≤ 1) (hjoy2 : |s.drs.joystick 2| ≤ 1)
    (hangle : |s.push_manual.angle| ≤ 100)
    (hrev : 0 ≤ s.bp.veh.max_rev_spd) (hfwd : s.bp.veh.max_rev_spd ≤ s.bp.veh.max_fwd_spd)
    (hsteer : 0 ≤ s.bp.veh.max_steer) :
    (bp_run_push_manual M s).1.calls =
        s.calls ++ [call_t.turn_nosewheel (bp_run_push_manual_angle s),
          call_t.push_at_speed (bp_run_push_manual_speed M s)] ∧
      -s.bp.veh.max_rev_spd ≤ bp_run_push_manual_speed M s ∧
      bp_run_push_manual_speed M s ≤ s.bp.veh.max_fwd_spd ∧
      (|bp_run_push_manual_angle s| > MIN_STEER_ANGLE →
        |bp_run_push_manual_speed M s| ≤ s.bp.veh.max_rev_spd) ∧
      (s.push_manual.pause = true → bp_run_push_manual_speed M s = 0) ∧
      |bp_run_push_manual_angle s| ≤ s.bp.veh.max_steer ∧
      (bp_run_push_manual M s).2 = true ∧
      (bp_run_push_manual M s).1.push_manual = s.push_manual ∧
      (bp_run_push_manual M s).1.bp.segs = s.bp.segs := by
  obtain ⟨b1, b2, b3, b4⟩ := bp_run_push_manual_speed_bounds M s hcos hjoy1 hrev hfwd
  rw [bp_run_push_manual_eq M s hbrake hwait]
  refine ⟨?_, b1, b2, b3, b4, ?_, hactive, rfl, rfl⟩
  · show (push_at_speed M _ _ true false (turn_nosewheel M _ (reverse_clear s))).calls = _
    rw [push_at_speed_calls, turn_nosewheel_calls, List.append_assoc]
    rfl
  · unfold bp_run_push_manual_angle
    rw [abs_mul, abs_of_nonneg hsteer]
    have hin : |if s.push_manual.with_yoke = true then s.drs.joystick 2
        else s.push_manual.angle / 100| ≤ 1 := by
      split_ifs
      · exact hjoy2
      · rw [abs_div, abs_of_pos (by norm_num : (0 : ℚ) < 100)]
        exact div_le_one_of_le₀ hangle (by norm_num)
    calc |if s.push_manual.with_yoke = true then s.drs.joystick 2
            else s.push_manual.angle / 100| * s.bp.veh.max_steer
        ≤ 1 * s.bp.veh.max_steer := mul_le_mul_of_nonneg_right hin hsteer
      _ = s.bp.veh.max_steer := one_mul _

/-- Witness of C30: towing backwards with the keyboard at 60 of 100: the steer
request is 21 degrees and the target speed is within the reverse limit. -/
theorem bp_run_push_manual_targets_witness :
    bp_run_push_manual_angle state_manual_push = 21 ∧
      -state_manual_push.bp.veh.max_rev_spd ≤
        bp_run_push_manual_speed ext_example state_manual_push ∧
      bp_run_push_manual_speed ext_example state_manual_push ≤
        state_manual_push.bp.veh.max_fwd_spd ∧
      (bp_run_push_manual ext_example state_manual_push).2 = true :=
  have h := bp_run_push_manual_targets ext_example state_manual_push
    (fun x => tri_cos_le_one _) rfl (by with_unfolding_all rfl) (by with_unfolding_all rfl)
    (by norm_num [state_manual_push, state_pushing])
    (by norm_num [state_manual_push, state_pushing])
    (by norm_num [state_manual_push, state_pushing])
    (by norm_num [state_manual_push, state_pushing])
    (by norm_num [state_manual_push, state_pushing])
    (by norm_num [state_manual_push, state_pushing])
  ⟨by norm_num [bp_run_push_manual_angle, state_manual_push, state_pushing], h.2.1, h.2.2.1,
    h.2.2.2.2.2.2.1⟩

/-! ### C27 -/

/-- In master mode the local `done` of `pb_step_stopping` is true exactly when
both steering deflections are within their thresholds and the heading of a
final turn is reached within one degree (or there is no final turn). -/
theorem pb_step_stopping_done_iff (M : Ext) (s : State) (hmaster : s.slave_mode = false) :
    pb_step_stopping_done M s = true ↔
      (ABS (s.drs.tire_steer_cmd s.bp.acf.nw_i) ≤ TOW_COMPLETE_ACF_STEER_THRESH ∧
        ABS (bp_ls_tug s).cur_steer ≤ TOW_COMPLETE_TUG_STEER_THRESH ∧
        (∀ last_hdg, s.bp.last_hdg = some last_hdg →
          |M.rel_hdg (corr_acf_pos M s).hdg last_hdg| ≤ 1)) := by
  unfold pb_step_stopping_done
  dsimp only
  rw [if_pos hmaster]
  cases hl : s.bp.last_hdg with
  | none =>
    simp only [Bool.and_eq_true, Bool.not_eq_true', decide_eq_false_iff_not, Bool.or_eq_false_iff,
      not_le, not_lt, ge_iff_le, gt_iff_lt, Bool.not_false, true_and]
    constructor
    · rintro ⟨h2, h3⟩
      exact ⟨h3, h2, fun _ h => absurd h (by simp)⟩
    · rintro ⟨h1, h2, _⟩
      exact ⟨h2, h1⟩
  | some h0 =>
    simp only [Bool.and_eq_true, Bool.not_eq_true', decide_eq_false_iff_not, Bool.or_eq_false_iff,
      not_le, not_lt, ge_iff_le, gt_iff_lt, Option.some.injEq, forall_eq']
    constructor
    · rintro ⟨h2, h3, h4⟩
      exact ⟨h4, h3, h2⟩
    · rintro ⟨h1, h2, h3⟩
      exact ⟨h3, h2, h1⟩

theorem pb_step_stopping_steer_creep (M : Ext) (s : State) (hmaster : s.slave_mode = false)
    (hthr : ABS (bp_ls_tug s).cur_steer > TOW_COMPLETE_TUG_STEER_THRESH ∨
      ABS (s.drs.tire_steer_cmd s.bp.acf.nw_i) > TOW_COMPLETE_ACF_STEER_THRESH) :
    ∃ a, pb_step_stopping_steer M s =
      (push_at_speed M (if s.bp.last_seg_is_back then -M.MIN_SPEED_XP10 else M.MIN_SPEED_XP10)
        s.bp.veh.max_accel false false (turn_nosewheel M a s), false) := by
  unfold pb_step_stopping_steer
  dsimp only
  rw [if_pos hmaster]
  split
  · exact ⟨_, rfl⟩
  · exact ⟨0, rfl⟩

/-- C27, the claim as stated fails for a stop while the aircraft is still
rolling: on the tick at 100.02 s, in phase STARTING, the speed is 0.1 m/s, not
below `SPEED_COMPLETE_THRESH`. The operator stops the push, and on the next
tick, 0.02 s later, the speed is 0.07 m/s: the stop block of `bp_run` puts the
phase to STOPPING without re-arming the phase timer, which still holds the
time 97 s at which STARTING was entered, so `pb_step_stopping` finds
`STATE_TRANS_DELAY` elapsed and advances to STOPPED in that same tick. -/
theorem bp_run_stopping_advances_without_dwell :
    state_rolling.bp.step = PB_STEP_STARTING ∧
      (bp_run ext_example state_rolling).map
          (fun r => (r.1, r.2.bp.step, r.2.bp.cur_t, r.2.bp.cur_pos.spd,
            decide (ABS r.2.bp.cur_pos.spd < SPEED_COMPLETE_THRESH))) =
        some (-1, PB_STEP_STARTING, 100 + 1 / 50, -(1 / 10), false) ∧
      state_rolling_stopped.bp.step = PB_STEP_STARTING ∧
      state_rolling_stopped.bp.step_start_t = 97 ∧
      state_rolling_stopped.bp.segs = [] ∧
      (bp_run ext_example state_rolling_stopped).map
          (fun r => (r.1, r.2.bp.step, r.2.bp.cur_t, r.2.bp.cur_pos.spd)) =
        some (-1, PB_STEP_STOPPED, 100 + 1 / 25, -(7 / 100)) ∧
      (100 + 1 / 25 : ℚ) - (100 + 1 / 50) < STATE_TRANS_DELAY := by
  refine ⟨rfl, by with_unfolding_all rfl, by with_unfolding_all rfl,
    by with_unfolding_all rfl, by with_unfolding_all rfl, ?_, by norm_num [STATE_TRANS_DELAY]⟩
  set_option maxRecDepth 100000 in
  with_unfolding_all rfl

/-- C27, amended: in master mode `pb_step_stopping` advances the phase (by one, to
STOPPED) only on a tick where the body's steer command is within
`TOW_COMPLETE_ACF_STEER_THRESH`, the tug's steer within
`TOW_COMPLETE_TUG_STEER_THRESH`, the heading error to the end heading of a
final turn at most 1 degree (or there is no such heading), the speed below
`SPEED_COMPLETE_THRESH`, and `STATE_TRANS_DELAY` has passed since the phase
timer. On a tick where one of these conditions fails the phase stays and the
phase timer is re-armed to the current time, so a later tick `s3` that finds
this timer advances only when `STATE_TRANS_DELAY` has passed since the failing
tick. On a tick where a steering threshold is exceeded the calls are
`turn_nosewheel` and then `push_at_speed` with the target speed
`-MIN_SPEED_XP10` when the last segment was backward and `MIN_SPEED_XP10`
otherwise, which is not 0. -/
theorem pb_step_stopping_straightens (M : Ext) (s s3 : State)
    (hmaster : s.slave_mode = false) :
    ((pb_step_stopping M s).bp.step ≠ s.bp.step →
        (pb_step_stopping M s).bp.step = s.bp.step + 1 ∧
          ABS (s.drs.tire_steer_cmd s.bp.acf.nw_i) ≤ TOW_COMPLETE_ACF_STEER_THRESH ∧
          ABS (bp_ls_tug s).cur_steer ≤ TOW_COMPLETE_TUG_STEER_THRESH ∧
          (∀ last_hdg, s.bp.last_hdg = some last_hdg →
            |M.rel_hdg (corr_acf_pos M s).hdg last_hdg| ≤ 1) ∧
          ABS s.bp.cur_pos.spd < SPEED_COMPLETE_THRESH ∧
          s.bp.cur_t - s.bp.step_start_t ≥ STATE_TRANS_DELAY) ∧
      (¬ (ABS (s.drs.tire_steer_cmd s.bp.acf.nw_i) ≤ TOW_COMPLETE_ACF_STEER_THRESH ∧
            ABS (bp_ls_tug s).cur_steer ≤ TOW_COMPLETE_TUG_STEER_THRESH ∧
            (∀ last_hdg, s.bp.last_hdg = some last_hdg →
              |M.rel_hdg (corr_acf_pos M s).hdg last_hdg| ≤ 1) ∧
            ABS s.bp.cur_pos.spd < SPEED_COMPLETE_THRESH) →
        (pb_step_stopping M s).bp.step = s.bp.step ∧
          (pb_step_stopping M s).bp.step_start_t = s.bp.cur_t ∧
          (s3.bp.step_start_t = (pb_step_stopping M s).bp.step_start_t →
            (pb_step_stopping M s3).bp.step ≠ s3.bp.step →
            s3.bp.cur_t - s.bp.cur_t ≥ STATE_TRANS_DELAY)) ∧
      (ABS (bp_ls_tug s).cur_steer > TOW_COMPLETE_TUG_STEER_THRESH ∨
          ABS (s.drs.tire_steer_cmd s.bp.acf.nw_i) > TOW_COMPLETE_ACF_STEER_THRESH →
        ∃ a, (pb_step_stopping M s).calls =
            s.calls ++ [call_t.turn_nosewheel a,
              call_t.push_at_speed
                (if s.bp.last_seg_is_back then -M.MIN_SPEED_XP10 else M.MIN_SPEED_XP10)] ∧
          (M.MIN_SPEED_XP10 ≠ 0 →
            (if s.bp.last_seg_is_back then -M.MIN_SPEED_XP10 else M.MIN_SPEED_XP10) ≠ 0)) := by
  have hcond : dwell_exit_cond M dwell_phase_t.STOPPING s = true ↔
      (ABS (s.drs.tire_steer_cmd s.bp.acf.nw_i) ≤ TOW_COMPLETE_ACF_STEER_THRESH ∧
        ABS (bp_ls_tug s).cur_steer ≤ TOW_COMPLETE_TUG_STEER_THRESH ∧
        (∀ last_hdg, s.bp.last_hdg = some last_hdg →
          |M.rel_hdg (corr_acf_pos M s).hdg last_hdg| ≤ 1) ∧
        ABS s.bp.cur_pos.spd < SPEED_COMPLETE_THRESH) := by
    have e : dwell_exit_cond M dwell_phase_t.STOPPING s =
        (!decide (ABS s.bp.cur_pos.spd ≥ SPEED_COMPLETE_THRESH) && pb_step_stopping_done M s) :=
      rfl
    rw [e, Bool.and_eq_true, pb_step_stopping_done_iff M s hmaster, Bool.not_eq_true',
      decide_eq_false_iff_not, not_le]
    constructor
    · rintro ⟨h1, h2, h3, h4⟩
      exact ⟨h2, h3, h4, h1⟩
    · rintro ⟨h2, h3, h4, h1⟩
      exact ⟨h1, h2, h3, h4⟩
  obtain ⟨o1, o2⟩ := pb_step_stopping_outcome M s
  refine ⟨?_, ?_, ?_⟩
  · intro hne
    obtain ⟨c, d, e⟩ := o2 hne
    obtain ⟨c1, c2, c3, c4⟩ := hcond.mp c
    exact ⟨e, c1, c2, c3, c4, d⟩
  · intro hn
    have hf : dwell_exit_cond M dwell_phase_t.STOPPING s = false := by
      cases hb : dwell_exit_cond M dwell_phase_t.STOPPING s with
      | true => exact absurd (hcond.mp hb) hn
      | false => rfl
    obtain ⟨r1, r2⟩ := o1 hf
    refine ⟨r2, r1, ?_⟩
    intro h3 hne3
    obtain ⟨_, d, _⟩ := (pb_step_stopping_outcome M s3).2 hne3
    rw [h3, r1] at d
    exact d
  · intro hthr
    obtain ⟨a, ha⟩ := pb_step_stopping_steer_creep M s hmaster hthr
    refine ⟨a, ?_, ?_⟩
    · unfold pb_step_stopping
      dsimp only
      rw [ha]
      dsimp only
      rw [if_pos (Or.inr rfl)]
      rw [show ∀ x : State, (step_rearm x).calls = x.calls from fun _ => rfl,
        push_at_speed_calls, turn_nosewheel_calls, List.append_assoc]
      rfl
    · intro h0
      split_ifs
      · exact neg_ne_zero.mpr h0
      · exact h0

/-- Witness of the amended C27: with the tug's steering 10 degrees off centre the phase
stays STOPPING and the phase timer is re-armed to the current time. -/
theorem pb_step_stopping_straightens_witness :
    (pb_step_stopping ext_example state_stopping_crooked).bp.step = PB_STEP_STOPPING ∧
      (pb_step_stopping ext_example state_stopping_crooked).bp.step_start_t = 100 :=
  have h := (pb_step_stopping_straightens ext_example state_stopping_crooked
    state_stopping_crooked rfl).2.1
    (fun hc => absurd hc.2.1
      (by norm_num [state_stopping_crooked, bp_ls_tug, ABS, TOW_COMPLETE_TUG_STEER_THRESH]))
  ⟨h.1, h.2.1⟩

/-! ### Each phase handler keeps the phase or advances it by one -/

theorem pb_step_driving_up_close_phase (M : Ext) (s : State) :
    (pb_step_driving_up_close M s).bp.step = s.bp.step ∨ (pb_step_driving_up_close M s).bp.step = s.bp.step + 1 := by
  unfold pb_step_driving_up_close
  try dsimp only
  split_ifs
  all_goals first
    | exact Or.inl rfl
    | exact Or.inr rfl

theorem pb_step_opening_cradle_phase (s : State) :
    (pb_step_opening_cradle s).bp.step = s.bp.step ∨ (pb_step_opening_cradle s).bp.step = s.bp.step + 1 := by
  unfold pb_step_opening_cradle
  try dsimp only
  split_ifs
  all_goals first
    | exact Or.inl rfl
    | exact Or.inr rfl

theorem pb_step_driving_up_connect_phase (M : Ext) (s : State) :
    (pb_step_driving_up_connect M s).bp.step = s.bp.step ∨ (pb_step_driving_up_connect M s).bp.step = s.bp.step + 1 := by
  unfold pb_step_driving_up_connect
  try dsimp only
  split_ifs
  all_goals first
    | exact Or.inl rfl
    | exact Or.inr rfl

theorem pb_step_connect_grab_phase (s : State) :
    (pb_step_connect_grab s).bp.step = s.bp.step ∨ (pb_step_connect_grab s).bp.step = s.bp.step + 1 := by
  unfold pb_step_connect_grab
  try dsimp only
  split_ifs
  all_goals first
    | exact Or.inl rfl
    | exact Or.inr rfl

theorem pb_step_connect_winch_phase (M : Ext) (s : State) :
    (pb_step_connect_winch M s).bp.step = s.bp.step ∨ (pb_step_connect_winch M s).bp.step = s.bp.step + 1 := by
  unfold pb_step_connect_winch
  try dsimp only
  split_ifs
  all_goals first
    | exact Or.inl rfl
    | exact Or.inr rfl

theorem pb_step_lift_phase (M : Ext) (s : State) :
    (pb_step_lift M s).bp.step = s.bp.step ∨ (pb_step_lift M s).bp.step = s.bp.step + 1 := by
  unfold pb_step_lift
  try dsimp only
  split_ifs
  all_goals first
    | exact Or.inl rfl
    | exact Or.inr rfl

theorem pb_step_connected_phase (M : Ext) (s : State) :
    (pb_step_connected M s).bp.step = s.bp.step ∨ (pb_step_connected M s).bp.step = s.bp.step + 1 := by
  unfold pb_step_connected
  try dsimp only
  split_ifs
  all_goals first
    | exact Or.inl rfl
    | exact Or.inr rfl

theorem pb_step_starting_phase (M : Ext) (s : State) :
    (pb_step_starting M s).bp.step = s.bp.step ∨ (pb_step_starting M s).bp.step = s.bp.step + 1 := by
  unfold pb_step_starting
  try dsimp only
  split_ifs
  all_goals first
    | exact Or.inl rfl
    | exact Or.inr rfl

theorem pb_step_stopped_phase (M : Ext) (s : State) :
    (pb_step_stopped M s).bp.step = s.bp.step ∨ (pb_step_stopped M s).bp.step = s.bp.step + 1 := by
  unfold pb_step_stopped
  try dsimp only
  split_ifs
  all_goals first
    | exact Or.inl rfl
    | exact Or.inr rfl

theorem pb_step_lowering_phase (M : Ext) (s : State) :
    (pb_step_lowering M s).bp.step = s.bp.step ∨ (pb_step_lowering M s).bp.step = s.bp.step + 1 := by
  unfold pb_step_lowering
  try dsimp only
  split_ifs
  all_goals first
    | exact Or.inl rfl
    | exact Or.inr rfl

theorem pb_step_ungrabbing_phase (s : State) :
    (pb_step_ungrabbing s).bp.step = s.bp.step ∨ (pb_step_ungrabbing s).bp.step = s.bp.step + 1 := by
  unfold pb_step_ungrabbing
  try dsimp only
  split_ifs
  all_goals first
    | exact Or.inl rfl
    | exact Or.inr rfl

theorem pb_step_waiting4ok2disco_phase (M : Ext) (s : State) :
    (pb_step_waiting4ok2disco M s).bp.step = s.bp.step ∨ (pb_step_waiting4ok2disco M s).bp.step = s.bp.step + 1 := by
  unfold pb_step_waiting4ok2disco disco_handler
  try dsimp only
  split_ifs
  all_goals first
    | exact Or.inl rfl
    | exact Or.inr rfl

theorem pb_step_moving_away_phase (M : Ext) (s : State) :
    (pb_step_moving_away M s).bp.step = s.bp.step ∨ (pb_step_moving_away M s).bp.step = s.bp.step + 1 := by
  unfold pb_step_moving_away
  try dsimp only
  split_ifs
  all_goals first
    | exact Or.inl rfl
    | exact Or.inr rfl

theorem pb_step_closing_cradle_phase (s : State) :
    (pb_step_closing_cradle s).bp.step = s.bp.step ∨ (pb_step_closing_cradle s).bp.step = s.bp.step + 1 := by
  unfold pb_step_closing_cradle
  try dsimp only
  split_ifs
  all_goals first
    | exact Or.inl rfl
    | exact Or.inr rfl

theorem pb_step_waiting_for_doors_phase (s : State) :
    (pb_step_waiting_for_doors s).bp.step = s.bp.step + 1 :=
  rfl

theorem pb_step_grab_phase (M : Ext) (s : State) :
    (pb_step_grab M s).bp.step = s.bp.step ∨ (pb_step_grab M s).bp.step = s.bp.step + 1 := by
  unfold pb_step_grab
  dsimp only
  split_ifs
  all_goals first
    | exact pb_step_connect_grab_phase _
    | exact pb_step_connect_winch_phase M _

theorem bp_run_push_drive_bp_step (M : Ext) (out : drive_out_t) (s : State) :
    (bp_run_push_drive M out s).bp.step = s.bp.step := by
  unfold bp_run_push_drive
  dsimp only
  split_ifs <;> rfl

theorem reversal_check_bp_step (rest : List seg_t) (lb : Bool) (s : State) :
    (reversal_check rest lb s).bp.step = s.bp.step := by
  unfold reversal_check
  cases rest with
  | nil => rfl
  | cons next tl =>
    dsimp only
    split_ifs <;> rfl

theorem bp_run_push_loop_bp_step (M : Ext) (segs : List seg_t) (lb : Bool) (s : State) :
    (bp_run_push_loop M segs lb s).1.bp.step = s.bp.step := by
  induction segs generalizing lb s with
  | nil => rfl
  | cons seg rest ih =>
    rw [bp_run_push_loop]
    split_ifs
    · rfl
    · rfl
    · rw [bp_run_push_drive_bp_step]
      rfl
    · rw [ih, reversal_check_bp_step]
      rfl

theorem bp_run_push_manual_bp_step (M : Ext) (s : State) :
    (bp_run_push_manual M s).1.bp.step = s.bp.step := by
  unfold bp_run_push_manual
  dsimp only
  by_cases hb : brakes_applied s = true
  · rw [if_pos hb]
    rfl
  · rw [if_neg hb]
    by_cases hw : reversal_wait s = true
    · rw [if_pos hw]
      rfl
    · rw [if_neg hw]
      rfl

theorem bp_run_push_bp_step (M : Ext) (s : State) : (bp_run_push M s).1.bp.step = s.bp.step := by
  unfold bp_run_push
  split_ifs
  · exact bp_run_push_manual_bp_step M s
  · exact bp_run_push_loop_bp_step M _ _ s

theorem pb_step_pushing_phase (M : Ext) (s : State) :
    (pb_step_pushing M s).bp.step = s.bp.step ∨ (pb_step_pushing M s).bp.step = s.bp.step + 1 := by
  unfold pb_step_pushing
  dsimp only
  split_ifs
  · exact Or.inl rfl
  · exact Or.inl rfl
  · refine Or.inr ?_
    show (bp_run_push M _).1.bp.step + 1 = s.bp.step + 1
    rw [bp_run_push_bp_step]
  · refine Or.inl ?_
    rw [bp_run_push_bp_step]
  · exact Or.inl rfl

theorem pb_step_stopping_phase (M : Ext) (s : State) :
    (pb_step_stopping M s).bp.step = s.bp.step ∨
      (pb_step_stopping M s).bp.step = s.bp.step + 1 := by
  obtain ⟨e1, _, _, _⟩ := pb_step_stopping_steer_bp M s
  unfold pb_step_stopping
  dsimp only
  split_ifs
  all_goals first
    | exact Or.inl e1
    | exact Or.inr (congrArg (· + 1) e1)

theorem pb_step_start_phase (M : Ext) (s s1 : State) (h : pb_step_start M s = some s1) :
    s1.bp.step = s.bp.step + 1 := by
  unfold pb_step_start at h
  dsimp only at h
  split_ifs at h
  all_goals
    simp only [Option.map_some', Option.map_none', Option.some.injEq] at h
  all_goals first
    | contradiction
    | (subst h
       rfl)

theorem zibo_chocks_remove_bp_step (s : State) : (zibo_chocks_remove s).bp.step = s.bp.step := by
  rw [zibo_chocks_remove_bp]

theorem pb_step_waiting_for_pbrake_phase (M : Ext) (s s1 : State)
    (h : pb_step_waiting_for_pbrake M s = some s1) :
    s1.bp.step = s.bp.step ∨ s1.bp.step = s.bp.step + 1 := by
  unfold pb_step_waiting_for_pbrake at h
  dsimp only at h
  split_ifs at h
  all_goals first
    | contradiction
    | (rw [Option.some.injEq] at h
       subst h
       first
         | exact Or.inl rfl
         | exact Or.inr (congrArg (· + 1) (zibo_chocks_remove_bp_step s)))

theorem pb_step_starting2clear_phase (M : Ext) (s s1 : State)
    (h : pb_step_starting2clear M s = some s1) :
    s1.bp.step = s.bp.step ∨ s1.bp.step = s.bp.step + 1 := by
  unfold pb_step_starting2clear at h
  dsimp only at h
  split_ifs at h
  all_goals first
    | contradiction
    | (rw [Option.some.injEq] at h
       subst h
       first
         | exact Or.inl rfl
         | exact Or.inr rfl)

theorem pb_step_clear_signal_phase (M : Ext) (s s1 : State)
    (h : pb_step_clear_signal M s = some s1) :
    s1.bp.step = s.bp.step ∨ s1.bp.step = s.bp.step + 1 := by
  unfold pb_step_clear_signal at h
  dsimp only at h
  split_ifs at h with h1
  · rw [Option.some.injEq] at h
    subst h
    exact Or.inl rfl
  all_goals
    (rw [Option.map_eq_some'] at h
     obtain ⟨t, _, ht⟩ := h
     subst ht
     exact Or.inr rfl)

/-- A case of the phase switch that lets the tick go on keeps the phase or
advances it by one. -/
theorem bp_run_switch_phase (M : Ext) (s s1 : State) (hst : s.bp_started = true)
    (h : bp_run_switch M s = some (s1, true)) :
    s1.bp.step = s.bp.step ∨ s1.bp.step = s.bp.step + 1 := by
  by_cases h_tug_load : s.bp.step = PB_STEP_TUG_LOAD
  · rcases bp_run_switch_load M s s1 true h_tug_load hst h with
      ⟨f1, _⟩ | ⟨_, f2, _⟩ | ⟨_, _, f3, _⟩
    · exact absurd f1 (by decide)
    · exact Or.inl (by rw [f2])
    · refine Or.inr ?_
      rw [f3, h_tug_load]
      rfl
  unfold bp_run_switch at h
  by_cases h_off : s.bp.step = PB_STEP_OFF
  · rw [if_pos h_off] at h
    contradiction
  rw [if_neg h_off, if_neg h_tug_load] at h
  by_cases h_start : s.bp.step = PB_STEP_START
  · rw [if_pos h_start] at h
    split_ifs at h
    · obtain ⟨e1, _⟩ := map_pair_eq _ _ _ h
      exact Or.inr (pb_step_start_phase M s s1 e1)
    · obtain ⟨e1, _⟩ := some_pair_eq _ _ _ _ h
      subst e1
      exact Or.inl rfl
  rw [if_neg h_start] at h
  by_cases h_driving_up_close : s.bp.step = PB_STEP_DRIVING_UP_CLOSE
  · rw [if_pos h_driving_up_close] at h
    obtain ⟨e1, _⟩ := some_pair_eq _ _ _ _ h
    subst e1
    exact pb_step_driving_up_close_phase M s
  rw [if_neg h_driving_up_close] at h
  by_cases h_waiting_for_doors : s.bp.step = PB_STEP_WAITING_FOR_DOORS
  · rw [if_pos h_waiting_for_doors] at h
    obtain ⟨e1, _⟩ := some_pair_eq _ _ _ _ h
    subst e1
    exact Or.inr (pb_step_waiting_for_doors_phase s)
  rw [if_neg h_waiting_for_doors] at h
  by_cases h_opening_cradle : s.bp.step = PB_STEP_OPENING_CRADLE
  · rw [if_pos h_opening_cradle] at h
    obtain ⟨e1, _⟩ := some_pair_eq _ _ _ _ h
    subst e1
    exact pb_step_opening_cradle_phase s
  rw [if_neg h_opening_cradle] at h
  by_cases h_waiting_for_pbrake : s.bp.step = PB_STEP_WAITING_FOR_PBRAKE
  · rw [if_pos h_waiting_for_pbrake] at h
    obtain ⟨e1, _⟩ := map_pair_eq _ _ _ h
    exact pb_step_waiting_for_pbrake_phase M s s1 e1
  rw [if_neg h_waiting_for_pbrake] at h
  by_cases h_driving_up_connect : s.bp.step = PB_STEP_DRIVING_UP_CONNECT
  · rw [if_pos h_driving_up_connect] at h
    obtain ⟨e1, _⟩ := some_pair_eq _ _ _ _ h
    subst e1
    exact pb_step_driving_up_connect_phase M s
  rw [if_neg h_driving_up_connect] at h
  by_cases h_grabbing : s.bp.step = PB_STEP_GRABBING
  · rw [if_pos h_grabbing] at h
    obtain ⟨e1, _⟩ := some_pair_eq _ _ _ _ h
    subst e1
    exact pb_step_grab_phase M s
  rw [if_neg h_grabbing] at h
  by_cases h_lifting : s.bp.step = PB_STEP_LIFTING
  · rw [if_pos h_lifting] at h
    obtain ⟨e1, _⟩ := some_pair_eq _ _ _ _ h
    subst e1
    exact pb_step_lift_phase M s
  rw [if_neg h_lifting] at h
  by_cases h_connected : s.bp.step = PB_STEP_CONNECTED
  · rw [if_pos h_connected] at h
    obtain ⟨e1, _⟩ := some_pair_eq _ _ _ _ h
    subst e1
    exact pb_step_connected_phase M s
  rw [if_neg h_connected] at h
  by_cases h_starting : s.bp.step = PB_STEP_STARTING
  · rw [if_pos h_starting] at h
    obtain ⟨e1, _⟩ := some_pair_eq _ _ _ _ h
    subst e1
    exact pb_step_starting_phase M s
  rw [if_neg h_starting] at h
  by_cases h_pushing : s.bp.step = PB_STEP_PUSHING
  · rw [if_pos h_pushing] at h
    obtain ⟨e1, _⟩ := some_pair_eq _ _ _ _ h
    subst e1
    exact pb_step_pushing_phase M s
  rw [if_neg h_pushing] at h
  by_cases h_stopping : s.bp.step = PB_STEP_STOPPING
  · rw [if_pos h_stopping] at h
    obtain ⟨e1, _⟩ := some_pair_eq _ _ _ _ h
    subst e1
    exact pb_step_stopping_phase M s
  rw [if_neg h_stopping] at h
  by_cases h_stopped : s.bp.step = PB_STEP_STOPPED
  · rw [if_pos h_stopped] at h
    obtain ⟨e1, _⟩ := some_pair_eq _ _ _ _ h
    subst e1
    exact pb_step_stopped_phase M s
  rw [if_neg h_stopped] at h
  by_cases h_lowering : s.bp.step = PB_STEP_LOWERING
  · rw [if_pos h_lowering] at h
    obtain ⟨e1, _⟩ := some_pair_eq _ _ _ _ h
    subst e1
    exact pb_step_lowering_phase M s
  rw [if_neg h_lowering] at h
  by_cases h_ungrabbing : s.bp.step = PB_STEP_UNGRABBING
  · rw [if_pos h_ungrabbing] at h
    obtain ⟨e1, _⟩ := some_pair_eq _ _ _ _ h
    subst e1
    exact pb_step_ungrabbing_phase s
  rw [if_neg h_ungrabbing] at h
  by_cases h_waiting4ok2disco : s.bp.step = PB_STEP_WAITING4OK2DISCO
  · rw [if_pos h_waiting4ok2disco] at h
    obtain ⟨e1, _⟩ := some_pair_eq _ _ _ _ h
    subst e1
    exact pb_step_waiting4ok2disco_phase M s
  rw [if_neg h_waiting4ok2disco] at h
  by_cases h_moving_away : s.bp.step = PB_STEP_MOVING_AWAY
  · rw [if_pos h_moving_away] at h
    obtain ⟨e1, _⟩ := some_pair_eq _ _ _ _ h
    subst e1
    exact pb_step_moving_away_phase M s
  rw [if_neg h_moving_away] at h
  by_cases h_closing_cradle : s.bp.step = PB_STEP_CLOSING_CRADLE
  · rw [if_pos h_closing_cradle] at h
    obtain ⟨e1, _⟩ := some_pair_eq _ _ _ _ h
    subst e1
    exact pb_step_closing_cradle_phase s
  rw [if_neg h_closing_cradle] at h
  by_cases h_starting2clear : s.bp.step = PB_STEP_STARTING2CLEAR
  · rw [if_pos h_starting2clear] at h
    obtain ⟨e1, _⟩ := map_pair_eq _ _ _ h
    exact pb_step_starting2clear_phase M s s1 e1
  rw [if_neg h_starting2clear] at h
  by_cases h_moving2clear : s.bp.step = PB_STEP_MOVING2CLEAR
  · rw [if_pos h_moving2clear] at h
    obtain ⟨e1, _⟩ := some_pair_eq _ _ _ _ h
    subst e1
    split_ifs
    · exact Or.inr rfl
    · exact Or.inl rfl
  rw [if_neg h_moving2clear] at h
  by_cases h_clear_signal : s.bp.step = PB_STEP_CLEAR_SIGNAL
  · rw [if_pos h_clear_signal] at h
    obtain ⟨e1, _⟩ := map_pair_eq _ _ _ h
    exact pb_step_clear_signal_phase M s s1 e1
  rw [if_neg h_clear_signal] at h
  by_cases h_driving_away : s.bp.step = PB_STEP_DRIVING_AWAY
  · rw [if_pos h_driving_away] at h
    split_ifs at h
    · obtain ⟨_, e2⟩ := some_pair_eq _ _ _ _ h
      exact absurd e2 (by decide)
    · obtain ⟨e1, _⟩ := some_pair_eq _ _ _ _ h
      subst e1
      exact Or.inl rfl
  rw [if_neg h_driving_away] at h
  obtain ⟨e1, _⟩ := some_pair_eq _ _ _ _ h
  subst e1
  exact Or.inl rfl

theorem bp_run_phase_adv (M : Ext) (x s1 : State) (hst : x.bp_started = true)
    (hq : bp_run_quick_debug M x = (x, true)) (h : bp_run_phase M x = some (-1, s1)) :
    s1.bp.step = x.bp.step ∨ s1.bp.step = x.bp.step + 1 := by
  unfold bp_run_phase at h
  rw [hq] at h
  dsimp only at h
  rw [if_neg (by decide)] at h
  have key : ∀ y : State, y.bp.step = x.bp.step → y.bp_started = true →
      (match bp_run_switch M y with
        | none => none
        | some (s, true) => some (-1, bp_run_finish s)
        | some (s, false) => some (0, s)) = some ((-1 : Int), s1) →
      s1.bp.step = x.bp.step ∨ s1.bp.step = x.bp.step + 1 := by
    intro y hy hys hm
    cases hsw : bp_run_switch M y with
    | none =>
      rw [hsw] at hm
      contradiction
    | some p =>
      obtain ⟨s2, fl⟩ := p
      rw [hsw] at hm
      cases fl with
      | true =>
        dsimp only at hm
        rw [Option.some.injEq, Prod.mk.injEq] at hm
        obtain ⟨_, e2⟩ := hm
        subst e2
        have := bp_run_switch_phase M y s2 hys hsw
        rw [hy] at this
        exact this
      | false =>
        dsimp only at hm
        rw [Option.some.injEq, Prod.mk.injEq] at hm
        exact absurd hm.1 (by decide)
  split_ifs at h with h2
  · exact key { x with disco_win := false } rfl hst h
  · exact key x rfl hst h

/-- A tick without stop signal, quick-debug tug or teardown keeps the phase or
advances it by one. -/
theorem bp_run_tick_adv (M : Ext) (s s1 : State) (hst : s.bp_started = true)
    (hstop : stop_signal s = false)
    (hquick : (bp_ls_tug (bp_run_prelude M s)).info.quick_debug = false)
    (h : bp_run M s = some (-1, s1)) :
    s1.bp.step = s.bp.step ∨ s1.bp.step = s.bp.step + 1 := by
  by_cases hshort : s.drs.sim_time - s.bp.last_t < MIN_STEP_TIME
  · rw [bp_run_short M s hshort, Option.some.injEq, Prod.mk.injEq] at h
    obtain ⟨_, e⟩ := h
    subst e
    exact Or.inl (by simp [bp_gather])
  · rw [bp_run_long M s hshort] at h
    by_cases hlost : nw_steer_lost s = true
    · rw [if_pos hlost, Option.some.injEq, Prod.mk.injEq] at h
      exact absurd h.1 (by decide)
    · rw [if_neg hlost] at h
      have hs : bp_run_stop (bp_run_prelude M s) = some (bp_run_prelude M s) := by
        unfold bp_run_stop
        rw [stop_signal_bp_run_prelude, hstop]
        rfl
      rw [hs] at h
      dsimp only at h
      have hq : bp_run_quick_debug M (bp_run_prelude M s) = (bp_run_prelude M s, true) := by
        unfold bp_run_quick_debug
        rw [if_neg]
        intro hc
        rw [hquick] at hc
        exact absurd hc.2.2 (by decide)
      have := bp_run_phase_adv M _ s1 ((bp_run_prelude_bp_started M s).trans hst) hq h
      rw [bp_run_prelude_bp_step] at this
      exact this

/-- In a session a tick never lowers the phase, except that a teardown
(return value 0) resets it to OFF. -/
theorem bp_run_step_mono (M : Ext) (s s1 : State) (r : Int) (hinv : session_inv s)
    (hst : s.bp_started = true) (h : bp_run M s = some (r, s1)) :
    s.bp.step ≤ s1.bp.step ∨ (r = 0 ∧ s1.bp.step = PB_STEP_OFF) := by
  obtain ⟨_, _, i3, _⟩ := hinv
  have i3 := i3 hst
  by_cases hshort : s.drs.sim_time - s.bp.last_t < MIN_STEP_TIME
  · rw [bp_run_short M s hshort, Option.some.injEq, Prod.mk.injEq] at h
    obtain ⟨_, e⟩ := h
    subst e
    exact Or.inl (le_of_eq (by simp [bp_gather]))
  · rw [bp_run_long M s hshort] at h
    by_cases hlost : nw_steer_lost s = true
    · rw [if_pos hlost, Option.some.injEq, Prod.mk.injEq] at h
      obtain ⟨e1, e⟩ := h
      subst e
      obtain ⟨_, _, m3, _, _⟩ := bp_run_moved_facts M s
      exact Or.inr ⟨e1.symm, (bp_complete_started _ (m3.trans hst)).1⟩
    · rw [if_neg hlost] at h
      obtain ⟨_, p2, _⟩ := bp_run_prelude_facts M s
      have pst : (bp_run_prelude M s).bp_started = true :=
        (bp_run_prelude_bp_started M s).trans hst
      cases hstop : bp_run_stop (bp_run_prelude M s) with
      | none =>
        rw [hstop] at h
        dsimp only at h
        rw [Option.some.injEq, Prod.mk.injEq] at h
        obtain ⟨e1, e⟩ := h
        subst e
        exact Or.inr ⟨e1.symm, (bp_complete_started _ pst).1⟩
      | some x =>
        rw [hstop] at h
        dsimp only at h
        obtain ⟨_, k2, k3, k4, _⟩ := bp_run_stop_keeps _ _ hstop
        rw [bp_run_prelude_bp_step] at k4
        have xst : x.bp_started = true := k2.trans pst
        by_cases hlate : PB_STEP_START ≤ x.bp.step
        · rcases bp_run_phase_late M x s1 r hlate xst h with ⟨_, hk⟩ | ⟨hr, ht⟩
          · exact Or.inl (le_trans k4 hk.2.2.2.1)
          · exact Or.inr ⟨hr, ht.2.2.1⟩
        · have hsl : ¬ PB_STEP_START ≤ s.bp.step := fun hc => hlate (le_trans hc k4)
          have hnone : x.tug = none := by
            cases ht : x.tug with
            | none => rfl
            | some t =>
              have h1 : x.tug.isSome = true := by rw [ht]; rfl
              rw [k3, p2] at h1
              exact absurd (i3.mp h1) hsl
          have hcase : x.bp.step = PB_STEP_OFF ∨ x.bp.step = PB_STEP_TUG_LOAD := by
            unfold PB_STEP_START at hlate
            unfold PB_STEP_OFF PB_STEP_TUG_LOAD
            omega
          rcases hcase with hoff | hload
          · rw [bp_run_phase_off M x hoff hnone] at h
            contradiction
          · rcases bp_run_phase_load M x s1 r hload hnone xst h with
              ⟨hr, ht⟩ | ⟨_, _, _, _, f5⟩
            · exact Or.inr ⟨hr, ht.2.2.1⟩
            · refine Or.inl (le_trans k4 ?_)
              rcases f5 with ⟨_, g2⟩ | ⟨_, g2⟩
              · rw [g2, hload]
              · rw [g2, hload]
                decide

/-! ### C26 -/

/-- C26: for every tick of `bp_run` in a session (the session is started)
that is not affected by a stop signal (`stop_signal` is false), by a
quick-debug tug (the tug that the quick-debug block sees does not set
`quick_debug`) or by a teardown (the tick returns -1), the phase after the
tick is the phase before it or its immediate successor. Whatever the stop
signal and the tug are, a tick lowers the phase only by a teardown, which
returns 0 and resets the phase to OFF; the operator's stop and disconnect
commands do not change the phase; and the reconnect command changes it only
from WAITING_FOR_DISCONNECT_OK to GRABBING. -/
theorem bp_run_phase_order (M : Ext) (s s1 : State) (r : Int) (hs : session M s)
    (hstarted : s.bp_started = true) (hrun : bp_run M s = some (r, s1)) :
    (stop_signal s = false →
        (bp_ls_tug (bp_run_prelude M s)).info.quick_debug = false → r = -1 →
        s1.bp.step = s.bp.step ∨ s1.bp.step = s.bp.step + 1) ∧
      (s1.bp.step < s.bp.step → r = 0 ∧ s1.bp.step = PB_STEP_OFF) ∧
      (bp_stop s).2.bp.step = s.bp.step ∧
      (disco_handler s).2.bp.step = s.bp.step ∧
      (∀ (r2 : Int) (s2 : State), recon_handler s = some (r2, s2) →
        s2.bp.step = s.bp.step ∨
          (s.bp.step = PB_STEP_WAITING4OK2DISCO ∧ s2.bp.step = PB_STEP_GRABBING)) := by
  refine ⟨?_, ?_, ?_, ?_, ?_⟩
  · intro hstop hquick hr
    rw [hr] at hrun
    exact bp_run_tick_adv M s s1 hstarted hstop hquick hrun
  · intro hlt
    rcases bp_run_step_mono M s s1 r (session_session_inv M s hs) hstarted hrun with h | h
    · exact absurd hlt (not_lt.mpr h)
    · exact h
  · unfold bp_stop
    split_ifs <;> rfl
  · unfold disco_handler
    split_ifs <;> rfl
  · intro r2 s2 h2
    unfold recon_handler at h2
    split_ifs at h2 with h1
    · rw [Option.some.injEq, Prod.mk.injEq] at h2
      exact Or.inl (by rw [← h2.2])
    · refine Or.inr ⟨not_not.mp h1, ?_⟩
      unfold bp_reconnect_notify at h2
      dsimp only at h2
      split_ifs at h2
      · rw [Option.map_some', Option.some.injEq, Prod.mk.injEq] at h2
        rw [← h2.2]
      · rw [Option.map_none'] at h2
        contradiction
      · rw [Option.map_some', Option.some.injEq, Prod.mk.injEq] at h2
        rw [← h2.2]

/-- Witness of C26: the first full tick of the example session loads the tug
and moves from the tug-dispatch phase to the next one. -/
theorem bp_run_phase_order_witness :
    (flight_loop ext_example [1] (state_begun ext_example)).bp.step =
      (state_begun ext_example).bp.step + 1 :=
  ((bp_run_phase_order ext_example
      { state_begun ext_example with
        drs := { (state_begun ext_example).drs with sim_time := 1 } }
      (flight_loop ext_example [1] (state_begun ext_example)) (-1)
      (session.host _ _ (session_state_begun ext_example) ⟨rfl, rfl, rfl, rfl, rfl, rfl, rfl⟩)
      (by with_unfolding_all rfl) (by with_unfolding_all rfl)).1
    (by with_unfolding_all rfl) (by with_unfolding_all rfl) rfl).resolve_left
    (by with_unfolding_all decide)

/-! ### C24 -/

/-- C24, the claim as stated fails: a tick of OPENING_CRADLE with the doors
open does not re-arm the phase timer. The phase was entered at time 0; the
tick at 6 s finds the doors open and leaves the phase and the timer as they
are; the doors are then closed, and the tick at 12 s advances the phase to
WAITING_FOR_PARK_BRAKE, although the doors have not been clear for 12 s. -/
theorem bp_run_opening_cradle_no_rearm :
    (state_cradle 6 false).bp.step = PB_STEP_OPENING_CRADLE ∧
      (state_cradle 6 false).bp.step_start_t = 0 ∧
      (flight_loop ext_example [6] (state_cradle 6 false)).bp.step = PB_STEP_OPENING_CRADLE ∧
      (flight_loop ext_example [6] (state_cradle 6 false)).bp.step_start_t = 0 ∧
      (flight_loop ext_example [12]
        { flight_loop ext_example [6] (state_cradle 6 false) with
          drs := { (flight_loop ext_example [6] (state_cradle 6 false)).drs with
            doors_closed := true } }).bp.step = PB_STEP_WAITING_FOR_PBRAKE := by
  refine ⟨rfl, rfl, ?_, ?_, ?_⟩
  · with_unfolding_all rfl
  · with_unfolding_all rfl
  · with_unfolding_all rfl

/-- C24 (amended): in phase OPENING_CRADLE the phase switch runs the cradle
block. A tick on which doors or ground equipment are not clear leaves the
whole state unchanged: progress pauses, but the phase timer is not re-armed.
The phase advances, by one and with the timer set to the current time,
exactly on a tick on which the doors are clear and at least `PB_CRADLE_DELAY +
STATE_TRANS_DELAY` = 12 s have passed since the phase was entered; time spent
with the doors open counts towards these 12 s. -/
theorem pb_step_opening_cradle_doors (M : Ext) (s : State)
    (hphase : s.bp.step = PB_STEP_OPENING_CRADLE) :
    bp_run_switch M s = some (pb_step_opening_cradle s, true) ∧
      (s.drs.doors_closed = false → pb_step_opening_cradle s = s) ∧
      ((pb_step_opening_cradle s).bp.step ≠ s.bp.step ↔
        s.drs.doors_closed = true ∧ s.bp.cur_t - s.bp.step_start_t ≥ 12) ∧
      ((pb_step_opening_cradle s).bp.step ≠ s.bp.step →
        (pb_step_opening_cradle s).bp.step = PB_STEP_WAITING_FOR_PBRAKE ∧
          (pb_step_opening_cradle s).bp.step_start_t = s.bp.cur_t) ∧
      ((pb_step_opening_cradle s).bp.step = s.bp.step →
        (pb_step_opening_cradle s).bp.step_start_t = s.bp.step_start_t) := by
  have h12 : PB_CRADLE_DELAY + STATE_TRANS_DELAY = 12 := by
    norm_num [PB_CRADLE_DELAY, STATE_TRANS_DELAY]
  refine ⟨?_, ?_, ?_, ?_, ?_⟩
  · unfold bp_run_switch
    rw [hphase]
    rfl
  · intro hd
    unfold pb_step_opening_cradle
    rw [if_neg (by rw [hd]; decide)]
  · unfold pb_step_opening_cradle
    dsimp only
    rw [h12]
    split_ifs with h1 h2 h3
    · exact ⟨fun _ => ⟨h1, h2⟩, fun _ => Nat.succ_ne_self _⟩
    · exact ⟨fun _ => ⟨h1, h2⟩, fun _ => Nat.succ_ne_self _⟩
    · exact ⟨fun h => absurd rfl h, fun h => absurd h.2 h2⟩
    · exact ⟨fun h => absurd rfl h, fun h => absurd h.1 h1⟩
  · unfold pb_step_opening_cradle
    dsimp only
    split_ifs with h1 h2 h3
    · exact fun _ => ⟨(congrArg (· + 1) hphase : s.bp.step + 1 = _), rfl⟩
    · exact fun _ => ⟨(congrArg (· + 1) hphase : s.bp.step + 1 = _), rfl⟩
    · exact fun h => absurd rfl h
    · exact fun h => absurd rfl h
  · unfold pb_step_opening_cradle
    dsimp only
    split_ifs with h1 h2 h3
    · exact fun h => absurd h (Nat.succ_ne_self _)
    · exact fun h => absurd h (Nat.succ_ne_self _)
    · exact fun _ => rfl
    · exact fun _ => rfl

/-- Witness of the amended C24: with the doors open the tick at 6 s changes
nothing. -/
theorem pb_step_opening_cradle_doors_witness :
    pb_step_opening_cradle (state_cradle 6 false) = state_cradle 6 false :=
  (pb_step_opening_cradle_doors ext_example (state_cradle 6 false) rfl).2.1 rfl

/-! ### C25 -/

theorem strrchr_tail_none (c : Char) (l : List Char) (h : c ∉ l) : strrchr_tail c l = none := by
  induction l with
  | nil => rfl
  | cons x xs ih =>
    rw [List.mem_cons, not_or] at h
    unfold strrchr_tail
    rw [ih h.2]
    dsimp only
    rw [if_neg (fun e => h.1 e.symm)]

theorem strrchr_tail_append (c : Char) (pre ext : List Char) (h : c ∉ ext) :
    strrchr_tail c (pre ++ c :: ext) = some ext := by
  induction pre with
  | nil =>
    show strrchr_tail c (c :: ext) = some ext
    unfold strrchr_tail
    rw [strrchr_tail_none c ext h]
    dsimp only
    rw [if_pos rfl]
  | cons x xs ih =>
    show strrchr_tail c (x :: (xs ++ c :: ext)) = some ext
    unfold strrchr_tail
    rw [ih]

theorem strrchr_tail_some (c : Char) (l ext : List Char) (h : strrchr_tail c l = some ext) :
    ∃ pre, l = pre ++ c :: ext := by
  induction l with
  | nil =>
    unfold strrchr_tail at h
    contradiction
  | cons x xs ih =>
    unfold strrchr_tail at h
    cases hx : strrchr_tail c xs with
    | some t =>
      rw [hx] at h
      dsimp only at h
      rw [Option.some.injEq] at h
      subst h
      obtain ⟨pre, hp⟩ := ih hx
      exact ⟨x :: pre, by rw [hp]; rfl⟩
    | none =>
      rw [hx] at h
      dsimp only at h
      split_ifs at h with hc
      · rw [Option.some.injEq] at h
        subst h
        subst hc
        exact ⟨[], rfl⟩

/-- The text after the last `.` of a name is `tug` exactly when the name ends
in `.tug`. -/
theorem strrchr_tail_tug (l : List Char) :
    strrchr_tail '.' l = some ['t', 'u', 'g'] ↔ ∃ pre, l = pre ++ ['.', 't', 'u', 'g'] := by
  constructor
  · exact strrchr_tail_some '.' l _
  · rintro ⟨pre, hp⟩
    rw [hp]
    exact strrchr_tail_append '.' pre ['t', 'u', 'g'] (by decide)

theorem tug_name_acceptable_iff (l : List Char) :
    tug_name_acceptable l = true ↔
      (l ≠ [] ∧ '/' ∉ l ∧ Char.ofNat 92 ∉ l ∧ strrchr_tail '.' l = some ['t', 'u', 'g']) := by
  unfold tug_name_acceptable
  cases hs : strrchr_tail '.' l with
  | none =>
    simp
  | some ext =>
    simp
    tauto

/-- C25: in slave mode `pb_step_tug_load` tests the replicated tug name
(`bp_tug_name`, terminated after 63 characters). The name passes exactly when
it is not empty, contains neither a slash nor a backslash and ends in `.tug`
(the text after its last `.` is `tug`). For every other name the function
returns true and leaves the whole state unchanged, the phase included: it
waits. For a name that passes and that `tug_alloc_man` does not find, it
returns false after `bp_complete`, which on a started session leaves no tug,
no started session, the phase OFF and an empty queue. For a name that passes
and is found, the tug is allocated and the phase advances by one. -/
theorem pb_step_tug_load_slave_name (M : Ext) (s : State) (hslave : s.slave_mode = true) :
    (tug_name_acceptable (s.bp_tug_name.toList.take 63) = true ↔
        (s.bp_tug_name.toList.take 63 ≠ [] ∧ '/' ∉ s.bp_tug_name.toList.take 63 ∧
          Char.ofNat 92 ∉ s.bp_tug_name.toList.take 63 ∧
          strrchr_tail '.' (s.bp_tug_name.toList.take 63) = some ['t', 'u', 'g'] ∧
          ∃ pre, s.bp_tug_name.toList.take 63 = pre ++ ['.', 't', 'u', 'g'])) ∧
      (tug_name_acceptable (s.bp_tug_name.toList.take 63) = false →
        pb_step_tug_load M s = (true, s)) ∧
      (tug_name_acceptable (s.bp_tug_name.toList.take 63) = true →
        M.tug_alloc_man (String.mk (s.bp_tug_name.toList.take 63)) s.bp.acf.tirrad s.drs.icao
            (tug_load_airline s) = none →
        pb_step_tug_load M s = (false, bp_complete s) ∧
          (s.bp_started = true →
            (bp_complete s).bp_started = false ∧ (bp_complete s).tug = none ∧
              (bp_complete s).bp.step = PB_STEP_OFF ∧ (bp_complete s).bp.segs = [])) ∧
      (∀ tug : tug_t, tug_name_acceptable (s.bp_tug_name.toList.take 63) = true →
        M.tug_alloc_man (String.mk (s.bp_tug_name.toList.take 63)) s.bp.acf.tirrad s.drs.icao
            (tug_load_airline s) = some tug →
        (pb_step_tug_load M s).1 = true ∧ (pb_step_tug_load M s).2.tug.isSome = true ∧
          (pb_step_tug_load M s).2.bp.step = s.bp.step + 1) := by
  have hs : ¬ s.slave_mode = false := by rw [hslave]; decide
  refine ⟨?_, ?_, ?_, ?_⟩
  · rw [tug_name_acceptable_iff]
    constructor
    · rintro ⟨h1, h2, h3, h4⟩
      exact ⟨h1, h2, h3, h4, (strrchr_tail_tug _).mp h4⟩
    · rintro ⟨h1, h2, h3, h4, _⟩
      exact ⟨h1, h2, h3, h4⟩
  · intro hn
    unfold pb_step_tug_load
    rw [if_neg hs]
    dsimp only
    rw [if_pos hn]
  · intro ha hnone
    constructor
    · unfold pb_step_tug_load
      rw [if_neg hs]
      dsimp only
      rw [if_neg (by rw [ha]; decide), hnone]
    · intro hst
      obtain ⟨c1, c2, _, c4, c5, _, _⟩ := bp_complete_started s hst
      exact ⟨c2, c4, c1, c5⟩
  · intro tug ha hsome
    have e : pb_step_tug_load M s = (true, pb_step_tug_load_place M { s with tug := some tug }) := by
      unfold pb_step_tug_load
      rw [if_neg hs]
      dsimp only
      rw [if_neg (by rw [ha]; decide), hsome]
    rw [e]
    refine ⟨rfl, ?_, ?_⟩
    · unfold pb_step_tug_load_place
      dsimp only
      split_ifs <;> rfl
    · unfold pb_step_tug_load_place
      dsimp only
      split_ifs <;> rfl

/-- Witness of C25: a slave in the tug-dispatch phase that receives a name
with a directory separator waits. -/
theorem pb_step_tug_load_slave_name_witness :
    pb_step_tug_load ext_example
        { state_begun ext_example with slave_mode := true, bp_tug_name := "../x.tug" } =
      (true, { state_begun ext_example with slave_mode := true, bp_tug_name := "../x.tug" }) :=
  (pb_step_tug_load_slave_name ext_example
    { state_begun ext_example with slave_mode := true, bp_tug_name := "../x.tug" } rfl).2.1
    (by decide)

/-! ### C28 -/

/-- C28: `read_acf_airline` on livery paths that end with a separator. With
one kind of separator it leaves the last component:
`Aircraft/B738/liveries/KLM/` gives `KLM`. With both kinds it does not, because
after the first `memmove` the local `n` is set to `n - l` instead of `l`: the
path `a/b\c/` gives `c\c`, which still holds a backslash and is not the last
component `c`; and for the path `/abc\d/` the second `memmove` gets the byte
count `-2` (here `none`). -/
theorem read_acf_airline_mixed_separators :
    read_acf_airline "Aircraft/B738/liveries/KLM/".toList = some ['K', 'L', 'M'] ∧
      read_acf_airline ['a', '/', 'b', Char.ofNat 92, 'c', '/'] =
        some ['c', Char.ofNat 92, 'c'] ∧
      read_acf_airline_strip '/' (['a', '/', 'b', Char.ofNat 92, 'c', NUL], 5) =
        some (['b', Char.ofNat 92, 'c', NUL, 'c', NUL], 2) ∧
      read_acf_airline ['/', 'a', 'b', 'c', Char.ofNat 92, 'd', '/'] = none := by
  refine ⟨?_, ?_, ?_, ?_⟩
  · with_unfolding_all rfl
  · with_unfolding_all rfl
  · with_unfolding_all rfl
  · with_unfolding_all rfl

end BetterPushback
